import Mathlib

/-!
# bno_basic: interrupt-driven USART transport and BNO055 framed register protocol

Shallow embedding of `lib/drivers/usart/usart.c` and of the core helpers of
`lib/drivers/bno055/bno.c`.

* Machine integers are natural numbers; narrowing conversions are written as an
  explicit remainder (`% 256` for `uint8_t`, `% 65536` for `uint16_t`,
  `% 4294967296` for `uint32_t`).
* A pointer is an `Option`: `none` is `NULL`.
* The driver keeps one global `USART_State_t` per peripheral and selects it with
  `USART_Get_State`.  A `World` carries the state structure and the register block of
  the peripheral named by the configuration in use, the caller-owned byte arrays that
  receive pointers refer to, and the millisecond tick counter.
-/

namespace Bno

/-! ## Status codes and enumerations (utils.h, usart.h) -/

/-- Return code `Status` of utils.h. -/
inductive Status where
  | SUCCESS
  | ERROR
  | INVALID_PARAM
  deriving DecidableEq, Repr

/-- Transmit status `USART_TX_Status` of usart.h. -/
inductive USART_TX_Status where
  | USART_TX_IDLE
  | USART_TX_BUSY
  deriving DecidableEq, Repr

/-- Receive status `USART_RX_Status` of usart.h. -/
inductive USART_RX_Status where
  | USART_RX_IDLE
  | USART_RX_BUSY
  deriving DecidableEq, Repr

/-- The three peripherals for which the driver keeps a global state structure. -/
inductive USART_Instance where
  | USART1
  | USART2
  | USART6
  deriving DecidableEq, Repr

/-- Capacity `TX_BUFFER_SIZE` of the per-port transmit buffer (usart.h). -/
def TX_BUFFER_SIZE : Nat := 512

/-- Constant `RX_BUFFER_SIZE` of usart.h. -/
def RX_BUFFER_SIZE : Nat := 512

/-! ## Register bit masks

The masks are declared in `include/int_periph_layer.h`, which is not part of the
sources; their values are the bit positions of the STM32F411 USART. -/

/-- Single-bit mask `1 << n`. -/
def BIT (n : Nat) : Nat := 2 ^ n

/-- Modelled from the spec: parity error flag of the status register (bit 0); the macro
is declared in the absent peripheral header. -/
def USART_SR_PE : Nat := BIT 0

/-- Modelled from the spec: framing error flag of the status register (bit 1). -/
def USART_SR_FE : Nat := BIT 1

/-- Modelled from the spec: noise flag of the status register (bit 2). -/
def USART_SR_NF : Nat := BIT 2

/-- Modelled from the spec: overrun error flag of the status register (bit 3). -/
def USART_SR_ORE : Nat := BIT 3

/-- Modelled from the spec: "receive not empty" flag of the status register (bit 5). -/
def USART_SR_RXNE : Nat := BIT 5

/-- Modelled from the spec: "transmit complete" flag of the status register (bit 6). -/
def USART_SR_TC : Nat := BIT 6

/-- Modelled from the spec: "transmit register empty" flag of the status register
(bit 7). -/
def USART_SR_TXE : Nat := BIT 7

/-- Modelled from the spec: "receive not empty" interrupt enable of CR1 (bit 5). -/
def USART_CR1_RXNEIE : Nat := BIT 5

/-- Modelled from the spec: "transmit complete" interrupt enable of CR1 (bit 6). -/
def USART_CR1_TCIE : Nat := BIT 6

/-- Modelled from the spec: "transmit register empty" interrupt enable of CR1 (bit 7). -/
def USART_CR1_TXEIE : Nat := BIT 7

/-- The C test `reg & mask` (non-zero is true) on a 32-bit register. -/
def reg_test (r m : Nat) : Bool := (r &&& m) != 0

/-- The C update `reg |= mask`. -/
def reg_set (r m : Nat) : Nat := r ||| m

/-- The C update `reg &= ~(mask)` on a 32-bit register. -/
def reg_clear (r m : Nat) : Nat := r &&& (0xFFFFFFFF ^^^ m)

/-! ## Data model -/

/-- Register block `USART_t` of one peripheral, restricted to the registers the
modelled functions touch.  `DR` is the receive data register (what a read of `DR`
returns); `TDR` lists, oldest first, the bytes written to `DR` that the transmitter has
not yet taken. -/
structure USART_t where
  SR : Nat
  DR : Nat
  CR1 : Nat
  TDR : List Nat

/-- Hardware effect of a write to the data register: the byte is queued for the
transmitter, and the write clears "transmit register empty" and completes the software
sequence (status read, data write) that clears "transmit complete". -/
def USART_t.write_DR (p : USART_t) (b : Nat) : USART_t :=
  { p with TDR := p.TDR ++ [b], SR := reg_clear p.SR (USART_SR_TXE ||| USART_SR_TC) }

/-- Hardware effect of a read of the data register after a status read: it returns
the received byte and clears "receive not empty" and the four error flags. -/
def USART_t.read_DR (p : USART_t) : Nat × USART_t :=
  (p.DR, { p with SR := (reg_clear p.SR
      (USART_SR_RXNE ||| USART_SR_ORE ||| USART_SR_NF ||| USART_SR_FE ||| USART_SR_PE)) })

/-- Configuration `USART_Config_t` (usart.h), with the fields read by the modelled
functions.  `instance_ptr` is `none` when the pointer is none of USART1, USART2, USART6.
Enumeration fields carry their integer value. -/
structure USART_Config_t where
  instance_ptr : Option USART_Instance
  baud_rate : Nat
  word_length : Nat
  stop_bits : Nat
  parity_control : Nat

/-- Global per-port state `USART_State_t` (usart.h).  `tx_buffer` is the array
`uint8_t tx_buffer[TX_BUFFER_SIZE]`, indexed by position; `rx_buffer` is the pointer to
the caller-owned destination array. -/
structure USART_State_t where
  tx_instance : Option USART_Instance
  tx_buffer : Nat → Nat
  tx_length : Nat
  tx_index : Nat
  tx_status : USART_TX_Status
  rx_instance : Option USART_Instance
  rx_buffer : Option Nat
  rx_length : Nat
  rx_index : Nat
  rx_status : USART_RX_Status

/-- Events of the observation trace kept along a run: the calls the protocol layer
makes into the transport and the response bytes it examines. -/
inductive Ev where
  | tx (frame : List Nat)
  | rx (dest : Nat) (len : Nat)
  | abort
  | delay (ms : Nat)
  | checked (bytes : List Nat)
  deriving DecidableEq, Repr

/-- Memory slice the driver works on: state structure and register block of the port
in use, the byte arrays addressed by receive pointers (`mem p i` is byte `i` of the
array at `p`), the tick counter `g_systick_time`, and the observation trace. -/
structure World where
  st : USART_State_t
  regs : USART_t
  mem : Nat → Nat → Nat
  g_systick_time : Nat
  trace : List Ev

/-- Initial value of the global state structures `g_usart_1`, `g_usart_2`, `g_usart_6`. -/
def g_usart_init : USART_State_t :=
  { tx_instance := none, tx_buffer := fun _ => 0, tx_length := 0, tx_index := 0,
    tx_status := USART_TX_Status.USART_TX_IDLE,
    rx_instance := none, rx_buffer := none, rx_length := 0, rx_index := 0,
    rx_status := USART_RX_Status.USART_RX_IDLE }

/-! ## usart.c -/

/-- `USART_Get_State`: the global state structure is selected by the instance pointer;
`none` stands for the `INVALID_PARAM` return (null configuration or unknown instance). -/
def USART_Get_State (init_config : Option USART_Config_t) : Option USART_Instance :=
  match init_config with
  | none => none
  | some cfg => cfg.instance_ptr

/-- Copy loop of `USART_Transmit_IRQ`:
`for (i = 0; (i < tx_length) && (i < TX_BUFFER_SIZE); i++) dst[i] = src[i];`. -/
def copy_tx_buffer (src : List Nat) (tx_length : Nat) (dst : Nat → Nat) : Nat → Nat :=
  (List.range (min tx_length TX_BUFFER_SIZE)).foldl
    (fun d i => Function.update d i (src.getD i 0)) dst

/-- `USART_Transmit_IRQ(init_config, tx_buffer, tx_length)`. -/
def USART_Transmit_IRQ (init_config : Option USART_Config_t) (tx_buffer : Option (List Nat))
    (tx_length : Nat) (w : World) : Status × World :=
  match init_config with
  | none => (Status.INVALID_PARAM, w)
  | some cfg =>
    match tx_buffer with
    | none => (Status.INVALID_PARAM, w)
    | some buf =>
      if tx_length ≤ 0 ∨ tx_length > TX_BUFFER_SIZE then (Status.INVALID_PARAM, w)
      else
        match USART_Get_State (some cfg) with
        | none => (Status.INVALID_PARAM, w)
        | some inst =>
          let w1 : World := { w with st := { w.st with tx_instance := some inst } }
          if w1.st.tx_status = USART_TX_Status.USART_TX_BUSY then (Status.ERROR, w1)
          else
            (Status.SUCCESS,
              { w1 with
                st := { w1.st with
                  tx_buffer := copy_tx_buffer buf tx_length w1.st.tx_buffer,
                  tx_length := tx_length,
                  tx_index := 0,
                  tx_status := USART_TX_Status.USART_TX_BUSY },
                regs := { w1.regs with CR1 := reg_set w1.regs.CR1 USART_CR1_TXEIE } })

/-- `USART_Receive_IRQ(init_config, rx_buffer, rx_length)`. -/
def USART_Receive_IRQ (init_config : Option USART_Config_t) (rx_buffer : Option Nat)
    (rx_length : Nat) (w : World) : Status × World :=
  match init_config with
  | none => (Status.INVALID_PARAM, w)
  | some cfg =>
    match rx_buffer with
    | none => (Status.INVALID_PARAM, w)
    | some buf =>
      if rx_length ≤ 0 then (Status.INVALID_PARAM, w)
      else
        match USART_Get_State (some cfg) with
        | none => (Status.INVALID_PARAM, w)
        | some inst =>
          let w1 : World := { w with st := { w.st with rx_instance := some inst } }
          if w1.st.rx_status = USART_RX_Status.USART_RX_BUSY then (Status.ERROR, w1)
          else
            (Status.SUCCESS,
              { w1 with
                st := { w1.st with
                  rx_buffer := some buf,
                  rx_length := rx_length,
                  rx_index := 0,
                  rx_status := USART_RX_Status.USART_RX_BUSY },
                regs := { w1.regs with CR1 := reg_set w1.regs.CR1 USART_CR1_RXNEIE } })

/-- `USART_Abort_Receive_IRQ(init_config)`.  The interrupt enable is cleared through
the instance pointer before the state structure is looked up; with an unknown instance
that write lands outside the modelled slice. -/
def USART_Abort_Receive_IRQ (init_config : Option USART_Config_t) (w : World) :
    Status × World :=
  match init_config with
  | none => (Status.INVALID_PARAM, w)
  | some cfg =>
    match USART_Get_State (some cfg) with
    | none => (Status.INVALID_PARAM, w)
    | some _ =>
      let w1 : World :=
        { w with regs := { w.regs with CR1 := reg_clear w.regs.CR1 USART_CR1_RXNEIE } }
      (Status.SUCCESS,
        { w1 with
          st := { w1.st with
            rx_instance := none,
            rx_buffer := none,
            rx_length := 0,
            rx_index := 0,
            rx_status := USART_RX_Status.USART_RX_IDLE } })

/-- Transmit-empty part of `USART_IRQHandler` (usart.c lines 607-615). -/
def USART_IRQHandler_TXE (w : World) : World :=
  if w.st.tx_instance.isSome && reg_test w.regs.SR USART_SR_TXE then
    if w.st.tx_index < w.st.tx_length then
      { w with
        regs := w.regs.write_DR (w.st.tx_buffer w.st.tx_index),
        st := { w.st with tx_index := (w.st.tx_index + 1) % 65536 } }
    else
      { w with regs := { w.regs with
          CR1 := reg_set (reg_clear w.regs.CR1 USART_CR1_TXEIE) USART_CR1_TCIE } }
  else w

/-- Store `rx_buffer[rx_index] = data` through the receive pointer; a null pointer
leaves the modelled memory untouched. -/
def store_rx (w : World) (data : Nat) : Nat → Nat → Nat :=
  match w.st.rx_buffer with
  | some p => Function.update w.mem p (Function.update (w.mem p) w.st.rx_index data)
  | none => w.mem

/-- Receive-not-empty part of `USART_IRQHandler` (usart.c lines 617-637). -/
def USART_IRQHandler_RXNE (w : World) : World :=
  if w.st.rx_instance.isSome && reg_test w.regs.SR USART_SR_RXNE then
    let status_reg := w.regs.SR
    let data := w.regs.read_DR.1 % 256
    let w1 : World := { w with regs := w.regs.read_DR.2 }
    if reg_test status_reg
        (USART_SR_ORE ||| USART_SR_NF ||| USART_SR_FE ||| USART_SR_PE) then
      { w1 with
        regs := { w1.regs with CR1 := reg_clear w1.regs.CR1 USART_CR1_RXNEIE },
        st := { w1.st with rx_status := USART_RX_Status.USART_RX_IDLE } }
    else if w1.st.rx_status = USART_RX_Status.USART_RX_BUSY then
      if w1.st.rx_index < w1.st.rx_length then
        let w2 : World :=
          { w1 with
            mem := store_rx w1 data,
            st := { w1.st with rx_index := (w1.st.rx_index + 1) % 65536 } }
        if w2.st.rx_index ≥ w2.st.rx_length then
          { w2 with
            regs := { w2.regs with CR1 := reg_clear w2.regs.CR1 USART_CR1_RXNEIE },
            st := { w2.st with rx_status := USART_RX_Status.USART_RX_IDLE } }
        else w2
      else w1
    else w1
  else w

/-- Transmit-complete part of `USART_IRQHandler` (usart.c lines 639-644). -/
def USART_IRQHandler_TC (w : World) : World :=
  if w.st.tx_instance.isSome && reg_test w.regs.SR USART_SR_TC then
    { w with
      regs := { w.regs with
        CR1 := reg_clear w.regs.CR1 USART_CR1_TCIE,
        SR := reg_clear w.regs.SR USART_SR_TC },
      st := { w.st with tx_status := USART_TX_Status.USART_TX_IDLE } }
  else w

/-- `USART_IRQHandler(usart)`: the three parts in source order.  The argument is the
address of a global state structure, so the pointer validation at the top never
returns. -/
def USART_IRQHandler (w : World) : World :=
  USART_IRQHandler_TC (USART_IRQHandler_RXNE (USART_IRQHandler_TXE w))

/-- One interrupt: the hardware presents status flags `sr` and received data `dr`,
then the handler runs. -/
def irq (w : World) (e : Nat × Nat) : World :=
  USART_IRQHandler { w with regs := { w.regs with SR := e.1, DR := e.2 } }

/-- A sequence of interrupts, each with its own flags and data. -/
def irqs (w : World) (es : List (Nat × Nat)) : World :=
  es.foldl irq w

/-! ## utils.c, and the environment of the foreground code -/

/-- `SysTick_Handler`: `g_systick_time++` on the 32-bit counter. -/
def SysTick_Handler (w : World) : World :=
  { w with g_systick_time := (w.g_systick_time + 1) % 4294967296 }

/-- Environment of the foreground code.  Between two consecutive accesses of the
foreground code to volatile data the hardware may act and an interrupt handler may run:
`poll` is one such slot, acting on the private state of the environment (wire, device)
and on the world.  `delay_slots ms` is the number of slots that pass while
`Delay_Loop(ms)` busy-waits on the SysTick count flag. -/
structure Env (σ : Type) where
  poll : σ → World → σ × World
  delay_slots : Nat → Nat

/-- Append an event to the observation trace. -/
def log (e : Ev) (w : World) : World := { w with trace := w.trace ++ [e] }

/-- Run `k` slots of the environment. -/
def polls {σ : Type} (env : Env σ) : Nat → σ × World → σ × World
  | 0, s => s
  | k + 1, s => polls env k (env.poll s.1 s.2)

/-- `Delay_Loop(delay_ms)`: returns at once for 0, otherwise busy-waits on the SysTick
count flag while the environment runs. -/
def Delay_Loop {σ : Type} (env : Env σ) (delay_ms : Nat) (s : σ × World) : σ × World :=
  if delay_ms ≤ 0 then s
  else polls env (env.delay_slots delay_ms) (s.1, log (Ev.delay delay_ms) s.2)

/-- Constant `SEC_TO_MSEC` of utils.h. -/
def SEC_TO_MSEC : Nat := 1000

/-- Enumerator `USART_STOP_1` of `USART_Stop_Bits`. -/
def USART_STOP_1 : Nat := 0

/-- Enumerator `USART_STOP_0_5` of `USART_Stop_Bits`. -/
def USART_STOP_0_5 : Nat := 1

/-- Enumerator `USART_STOP_2` of `USART_Stop_Bits`. -/
def USART_STOP_2 : Nat := 2

/-- `USART_Calc_Timeout(init_config, timeout_ms, margin, length)`, in exact rational
arithmetic instead of single-precision floats: the value the formula of the source
denotes (`USART_Calc_Timeout_f32` below is the value the target computes, and the one the
receive waits use).  `timeout_ms` is the value currently stored at the output pointer
(`none` for a null pointer); the second component is the value stored there on return. -/
def USART_Calc_Timeout (init_config : Option USART_Config_t) (timeout_ms : Option ℚ)
    (margin : ℚ) (length : Nat) : Status × ℚ :=
  match init_config with
  | none => (Status.INVALID_PARAM, timeout_ms.getD 0)
  | some cfg =>
    match timeout_ms with
    | none => (Status.INVALID_PARAM, 0)
    | some _ =>
      let std_data_bits : ℚ := 8
      let stop_bits : ℚ :=
        if cfg.stop_bits = USART_STOP_0_5 then 1 / 2
        else if cfg.stop_bits = USART_STOP_1 then 1
        else 2
      let total_bits : ℚ :=
        std_data_bits + (cfg.word_length : ℚ) + (cfg.parity_control : ℚ) + stop_bits
      let baud_period_ms : ℚ := (1 / (cfg.baud_rate : ℚ)) * (SEC_TO_MSEC : ℚ)
      (Status.SUCCESS, (baud_period_ms * total_bits * (length : ℚ)) * margin)

/-! ## Single-precision arithmetic of the target -/

/-- Round to the nearest integer, a tie going to the even neighbour. -/
def round_even (q : ℚ) : ℤ :=
  if q - (⌊q⌋ : ℚ) < 1 / 2 then ⌊q⌋
  else if 1 / 2 < q - (⌊q⌋ : ℚ) then ⌊q⌋ + 1
  else if ⌊q⌋ % 2 = 0 then ⌊q⌋ else ⌊q⌋ + 1

/-- Unit in the last place of the binary32 numbers around `x`: `2 ^ (e - 23)` for
`2 ^ e ≤ |x| < 2 ^ (e + 1)` (24-bit significand). -/
def f32_ulp (x : ℚ) : ℚ := (2 : ℚ) ^ (Int.log 2 |x| - 23)

/-- The binary32 (`float`) value nearest to `x`, ties to even: the rounding of a
conversion to `float` and of every `float` operation on the target (FPv4-SP, default
rounding mode).  The exponent range is not limited here: no value the driver computes
from a configuration with a non-zero baud rate reaches the overflow or the subnormal
range of binary32. -/
def f32 (x : ℚ) : ℚ := (round_even (x / f32_ulp x) : ℚ) * f32_ulp x

/-- `USART_Calc_Timeout(init_config, timeout_ms, margin, length)` as the target evaluates
it: every conversion to `float` and every `float` operation is rounded to binary32, in the
order of the source.  A `float` is carried as `some` of its value when it is finite and
as `none` when it is an infinity or a NaN: for a baud rate of 0 the quotient
`1.0f / 0.0f` is infinite, and every product formed with it is infinite or a NaN.
`timeout_ms` is the value currently stored at the output pointer (`none` for a null
pointer); the second component is the value stored there on return.  `margin` is a
`float` argument, so a binary32 value already. -/
def USART_Calc_Timeout_f32 (init_config : Option USART_Config_t)
    (timeout_ms : Option (Option ℚ)) (margin : ℚ) (length : Nat) : Status × Option ℚ :=
  match init_config with
  | none => (Status.INVALID_PARAM, timeout_ms.getD (some 0))
  | some cfg =>
    match timeout_ms with
    | none => (Status.INVALID_PARAM, some 0)
    | some _ =>
      let std_data_bits : ℚ := 8
      let stop_bits : ℚ :=
        if cfg.stop_bits = USART_STOP_0_5 then 1 / 2
        else if cfg.stop_bits = USART_STOP_1 then 1
        else 2
      let total_bits : ℚ :=
        f32 (f32 (f32 (std_data_bits + f32 (cfg.word_length : ℚ))
          + f32 (cfg.parity_control : ℚ)) + stop_bits)
      let baud_rate : ℚ := f32 (cfg.baud_rate : ℚ)
      let baud_period_ms : ℚ := f32 (f32 (1 / baud_rate) * f32 (SEC_TO_MSEC : ℚ))
      (Status.SUCCESS,
        if baud_rate = 0 then none
        else some (f32 (f32 (f32 (baud_period_ms * total_bits) * f32 (length : ℚ)) * margin)))

/-- The test `(start_time + timeout_ms) < g_systick_time` of the receive wait loops as
the target evaluates it: `start_time` is converted to `float`, the sum is rounded to
binary32, the tick counter is converted to `float`, and the two binary32 values are
compared.  With a timeout that is infinite or a NaN the comparison is false. -/
def timeout_elapsed (start_time : Nat) (timeout_ms : Option ℚ) (tick : Nat) : Bool :=
  match timeout_ms with
  | none => false
  | some t => decide (f32 (f32 (start_time : ℚ) + t) < f32 (tick : ℚ))

/-! ## bno.c: framed register protocol -/

/-- Macro `BNO_RESPONSE_HEADER_LENGTH` of bno.h. -/
def BNO_RESPONSE_HEADER_LENGTH : Nat := 2

/-- Outcome of a foreground call that contains busy-wait loops: `none` when the fuel
given to a loop runs out before the loop exits. -/
abbrev Outcome (σ : Type) := Option (Status × (σ × World))

/-- Loop `while (current_state->tx_status == USART_TX_BUSY) {};`: the status is tested,
and while it is Busy one slot of the environment passes before the next test. -/
def wait_tx {σ : Type} (env : Env σ) : Nat → σ × World → Option (σ × World)
  | 0, _ => none
  | fuel + 1, s =>
    if s.2.st.tx_status = USART_TX_Status.USART_TX_BUSY then wait_tx env fuel (env.poll s.1 s.2)
    else some s

/-- Loop
`while (rx_status == USART_RX_BUSY) { if ((start_time + timeout_ms) < g_systick_time) { abort; break; } }`,
the test being evaluated in binary32 (`timeout_elapsed`).
With `check_abort` the abort is wrapped in `CHECK_STATUS`, so a non-SUCCESS status of the
abort is the status returned; without it the status of the abort is dropped. -/
def wait_rx {σ : Type} (env : Env σ) (usart : Option USART_Config_t) (check_abort : Bool)
    (start_time : Nat) (timeout_ms : Option ℚ) : Nat → σ × World → Outcome σ
  | 0, _ => none
  | fuel + 1, s =>
    if s.2.st.rx_status = USART_RX_Status.USART_RX_BUSY then
      if timeout_elapsed start_time timeout_ms s.2.g_systick_time = true then
        let r := USART_Abort_Receive_IRQ usart (log Ev.abort s.2)
        some (if check_abort then r.1 else Status.SUCCESS, (s.1, r.2))
      else wait_rx env usart check_abort start_time timeout_ms fuel (env.poll s.1 s.2)
    else some (Status.SUCCESS, s)

/-- Macro `CHECK_STATUS` applied to a call whose outcome is `r`: a non-SUCCESS status
is returned at once, otherwise the code `k` after the call runs. -/
def CHECK_STATUS {σ : Type} (r : Outcome σ) (k : σ × World → Outcome σ) : Outcome σ :=
  match r with
  | none => none
  | some (Status.SUCCESS, s) => k s
  | some (st, s) => some (st, s)

/-- Common body of `BNO_Read_Reg`, `BNO_Read_Reg_Retry`, `BNO_Write_Reg` and
`BNO_Write_Reg_Retry` from the state lookup to the end of the receive wait
(bno.c lines 43-71, 112-140, 165-204, 245-284): transmit the composed command, spin
until the transmitter is Idle, start the reception of `rx_length` bytes into the array
at `dest` (zero-initialised first when it is the local `write_response`), delay, compute
the timeout for `timeout_length` bytes with margin 5 (in binary32, as the target does),
and wait for the reception to end or time out. -/
def BNO_transfer {σ : Type} (env : Env σ) (fuel : Nat) (usart : Option USART_Config_t)
    (cmd : List Nat) (cmd_length : Nat) (dest : Nat) (zero_init : Bool) (rx_length : Nat)
    (delay_ms : Nat) (timeout_length : Nat) (check_abort : Bool) (s : σ × World) :
    Outcome σ :=
  match USART_Get_State usart with
  | none => some (Status.INVALID_PARAM, s)
  | some _ =>
    let r1 := USART_Transmit_IRQ usart (some cmd) cmd_length s.2
    CHECK_STATUS (some (r1.1, (s.1, r1.2))) fun s1 =>
    match wait_tx env fuel (s1.1, log (Ev.tx (cmd.take cmd_length)) s1.2) with
    | none => none
    | some s2 =>
      let w2 : World :=
        if zero_init then { s2.2 with mem := Function.update s2.2.mem dest (fun _ => 0) }
        else s2.2
      let r2 := USART_Receive_IRQ usart (some dest) rx_length w2
      CHECK_STATUS (some (r2.1, (s2.1, r2.2))) fun s3 =>
      let s4 := Delay_Loop env delay_ms (s3.1, log (Ev.rx dest rx_length) s3.2)
      let r3 := USART_Calc_Timeout_f32 usart (some (some 0)) 5 timeout_length
      CHECK_STATUS (some (r3.1, s4)) fun s5 =>
      let start_time := s5.2.g_systick_time
      wait_rx env usart check_abort start_time r3.2 fuel s5

/-- Retry loop of `BNO_Read_Reg` and `BNO_Write_Reg`, with `n` iterations left:
`for (i = 0; i < max_retry; i++) { Delay_Loop(10); ret_val = retry(...); if (ret_val == ERROR) continue; else break; } return ret_val;`. -/
def retry_loop {σ : Type} (env : Env σ) (retry : σ × World → Outcome σ) :
    Nat → Status → σ × World → Outcome σ
  | 0, ret_val, s => some (ret_val, s)
  | n + 1, _, s =>
    match retry (Delay_Loop env 10 s) with
    | none => none
    | some (ret_val, s1) =>
      if ret_val = Status.ERROR then retry_loop env retry n ret_val s1
      else some (ret_val, s1)

/-- `BNO_Read_Reg_Retry(usart, reg, length, data)`. -/
def BNO_Read_Reg_Retry {σ : Type} (env : Env σ) (fuel : Nat) (usart : Option USART_Config_t)
    (reg : Nat) (length : Nat) (data : Option Nat) (s : σ × World) : Outcome σ :=
  match data with
  | none => some (Status.INVALID_PARAM, s)
  | some dest =>
    if length ≤ 0 then some (Status.INVALID_PARAM, s)
    else
      let read_cmd := [0xAA, 0x01, reg, length % 256]
      CHECK_STATUS
        (BNO_transfer env fuel usart read_cmd 4 dest false
          ((BNO_RESPONSE_HEADER_LENGTH + length) % 65536) 15
          ((BNO_RESPONSE_HEADER_LENGTH + length) % 65536) true s) fun s1 =>
      let s2 := (s1.1, log (Ev.checked [s1.2.mem dest 0]) s1.2)
      if s2.2.mem dest 0 = 0xEE then some (Status.ERROR, s2)
      else some (Status.SUCCESS, s2)

/-- `BNO_Read_Reg(usart, reg, length, data)`. -/
def BNO_Read_Reg {σ : Type} (env : Env σ) (fuel : Nat) (usart : Option USART_Config_t)
    (reg : Nat) (length : Nat) (data : Option Nat) (s : σ × World) : Outcome σ :=
  match data with
  | none => some (Status.INVALID_PARAM, s)
  | some dest =>
    if length ≤ 0 then some (Status.INVALID_PARAM, s)
    else
      let read_cmd := [0xAA, 0x01, reg, length % 256]
      CHECK_STATUS
        (BNO_transfer env fuel usart read_cmd 4 dest false
          ((BNO_RESPONSE_HEADER_LENGTH + length) % 65536) 10
          ((BNO_RESPONSE_HEADER_LENGTH + length) % 65536) true s) fun s1 =>
      let max_retry := 2
      let s2 := (s1.1, log (Ev.checked [s1.2.mem dest 0]) s1.2)
      if s2.2.mem dest 0 = 0xEE then
        retry_loop env (BNO_Read_Reg_Retry env fuel usart reg length data) max_retry
          Status.SUCCESS s2
      else some (Status.SUCCESS, s2)

/-- Address of the local array `uint8_t write_response[2]` of the write functions. -/
def write_response : Nat := 0

/-- Command composed by the write functions: `write_cmd[4 + length]` with the header
`0xAA 0x00 reg length` followed by `data[0 .. length-1]`. -/
def write_cmd (reg : Nat) (length : Nat) (data : List Nat) : List Nat :=
  [0xAA, 0x00, reg, length % 256] ++ (List.range length).map (fun i => data.getD i 0)

/-- `BNO_Write_Reg_Retry(usart, reg, length, data)`. -/
def BNO_Write_Reg_Retry {σ : Type} (env : Env σ) (fuel : Nat) (usart : Option USART_Config_t)
    (reg : Nat) (length : Nat) (data : Option (List Nat)) (s : σ × World) : Outcome σ :=
  match data with
  | none => some (Status.INVALID_PARAM, s)
  | some payload =>
    if length ≤ 0 then some (Status.INVALID_PARAM, s)
    else
      let cmd_length := (4 + length) % 256
      CHECK_STATUS
        (BNO_transfer env fuel usart (write_cmd reg length payload) cmd_length write_response
          true 2 15 BNO_RESPONSE_HEADER_LENGTH false s) fun s1 =>
      let s2 := (s1.1,
        log (Ev.checked [s1.2.mem write_response 0, s1.2.mem write_response 1]) s1.2)
      if s2.2.mem write_response 0 = 0xEE ∧ s2.2.mem write_response 1 ≠ 0x01 then
        some (Status.ERROR, s2)
      else some (Status.SUCCESS, s2)

/-- `BNO_Write_Reg(usart, reg, length, data)`. -/
def BNO_Write_Reg {σ : Type} (env : Env σ) (fuel : Nat) (usart : Option USART_Config_t)
    (reg : Nat) (length : Nat) (data : Option (List Nat)) (s : σ × World) : Outcome σ :=
  match data with
  | none => some (Status.INVALID_PARAM, s)
  | some payload =>
    if length ≤ 0 then some (Status.INVALID_PARAM, s)
    else
      let cmd_length := (4 + length) % 256
      CHECK_STATUS
        (BNO_transfer env fuel usart (write_cmd reg length payload) cmd_length write_response
          true 2 10 BNO_RESPONSE_HEADER_LENGTH true s) fun s1 =>
      let max_retry := 2
      let s2 := (s1.1,
        log (Ev.checked [s1.2.mem write_response 0, s1.2.mem write_response 1]) s1.2)
      if s2.2.mem write_response 0 = 0xEE ∧ s2.2.mem write_response 1 ≠ 0x01 then
        retry_loop env (BNO_Write_Reg_Retry env fuel usart reg length data) max_retry
          Status.SUCCESS s2
      else some (Status.SUCCESS, s2)

/-! ## bno.c: pages, operating mode and settings -/

/-- `Validate_Enum(value, min, max)` of utils.c. -/
def Validate_Enum (value min max : Int) : Status :=
  if value ≥ min ∧ value ≤ max then Status.SUCCESS else Status.INVALID_PARAM

/-- Enumerator `BNO_PAGE_0` of `BNO_Page_ID`. -/
def BNO_PAGE_0 : Int := 0

/-- Enumerator `BNO_PAGE_1` of `BNO_Page_ID`. -/
def BNO_PAGE_1 : Int := 1

/-- Enumerator `BNO_OPR_CONFIG_MODE`, the first of the 13 enumerators of `BNO_OPR_Mode`. -/
def BNO_OPR_CONFIG_MODE : Int := 0

/-- Enumerator `BNO_OPR_NDOF_MODE`, the last of the 13 enumerators of `BNO_OPR_Mode`. -/
def BNO_OPR_NDOF_MODE : Int := 12

/-- Enumerator `BNO_PWR_NORMAL_MODE` of `BNO_PWR_Mode`. -/
def BNO_PWR_NORMAL_MODE : Int := 0

/-- Enumerator `BNO_PWR_SUSPEND_MODE` of `BNO_PWR_Mode`. -/
def BNO_PWR_SUSPEND_MODE : Int := 2

/-- Enumerator `BNO_ACC_CONFIG` of `BNO_Sensor_Config`. -/
def BNO_ACC_CONFIG : Int := 0

/-- Enumerator `BNO_MAG_CONFIG` of `BNO_Sensor_Config`. -/
def BNO_MAG_CONFIG : Int := 1

/-- Enumerator `BNO_GYR_0_CONFIG` of `BNO_Sensor_Config`. -/
def BNO_GYR_0_CONFIG : Int := 2

/-- Enumerator `BNO_GYR_1_CONFIG` of `BNO_Sensor_Config`. -/
def BNO_GYR_1_CONFIG : Int := 3

/-- Register address `BNO_PAGE_ID_REG` (bno.h). -/
def BNO_PAGE_ID_REG : Nat := 0x07

/-- Register address `BNO_OPR_MODE_REG` (bno.h). -/
def BNO_OPR_MODE_REG : Nat := 0x3D

/-- Register address `BNO_PWR_MODE_REG` (bno.h). -/
def BNO_PWR_MODE_REG : Nat := 0x3E

/-- Register address `BNO_ACC_CONFIG_REG` (bno.h, page 1). -/
def BNO_ACC_CONFIG_REG : Nat := 0x08

/-- Register address `BNO_MAG_CONFIG_REG` (bno.h, page 1). -/
def BNO_MAG_CONFIG_REG : Nat := 0x09

/-- Register address `BNO_GYR_CONFIG_0_REG` (bno.h, page 1). -/
def BNO_GYR_CONFIG_0_REG : Nat := 0x0A

/-- Register address `BNO_GYR_CONFIG_1_REG` (bno.h, page 1). -/
def BNO_GYR_CONFIG_1_REG : Nat := 0x0B

/-- Bit mask `BNO_OPR_MODE` of the operating mode field (bno.h). -/
def BNO_OPR_MODE : Nat := 0x0F

/-- Bit mask `BNO_PWR_MODE` of the power mode field (bno.h). -/
def BNO_PWR_MODE : Nat := 0x03

/-- Address of the local array `current_page[3]` of `BNO_Select_Page`. -/
def current_page : Nat := 1

/-- Address of the local array `data[3]` of `BNO_Get_OPR_Mode`. -/
def opr_mode_data : Nat := 2

/-- Address of the local array `reg_val_og[3]` of `BNO_Set_Setting`. -/
def reg_val_og : Nat := 3

/-- Address of the local variable `current_opr_mode` of `BNO_Set_OPR_Mode`. -/
def opr_current_opr_mode : Nat := 4

/-- Address of the local variable `current_opr_mode` of `BNO_Set_PWR_Mode`. -/
def pwr_current_opr_mode : Nat := 5

/-- Address of the local variable `current_opr_mode` of `BNO_Set_Sensor_Setting`. -/
def sensor_current_opr_mode : Nat := 6

/-- Initialisation `= {0}` (or `= 0U`) of the local object at address `p`. -/
def zero_local {σ : Type} (p : Nat) (s : σ × World) : σ × World :=
  (s.1, { s.2 with mem := Function.update s.2.mem p (fun _ => 0) })

/-- Store `*p = v` through a pointer to a single byte. -/
def store_byte {σ : Type} (p : Nat) (v : Nat) (s : σ × World) : σ × World :=
  (s.1, { s.2 with mem := Function.update s.2.mem p (Function.update (s.2.mem p) 0 v) })

/-- `BNO_Select_Page(usart, page_id)`.  `page_val[0]` is left uninitialised by the source
for a page other than 0 and 1, which the validation has excluded; it is 0 here. -/
def BNO_Select_Page {σ : Type} (env : Env σ) (fuel : Nat) (usart : Option USART_Config_t)
    (page_id : Int) (s : σ × World) : Outcome σ :=
  CHECK_STATUS (some (Validate_Enum page_id BNO_PAGE_0 BNO_PAGE_1, s)) fun s0 =>
  CHECK_STATUS
    (BNO_Read_Reg env fuel usart BNO_PAGE_ID_REG 1 (some current_page)
      (zero_local current_page s0)) fun s1 =>
  if ((s1.2.mem current_page 2 : Nat) : Int) ≠ page_id then
    let page_val : List Nat :=
      if page_id = BNO_PAGE_0 then [0x00] else if page_id = BNO_PAGE_1 then [0x01] else [0]
    BNO_Write_Reg env fuel usart BNO_PAGE_ID_REG 1 (some page_val) (Delay_Loop env 2 s1)
  else some (Status.SUCCESS, s1)

/-- `BNO_Get_OPR_Mode(usart, current_opr_mode)`. -/
def BNO_Get_OPR_Mode {σ : Type} (env : Env σ) (fuel : Nat) (usart : Option USART_Config_t)
    (current_opr_mode : Option Nat) (s : σ × World) : Outcome σ :=
  match current_opr_mode with
  | none => some (Status.INVALID_PARAM, s)
  | some out =>
    CHECK_STATUS (BNO_Select_Page env fuel usart BNO_PAGE_0 s) fun s1 =>
    CHECK_STATUS
      (BNO_Read_Reg env fuel usart BNO_OPR_MODE_REG 1 (some opr_mode_data)
        (zero_local opr_mode_data s1)) fun s2 =>
    some (Status.SUCCESS, store_byte out (s2.2.mem opr_mode_data 2) s2)

/-- `BNO_Set_Setting(usart, reg, mask, setting_val)`: read the register, clear the bits of
`mask`, set those of `setting_val`, write the byte back. -/
def BNO_Set_Setting {σ : Type} (env : Env σ) (fuel : Nat) (usart : Option USART_Config_t)
    (reg mask setting_val : Nat) (s : σ × World) : Outcome σ :=
  CHECK_STATUS
    (BNO_Read_Reg env fuel usart reg 1 (some reg_val_og) (zero_local reg_val_og s)) fun s1 =>
  let reg_val_clear := (s1.2.mem reg_val_og 2 &&& (0xFFFFFFFF ^^^ mask)) % 256
  let reg_val_mod := (reg_val_clear ||| setting_val) % 256
  CHECK_STATUS (BNO_Write_Reg env fuel usart reg 1 (some [reg_val_mod]) s1) fun s2 =>
  some (Status.SUCCESS, s2)

/-- `BNO_Set_OPR_Mode(usart, opr_mode)`. -/
def BNO_Set_OPR_Mode {σ : Type} (env : Env σ) (fuel : Nat) (usart : Option USART_Config_t)
    (opr_mode : Int) (s : σ × World) : Outcome σ :=
  CHECK_STATUS (some (Validate_Enum opr_mode BNO_OPR_CONFIG_MODE BNO_OPR_NDOF_MODE, s)) fun s0 =>
  CHECK_STATUS (BNO_Select_Page env fuel usart BNO_PAGE_0 s0) fun s1 =>
  CHECK_STATUS
    (BNO_Get_OPR_Mode env fuel usart (some opr_current_opr_mode)
      (zero_local opr_current_opr_mode s1)) fun s2 =>
  let setting_val := (opr_mode % 256).toNat
  CHECK_STATUS
    (BNO_Set_Setting env fuel usart BNO_OPR_MODE_REG BNO_OPR_MODE setting_val s2) fun s3 =>
  let current_opr_mode : Int := ((s3.2.mem opr_current_opr_mode 0 : Nat) : Int)
  if opr_mode = BNO_OPR_CONFIG_MODE ∧ current_opr_mode ≠ BNO_OPR_CONFIG_MODE then
    some (Status.SUCCESS, Delay_Loop env 19 s3)
  else if current_opr_mode = BNO_OPR_CONFIG_MODE ∧ opr_mode ≠ BNO_OPR_CONFIG_MODE then
    some (Status.SUCCESS, Delay_Loop env 7 s3)
  else some (Status.SUCCESS, s3)

/-- `BNO_Set_Config_Mode(usart, current_opr_mode)`. -/
def BNO_Set_Config_Mode {σ : Type} (env : Env σ) (fuel : Nat) (usart : Option USART_Config_t)
    (current_opr_mode : Option Nat) (s : σ × World) : Outcome σ :=
  match current_opr_mode with
  | none => some (Status.INVALID_PARAM, s)
  | some out =>
    CHECK_STATUS (BNO_Get_OPR_Mode env fuel usart (some out) s) fun s1 =>
    if ((s1.2.mem out 0 : Nat) : Int) ≠ BNO_OPR_CONFIG_MODE then
      CHECK_STATUS (BNO_Set_OPR_Mode env fuel usart BNO_OPR_CONFIG_MODE s1) fun s2 =>
      some (Status.SUCCESS, s2)
    else some (Status.SUCCESS, s1)

/-- `BNO_Set_PWR_Mode(usart, pwr_mode)`. -/
def BNO_Set_PWR_Mode {σ : Type} (env : Env σ) (fuel : Nat) (usart : Option USART_Config_t)
    (pwr_mode : Int) (s : σ × World) : Outcome σ :=
  CHECK_STATUS (some (Validate_Enum pwr_mode BNO_PWR_NORMAL_MODE BNO_PWR_SUSPEND_MODE, s)) fun s0 =>
  CHECK_STATUS (BNO_Select_Page env fuel usart BNO_PAGE_0 s0) fun s1 =>
  CHECK_STATUS
    (BNO_Set_Config_Mode env fuel usart (some pwr_current_opr_mode)
      (zero_local pwr_current_opr_mode s1)) fun s2 =>
  let setting_val := (pwr_mode % 256).toNat
  CHECK_STATUS
    (BNO_Set_Setting env fuel usart BNO_PWR_MODE_REG BNO_PWR_MODE setting_val s2) fun s3 =>
  CHECK_STATUS
    (BNO_Set_OPR_Mode env fuel usart ((s3.2.mem pwr_current_opr_mode 0 : Nat) : Int) s3) fun s4 =>
  some (Status.SUCCESS, s4)

/-- `BNO_Set_Sensor_Setting(usart, sensor, mask, setting_val)`. -/
def BNO_Set_Sensor_Setting {σ : Type} (env : Env σ) (fuel : Nat)
    (usart : Option USART_Config_t) (sensor : Int) (mask setting_val : Nat) (s : σ × World) :
    Outcome σ :=
  CHECK_STATUS (some (Validate_Enum sensor BNO_ACC_CONFIG BNO_GYR_1_CONFIG, s)) fun s0 =>
  CHECK_STATUS (BNO_Select_Page env fuel usart BNO_PAGE_1 s0) fun s1 =>
  CHECK_STATUS
    (BNO_Set_Config_Mode env fuel usart (some sensor_current_opr_mode)
      (zero_local sensor_current_opr_mode s1)) fun s2 =>
  let sensor_base_adr : Nat :=
    if sensor = BNO_ACC_CONFIG then BNO_ACC_CONFIG_REG
    else if sensor = BNO_MAG_CONFIG then BNO_MAG_CONFIG_REG
    else if sensor = BNO_GYR_0_CONFIG then BNO_GYR_CONFIG_0_REG
    else if sensor = BNO_GYR_1_CONFIG then BNO_GYR_CONFIG_1_REG
    else 0
  CHECK_STATUS (BNO_Set_Setting env fuel usart sensor_base_adr mask setting_val s2) fun s3 =>
  CHECK_STATUS
    (BNO_Set_OPR_Mode env fuel usart ((s3.2.mem sensor_current_opr_mode 0 : Nat) : Int) s3)
    fun s4 =>
  some (Status.SUCCESS, s4)

/-! ## bno.c: sensor and interrupt settings -/

/-- Enumerator `BNO_AXIS_X` of `BNO_Axis`. -/
def BNO_AXIS_X : Int := 0

/-- Enumerator `BNO_AXIS_Y` of `BNO_Axis`. -/
def BNO_AXIS_Y : Int := 1

/-- Enumerator `BNO_AXIS_Z`, the last of the three enumerators of `BNO_Axis`. -/
def BNO_AXIS_Z : Int := 2

/-- Enumerator `BNO_IRQ_AXIS_DISABLED` of `BNO_IRQ_Axis_State`. -/
def BNO_IRQ_AXIS_DISABLED : Int := 0

/-- Enumerator `BNO_IRQ_AXIS_ENABLED` of `BNO_IRQ_Axis_State`. -/
def BNO_IRQ_AXIS_ENABLED : Int := 1

/-- Enumerator `BNO_SM_NM_SLOW_MOTION` of `BNO_SM_NM_Det_Type`. -/
def BNO_SM_NM_SLOW_MOTION : Nat := 0

/-- Enumerator `BNO_SM_NM_NO_MOTION` of `BNO_SM_NM_Det_Type`. -/
def BNO_SM_NM_NO_MOTION : Nat := 1

/-- Enumerator `BNO_ACC_BW_7_81_HZ`, the first of the 8 enumerators of `BNO_ACC_BW`. -/
def BNO_ACC_BW_7_81_HZ : Int := 0

/-- Enumerator `BNO_ACC_BW_1000_HZ`, the last of the 8 enumerators of `BNO_ACC_BW`. -/
def BNO_ACC_BW_1000_HZ : Int := 7

/-- Enumerator `BNO_GYR_RANGE_2000_DPS`, the first of the 5 enumerators of
`BNO_GYR_Range`. -/
def BNO_GYR_RANGE_2000_DPS : Int := 0

/-- Enumerator `BNO_GYR_RANGE_125_DPS`, the last of the 5 enumerators of
`BNO_GYR_Range`. -/
def BNO_GYR_RANGE_125_DPS : Int := 4

/-- Register address `BNO_ACC_INT_SETTINGS_REG` (bno.h, page 1). -/
def BNO_ACC_INT_SETTINGS_REG : Nat := 0x12

/-- Register address `BNO_ACC_HG_DURATION_REG` (bno.h, page 1). -/
def BNO_ACC_HG_DURATION_REG : Nat := 0x13

/-- Register address `BNO_ACC_NM_SET_REG` (bno.h, page 1). -/
def BNO_ACC_NM_SET_REG : Nat := 0x16

/-- Bit position `BNO_ACC_CONFIG_BW_Pos` of the bandwidth field of ACC_CONFIG (bno.h). -/
def BNO_ACC_CONFIG_BW_Pos : Nat := 2

/-- Bit mask `BNO_ACC_CONFIG_BW`, defined as `0x03U << BNO_ACC_CONFIG_BW_Pos` (bno.h). -/
def BNO_ACC_CONFIG_BW : Nat := 0x03 <<< BNO_ACC_CONFIG_BW_Pos

/-- Bit mask `BNO_GYR_CONFIG_0_RANGE`, defined as `0x07U << 0` (bno.h). -/
def BNO_GYR_CONFIG_0_RANGE : Nat := 0x07

/-- Bit mask `BNO_GYR_CONFIG_0_BW`, defined as `0x07U << 3` (bno.h). -/
def BNO_GYR_CONFIG_0_BW : Nat := 0x07 <<< 3

/-- Bit position `BNO_ACC_INT_SETTINGS_AM_NM_X_AXIS_Pos` (bno.h). -/
def BNO_ACC_INT_SETTINGS_AM_NM_X_AXIS_Pos : Nat := 2

/-- Bit mask `BNO_ACC_HG_DURATION`, defined as `0xFFU << 0` (bno.h). -/
def BNO_ACC_HG_DURATION : Nat := 0xFF

/-- Bit position `BNO_ACC_NM_SET_SM_NM_Pos` (bno.h). -/
def BNO_ACC_NM_SET_SM_NM_Pos : Nat := 0

/-- Bit mask `BNO_ACC_NM_SET_SM_NM`, defined as `0x01U << 0` (bno.h). -/
def BNO_ACC_NM_SET_SM_NM : Nat := 0x01

/-- Bit position `BNO_ACC_NM_SET_SM_NM_DUR_Pos` (bno.h). -/
def BNO_ACC_NM_SET_SM_NM_DUR_Pos : Nat := 1

/-- Bit mask `BNO_ACC_NM_SET_SM_NM_DUR`, defined as `0x3FU << 1` (bno.h). -/
def BNO_ACC_NM_SET_SM_NM_DUR : Nat := 0x3F <<< BNO_ACC_NM_SET_SM_NM_DUR_Pos

/-- Address of the local array `reg_val_og[3]` of `BNO_Get_Setting`. -/
def get_reg_val_og : Nat := 7

/-- Address of the local variable `det_type` of `BNO_Set_ACC_NM_Delay`. -/
def nm_det_type : Nat := 8

/-- Address of the local variable `current_opr_mode` of `BNO_Set_ACC_NM_Delay`. -/
def nm_current_opr_mode : Nat := 9

/-- Address of the local variable `current_opr_mode` of `BNO_Set_ACC_HG_Dur`. -/
def hg_current_opr_mode : Nat := 10

/-- Address of the local variable `current_opr_mode` of `BNO_Set_Axis_State`. -/
def axis_current_opr_mode : Nat := 11

/-- Address of the local variable `raw_dur` of `BNO_Get_ACC_HG_Dur`. -/
def hg_raw_dur : Nat := 12

/-- Store `*p = v` through a pointer to a `uint16_t`, low byte first. -/
def store_u16 {σ : Type} (p : Nat) (v : Nat) (s : σ × World) : σ × World :=
  let cells := Function.update (Function.update (s.2.mem p) 0 (v % 256)) 1 (v / 256 % 256)
  (s.1, { s.2 with mem := Function.update s.2.mem p cells })

/-- `BNO_Get_Setting(usart, reg, mask, setting_val)`: read the register and store the
bits of `mask`. -/
def BNO_Get_Setting {σ : Type} (env : Env σ) (fuel : Nat) (usart : Option USART_Config_t)
    (reg mask : Nat) (setting_val : Option Nat) (s : σ × World) : Outcome σ :=
  match setting_val with
  | none => some (Status.INVALID_PARAM, s)
  | some out =>
    CHECK_STATUS
      (BNO_Read_Reg env fuel usart reg 1 (some get_reg_val_og) (zero_local get_reg_val_og s))
      fun s1 =>
    some (Status.SUCCESS, store_byte out ((s1.2.mem get_reg_val_og 2 &&& mask) % 256) s1)

/-- `BNO_Get_Sensor_Setting(usart, sensor, mask, setting_val)`. -/
def BNO_Get_Sensor_Setting {σ : Type} (env : Env σ) (fuel : Nat)
    (usart : Option USART_Config_t) (sensor : Int) (mask : Nat) (setting_val : Option Nat)
    (s : σ × World) : Outcome σ :=
  CHECK_STATUS (some (Validate_Enum sensor BNO_ACC_CONFIG BNO_GYR_1_CONFIG, s)) fun s0 =>
  match setting_val with
  | none => some (Status.INVALID_PARAM, s0)
  | some out =>
    CHECK_STATUS (BNO_Select_Page env fuel usart BNO_PAGE_1 s0) fun s1 =>
    let sensor_base_adr : Nat :=
      if sensor = BNO_ACC_CONFIG then BNO_ACC_CONFIG_REG
      else if sensor = BNO_MAG_CONFIG then BNO_MAG_CONFIG_REG
      else if sensor = BNO_GYR_0_CONFIG then BNO_GYR_CONFIG_0_REG
      else if sensor = BNO_GYR_1_CONFIG then BNO_GYR_CONFIG_1_REG
      else 0
    CHECK_STATUS (BNO_Get_Setting env fuel usart sensor_base_adr mask (some out) s1) fun s2 =>
    some (Status.SUCCESS, s2)

/-- `BNO_Set_ACC_BW(usart, acc_bw)`. -/
def BNO_Set_ACC_BW {σ : Type} (env : Env σ) (fuel : Nat) (usart : Option USART_Config_t)
    (acc_bw : Int) (s : σ × World) : Outcome σ :=
  CHECK_STATUS (some (Validate_Enum acc_bw BNO_ACC_BW_7_81_HZ BNO_ACC_BW_1000_HZ, s)) fun s0 =>
  BNO_Set_Sensor_Setting env fuel usart BNO_ACC_CONFIG BNO_ACC_CONFIG_BW
    (acc_bw % 256).toNat s0

/-- The value `BNO_Get_ACC_BW` leaves in `*acc_bw` for the register byte `b`:
`b & BNO_ACC_CONFIG_BW`, as stored by `BNO_Get_Setting`, shifted right by
`BNO_ACC_CONFIG_BW_Pos`. -/
def acc_bw_of_byte (b : Nat) : Nat :=
  (((b &&& BNO_ACC_CONFIG_BW) % 256) >>> BNO_ACC_CONFIG_BW_Pos) % 256

/-- `BNO_Get_ACC_BW(usart, acc_bw)`. -/
def BNO_Get_ACC_BW {σ : Type} (env : Env σ) (fuel : Nat) (usart : Option USART_Config_t)
    (acc_bw : Option Nat) (s : σ × World) : Outcome σ :=
  match acc_bw with
  | none => some (Status.INVALID_PARAM, s)
  | some out =>
    CHECK_STATUS
      (BNO_Get_Sensor_Setting env fuel usart BNO_ACC_CONFIG BNO_ACC_CONFIG_BW (some out) s)
      fun s1 =>
    some (Status.SUCCESS, store_byte out ((s1.2.mem out 0 >>> BNO_ACC_CONFIG_BW_Pos) % 256) s1)

/-- `BNO_Set_GYR_Range(usart, gyr_range)`; the mask argument of the call is the register
address `BNO_GYR_CONFIG_0_REG`, as in the source. -/
def BNO_Set_GYR_Range {σ : Type} (env : Env σ) (fuel : Nat) (usart : Option USART_Config_t)
    (gyr_range : Int) (s : σ × World) : Outcome σ :=
  CHECK_STATUS
    (some (Validate_Enum gyr_range BNO_GYR_RANGE_2000_DPS BNO_GYR_RANGE_125_DPS, s)) fun s0 =>
  BNO_Set_Sensor_Setting env fuel usart BNO_GYR_0_CONFIG BNO_GYR_CONFIG_0_REG
    (gyr_range % 256).toNat s0

/-- `BNO_Set_Axis_State(usart, axis, irq_adr, mask, state)`; the axis is validated
against the range `BNO_AXIS_X` .. `BNO_AXIS_Y`, as in the source. -/
def BNO_Set_Axis_State {σ : Type} (env : Env σ) (fuel : Nat) (usart : Option USART_Config_t)
    (axis : Int) (irq_adr mask state : Nat) (s : σ × World) : Outcome σ :=
  CHECK_STATUS (some (Validate_Enum axis BNO_AXIS_X BNO_AXIS_Y, s)) fun s0 =>
  CHECK_STATUS (BNO_Select_Page env fuel usart BNO_PAGE_1 s0) fun s1 =>
  CHECK_STATUS
    (BNO_Set_Config_Mode env fuel usart (some axis_current_opr_mode)
      (zero_local axis_current_opr_mode s1)) fun s2 =>
  CHECK_STATUS (BNO_Set_Setting env fuel usart irq_adr mask state s2) fun s3 =>
  CHECK_STATUS
    (BNO_Set_OPR_Mode env fuel usart ((s3.2.mem axis_current_opr_mode 0 : Nat) : Int) s3)
    fun s4 =>
  some (Status.SUCCESS, s4)

/-- `BNO_Set_ACC_AM_Axis_State(usart, axis, state)`.  The shift count
`BNO_ACC_INT_SETTINGS_AM_NM_X_AXIS_Pos + axis` is an `unsigned int`; a count of 32 or more,
undefined in C, gives 0 here. -/
def BNO_Set_ACC_AM_Axis_State {σ : Type} (env : Env σ) (fuel : Nat)
    (usart : Option USART_Config_t) (axis state : Int) (s : σ × World) : Outcome σ :=
  CHECK_STATUS (some (Validate_Enum state BNO_IRQ_AXIS_DISABLED BNO_IRQ_AXIS_ENABLED, s))
    fun s0 =>
  let count : Nat := (((BNO_ACC_INT_SETTINGS_AM_NM_X_AXIS_Pos : Int) + axis) % 4294967296).toNat
  let mask : Nat := (0x01 <<< count) % 4294967296 % 256
  let axis_val : Nat := ((state % 256).toNat <<< count) % 4294967296 % 256
  CHECK_STATUS
    (BNO_Set_Axis_State env fuel usart axis BNO_ACC_INT_SETTINGS_REG mask axis_val s0)
    fun s1 =>
  some (Status.SUCCESS, s1)

/-- `BNO_Get_ACC_SM_NM_Det_Type(usart, det_type)`. -/
def BNO_Get_ACC_SM_NM_Det_Type {σ : Type} (env : Env σ) (fuel : Nat)
    (usart : Option USART_Config_t) (det_type : Option Nat) (s : σ × World) : Outcome σ :=
  match det_type with
  | none => some (Status.INVALID_PARAM, s)
  | some out =>
    CHECK_STATUS (BNO_Select_Page env fuel usart BNO_PAGE_1 s) fun s1 =>
    CHECK_STATUS
      (BNO_Get_Setting env fuel usart BNO_ACC_NM_SET_REG BNO_ACC_NM_SET_SM_NM (some out) s1)
      fun s2 =>
    some (Status.SUCCESS,
      store_byte out ((s2.2.mem out 0 >>> BNO_ACC_NM_SET_SM_NM_Pos) % 256) s2)

/-- The register code `BNO_Set_ACC_NM_Delay` computes for a validated `delay_s`, before
the shift to the field position: `delay_s - 1U` for 1..15, `(delay_s - 40U) / 8U + 16U`
for 40..80, `(delay_s - 88U) / 8U + 32U` otherwise, in `unsigned int` arithmetic, stored
in a `uint8_t`. -/
def nm_delay_code (delay_s : Nat) : Nat :=
  if delay_s ≥ 1 ∧ delay_s ≤ 15 then ((delay_s + 4294967296 - 1) % 4294967296) % 256
  else if delay_s ≥ 40 ∧ delay_s ≤ 80 then
    (((delay_s + 4294967296 - 40) % 4294967296) / 8 + 16) % 4294967296 % 256
  else (((delay_s + 4294967296 - 88) % 4294967296) / 8 + 32) % 4294967296 % 256

/-- `BNO_Set_ACC_NM_Delay(usart, delay_s)`, `delay_s` a `uint16_t`. -/
def BNO_Set_ACC_NM_Delay {σ : Type} (env : Env σ) (fuel : Nat)
    (usart : Option USART_Config_t) (delay_s : Nat) (s : σ × World) : Outcome σ :=
  CHECK_STATUS
    (BNO_Get_ACC_SM_NM_Det_Type env fuel usart (some nm_det_type) (zero_local nm_det_type s))
    fun s1 =>
  if s1.2.mem nm_det_type 0 ≠ BNO_SM_NM_NO_MOTION then some (Status.INVALID_PARAM, s1)
  else if delay_s ≥ 1 ∧ delay_s ≤ 336 then
    if delay_s > 16 ∧ delay_s % 8 ≠ 0 then some (Status.INVALID_PARAM, s1)
    else
      CHECK_STATUS (BNO_Select_Page env fuel usart BNO_PAGE_1 s1) fun s2 =>
      CHECK_STATUS
        (BNO_Set_Config_Mode env fuel usart (some nm_current_opr_mode)
          (zero_local nm_current_opr_mode s2)) fun s3 =>
      let setting_val := (nm_delay_code delay_s <<< BNO_ACC_NM_SET_SM_NM_DUR_Pos) % 256
      let mask := BNO_ACC_NM_SET_SM_NM_DUR
      CHECK_STATUS
        (BNO_Set_Setting env fuel usart BNO_ACC_NM_SET_REG mask setting_val s3) fun s4 =>
      CHECK_STATUS
        (BNO_Set_OPR_Mode env fuel usart ((s4.2.mem nm_current_opr_mode 0 : Nat) : Int) s4)
        fun s5 =>
      some (Status.SUCCESS, s5)
  else some (Status.INVALID_PARAM, s1)

/-- The register code `BNO_Set_ACC_HG_Dur` writes for `dur_ms`: `(dur_ms / 2U) - 1U` in
`unsigned int` arithmetic, stored in a `uint8_t`. -/
def hg_dur_code (dur_ms : Nat) : Nat :=
  ((dur_ms / 2 + 4294967296 - 1) % 4294967296) % 256

/-- The duration `BNO_Get_ACC_HG_Dur` stores for the register byte `raw_dur`:
`(uint16_t) ((raw_dur + 1U) * 2U)`. -/
def hg_dur_of_code (raw_dur : Nat) : Nat :=
  ((raw_dur + 1) * 2) % 4294967296 % 65536

/-- `BNO_Set_ACC_HG_Dur(usart, dur_ms)`, `dur_ms` a `uint16_t`. -/
def BNO_Set_ACC_HG_Dur {σ : Type} (env : Env σ) (fuel : Nat)
    (usart : Option USART_Config_t) (dur_ms : Nat) (s : σ × World) : Outcome σ :=
  if dur_ms < 2 ∨ dur_ms > 512 then some (Status.INVALID_PARAM, s)
  else
    CHECK_STATUS (BNO_Select_Page env fuel usart BNO_PAGE_1 s) fun s1 =>
    CHECK_STATUS
      (BNO_Set_Config_Mode env fuel usart (some hg_current_opr_mode)
        (zero_local hg_current_opr_mode s1)) fun s2 =>
    let duration := hg_dur_code dur_ms
    CHECK_STATUS
      (BNO_Write_Reg env fuel usart BNO_ACC_HG_DURATION_REG 1 (some [duration]) s2) fun s3 =>
    CHECK_STATUS
      (BNO_Set_OPR_Mode env fuel usart ((s3.2.mem hg_current_opr_mode 0 : Nat) : Int) s3)
      fun s4 =>
    some (Status.SUCCESS, s4)

/-- `BNO_Get_ACC_HG_Dur(usart, dur_ms)`. -/
def BNO_Get_ACC_HG_Dur {σ : Type} (env : Env σ) (fuel : Nat)
    (usart : Option USART_Config_t) (dur_ms : Option Nat) (s : σ × World) : Outcome σ :=
  match dur_ms with
  | none => some (Status.INVALID_PARAM, s)
  | some out =>
    CHECK_STATUS (BNO_Select_Page env fuel usart BNO_PAGE_1 s) fun s1 =>
    CHECK_STATUS
      (BNO_Get_Setting env fuel usart BNO_ACC_HG_DURATION_REG BNO_ACC_HG_DURATION
        (some hg_raw_dur) (zero_local hg_raw_dur s1)) fun s2 =>
    some (Status.SUCCESS, store_u16 out (hg_dur_of_code (s2.2.mem hg_raw_dur 0)) s2)

/-! ## bno.c: calibration offsets, axis remap, interrupts and thresholds -/

/-- Enumerator `BNO_ACC` of `BNO_Sensor`. -/
def BNO_ACC : Int := 0

/-- Enumerator `BNO_MAG` of `BNO_Sensor`. -/
def BNO_MAG : Int := 1

/-- Enumerator `BNO_GYR`, the last of the three enumerators of `BNO_Sensor`. -/
def BNO_GYR : Int := 2

/-- Enumerator `BNO_IRQ_ACC_BSX_DRDY`, the first of the 8 enumerators of `BNO_IRQ`. -/
def BNO_IRQ_ACC_BSX_DRDY : Int := 0

/-- Enumerator `BNO_IRQ_ACC_NM`, the last of the 8 enumerators of `BNO_IRQ`. -/
def BNO_IRQ_ACC_NM : Int := 7

/-- Register address `BNO_ACC_OFFSET_X_LSB_REG` (bno.h, page 0). -/
def BNO_ACC_OFFSET_X_LSB_REG : Nat := 0x55

/-- Register address `BNO_MAG_OFFSET_X_LSB_REG` (bno.h, page 0). -/
def BNO_MAG_OFFSET_X_LSB_REG : Nat := 0x5B

/-- Register address `BNO_GYR_OFFSET_X_LSB_REG` (bno.h, page 0). -/
def BNO_GYR_OFFSET_X_LSB_REG : Nat := 0x61

/-- Constant `BNO_AMG_DATA_LENGTH` (bno.h). -/
def BNO_AMG_DATA_LENGTH : Nat := 6

/-- Register address `BNO_AXIS_MAP_CONFIG_REG` (bno.h, page 0). -/
def BNO_AXIS_MAP_CONFIG_REG : Nat := 0x41

/-- Register address `BNO_INT_EN_REG` (bno.h, page 1). -/
def BNO_INT_EN_REG : Nat := 0x10

/-- Register address `BNO_GYR_AM_THRES_REG` (bno.h, page 1). -/
def BNO_GYR_AM_THRES_REG : Nat := 0x1E

/-- Address of the local variable `current_opr_mode` of `BNO_Axis_Remap`. -/
def remap_current_opr_mode : Nat := 13

/-- Address of the local array `reg_val_og[3]` of `BNO_Enable_IRQ` and of
`BNO_Disable_IRQ`. -/
def irq_reg_val_og : Nat := 14

/-- Address of the local variable `gyr_range` of `BNO_Set_GYR_AM_Thres`. -/
def thres_gyr_range : Nat := 15

/-- Address of the local variable `current_opr_mode` of `BNO_Set_GYR_AM_Thres`. -/
def thres_current_opr_mode : Nat := 16

/-- Address of the local variable `current_opr_mode` of `BNO_Set_Offset` and of
`BNO_Get_Offset`. -/
def offset_current_opr_mode : Nat := 17

/-- Address of the local array `data[8]` of `BNO_Get_Offset`. -/
def offset_response : Nat := 18

/-- Address of the local variable `det_type` of `BNO_Get_ACC_NM_Delay`. -/
def nm_get_det_type : Nat := 19

/-- Address of the local variable `raw_delay` of `BNO_Get_ACC_NM_Delay`. -/
def nm_raw_delay : Nat := 20

/-- The 32-bit two's complement pattern of an `int` value, on which the bitwise
operators of C act. -/
def int_bits (x : Int) : Nat := (x % 4294967296).toNat

/-- The six bytes `BNO_Set_Offset` composes from the offsets:
`(uint8_t) (v & 0xFF)` then `(uint8_t) ((v >> 8U) & 0xFF)` for each axis; `>>` on the
promoted `int` is the arithmetic shift. -/
def offset_data (x y z : Int) : List Nat :=
  [(int_bits x &&& 0xFF) % 256, (int_bits (x >>> (8 : Nat)) &&& 0xFF) % 256,
   (int_bits y &&& 0xFF) % 256, (int_bits (y >>> (8 : Nat)) &&& 0xFF) % 256,
   (int_bits z &&& 0xFF) % 256, (int_bits (z >>> (8 : Nat)) &&& 0xFF) % 256]

/-- The offset `BNO_Get_Offset` reconstructs from a low and a high byte:
`(int16_t) (lo | (hi << 8U))`, the conversion to `int16_t` wrapping modulo 65536. -/
def offset_value (lo hi : Nat) : Int :=
  let v := (lo ||| (hi <<< 8)) % 65536
  if v < 32768 then (v : Int) else (v : Int) - 65536

/-- The three offsets `BNO_Get_Offset` reconstructs from the response array `data`: bytes
2 and 3 for x, 4 and 5 for y, 6 and 7 for z. -/
def offset_of_response (data : Nat → Nat) : Int × Int × Int :=
  (offset_value (data 2) (data 3), offset_value (data 4) (data 5),
    offset_value (data 6) (data 7))

/-- Store a `BNO_Offset_t` through a pointer: the three `int16_t` fields, each as the two
bytes of its pattern, low byte first. -/
def store_offset {σ : Type} (p : Nat) (v : Int × Int × Int) (s : σ × World) : σ × World :=
  let bytes : List Nat :=
    [int_bits v.1 % 256, int_bits v.1 / 256 % 256,
     int_bits v.2.1 % 256, int_bits v.2.1 / 256 % 256,
     int_bits v.2.2 % 256, int_bits v.2.2 / 256 % 256]
  let cells : Nat → Nat := fun i => if i < 6 then bytes.getD i 0 else s.2.mem p i
  (s.1, { s.2 with mem := Function.update s.2.mem p cells })

/-- Value of a `BNO_Offset_t` held in the cells `c`: three `int16_t` fields, each read from
its two bytes, low byte first. -/
def load_offset (c : Nat → Nat) : Int × Int × Int :=
  let field : Nat → Int := fun i =>
    let u := (c i + 256 * c (i + 1)) % 65536
    if u < 32768 then (u : Int) else (u : Int) - 65536
  (field 0, field 2, field 4)

/-- Register address from which `BNO_Set_Offset` and `BNO_Get_Offset` transfer the offsets
of the sensor numbered `sensor` (0 for ACC, 1 for MAG, 2 for GYR). -/
def offset_base (sensor : Nat) : Nat :=
  if sensor = 0 then BNO_ACC_OFFSET_X_LSB_REG
  else if sensor = 1 then BNO_MAG_OFFSET_X_LSB_REG
  else BNO_GYR_OFFSET_X_LSB_REG

/-- `BNO_Get_Offset(usart, sensor, offset)`. -/
def BNO_Get_Offset {σ : Type} (env : Env σ) (fuel : Nat) (usart : Option USART_Config_t)
    (sensor : Int) (offset : Option Nat) (s : σ × World) : Outcome σ :=
  CHECK_STATUS (some (Validate_Enum sensor BNO_ACC BNO_GYR, s)) fun s0 =>
  match offset with
  | none => some (Status.INVALID_PARAM, s0)
  | some out =>
    CHECK_STATUS (BNO_Select_Page env fuel usart BNO_PAGE_0 s0) fun s1 =>
    CHECK_STATUS
      (BNO_Set_Config_Mode env fuel usart (some offset_current_opr_mode)
        (zero_local offset_current_opr_mode s1)) fun s2 =>
    let offset_base : Nat :=
      if sensor = BNO_ACC then BNO_ACC_OFFSET_X_LSB_REG
      else if sensor = BNO_MAG then BNO_MAG_OFFSET_X_LSB_REG
      else BNO_GYR_OFFSET_X_LSB_REG
    CHECK_STATUS
      (BNO_Read_Reg env fuel usart offset_base BNO_AMG_DATA_LENGTH (some offset_response)
        (zero_local offset_response s2)) fun s3 =>
    let s4 := store_offset out (offset_of_response (s3.2.mem offset_response)) s3
    CHECK_STATUS
      (BNO_Set_OPR_Mode env fuel usart ((s4.2.mem offset_current_opr_mode 0 : Nat) : Int) s4)
      fun s5 =>
    some (Status.SUCCESS, s5)

/-- `BNO_Set_Offset(usart, sensor, offset)`; `offset` is the content of the structure
pointed to, `none` for a null pointer. -/
def BNO_Set_Offset {σ : Type} (env : Env σ) (fuel : Nat) (usart : Option USART_Config_t)
    (sensor : Int) (offset : Option (Int × Int × Int)) (s : σ × World) : Outcome σ :=
  CHECK_STATUS (some (Validate_Enum sensor BNO_ACC BNO_GYR, s)) fun s0 =>
  match offset with
  | none => some (Status.INVALID_PARAM, s0)
  | some v =>
    CHECK_STATUS (BNO_Select_Page env fuel usart BNO_PAGE_0 s0) fun s1 =>
    CHECK_STATUS
      (BNO_Set_Config_Mode env fuel usart (some offset_current_opr_mode)
        (zero_local offset_current_opr_mode s1)) fun s2 =>
    let offset_base : Nat :=
      if sensor = BNO_ACC then BNO_ACC_OFFSET_X_LSB_REG
      else if sensor = BNO_MAG then BNO_MAG_OFFSET_X_LSB_REG
      else BNO_GYR_OFFSET_X_LSB_REG
    let data := offset_data v.1 v.2.1 v.2.2
    CHECK_STATUS
      (BNO_Write_Reg env fuel usart offset_base BNO_AMG_DATA_LENGTH (some data) s2) fun s3 =>
    CHECK_STATUS
      (BNO_Set_OPR_Mode env fuel usart ((s3.2.mem offset_current_opr_mode 0 : Nat) : Int) s3)
      fun s4 =>
    some (Status.SUCCESS, s4)

/-- `BNO_Axis_Remap(usart, target_axis, new_axis)`.  The shift count `target_axis * 2U`
is an `unsigned int`. -/
def BNO_Axis_Remap {σ : Type} (env : Env σ) (fuel : Nat) (usart : Option USART_Config_t)
    (target_axis new_axis : Int) (s : σ × World) : Outcome σ :=
  CHECK_STATUS (some (Validate_Enum target_axis BNO_AXIS_X BNO_AXIS_Z, s)) fun s0 =>
  CHECK_STATUS (some (Validate_Enum new_axis BNO_AXIS_X BNO_AXIS_Z, s0)) fun s0 =>
  CHECK_STATUS (BNO_Select_Page env fuel usart BNO_PAGE_0 s0) fun s1 =>
  if target_axis = new_axis then some (Status.SUCCESS, s1)
  else
    CHECK_STATUS
      (BNO_Set_Config_Mode env fuel usart (some remap_current_opr_mode)
        (zero_local remap_current_opr_mode s1)) fun s2 =>
    let count : Nat := int_bits (target_axis * 2)
    let mask : Nat := (0x03 <<< count) % 4294967296 % 256
    let setting_val : Nat := (int_bits new_axis <<< count) % 4294967296 % 256
    CHECK_STATUS
      (BNO_Set_Setting env fuel usart BNO_AXIS_MAP_CONFIG_REG mask setting_val s2) fun s3 =>
    CHECK_STATUS
      (BNO_Set_OPR_Mode env fuel usart ((s3.2.mem remap_current_opr_mode 0 : Nat) : Int) s3)
      fun s4 =>
    some (Status.SUCCESS, s4)

/-- `BNO_Enable_IRQ(usart, irq)`; `1U << irq` is an `unsigned int`. -/
def BNO_Enable_IRQ {σ : Type} (env : Env σ) (fuel : Nat) (usart : Option USART_Config_t)
    (irq : Int) (s : σ × World) : Outcome σ :=
  CHECK_STATUS (some (Validate_Enum irq BNO_IRQ_ACC_BSX_DRDY BNO_IRQ_ACC_NM, s)) fun s0 =>
  CHECK_STATUS (BNO_Select_Page env fuel usart BNO_PAGE_1 s0) fun s1 =>
  CHECK_STATUS
    (BNO_Read_Reg env fuel usart BNO_INT_EN_REG 1 (some irq_reg_val_og)
      (zero_local irq_reg_val_og s1)) fun s2 =>
  let bit : Nat := (1 <<< int_bits irq) % 4294967296
  if s2.2.mem irq_reg_val_og 2 &&& bit ≠ 0 then some (Status.SUCCESS, s2)
  else
    let reg_val_mod := (s2.2.mem irq_reg_val_og 2 ||| bit) % 256
    CHECK_STATUS (BNO_Write_Reg env fuel usart BNO_INT_EN_REG 1 (some [reg_val_mod]) s2)
      fun s3 =>
    some (Status.SUCCESS, s3)

/-- `BNO_Disable_IRQ(usart, irq)`; the early return is taken when
`reg_val_og[2] | ~(1U << irq)`, an `unsigned int`, is zero. -/
def BNO_Disable_IRQ {σ : Type} (env : Env σ) (fuel : Nat) (usart : Option USART_Config_t)
    (irq : Int) (s : σ × World) : Outcome σ :=
  CHECK_STATUS (some (Validate_Enum irq BNO_IRQ_ACC_BSX_DRDY BNO_IRQ_ACC_NM, s)) fun s0 =>
  CHECK_STATUS (BNO_Select_Page env fuel usart BNO_PAGE_1 s0) fun s1 =>
  CHECK_STATUS
    (BNO_Read_Reg env fuel usart BNO_INT_EN_REG 1 (some irq_reg_val_og)
      (zero_local irq_reg_val_og s1)) fun s2 =>
  let bit : Nat := (1 <<< int_bits irq) % 4294967296
  if s2.2.mem irq_reg_val_og 2 ||| (0xFFFFFFFF ^^^ bit) = 0 then some (Status.SUCCESS, s2)
  else
    let reg_val_mod := (s2.2.mem irq_reg_val_og 2 &&& (0xFFFFFFFF ^^^ bit)) % 256
    CHECK_STATUS (BNO_Write_Reg env fuel usart BNO_INT_EN_REG 1 (some [reg_val_mod]) s2)
      fun s3 =>
    some (Status.SUCCESS, s3)

/-- `BNO_Get_GYR_Range(usart, gyr_range)`; the mask argument of the call is the register
address `BNO_GYR_CONFIG_0_REG`, as in the source. -/
def BNO_Get_GYR_Range {σ : Type} (env : Env σ) (fuel : Nat) (usart : Option USART_Config_t)
    (gyr_range : Option Nat) (s : σ × World) : Outcome σ :=
  match gyr_range with
  | none => some (Status.INVALID_PARAM, s)
  | some out =>
    CHECK_STATUS
      (BNO_Get_Sensor_Setting env fuel usart BNO_GYR_0_CONFIG BNO_GYR_CONFIG_0_REG (some out)
        s) fun s1 =>
    some (Status.SUCCESS, s1)

/-- Conversion `(uint8_t) f` of a float value, here an exact rational: the fraction is
discarded.  For a value of -1 or less, or of 256 or more, undefined in C, the result
here is that of the truncation to a natural number, modulo 256. -/
def float_to_u8 (f : ℚ) : Nat := (Rat.floor f).toNat % 256

/-- `BNO_Set_GYR_AM_Thres(usart, thres_dps)`, the float `thres_dps` carried as an exact
rational.  An index `gyr_range` of 5 or more into the local tables, undefined in C,
reads 0 from `max_thres_dps` and 1 from `gyr_am_lsb_vals` here. -/
def BNO_Set_GYR_AM_Thres {σ : Type} (env : Env σ) (fuel : Nat)
    (usart : Option USART_Config_t) (thres_dps : ℚ) (s : σ × World) : Outcome σ :=
  CHECK_STATUS
    (BNO_Get_GYR_Range env fuel usart (some thres_gyr_range) (zero_local thres_gyr_range s))
    fun s1 =>
  let gyr_range := s1.2.mem thres_gyr_range 0
  let max_thres_dps : List ℚ := [125, 125 / 2, 125 / 4, 125 / 8, 125 / 16]
  if thres_dps > max_thres_dps.getD gyr_range 0 ∨ thres_dps > 0 then
    some (Status.INVALID_PARAM, s1)
  else
    CHECK_STATUS (BNO_Select_Page env fuel usart BNO_PAGE_1 s1) fun s2 =>
    CHECK_STATUS
      (BNO_Set_Config_Mode env fuel usart (some thres_current_opr_mode)
        (zero_local thres_current_opr_mode s2)) fun s3 =>
    let gyr_am_lsb_vals : List ℚ := [1, 1 / 2, 1 / 4, 1 / 8, 1 / 16]
    let gyr_am_lsb_sel := gyr_am_lsb_vals.getD gyr_range 1
    let thres := float_to_u8 (thres_dps / gyr_am_lsb_sel)
    CHECK_STATUS (BNO_Write_Reg env fuel usart BNO_GYR_AM_THRES_REG 1 (some [thres]) s3)
      fun s4 =>
    CHECK_STATUS
      (BNO_Set_OPR_Mode env fuel usart ((s4.2.mem thres_current_opr_mode 0 : Nat) : Int) s4)
      fun s5 =>
    some (Status.SUCCESS, s5)

/-- The delay `BNO_Get_ACC_NM_Delay` stores for the masked register byte `field`
(`reg & BNO_ACC_NM_SET_SM_NM_DUR`): the code is `field >> 1`; its two upper bits
`raw_delay & (0x03U << 4U)` are compared with 0 and with 1 to select the conversion. -/
def nm_delay_of_field (field : Nat) : Nat :=
  let raw_delay := (field >>> BNO_ACC_NM_SET_SM_NM_DUR_Pos) % 256
  let two_msbs := (raw_delay &&& (0x03 <<< 4)) % 256
  if two_msbs = 0 then ((raw_delay &&& 0x0F) % 256 + 1) % 4294967296 % 65536
  else if two_msbs = 1 then ((raw_delay &&& 0x0F) % 256 * 8 + 40) % 4294967296 % 65536
  else ((raw_delay &&& 0x1F) % 256 * 8 + 88) % 4294967296 % 65536

/-- `BNO_Get_ACC_NM_Delay(usart, delay_s)`. -/
def BNO_Get_ACC_NM_Delay {σ : Type} (env : Env σ) (fuel : Nat)
    (usart : Option USART_Config_t) (delay_s : Option Nat) (s : σ × World) : Outcome σ :=
  match delay_s with
  | none => some (Status.INVALID_PARAM, s)
  | some out =>
    CHECK_STATUS
      (BNO_Get_ACC_SM_NM_Det_Type env fuel usart (some nm_get_det_type)
        (zero_local nm_get_det_type s)) fun s1 =>
    if s1.2.mem nm_get_det_type 0 ≠ BNO_SM_NM_NO_MOTION then some (Status.INVALID_PARAM, s1)
    else
      CHECK_STATUS (BNO_Select_Page env fuel usart BNO_PAGE_1 s1) fun s2 =>
      CHECK_STATUS
        (BNO_Get_Setting env fuel usart BNO_ACC_NM_SET_REG BNO_ACC_NM_SET_SM_NM_DUR
          (some nm_raw_delay) (zero_local nm_raw_delay s2)) fun s3 =>
      some (Status.SUCCESS, store_u16 out (nm_delay_of_field (s3.2.mem nm_raw_delay 0)) s3)

/-! ## Mock transport and simulated device -/

/-- Modelled from the spec: the device side of the "mock transport that echoes framed
responses".  Given its state and the bytes received since the last complete command,
the device either keeps waiting (`none`) or consumes them and queues a response. -/
structure Device (δ : Type) where
  respond : δ → List Nat → Option (δ × List Nat)

/-- Modelled from the spec: state of the mock transport: the simulated device, the
bytes it has received since the last complete command, and the response bytes not yet
delivered to the receive data register. -/
structure Mock (δ : Type) where
  dev : δ
  inbox : List Nat
  outbox : List Nat

/-- Modelled from the spec: receive half of a mock hardware slice.  If the receive data
register is free (RXNE clear) the next response byte is loaded and RXNE raised. -/
def mock_rxd (outbox : List Nat) (r : USART_t) : List Nat × USART_t :=
  if reg_test r.SR USART_SR_RXNE then (outbox, r)
  else
    match outbox with
    | [] => (outbox, r)
    | b :: rest => (rest, { r with DR := b, SR := reg_set r.SR USART_SR_RXNE })

/-- Modelled from the spec: transmit half of a mock hardware slice.  The transmitter
takes the bytes written to the data register since the last slice; TXE is raised and,
when bytes were sent, TC. -/
def mock_txd (r : USART_t) : USART_t :=
  { r with
    TDR := [],
    SR := if r.TDR = [] then reg_set r.SR USART_SR_TXE
      else reg_set (reg_set r.SR USART_SR_TXE) USART_SR_TC }

/-- Modelled from the spec: one time slice of the mock hardware: the receive half, then
the transmit half, whose bytes are delivered to the device; the device answers a
command that became complete (its response starts arriving in the next slice). -/
def mock_hw {δ : Type} (D : Device δ) (m : Mock δ) (r : USART_t) : Mock δ × USART_t :=
  let rxd := mock_rxd m.outbox r
  let inbox1 := m.inbox ++ rxd.2.TDR
  match D.respond m.dev inbox1 with
  | some (d1, resp) => ({ dev := d1, inbox := [], outbox := rxd.1 ++ resp }, mock_txd rxd.2)
  | none => ({ dev := m.dev, inbox := inbox1, outbox := rxd.1 }, mock_txd rxd.2)

/-- Modelled from the spec: the USART interrupt line is raised when an enabled event is
flagged. -/
def irq_pending (r : USART_t) : Bool :=
  (reg_test r.CR1 USART_CR1_TXEIE && reg_test r.SR USART_SR_TXE) ||
  (reg_test r.CR1 USART_CR1_TCIE && reg_test r.SR USART_SR_TC) ||
  (reg_test r.CR1 USART_CR1_RXNEIE && reg_test r.SR USART_SR_RXNE)

/-- Modelled from the spec: one slot of the mock environment: the hardware acts, then
the USART handler runs if its interrupt is pending, otherwise a millisecond tick
elapses. -/
def mock_poll {δ : Type} (D : Device δ) (m : Mock δ) (w : World) : Mock δ × World :=
  let h := mock_hw D m w.regs
  let w1 : World := { w with regs := h.2 }
  if irq_pending h.2 then (h.1, USART_IRQHandler w1) else (h.1, SysTick_Handler w1)

/-- Modelled from the spec: the mock environment; a delay of `ms` milliseconds lasts
`ms` slots. -/
def mock {δ : Type} (D : Device δ) : Env (Mock δ) :=
  { poll := mock_poll D, delay_slots := fun ms => ms }

/-- Modelled from the spec: command parser of the simulated device.  A read command
`0xAA 0x01 reg len` is complete after 4 bytes, a write command `0xAA 0x00 reg len`
after its `len` payload bytes; a command with length byte 0 is answered with an error
response. -/
def sim_respond (regs : Nat → Nat) (inbox : List Nat) : Option ((Nat → Nat) × List Nat) :=
  match inbox with
  | start :: op :: reg :: len :: payload =>
    if start = 0xAA ∧ op = 0x01 then
      if len = 0 then some (regs, [0xEE, 0x09])
      else some (regs, [0xBB, len] ++ (List.range len).map (fun i => regs (reg + i)))
    else if start = 0xAA ∧ op = 0x00 then
      if len = 0 then some (regs, [0xEE, 0x09])
      else if payload.length < len then none
      else
        some (fun a => if reg ≤ a ∧ a < reg + len then payload.getD (a - reg) 0 else regs a,
          [0xEE, 0x01])
    else none
  | _ => none

/-- Modelled from the spec: the "simulated device that stores written payloads and
echoes framed responses": a register file; a read is answered with the header
`0xBB len` and the stored bytes, a write is stored and acknowledged with `0xEE 0x01`. -/
def sim_device : Device (Nat → Nat) := { respond := sim_respond }

/-- Modelled from the spec: one transaction as the simulated device sees it: a read or
a write of `data` at register `reg`, with the page selected and the operating mode the
device was in when the command arrived, and whether the device accepted it. -/
structure Txn where
  write : Bool
  page : Nat
  mode : Nat
  reg : Nat
  data : List Nat
  ok : Bool
  deriving DecidableEq, Repr

/-- Modelled from the spec: state of the "simulated device with two register banks":
the selected page, the register banks by page, and the transactions served so far. -/
structure Bno055 where
  page : Nat
  bank : Nat → Nat → Nat
  history : List Txn

/-- Modelled from the spec: operating mode of the simulated device, the content of
OPR_MODE on page 0. -/
def bno_mode (d : Bno055) : Nat := d.bank 0 0x3D

/-- Modelled from the spec: the byte the simulated device returns for register `a`: the
page register (0x07, present on both pages) holds the selected page, every other address
is looked up in the bank of the selected page. -/
def bno_reg (d : Bno055) (a : Nat) : Nat :=
  if a = 0x07 then d.page % 256 else d.bank d.page a % 256

/-- Modelled from the spec: the simulated device stores one byte: a write to the page
register selects the page, any other write lands in the bank of the selected page. -/
def bno_store (d : Bno055) (a v : Nat) : Bno055 :=
  if a = 0x07 then { d with page := v }
  else { d with bank := Function.update d.bank d.page (Function.update (d.bank d.page) a v) }

/-- Modelled from the spec: the simulated device stores a payload at consecutive
addresses. -/
def bno_store_all (d : Bno055) (a : Nat) : List Nat → Bno055
  | [] => d
  | v :: vs => bno_store_all (bno_store d a v) (a + 1) vs

/-- Modelled from the spec: the simulated device after it served a read of `len` bytes at
`reg`. -/
def bno_after_read (d : Bno055) (reg len : Nat) : Bno055 :=
  { d with history := d.history ++
      [{ write := false, page := d.page, mode := bno_mode d, reg := reg,
         data := (List.range len).map (fun i => bno_reg d (reg + i)), ok := true }] }

/-- Modelled from the spec: the simulated device after it served a write of `payload` at
`reg`: the payload is stored, unless writes to `reg` are failing. -/
def bno_after_write (faulty : Nat → Bool) (d : Bno055) (reg : Nat) (payload : List Nat) :
    Bno055 :=
  if faulty reg then
    { d with history := d.history ++
        [{ write := true, page := d.page, mode := bno_mode d, reg := reg, data := payload,
           ok := false }] }
  else
    { bno_store_all d reg payload with history := d.history ++
        [{ write := true, page := d.page, mode := bno_mode d, reg := reg, data := payload,
           ok := true }] }

/-- Modelled from the spec: command parser of the simulated two-bank device.  A read
command `0xAA 0x01 reg len` is answered with `0xBB len` and the bytes; a write command
`0xAA 0x00 reg len payload` is stored and acknowledged with `0xEE 0x01`, or, for a
register whose writes are failing, refused with the error response `0xEE 0x03`. -/
def bno_respond (faulty : Nat → Bool) (d : Bno055) (inbox : List Nat) :
    Option (Bno055 × List Nat) :=
  match inbox with
  | start :: op :: reg :: len :: payload =>
    if start = 0xAA ∧ op = 0x01 then
      if len = 0 then some (d, [0xEE, 0x09])
      else some (bno_after_read d reg len,
        [0xBB, len] ++ (List.range len).map (fun i => bno_reg d (reg + i)))
    else if start = 0xAA ∧ op = 0x00 then
      if len = 0 then some (d, [0xEE, 0x09])
      else if payload.length < len then none
      else some (bno_after_write faulty d reg (payload.take len),
        if faulty reg then [0xEE, 0x03] else [0xEE, 0x01])
    else none
  | _ => none

/-- Modelled from the spec: the "simulated device with two register banks on which every
transaction succeeds", but for writes to the registers marked `faulty`, which it answers
"with persistent errors". -/
def bno_device (faulty : Nat → Bool) : Device Bno055 := { respond := bno_respond faulty }

/-- Modelled from the spec: no register is failing: every transaction succeeds. -/
def no_fault : Nat → Bool := fun _ => false

/-- Modelled from the spec: writes to PWR_MODE fail. -/
def pwr_fault : Nat → Bool := fun a => a == 0x3E

/-- Modelled from the spec: command parser of a "mocked device [that] responds to the
first attempt with `0xEE` then to the second with a valid frame": the device holds the
responses it is going to give, in order, and answers each complete command (a read
command after its 4 bytes, a write command after its payload) with the next one; with no
response left it stays silent. -/
def scripted_respond (script : List (List Nat)) (inbox : List Nat) :
    Option (List (List Nat) × List Nat) :=
  match inbox with
  | start :: op :: _ :: len :: payload =>
    if start = 0xAA ∧ (op = 0x01 ∨ (op = 0x00 ∧ len ≤ payload.length)) then
      match script with
      | [] => none
      | resp :: rest => some (rest, resp)
    else none
  | _ => none

/-- Modelled from the spec: the mocked device that answers with scripted responses. -/
def scripted_device : Device (List (List Nat)) := { respond := scripted_respond }

/-! ## Concrete inputs -/

/-- Configuration of the port wired to the sensor in main.c: USART2 at 115200 baud,
8 data bits, 1 stop bit, no parity. -/
def example_config : USART_Config_t :=
  { instance_ptr := some USART_Instance.USART2, baud_rate := 115200, word_length := 0,
    stop_bits := 0, parity_control := 0 }

/-- A world right after start-up: initial port state, status register at its reset
value, tick counter at 0. -/
def example_world : World :=
  { st := g_usart_init, regs := { SR := 0xC0, DR := 0, CR1 := 0, TDR := [] },
    mem := fun _ _ => 0, g_systick_time := 0, trace := [] }

/-- A world whose transmitter and receiver are both in flight. -/
def example_busy_world : World :=
  { example_world with
    st := { g_usart_init with
      tx_instance := some USART_Instance.USART2, tx_length := 4, tx_index := 1,
      tx_status := USART_TX_Status.USART_TX_BUSY,
      rx_instance := some USART_Instance.USART2, rx_buffer := some 7, rx_length := 6,
      rx_index := 2, rx_status := USART_RX_Status.USART_RX_BUSY } }

/-- The mock transport with a simulated device whose register `a` holds `a + 1`. -/
def example_mock : Mock (Nat → Nat) := { dev := fun a => a + 1, inbox := [], outbox := [] }

/-- Modelled from the spec: the "mocked device [that] never responds": whatever it is
sent, it queues no response byte. -/
def silent_device : Device Unit := { respond := fun _ _ => none }

/-- A world between two transfers: as `example_world`, with the "transmit complete" flag
cleared by the previous transfer. -/
def example_rest_world : World :=
  { example_world with regs := { SR := 0x80, DR := 0, CR1 := 0, TDR := [] } }

/-- The mock transport with the scripted device, before any command: the device answers
the first command with a response of the length a 4-byte read expects whose first byte
is 0xEE, and the second with a valid frame `0xBB 4` and four data bytes. -/
def example_scripted_mock : Mock (List (List Nat)) :=
  { dev := [[0xEE, 0x07, 0, 0, 0, 0], [0xBB, 4, 4, 5, 6, 7]], inbox := [], outbox := [] }

/-- The mock transport with the scripted device, before any command: the device answers
the first command with the error response `0xEE 0x03` and the second with the
acknowledgement `0xEE 0x01`. -/
def example_scripted_write_mock : Mock (List (List Nat)) :=
  { dev := [[0xEE, 0x03], [0xEE, 0x01]], inbox := [], outbox := [] }

/-- A world between two transfers when the tick counter has reached `2 ^ 31`, where the
binary32 numbers are 256 apart. -/
def example_late_world : World :=
  { example_rest_world with g_systick_time := 2147483648 }

/-- A world in the receive wait of a 1-byte read, entered when the tick counter was at
its last value before the 32-bit wrap. -/
def example_waiting_world : World :=
  { st := { g_usart_init with
      tx_instance := some USART_Instance.USART2, tx_length := 4, tx_index := 4,
      rx_instance := some USART_Instance.USART2, rx_buffer := some 7, rx_length := 3,
      rx_index := 0, rx_status := USART_RX_Status.USART_RX_BUSY },
    regs := { SR := 0x80, DR := 0, CR1 := 0x20, TDR := [] },
    mem := fun _ _ => 0, g_systick_time := 4294967295, trace := [] }

/-- The mock transport with the silent device, before any command and after a read
command was sent. -/
def example_silent_mock (inbox : List Nat) : Mock Unit :=
  { dev := (), inbox := inbox, outbox := [] }

/-- A simulated two-bank device on page `page` in operating mode `mode`, every other
register at 0, before any transaction. -/
def example_bno (page mode : Nat) : Bno055 :=
  { page := page, bank := fun p a => if p = 0 ∧ a = 0x3D then mode else 0, history := [] }

/-- The mock transport with the simulated two-bank device, between two transactions. -/
def example_bno_mock (page mode : Nat) : Mock Bno055 :=
  { dev := example_bno page mode, inbox := [], outbox := [] }

/-- A simulated two-bank device on page `page` in operating mode `mode` whose register
`a` holds `v` on both pages, every other register at 0, before any transaction. -/
def example_bno_with (page mode a v : Nat) : Bno055 :=
  { page := page,
    bank := fun p x => if p = 0 ∧ x = 0x3D then mode else if x = a then v else 0,
    history := [] }

/-- The mock transport with the device `example_bno_with`, between two transactions. -/
def example_bno_with_mock (page mode a v : Nat) : Mock Bno055 :=
  { dev := example_bno_with page mode a v, inbox := [], outbox := [] }

/-! ## Predicates used in the statements and proofs -/

/-- What the transmit-empty part of the handler leaves alone. -/
structure TXE_Frame (w w1 : World) : Prop where
  tx_instance : w1.st.tx_instance = w.st.tx_instance
  tx_buffer : w1.st.tx_buffer = w.st.tx_buffer
  tx_length : w1.st.tx_length = w.st.tx_length
  tx_status : w1.st.tx_status = w.st.tx_status
  rx_instance : w1.st.rx_instance = w.st.rx_instance
  rx_buffer : w1.st.rx_buffer = w.st.rx_buffer
  rx_length : w1.st.rx_length = w.st.rx_length
  rx_index : w1.st.rx_index = w.st.rx_index
  rx_status : w1.st.rx_status = w.st.rx_status
  mem : w1.mem = w.mem
  tick : w1.g_systick_time = w.g_systick_time
  trace : w1.trace = w.trace
  DR : w1.regs.DR = w.regs.DR
  SR : ∀ j, j < 32 → j ≠ 6 → j ≠ 7 → w1.regs.SR.testBit j = w.regs.SR.testBit j
  CR1 : ∀ j, j < 32 → j ≠ 6 → j ≠ 7 → w1.regs.CR1.testBit j = w.regs.CR1.testBit j

/-- What the transmit-complete part of the handler leaves alone. -/
structure TC_Frame (w w1 : World) : Prop where
  tx_instance : w1.st.tx_instance = w.st.tx_instance
  tx_buffer : w1.st.tx_buffer = w.st.tx_buffer
  tx_length : w1.st.tx_length = w.st.tx_length
  tx_index : w1.st.tx_index = w.st.tx_index
  rx_instance : w1.st.rx_instance = w.st.rx_instance
  rx_buffer : w1.st.rx_buffer = w.st.rx_buffer
  rx_length : w1.st.rx_length = w.st.rx_length
  rx_index : w1.st.rx_index = w.st.rx_index
  rx_status : w1.st.rx_status = w.st.rx_status
  mem : w1.mem = w.mem
  tick : w1.g_systick_time = w.g_systick_time
  trace : w1.trace = w.trace
  DR : w1.regs.DR = w.regs.DR
  TDR : w1.regs.TDR = w.regs.TDR
  SR : ∀ j, j < 32 → j ≠ 6 → w1.regs.SR.testBit j = w.regs.SR.testBit j
  CR1 : ∀ j, j < 32 → j ≠ 6 → w1.regs.CR1.testBit j = w.regs.CR1.testBit j

/-- Error mask tested by the receive part of the handler. -/
def USART_SR_ERRORS : Nat := USART_SR_ORE ||| USART_SR_NF ||| USART_SR_FE ||| USART_SR_PE

/-- What the receive part of the handler leaves alone. -/
structure RXNE_Frame (w w1 : World) : Prop where
  tx_instance : w1.st.tx_instance = w.st.tx_instance
  tx_buffer : w1.st.tx_buffer = w.st.tx_buffer
  tx_length : w1.st.tx_length = w.st.tx_length
  tx_index : w1.st.tx_index = w.st.tx_index
  tx_status : w1.st.tx_status = w.st.tx_status
  rx_instance : w1.st.rx_instance = w.st.rx_instance
  rx_buffer : w1.st.rx_buffer = w.st.rx_buffer
  rx_length : w1.st.rx_length = w.st.rx_length
  tick : w1.g_systick_time = w.g_systick_time
  trace : w1.trace = w.trace
  DR : w1.regs.DR = w.regs.DR
  TDR : w1.regs.TDR = w.regs.TDR
  SR : ∀ j, j < 32 → j ≠ 5 → j ≠ 3 → j ≠ 2 → j ≠ 1 → j ≠ 0 →
    w1.regs.SR.testBit j = w.regs.SR.testBit j
  CR1 : ∀ j, j < 32 → j ≠ 5 → w1.regs.CR1.testBit j = w.regs.CR1.testBit j
  rx_idle : w.st.rx_status = USART_RX_Status.USART_RX_IDLE →
    w1.st.rx_status = USART_RX_Status.USART_RX_IDLE ∧ w1.mem = w.mem ∧
      w1.st.rx_index = w.st.rx_index

/-- What no part of the handler writes. -/
structure Handler_Frame (w w1 : World) : Prop where
  tx_instance : w1.st.tx_instance = w.st.tx_instance
  tx_buffer : w1.st.tx_buffer = w.st.tx_buffer
  tx_length : w1.st.tx_length = w.st.tx_length
  rx_instance : w1.st.rx_instance = w.st.rx_instance
  rx_buffer : w1.st.rx_buffer = w.st.rx_buffer
  rx_length : w1.st.rx_length = w.st.rx_length
  tick : w1.g_systick_time = w.g_systick_time
  trace : w1.trace = w.trace
  DR : w1.regs.DR = w.regs.DR
  CR1 : ∀ j, j < 32 → j ≠ 5 → j ≠ 6 → j ≠ 7 → w1.regs.CR1.testBit j = w.regs.CR1.testBit j
  rx_idle : w.st.rx_status = USART_RX_Status.USART_RX_IDLE →
    w1.st.rx_status = USART_RX_Status.USART_RX_IDLE ∧ w1.mem = w.mem ∧
      w1.st.rx_index = w.st.rx_index
  tx_idle : w.st.tx_status = USART_TX_Status.USART_TX_IDLE →
    w1.st.tx_status = USART_TX_Status.USART_TX_IDLE

/-- Port state while the bytes `b` are being drained: `k` bytes have gone to the data
register after the `T0` that were there before. -/
structure TxDraining (b T0 : List Nat) (w : World) (k : Nat) : Prop where
  inst : w.st.tx_instance.isSome = true
  len : w.st.tx_length = b.length
  idx : w.st.tx_index = k
  buf : ∀ i (hi : i < b.length), w.st.tx_buffer i = b.get ⟨i, hi⟩
  busy : w.st.tx_status = USART_TX_Status.USART_TX_BUSY
  tdr : w.regs.TDR = T0 ++ b.take k
  txeie : w.regs.CR1.testBit 7 = true

/-- Port state while a reception of `n` bytes into the array at `dest` is filling:
the bytes `bs` received so far are stored in order. -/
structure RxFilling (dest n : Nat) (bs : List Nat) (w : World) : Prop where
  inst : w.st.rx_instance.isSome = true
  buf : w.st.rx_buffer = some dest
  len : w.st.rx_length = n
  idx : w.st.rx_index = bs.length
  data : ∀ i (hi : i < bs.length), w.mem dest i = bs.get ⟨i, hi⟩
  busy : bs.length < n →
    w.st.rx_status = USART_RX_Status.USART_RX_BUSY ∧ w.regs.CR1.testBit 5 = true
  done : bs.length = n →
    w.st.rx_status = USART_RX_Status.USART_RX_IDLE ∧ w.regs.CR1.testBit 5 = false

/-- What `k` slots of the mock environment leave alone: the pointers and lengths of the
port state, the trace, an Idle receiver (with its destination memory) and an Idle
transmitter; the tick counter advances by at most `k`. -/
structure Frame (k : Nat) (w w1 : World) : Prop where
  tx_instance : w1.st.tx_instance = w.st.tx_instance
  tx_buffer : w1.st.tx_buffer = w.st.tx_buffer
  tx_length : w1.st.tx_length = w.st.tx_length
  rx_instance : w1.st.rx_instance = w.st.rx_instance
  rx_buffer : w1.st.rx_buffer = w.st.rx_buffer
  rx_length : w1.st.rx_length = w.st.rx_length
  trace : w1.trace = w.trace
  rx_idle : w.st.rx_status = USART_RX_Status.USART_RX_IDLE →
    w1.st.rx_status = USART_RX_Status.USART_RX_IDLE ∧ w1.mem = w.mem ∧
      w1.st.rx_index = w.st.rx_index
  tx_idle : w.st.tx_status = USART_TX_Status.USART_TX_IDLE →
    w1.st.tx_status = USART_TX_Status.USART_TX_IDLE
  tick : w1.g_systick_time ≤ w.g_systick_time + k

/-- Transmitter at rest: nothing left to send, TXEIE and TC clear, status Idle. -/
structure Quiet (w : World) : Prop where
  txeie : w.regs.CR1.testBit 7 = false
  tc : w.regs.SR.testBit 6 = false
  tdr : w.regs.TDR = []
  idx : ¬ w.st.tx_index < w.st.tx_length
  idle : w.st.tx_status = USART_TX_Status.USART_TX_IDLE

/-- What holds of a port whose receiver is Busy. -/
structure RxInv (w : World) : Prop where
  inst : w.st.rx_instance.isSome = true
  ie : w.regs.CR1.testBit 5 = true
  idx : w.st.rx_index < w.st.rx_length
  len : w.st.rx_length < 65536

/-- Invariant of the receive phase of a transfer. -/
structure RxW (w : World) : Prop where
  quiet : Quiet w
  rx : w.st.rx_status = USART_RX_Status.USART_RX_BUSY → RxInv w

/-- Port state while the mock transmitter drains a command. -/
structure Drn (w : World) : Prop where
  inst : w.st.tx_instance.isSome = true
  busy : w.st.tx_status = USART_TX_Status.USART_TX_BUSY
  txeie : w.regs.CR1.testBit 7 = true
  len : w.st.tx_length < 65536
  prog : w.st.tx_index < w.st.tx_length ∨ w.regs.TDR ≠ []

/-- Effect of one transfer on the mock environment. -/
structure Transferred (frame : List Nat) (dest rxlen d : Nat) (bound : ℚ) (w r : World) :
    Prop where
  quiet : Quiet r
  rx_idle : r.st.rx_status = USART_RX_Status.USART_RX_IDLE
  trace : r.trace = w.trace ++ [Ev.tx frame, Ev.rx dest rxlen, Ev.delay d] ∨
    r.trace = w.trace ++ [Ev.tx frame, Ev.rx dest rxlen, Ev.delay d, Ev.abort]
  tick : (r.g_systick_time : ℚ) ≤ (w.g_systick_time : ℚ) + bound

/-- Command frames handed to the transport, in order, among the events `evs`. -/
def tx_frames (evs : List Ev) : List (List Nat) :=
  evs.filterMap fun e => match e with
    | Ev.tx f => some f
    | _ => none

/-- Response bytes examined by the error tests, in order, among the events `evs`. -/
def checks (evs : List Ev) : List (List Nat) :=
  evs.filterMap fun e => match e with
    | Ev.checked b => some b
    | _ => none

/-- Number of receive aborts among the events `evs`. -/
def aborts (evs : List Ev) : Nat :=
  (evs.filter fun e => match e with
    | Ev.abort => true
    | _ => false).length

/-- Requests made to the transport (transmissions and receptions), in order, among the
events `evs`. -/
def calls (evs : List Ev) : List Ev :=
  evs.filter fun e => match e with
    | Ev.tx _ => true
    | Ev.rx _ _ => true
    | _ => false

/-- Requests of `k` attempts in a row: each hands `frame` to the transport and then starts
one reception of `n` bytes into the array at `dest`. -/
def attempt_calls (frame : List Nat) (dest n : Nat) : Nat → List Ev
  | 0 => []
  | k + 1 => Ev.tx frame :: Ev.rx dest n :: attempt_calls frame dest n k

/-- Effect of one attempt (command, response, error test) on the mock environment. -/
structure Attempt (frame chk : List Nat) (dest rxlen : Nat) (bound : ℚ) (w r : World) :
    Prop where
  tx_idle : r.st.tx_status = USART_TX_Status.USART_TX_IDLE
  rx_idle : r.st.rx_status = USART_RX_Status.USART_RX_IDLE
  trace : ∃ evs, r.trace = w.trace ++ evs ∧ tx_frames evs = [frame] ∧ checks evs = [chk] ∧
    calls evs = [Ev.tx frame, Ev.rx dest rxlen]
  tick : (r.g_systick_time : ℚ) ≤ (w.g_systick_time : ℚ) + bound

/-- Outcomes of the retry loop with `n` iterations left: the frames sent, the responses
examined and the status returned.  An iteration whose response is not an error ends the
loop with SUCCESS; an iteration whose response is an error moves on with ERROR as the
status so far. -/
def RetryOutcome (frame : List Nat) (err : List Nat → Bool) :
    Nat → Status → List (List Nat) → List (List Nat) → Status → Prop
  | 0, ret, frames, chks, st => frames = [] ∧ chks = [] ∧ st = ret
  | n + 1, _, frames, chks, st =>
    ∃ c, (err c = false ∧ frames = [frame] ∧ chks = [c] ∧ st = Status.SUCCESS) ∨
      (err c = true ∧ ∃ fr ch, frames = frame :: fr ∧ chks = c :: ch ∧
        RetryOutcome frame err n Status.ERROR fr ch st)

/-- Error test of the read functions on the examined bytes: `data[0] == 0xEE`. -/
def read_err (c : List Nat) : Bool := c.getD 0 0 == 0xEE

/-- Error test of the write functions on the examined bytes:
`write_response[0] == 0xEE && write_response[1] != 0x01`. -/
def write_err (c : List Nat) : Bool := c.getD 0 0 == 0xEE && c.getD 1 0 != 0x01

/-- First bytes of the responses examined among the events `evs`, in order. -/
def first_bytes (evs : List Ev) : List Nat := (checks evs).map fun c => c.getD 0 0

/-- First two bytes of the responses examined among the events `evs`, in order. -/
def response_pairs (evs : List Ev) : List (Nat × Nat) :=
  (checks evs).map fun c => (c.getD 0 0, c.getD 1 0)

/-- Error predicate of the write path on a 2-byte response: byte 0 is 0xEE and byte 1 is
not 0x01. -/
def is_write_error (p : Nat × Nat) : Prop := p.1 = 0xEE ∧ p.2 ≠ 0x01

/-- The mock after its device was handed the bytes `inb`: either the device answered
and starts over with an empty inbox, or it keeps waiting. -/
def deliver {δ : Type} (D : Device δ) (d : δ) (inb : List Nat) : Mock δ :=
  match D.respond d inb with
  | some (d1, resp) => { dev := d1, inbox := [], outbox := resp }
  | none => { dev := d, inbox := inb, outbox := [] }

/-- Receive side with nothing in flight: no response byte queued, RXNE and the error
flags clear. -/
structure NoRx {δ : Type} (s : Mock δ × World) : Prop where
  outbox : s.1.outbox = []
  rxne : s.2.regs.SR.testBit 5 = false
  err : ∀ j, j < 4 → s.2.regs.SR.testBit j = false

/-- What a slot of the mock environment leaves alone when no byte is received in it. -/
structure Keeps (w r : World) : Prop where
  mem : r.mem = w.mem
  rx_status : r.st.rx_status = w.st.rx_status
  rx_index : r.st.rx_index = w.st.rx_index
  rx_instance : r.st.rx_instance = w.st.rx_instance
  rx_buffer : r.st.rx_buffer = w.st.rx_buffer
  rx_length : r.st.rx_length = w.st.rx_length
  trace : r.trace = w.trace
  rxne : r.regs.SR.testBit 5 = w.regs.SR.testBit 5
  err : ∀ j, j < 4 → r.regs.SR.testBit j = w.regs.SR.testBit j
  rxneie : r.regs.CR1.testBit 5 = w.regs.CR1.testBit 5

/-- The mock transport with nothing to do: transmitter at rest, nothing being received,
and a device that does not answer the bytes it holds. -/
structure Rest {δ : Type} (D : Device δ) (s : Mock δ × World) : Prop where
  quiet : Quiet s.2
  norx : NoRx s
  silent : D.respond s.1.dev s.1.inbox = none

/-- The mock while a command `b` is being transmitted to a device in state `d0` that
held the bytes `i0` before: the device has been handed what left the data register. -/
structure TxLink {δ : Type} (d0 : δ) (i0 b : List Nat) (s : Mock δ × World) : Prop where
  drn : Drn s.2
  norx : NoRx s
  dev : s.1.dev = d0
  len : s.2.st.tx_length = b.length
  buf : ∀ i (hi : i < b.length), s.2.st.tx_buffer i = b.get ⟨i, hi⟩
  sent : s.1.inbox ++ s.2.regs.TDR = i0 ++ b.take s.2.st.tx_index

/-- The mock while the response `resp` of a device, now in state `d1`, is being received
into the array at `dest`: `j` bytes have been stored, the rest is queued. -/
structure RxLink {δ : Type} (d1 : δ) (resp : List Nat) (dest : Nat) (s : Mock δ × World)
    (j : Nat) : Prop where
  quiet : Quiet s.2
  dev : s.1.dev = d1
  inbox : s.1.inbox = []
  outbox : s.1.outbox = resp.drop j
  rxne : s.2.regs.SR.testBit 5 = false
  err : ∀ i, i < 4 → s.2.regs.SR.testBit i = false
  inst : s.2.st.rx_instance.isSome = true
  buf : s.2.st.rx_buffer = some dest
  len : s.2.st.rx_length = resp.length
  idx : s.2.st.rx_index = j
  busy : j < resp.length →
    s.2.st.rx_status = USART_RX_Status.USART_RX_BUSY ∧ s.2.regs.CR1.testBit 5 = true
  done : ¬ j < resp.length → s.2.st.rx_status = USART_RX_Status.USART_RX_IDLE
  data : ∀ i, i < j → s.2.mem dest i = resp.getD i 0 % 256

/-- The mock transport between two transactions: transmitter at rest, receiver Idle,
nothing in flight in either direction. -/
structure Link {δ : Type} (s : Mock δ × World) : Prop where
  quiet : Quiet s.2
  norx : NoRx s
  inbox : s.1.inbox = []
  rx_idle : s.2.st.rx_status = USART_RX_Status.USART_RX_IDLE

/-- Effect on the simulated device of a 1-byte write as `BNO_Write_Reg` makes it: one
write, or three refused attempts when writes to the register are failing. -/
def dev_write (f : Nat → Bool) (d : Bno055) (reg v : Nat) : Bno055 :=
  if f reg = true then
    bno_after_write f (bno_after_write f (bno_after_write f d reg [v]) reg [v]) reg [v]
  else bno_after_write f d reg [v]

/-- Effect of `BNO_Select_Page` on the simulated device: the page register is read, and
written when it differs from the target. -/
def dev_Select_Page (f : Nat → Bool) (d : Bno055) (page : Nat) : Bno055 :=
  if bno_reg d 0x07 = page then bno_after_read d 0x07 1
  else dev_write f (bno_after_read d 0x07 1) 0x07 page

/-- Effect of `BNO_Get_OPR_Mode` on the simulated device. -/
def dev_Get_OPR_Mode (f : Nat → Bool) (d : Bno055) : Bno055 :=
  bno_after_read (dev_Select_Page f d 0) 0x3D 1

/-- The operating mode byte `BNO_Get_OPR_Mode` obtains from the simulated device. -/
def val_Get_OPR_Mode (f : Nat → Bool) (d : Bno055) : Nat :=
  bno_reg (dev_Select_Page f d 0) 0x3D

/-- The byte `BNO_Set_Setting` writes back for the register byte `old`. -/
def setting_byte (old mask val : Nat) : Nat :=
  ((old &&& (0xFFFFFFFF ^^^ mask)) % 256 ||| val) % 256

/-- Effect of `BNO_Set_Setting` on the simulated device. -/
def dev_Set_Setting (f : Nat → Bool) (d : Bno055) (reg mask val : Nat) : Bno055 :=
  dev_write f (bno_after_read d reg 1) reg (setting_byte (bno_reg d reg) mask val)

/-- Effect of `BNO_Set_OPR_Mode` on the simulated device. -/
def dev_Set_OPR_Mode (f : Nat → Bool) (d : Bno055) (mode : Nat) : Bno055 :=
  dev_Set_Setting f (dev_Get_OPR_Mode f (dev_Select_Page f d 0)) 0x3D 0x0F mode

/-- Effect of `BNO_Set_Config_Mode` on the simulated device. -/
def dev_Set_Config_Mode (f : Nat → Bool) (d : Bno055) : Bno055 :=
  if val_Get_OPR_Mode f d = 0 then dev_Get_OPR_Mode f d
  else dev_Set_OPR_Mode f (dev_Get_OPR_Mode f d) 0

/-- Effect of `BNO_Set_PWR_Mode` on the simulated device; the mode is not restored when
the write to PWR_MODE fails. -/
def dev_Set_PWR_Mode (f : Nat → Bool) (d : Bno055) (pwr : Nat) : Bno055 :=
  if f 0x3E = true then
    dev_Set_Setting f (dev_Set_Config_Mode f (dev_Select_Page f d 0)) 0x3E 0x03 pwr
  else
    dev_Set_OPR_Mode f
      (dev_Set_Setting f (dev_Set_Config_Mode f (dev_Select_Page f d 0)) 0x3E 0x03 pwr)
      (val_Get_OPR_Mode f (dev_Select_Page f d 0))

/-- Effect of `BNO_Set_Sensor_Setting` on the simulated device, for the sensor
configuration register at `base`, writes to it being accepted. -/
def dev_Set_Sensor_Setting (f : Nat → Bool) (d : Bno055) (base mask val : Nat) : Bno055 :=
  dev_Set_OPR_Mode f
    (dev_Set_Setting f (dev_Set_Config_Mode f (dev_Select_Page f d 1)) base mask val)
    (val_Get_OPR_Mode f (dev_Select_Page f d 1))

/-- The device went from `d` to `d1` through transactions on the page register and on
OPR_MODE only, and every other register kept its content. -/
structure Plumb (d d1 : Bno055) : Prop where
  banks : ∀ p a, ¬ (p = 0 ∧ a = 0x3D) → d1.bank p a = d.bank p a
  hist : ∃ H, d1.history = d.history ++ H ∧ ∀ t ∈ H, t.reg = 0x07 ∨ t.reg = 0x3D

/-- The trace of `r` extends that of `w` by events among which every delay is one of the
register protocol (10 or 15 ms) or the one before a page write (2 ms). -/
def Calm (w r : World) : Prop :=
  ∃ T : List Ev, r.trace = w.trace ++ T ∧ ∀ ms, Ev.delay ms ∈ T → ms = 2 ∨ ms = 10 ∨ ms = 15

/-- Transactions of `BNO_Select_Page` on the simulated device `d` for the target page
`t`: the read of the page register, and the write when the page differs. -/
def select_txns (d : Bno055) (t : Nat) : List Txn :=
  if d.page = t then
    [{ write := false, page := d.page, mode := bno_mode d, reg := 0x07, data := [d.page],
       ok := true }]
  else
    [{ write := false, page := d.page, mode := bno_mode d, reg := 0x07, data := [d.page],
       ok := true },
     { write := true, page := d.page, mode := bno_mode d, reg := 0x07, data := [t],
       ok := true }]

/-- Port states reachable from the initial state of a port through the foreground calls
`USART_Transmit_IRQ`, `USART_Receive_IRQ`, `USART_Abort_Receive_IRQ` with any arguments
and through invocations of the interrupt handler under any hardware flags and data. -/
inductive Reach : World → Prop
  | start (w : World) (h : w.st = g_usart_init) : Reach w
  | transmit (w : World) (cfg : Option USART_Config_t) (buf : Option (List Nat)) (n : Nat) :
      Reach w → Reach (USART_Transmit_IRQ cfg buf n w).2
  | receive (w : World) (cfg : Option USART_Config_t) (buf : Option Nat) (n : Nat) :
      Reach w → Reach (USART_Receive_IRQ cfg buf n w).2
  | abort (w : World) (cfg : Option USART_Config_t) :
      Reach w → Reach (USART_Abort_Receive_IRQ cfg w).2
  | handler (w : World) (e : Nat × Nat) : Reach w → Reach (irq w e)

/-- Bounds on the indices of a port: `tx_index <= tx_length <= TX_BUFFER_SIZE` and
`rx_index <= rx_length`. -/
structure PortInv (w : World) : Prop where
  tx : w.st.tx_index ≤ w.st.tx_length
  cap : w.st.tx_length ≤ TX_BUFFER_SIZE
  rx : w.st.rx_index ≤ w.st.rx_length

/-! ## Register bit lemmas -/

theorem reg_test_BIT (r i : Nat) : reg_test r (BIT i) = r.testBit i := by
  unfold reg_test BIT
  rw [Nat.and_two_pow]
  cases h : r.testBit i <;> simp

theorem nat_lor_eq_zero (a b : Nat) : a ||| b = 0 ↔ a = 0 ∧ b = 0 := by
  constructor
  · intro h
    have hb : ∀ i, (a ||| b).testBit i = false := by
      intro i
      rw [h]
      exact Nat.zero_testBit i
    constructor
    · apply Nat.eq_of_testBit_eq
      intro i
      have := hb i
      rw [Nat.testBit_or, Bool.or_eq_false_iff] at this
      rw [this.1, Nat.zero_testBit]
    · apply Nat.eq_of_testBit_eq
      intro i
      have := hb i
      rw [Nat.testBit_or, Bool.or_eq_false_iff] at this
      rw [this.2, Nat.zero_testBit]
  · rintro ⟨rfl, rfl⟩
    rfl

theorem reg_test_or (r m1 m2 : Nat) :
    reg_test r (m1 ||| m2) = (reg_test r m1 || reg_test r m2) := by
  unfold reg_test
  rw [Nat.and_or_distrib_left]
  have key : ((r &&& m1) ||| (r &&& m2) = 0) ↔ (r &&& m1 = 0 ∧ r &&& m2 = 0) :=
    nat_lor_eq_zero _ _
  rw [Bool.eq_iff_iff]
  simp only [bne_iff_ne, ne_eq, Bool.or_eq_true, key]
  tauto

theorem testBit_reg_set (r m j : Nat) :
    (reg_set r m).testBit j = (r.testBit j || m.testBit j) := by
  unfold reg_set
  exact Nat.testBit_or r m j

theorem testBit_reg_clear (r m j : Nat) (hj : j < 32) :
    (reg_clear r m).testBit j = (r.testBit j && !m.testBit j) := by
  unfold reg_clear
  have h : (0xFFFFFFFF : Nat).testBit j = true := by
    have : (0xFFFFFFFF : Nat) = 2 ^ 32 - 1 := by norm_num
    rw [this, Nat.testBit_two_pow_sub_one]
    simpa using hj
  rw [Nat.testBit_and, Nat.testBit_xor, h]
  cases m.testBit j <;> simp

theorem testBit_BIT (i j : Nat) : (BIT i).testBit j = decide (i = j) := by
  unfold BIT
  exact Nat.testBit_two_pow

/-! ## Transport engine: foreground calls -/

theorem copy_tx_buffer_apply (src : List Nat) (n : Nat) (dst : Nat → Nat) (j : Nat) :
    copy_tx_buffer src n dst j = if j < min n TX_BUFFER_SIZE then src.getD j 0 else dst j := by
  unfold copy_tx_buffer
  generalize min n TX_BUFFER_SIZE = m
  induction m with
  | zero => simp
  | succ k ih =>
    rw [List.range_succ, List.foldl_append]
    simp only [List.foldl_cons, List.foldl_nil]
    by_cases hj : j = k
    · subst hj
      simp
    · rw [Function.update_noteq hj, ih]
      by_cases h1 : j < k
      · have : j < k + 1 := by omega
        simp [h1, this]
      · have : ¬ j < k + 1 := by omega
        simp [h1, this]

theorem USART_Transmit_IRQ_busy (w : World) (cfg : USART_Config_t) (inst : USART_Instance)
    (buf : List Nat) (n : Nat) (hcfg : cfg.instance_ptr = some inst)
    (hb : w.st.tx_status = USART_TX_Status.USART_TX_BUSY) (h1 : 1 ≤ n) (h2 : n ≤ 512) :
    USART_Transmit_IRQ (some cfg) (some buf) n w
      = (Status.ERROR, { w with st := { w.st with tx_instance := some inst } }) := by
  have hn : ¬ (n ≤ 0 ∨ n > TX_BUFFER_SIZE) := by
    unfold TX_BUFFER_SIZE
    omega
  unfold USART_Transmit_IRQ USART_Get_State
  simp only [hcfg, if_neg hn, hb, if_true]

theorem USART_Transmit_IRQ_idle (w : World) (cfg : USART_Config_t) (inst : USART_Instance)
    (buf : List Nat) (n : Nat) (hcfg : cfg.instance_ptr = some inst)
    (hidle : w.st.tx_status = USART_TX_Status.USART_TX_IDLE) (h1 : 1 ≤ n) (h2 : n ≤ 512) :
    USART_Transmit_IRQ (some cfg) (some buf) n w
      = (Status.SUCCESS,
          { w with
            st := { w.st with
              tx_instance := some inst,
              tx_buffer := copy_tx_buffer buf n w.st.tx_buffer,
              tx_length := n,
              tx_index := 0,
              tx_status := USART_TX_Status.USART_TX_BUSY },
            regs := { w.regs with CR1 := reg_set w.regs.CR1 USART_CR1_TXEIE } }) := by
  have hn : ¬ (n ≤ 0 ∨ n > TX_BUFFER_SIZE) := by
    unfold TX_BUFFER_SIZE
    omega
  have hne : ¬ (w.st.tx_status = USART_TX_Status.USART_TX_BUSY) := by
    rw [hidle]
    decide
  unfold USART_Transmit_IRQ USART_Get_State
  simp only [hcfg, if_neg hn, if_neg hne]

theorem USART_Receive_IRQ_busy (w : World) (cfg : USART_Config_t) (inst : USART_Instance)
    (dest : Nat) (n : Nat) (hcfg : cfg.instance_ptr = some inst)
    (hb : w.st.rx_status = USART_RX_Status.USART_RX_BUSY) (h1 : 1 ≤ n) :
    USART_Receive_IRQ (some cfg) (some dest) n w
      = (Status.ERROR, { w with st := { w.st with rx_instance := some inst } }) := by
  have hn : ¬ (n ≤ 0) := by omega
  unfold USART_Receive_IRQ USART_Get_State
  simp only [hcfg, if_neg hn, hb, if_true]

theorem USART_Receive_IRQ_idle (w : World) (cfg : USART_Config_t) (inst : USART_Instance)
    (dest : Nat) (n : Nat) (hcfg : cfg.instance_ptr = some inst)
    (hidle : w.st.rx_status = USART_RX_Status.USART_RX_IDLE) (h1 : 1 ≤ n) :
    USART_Receive_IRQ (some cfg) (some dest) n w
      = (Status.SUCCESS,
          { w with
            st := { w.st with
              rx_instance := some inst,
              rx_buffer := some dest,
              rx_length := n,
              rx_index := 0,
              rx_status := USART_RX_Status.USART_RX_BUSY },
            regs := { w.regs with CR1 := reg_set w.regs.CR1 USART_CR1_RXNEIE } }) := by
  have hn : ¬ (n ≤ 0) := by omega
  have hne : ¬ (w.st.rx_status = USART_RX_Status.USART_RX_BUSY) := by
    rw [hidle]
    decide
  unfold USART_Receive_IRQ USART_Get_State
  simp only [hcfg, if_neg hn, if_neg hne]

theorem USART_Abort_Receive_IRQ_eq (w : World) (cfg : USART_Config_t) (inst : USART_Instance)
    (hcfg : cfg.instance_ptr = some inst) :
    USART_Abort_Receive_IRQ (some cfg) w
      = (Status.SUCCESS,
          { w with
            regs := { w.regs with CR1 := reg_clear w.regs.CR1 USART_CR1_RXNEIE },
            st := { w.st with
              rx_instance := none,
              rx_buffer := none,
              rx_length := 0,
              rx_index := 0,
              rx_status := USART_RX_Status.USART_RX_IDLE } }) := by
  unfold USART_Abort_Receive_IRQ USART_Get_State
  simp only [hcfg]

/-- C4: a transmit request on a port whose transmit status is Busy returns ERROR and
leaves the transmit buffer, length, cursor and status (indeed everything but the
re-written instance pointer) as they were; a receive request on a port whose receive
status is Busy returns ERROR and leaves the bound destination, length, cursor and status
as they were.  Nothing is stored for later. -/
theorem C4_busy_request_rejected (w : World) (cfg : USART_Config_t) (inst : USART_Instance)
    (buf : List Nat) (n : Nat) (dest : Nat) (m : Nat) (hcfg : cfg.instance_ptr = some inst) :
    (w.st.tx_status = USART_TX_Status.USART_TX_BUSY → 1 ≤ n → n ≤ 512 →
      USART_Transmit_IRQ (some cfg) (some buf) n w
        = (Status.ERROR, { w with st := { w.st with tx_instance := some inst } })) ∧
    (w.st.rx_status = USART_RX_Status.USART_RX_BUSY → 1 ≤ m →
      USART_Receive_IRQ (some cfg) (some dest) m w
        = (Status.ERROR, { w with st := { w.st with rx_instance := some inst } })) :=
  ⟨fun hb h1 h2 => USART_Transmit_IRQ_busy w cfg inst buf n hcfg hb h1 h2,
   fun hb h1 => USART_Receive_IRQ_busy w cfg inst dest m hcfg hb h1⟩

theorem transmit_begins (w : World) (cfg : USART_Config_t) (inst : USART_Instance)
    (b : List Nat) (n : Nat) (hcfg : cfg.instance_ptr = some inst)
    (hidle : w.st.tx_status = USART_TX_Status.USART_TX_IDLE)
    (hlen : b.length = n) (h1 : 1 ≤ n) (h2 : n ≤ 512) :
    (USART_Transmit_IRQ (some cfg) (some b) n w).1 = Status.SUCCESS ∧
    (∀ i (hi : i < b.length),
      (USART_Transmit_IRQ (some cfg) (some b) n w).2.st.tx_buffer i = b.get ⟨i, hi⟩) ∧
    (USART_Transmit_IRQ (some cfg) (some b) n w).2.st.tx_length = n ∧
    (USART_Transmit_IRQ (some cfg) (some b) n w).2.st.tx_index = 0 ∧
    (USART_Transmit_IRQ (some cfg) (some b) n w).2.st.tx_status
      = USART_TX_Status.USART_TX_BUSY ∧
    reg_test (USART_Transmit_IRQ (some cfg) (some b) n w).2.regs.CR1 USART_CR1_TXEIE
      = true := by
  rw [USART_Transmit_IRQ_idle w cfg inst b n hcfg hidle h1 h2]
  refine ⟨rfl, ?_, rfl, rfl, rfl, ?_⟩
  · intro i hi
    show copy_tx_buffer b n w.st.tx_buffer i = _
    rw [copy_tx_buffer_apply]
    have : i < min n TX_BUFFER_SIZE := by
      unfold TX_BUFFER_SIZE
      omega
    rw [if_pos this, List.getD_eq_getElem _ _ hi]
    rfl
  · show reg_test (reg_set w.regs.CR1 USART_CR1_TXEIE) USART_CR1_TXEIE = true
    simp [USART_CR1_TXEIE, reg_test_BIT, testBit_reg_set, testBit_BIT]

/-- C9: a receive request of length 0, or with a null configuration or destination
pointer, returns INVALID_PARAM and leaves the port unchanged; a request of length
n >= 1 on an Idle port returns SUCCESS with the destination bound, rx_length = n,
rx_index = 0, rx_status = Busy and RXNEIE set. -/
theorem C9_receive_begins (w : World) (cfg : USART_Config_t) (inst : USART_Instance)
    (dest : Nat) (n : Nat) (hcfg : cfg.instance_ptr = some inst) :
    (∀ c d, USART_Receive_IRQ c d 0 w = (Status.INVALID_PARAM, w)) ∧
    (∀ d k, USART_Receive_IRQ none d k w = (Status.INVALID_PARAM, w)) ∧
    (∀ c k, USART_Receive_IRQ c none k w = (Status.INVALID_PARAM, w)) ∧
    (w.st.rx_status = USART_RX_Status.USART_RX_IDLE → 1 ≤ n →
      (USART_Receive_IRQ (some cfg) (some dest) n w).1 = Status.SUCCESS ∧
      (USART_Receive_IRQ (some cfg) (some dest) n w).2.st.rx_buffer = some dest ∧
      (USART_Receive_IRQ (some cfg) (some dest) n w).2.st.rx_length = n ∧
      (USART_Receive_IRQ (some cfg) (some dest) n w).2.st.rx_index = 0 ∧
      (USART_Receive_IRQ (some cfg) (some dest) n w).2.st.rx_status
        = USART_RX_Status.USART_RX_BUSY ∧
      reg_test (USART_Receive_IRQ (some cfg) (some dest) n w).2.regs.CR1 USART_CR1_RXNEIE
        = true) := by
  refine ⟨?_, ?_, ?_, ?_⟩
  · intro c d
    cases c <;> cases d <;> simp [USART_Receive_IRQ]
  · intro d k
    simp [USART_Receive_IRQ]
  · intro c k
    cases c <;> simp [USART_Receive_IRQ]
  · intro hidle h1
    rw [USART_Receive_IRQ_idle w cfg inst dest n hcfg hidle h1]
    refine ⟨rfl, rfl, rfl, rfl, rfl, ?_⟩
    show reg_test (reg_set w.regs.CR1 USART_CR1_RXNEIE) USART_CR1_RXNEIE = true
    simp [USART_CR1_RXNEIE, reg_test_BIT, testBit_reg_set, testBit_BIT]

/-- C10: for every port state, aborting a reception returns SUCCESS, clears RXNEIE and
leaves rx_status = Idle, rx_index = 0, rx_length = 0 and no destination (nor receive
instance) bound; the transmit fields, the other CR1 bits, the status and data registers
and the destination memory are unchanged. -/
theorem C10_abort_receive (w : World) (cfg : USART_Config_t) (inst : USART_Instance)
    (hcfg : cfg.instance_ptr = some inst) :
    (USART_Abort_Receive_IRQ (some cfg) w).1 = Status.SUCCESS ∧
    reg_test (USART_Abort_Receive_IRQ (some cfg) w).2.regs.CR1 USART_CR1_RXNEIE = false ∧
    (USART_Abort_Receive_IRQ (some cfg) w).2.st.rx_status = USART_RX_Status.USART_RX_IDLE ∧
    (USART_Abort_Receive_IRQ (some cfg) w).2.st.rx_index = 0 ∧
    (USART_Abort_Receive_IRQ (some cfg) w).2.st.rx_length = 0 ∧
    (USART_Abort_Receive_IRQ (some cfg) w).2.st.rx_buffer = none ∧
    (USART_Abort_Receive_IRQ (some cfg) w).2.st.rx_instance = none ∧
    (USART_Abort_Receive_IRQ (some cfg) w).2.st.tx_buffer = w.st.tx_buffer ∧
    (USART_Abort_Receive_IRQ (some cfg) w).2.st.tx_length = w.st.tx_length ∧
    (USART_Abort_Receive_IRQ (some cfg) w).2.st.tx_index = w.st.tx_index ∧
    (USART_Abort_Receive_IRQ (some cfg) w).2.st.tx_status = w.st.tx_status ∧
    (USART_Abort_Receive_IRQ (some cfg) w).2.st.tx_instance = w.st.tx_instance ∧
    (∀ j, j < 32 → j ≠ 5 →
      (USART_Abort_Receive_IRQ (some cfg) w).2.regs.CR1.testBit j = w.regs.CR1.testBit j) ∧
    (USART_Abort_Receive_IRQ (some cfg) w).2.regs.SR = w.regs.SR ∧
    (USART_Abort_Receive_IRQ (some cfg) w).2.regs.TDR = w.regs.TDR ∧
    (USART_Abort_Receive_IRQ (some cfg) w).2.mem = w.mem := by
  rw [USART_Abort_Receive_IRQ_eq w cfg inst hcfg]
  refine ⟨rfl, ?_, rfl, rfl, rfl, rfl, rfl, rfl, rfl, rfl, rfl, rfl, ?_, rfl, rfl, rfl⟩
  · show reg_test (reg_clear w.regs.CR1 USART_CR1_RXNEIE) USART_CR1_RXNEIE = false
    simp [USART_CR1_RXNEIE, reg_test_BIT, testBit_reg_clear, testBit_BIT]
  · intro j hj hne
    show (reg_clear w.regs.CR1 USART_CR1_RXNEIE).testBit j = _
    simp only [USART_CR1_RXNEIE]
    rw [testBit_reg_clear _ _ _ hj, testBit_BIT]
    have : ¬ (5 = j) := fun h => hne h.symm
    simp [this]

/-- C5: on an Idle port, a transmit request for a byte sequence of length n with
1 <= n <= 512 returns SUCCESS and leaves tx_buffer[0..n-1] equal to the bytes,
tx_length = n, tx_index = 0, tx_status = Busy and TXEIE set. -/
theorem C5_transmit_begins (w : World) (cfg : USART_Config_t) (inst : USART_Instance)
    (b : List Nat) (n : Nat) (hcfg : cfg.instance_ptr = some inst)
    (hidle : w.st.tx_status = USART_TX_Status.USART_TX_IDLE)
    (hlen : b.length = n) (h1 : 1 ≤ n) (h2 : n ≤ 512) :
    (USART_Transmit_IRQ (some cfg) (some b) n w).1 = Status.SUCCESS ∧
    (∀ i (hi : i < b.length),
      (USART_Transmit_IRQ (some cfg) (some b) n w).2.st.tx_buffer i = b.get ⟨i, hi⟩) ∧
    (USART_Transmit_IRQ (some cfg) (some b) n w).2.st.tx_length = n ∧
    (USART_Transmit_IRQ (some cfg) (some b) n w).2.st.tx_index = 0 ∧
    (USART_Transmit_IRQ (some cfg) (some b) n w).2.st.tx_status
      = USART_TX_Status.USART_TX_BUSY ∧
    reg_test (USART_Transmit_IRQ (some cfg) (some b) n w).2.regs.CR1 USART_CR1_TXEIE
      = true :=
  transmit_begins w cfg inst b n hcfg hidle hlen h1 h2

/-! ## Transport engine: interrupt handler, part by part -/

theorem TXE_write (w : World) (h1 : w.st.tx_instance.isSome = true)
    (h2 : reg_test w.regs.SR USART_SR_TXE = true) (h3 : w.st.tx_index < w.st.tx_length) :
    USART_IRQHandler_TXE w
      = { w with
          regs := w.regs.write_DR (w.st.tx_buffer w.st.tx_index),
          st := { w.st with tx_index := (w.st.tx_index + 1) % 65536 } } := by
  unfold USART_IRQHandler_TXE
  simp only [h1, h2, Bool.and_self, if_true, if_pos h3]

theorem TXE_done (w : World) (h1 : w.st.tx_instance.isSome = true)
    (h2 : reg_test w.regs.SR USART_SR_TXE = true) (h3 : ¬ w.st.tx_index < w.st.tx_length) :
    USART_IRQHandler_TXE w
      = { w with regs := { w.regs with
            CR1 := reg_set (reg_clear w.regs.CR1 USART_CR1_TXEIE) USART_CR1_TCIE } } := by
  unfold USART_IRQHandler_TXE
  simp only [h1, h2, Bool.and_self, if_true, if_neg h3]

theorem TXE_skip (w : World)
    (h : (w.st.tx_instance.isSome && reg_test w.regs.SR USART_SR_TXE) = false) :
    USART_IRQHandler_TXE w = w := by
  unfold USART_IRQHandler_TXE
  simp only [h, Bool.false_eq_true, if_false]

theorem TXE_frame (w : World) : TXE_Frame w (USART_IRQHandler_TXE w) := by
  unfold USART_IRQHandler_TXE
  split_ifs
  · refine ⟨rfl, rfl, rfl, rfl, rfl, rfl, rfl, rfl, rfl, rfl, rfl, rfl, rfl, ?_, ?_⟩
    · intro j hj h6 h7
      show (reg_clear w.regs.SR (USART_SR_TXE ||| USART_SR_TC)).testBit j = _
      rw [testBit_reg_clear _ _ _ hj, Nat.testBit_or]
      simp only [USART_SR_TXE, USART_SR_TC, testBit_BIT]
      have a : ¬ (7 = j) := fun h => h7 h.symm
      have b : ¬ (6 = j) := fun h => h6 h.symm
      simp [a, b]
    · intro j _ _ _
      rfl
  · refine ⟨rfl, rfl, rfl, rfl, rfl, rfl, rfl, rfl, rfl, rfl, rfl, rfl, rfl, ?_, ?_⟩
    · intro j _ _ _
      rfl
    · intro j hj h6 h7
      show (reg_set (reg_clear w.regs.CR1 USART_CR1_TXEIE) USART_CR1_TCIE).testBit j = _
      rw [testBit_reg_set, testBit_reg_clear _ _ _ hj]
      simp only [USART_CR1_TXEIE, USART_CR1_TCIE, testBit_BIT]
      have a : ¬ (7 = j) := fun h => h7 h.symm
      have b : ¬ (6 = j) := fun h => h6 h.symm
      simp [a, b]
  · exact ⟨rfl, rfl, rfl, rfl, rfl, rfl, rfl, rfl, rfl, rfl, rfl, rfl, rfl,
      fun _ _ _ _ => rfl, fun _ _ _ _ => rfl⟩

theorem TC_fire (w : World) (h1 : w.st.tx_instance.isSome = true)
    (h2 : reg_test w.regs.SR USART_SR_TC = true) :
    USART_IRQHandler_TC w
      = { w with
          regs := { w.regs with
            CR1 := reg_clear w.regs.CR1 USART_CR1_TCIE,
            SR := reg_clear w.regs.SR USART_SR_TC },
          st := { w.st with tx_status := USART_TX_Status.USART_TX_IDLE } } := by
  unfold USART_IRQHandler_TC
  simp only [h1, h2, Bool.and_self, if_true]

theorem TC_skip (w : World)
    (h : (w.st.tx_instance.isSome && reg_test w.regs.SR USART_SR_TC) = false) :
    USART_IRQHandler_TC w = w := by
  unfold USART_IRQHandler_TC
  simp only [h, Bool.false_eq_true, if_false]

theorem TC_frame (w : World) : TC_Frame w (USART_IRQHandler_TC w) := by
  unfold USART_IRQHandler_TC
  split_ifs
  · refine ⟨rfl, rfl, rfl, rfl, rfl, rfl, rfl, rfl, rfl, rfl, rfl, rfl, rfl, rfl, ?_, ?_⟩
    · intro j hj h6
      show (reg_clear w.regs.SR USART_SR_TC).testBit j = _
      rw [testBit_reg_clear _ _ _ hj]
      simp only [USART_SR_TC, testBit_BIT]
      have b : ¬ (6 = j) := fun h => h6 h.symm
      simp [b]
    · intro j hj h6
      show (reg_clear w.regs.CR1 USART_CR1_TCIE).testBit j = _
      rw [testBit_reg_clear _ _ _ hj]
      simp only [USART_CR1_TCIE, testBit_BIT]
      have b : ¬ (6 = j) := fun h => h6 h.symm
      simp [b]
  · exact ⟨rfl, rfl, rfl, rfl, rfl, rfl, rfl, rfl, rfl, rfl, rfl, rfl, rfl, rfl,
      fun _ _ _ => rfl, fun _ _ _ => rfl⟩

theorem RXNE_skip (w : World)
    (h : (w.st.rx_instance.isSome && reg_test w.regs.SR USART_SR_RXNE) = false) :
    USART_IRQHandler_RXNE w = w := by
  unfold USART_IRQHandler_RXNE
  simp only [h, Bool.false_eq_true, if_false]

theorem RXNE_error (w : World) (h1 : w.st.rx_instance.isSome = true)
    (h2 : reg_test w.regs.SR USART_SR_RXNE = true)
    (h3 : reg_test w.regs.SR USART_SR_ERRORS = true) :
    USART_IRQHandler_RXNE w
      = { w with
          regs := { w.regs.read_DR.2 with
            CR1 := reg_clear w.regs.CR1 USART_CR1_RXNEIE },
          st := { w.st with rx_status := USART_RX_Status.USART_RX_IDLE } } := by
  unfold USART_SR_ERRORS at h3
  unfold USART_IRQHandler_RXNE
  simp only [h1, h2, h3, Bool.and_self, if_true]
  rfl

theorem RXNE_store (w : World) (h1 : w.st.rx_instance.isSome = true)
    (h2 : reg_test w.regs.SR USART_SR_RXNE = true)
    (h3 : reg_test w.regs.SR USART_SR_ERRORS = false)
    (h4 : w.st.rx_status = USART_RX_Status.USART_RX_BUSY)
    (h5 : w.st.rx_index < w.st.rx_length)
    (h6 : ¬ ((w.st.rx_index + 1) % 65536 ≥ w.st.rx_length)) :
    USART_IRQHandler_RXNE w
      = { w with
          regs := w.regs.read_DR.2,
          mem := store_rx w (w.regs.DR % 256),
          st := { w.st with rx_index := (w.st.rx_index + 1) % 65536 } } := by
  unfold USART_SR_ERRORS at h3
  unfold USART_IRQHandler_RXNE
  simp only [h1, h2, h3, h4, Bool.and_self, if_true, Bool.false_eq_true, if_false, if_pos h5,
    if_neg h6]
  rfl

theorem RXNE_store_last (w : World) (h1 : w.st.rx_instance.isSome = true)
    (h2 : reg_test w.regs.SR USART_SR_RXNE = true)
    (h3 : reg_test w.regs.SR USART_SR_ERRORS = false)
    (h4 : w.st.rx_status = USART_RX_Status.USART_RX_BUSY)
    (h5 : w.st.rx_index < w.st.rx_length)
    (h6 : (w.st.rx_index + 1) % 65536 ≥ w.st.rx_length) :
    USART_IRQHandler_RXNE w
      = { w with
          regs := { w.regs.read_DR.2 with CR1 := reg_clear w.regs.CR1 USART_CR1_RXNEIE },
          mem := store_rx w (w.regs.DR % 256),
          st := { w.st with
            rx_index := (w.st.rx_index + 1) % 65536,
            rx_status := USART_RX_Status.USART_RX_IDLE } } := by
  unfold USART_SR_ERRORS at h3
  unfold USART_IRQHandler_RXNE
  simp only [h1, h2, h3, h4, Bool.and_self, if_true, Bool.false_eq_true, if_false, if_pos h5,
    if_pos h6]
  rfl

theorem RXNE_discard (w : World) (h1 : w.st.rx_instance.isSome = true)
    (h2 : reg_test w.regs.SR USART_SR_RXNE = true)
    (h3 : reg_test w.regs.SR USART_SR_ERRORS = false)
    (h4 : w.st.rx_status = USART_RX_Status.USART_RX_IDLE ∨ ¬ w.st.rx_index < w.st.rx_length) :
    USART_IRQHandler_RXNE w = { w with regs := w.regs.read_DR.2 } := by
  unfold USART_SR_ERRORS at h3
  unfold USART_IRQHandler_RXNE
  simp only [h1, h2, h3, Bool.and_self, if_true, Bool.false_eq_true, if_false]
  rcases h4 with h4 | h4
  · have : ¬ (w.st.rx_status = USART_RX_Status.USART_RX_BUSY) := by
      rw [h4]
      decide
    rw [if_neg this]
  · split_ifs <;> rfl

theorem testBit_read_DR (p : USART_t) (j : Nat) (hj : j < 32) :
    p.read_DR.2.SR.testBit j
      = (p.SR.testBit j && !(j = 5 ∨ j = 3 ∨ j = 2 ∨ j = 1 ∨ j = 0)) := by
  show (reg_clear p.SR _).testBit j = _
  rw [testBit_reg_clear _ _ _ hj]
  simp only [USART_SR_RXNE, USART_SR_ORE, USART_SR_NF, USART_SR_FE, USART_SR_PE,
    Nat.testBit_or, testBit_BIT]
  congr 1
  by_cases a : j = 5 <;> by_cases b : j = 3 <;> by_cases c : j = 2 <;>
    by_cases d : j = 1 <;> by_cases e : j = 0 <;> simp_all [eq_comm]

theorem RXNE_frame (w : World) : RXNE_Frame w (USART_IRQHandler_RXNE w) := by
  have hsr : ∀ j, j < 32 → j ≠ 5 → j ≠ 3 → j ≠ 2 → j ≠ 1 → j ≠ 0 →
      w.regs.read_DR.2.SR.testBit j = w.regs.SR.testBit j := by
    intro j hj a b c d e
    rw [testBit_read_DR _ _ hj]
    simp [a, b, c, d, e]
  have hcr : ∀ j, j < 32 → j ≠ 5 →
      (reg_clear w.regs.CR1 USART_CR1_RXNEIE).testBit j = w.regs.CR1.testBit j := by
    intro j hj a
    rw [testBit_reg_clear _ _ _ hj]
    simp only [USART_CR1_RXNEIE, testBit_BIT]
    have b : ¬ (5 = j) := fun h => a h.symm
    simp [b]
  unfold USART_IRQHandler_RXNE
  dsimp only
  split_ifs with c1 c2 c3 c4 c5
  · exact ⟨rfl, rfl, rfl, rfl, rfl, rfl, rfl, rfl, rfl, rfl, rfl, rfl, hsr, hcr,
      fun _ => ⟨rfl, rfl, rfl⟩⟩
  · exact ⟨rfl, rfl, rfl, rfl, rfl, rfl, rfl, rfl, rfl, rfl, rfl, rfl, hsr, hcr,
      fun h => absurd c3 (by rw [h]; decide)⟩
  · exact ⟨rfl, rfl, rfl, rfl, rfl, rfl, rfl, rfl, rfl, rfl, rfl, rfl, hsr,
      fun _ _ _ => rfl, fun h => absurd c3 (by rw [h]; decide)⟩
  · exact ⟨rfl, rfl, rfl, rfl, rfl, rfl, rfl, rfl, rfl, rfl, rfl, rfl, hsr,
      fun _ _ _ => rfl, fun h => ⟨h, rfl, rfl⟩⟩
  · exact ⟨rfl, rfl, rfl, rfl, rfl, rfl, rfl, rfl, rfl, rfl, rfl, rfl, hsr,
      fun _ _ _ => rfl, fun h => ⟨h, rfl, rfl⟩⟩
  · exact ⟨rfl, rfl, rfl, rfl, rfl, rfl, rfl, rfl, rfl, rfl, rfl, rfl,
      fun _ _ _ _ _ _ _ => rfl, fun _ _ _ => rfl, fun h => ⟨h, rfl, rfl⟩⟩

/-! ## Transport engine: the whole handler -/

theorem reg_test_RXNE (r : Nat) : reg_test r USART_SR_RXNE = r.testBit 5 := reg_test_BIT r 5

theorem reg_test_TC (r : Nat) : reg_test r USART_SR_TC = r.testBit 6 := reg_test_BIT r 6

theorem reg_test_TXE (r : Nat) : reg_test r USART_SR_TXE = r.testBit 7 := reg_test_BIT r 7

theorem reg_test_RXNEIE (r : Nat) : reg_test r USART_CR1_RXNEIE = r.testBit 5 := reg_test_BIT r 5

theorem reg_test_TCIE (r : Nat) : reg_test r USART_CR1_TCIE = r.testBit 6 := reg_test_BIT r 6

theorem reg_test_TXEIE (r : Nat) : reg_test r USART_CR1_TXEIE = r.testBit 7 := reg_test_BIT r 7

theorem reg_test_ERRORS (r : Nat) :
    reg_test r USART_SR_ERRORS
      = (r.testBit 3 || r.testBit 2 || r.testBit 1 || r.testBit 0) := by
  unfold USART_SR_ERRORS USART_SR_ORE USART_SR_NF USART_SR_FE USART_SR_PE
  simp only [reg_test_or, reg_test_BIT]

theorem TC_tx_idle (w : World) (h : w.st.tx_status = USART_TX_Status.USART_TX_IDLE) :
    (USART_IRQHandler_TC w).st.tx_status = USART_TX_Status.USART_TX_IDLE := by
  unfold USART_IRQHandler_TC
  split_ifs
  · rfl
  · exact h

theorem handler_frame (w : World) : Handler_Frame w (USART_IRQHandler w) := by
  unfold USART_IRQHandler
  have hTC := TC_frame (USART_IRQHandler_RXNE (USART_IRQHandler_TXE w))
  have hRX := RXNE_frame (USART_IRQHandler_TXE w)
  have hTX := TXE_frame w
  refine ⟨?_, ?_, ?_, ?_, ?_, ?_, ?_, ?_, ?_, ?_, ?_, ?_⟩
  · rw [hTC.tx_instance, hRX.tx_instance, hTX.tx_instance]
  · rw [hTC.tx_buffer, hRX.tx_buffer, hTX.tx_buffer]
  · rw [hTC.tx_length, hRX.tx_length, hTX.tx_length]
  · rw [hTC.rx_instance, hRX.rx_instance, hTX.rx_instance]
  · rw [hTC.rx_buffer, hRX.rx_buffer, hTX.rx_buffer]
  · rw [hTC.rx_length, hRX.rx_length, hTX.rx_length]
  · rw [hTC.tick, hRX.tick, hTX.tick]
  · rw [hTC.trace, hRX.trace, hTX.trace]
  · rw [hTC.DR, hRX.DR, hTX.DR]
  · intro j hj h5 h6 h7
    rw [hTC.CR1 j hj h6, hRX.CR1 j hj h5, hTX.CR1 j hj h6 h7]
  · intro h
    have h1 : (USART_IRQHandler_TXE w).st.rx_status = USART_RX_Status.USART_RX_IDLE := by
      rw [hTX.rx_status, h]
    obtain ⟨a, b, c⟩ := hRX.rx_idle h1
    refine ⟨?_, ?_, ?_⟩
    · rw [hTC.rx_status, a]
    · rw [hTC.mem, b, hTX.mem]
    · rw [hTC.rx_index, c, hTX.rx_index]
  · intro h
    apply TC_tx_idle
    rw [hRX.tx_status, hTX.tx_status, h]

theorem irq_rx_error (w : World) (sr dr : Nat)
    (hinst : w.st.rx_instance.isSome = true)
    (hrx : reg_test sr USART_SR_RXNE = true)
    (herr : reg_test sr USART_SR_ORE = true ∨ reg_test sr USART_SR_NF = true ∨
      reg_test sr USART_SR_FE = true ∨ reg_test sr USART_SR_PE = true) :
    reg_test (irq w (sr, dr)).regs.CR1 USART_CR1_RXNEIE = false ∧
    (irq w (sr, dr)).st.rx_status = USART_RX_Status.USART_RX_IDLE ∧
    (irq w (sr, dr)).mem = w.mem ∧
    (irq w (sr, dr)).st.rx_index = w.st.rx_index ∧
    (irq w (sr, dr)).st.rx_buffer = w.st.rx_buffer ∧
    (irq w (sr, dr)).st.rx_length = w.st.rx_length := by
  have herr2 : reg_test sr USART_SR_ERRORS = true := by
    unfold USART_SR_ERRORS
    simp only [reg_test_or, Bool.or_eq_true]
    tauto
  unfold irq USART_IRQHandler
  generalize hw0 : ({ w with regs := { w.regs with SR := (sr, dr).1, DR := (sr, dr).2 } } : World)
    = w0
  have e1 : w0.st = w.st := by rw [← hw0]
  have e2 : w0.regs.SR = sr := by rw [← hw0]
  have e3 : w0.mem = w.mem := by rw [← hw0]
  have hTX := TXE_frame w0
  generalize USART_IRQHandler_TXE w0 = wT at hTX
  have b5 : wT.regs.SR.testBit 5 = true := by
    rw [hTX.SR 5 (by norm_num) (by norm_num) (by norm_num), e2, ← reg_test_RXNE]
    exact hrx
  have berr : reg_test wT.regs.SR USART_SR_ERRORS = true := by
    rw [reg_test_ERRORS] at herr2 ⊢
    rw [hTX.SR 3 (by norm_num) (by norm_num) (by norm_num),
      hTX.SR 2 (by norm_num) (by norm_num) (by norm_num),
      hTX.SR 1 (by norm_num) (by norm_num) (by norm_num),
      hTX.SR 0 (by norm_num) (by norm_num) (by norm_num), e2]
    exact herr2
  have hi : wT.st.rx_instance.isSome = true := by
    rw [hTX.rx_instance, e1]
    exact hinst
  have hR := RXNE_error wT hi (by rw [reg_test_RXNE]; exact b5) berr
  have hTC := TC_frame (USART_IRQHandler_RXNE wT)
  rw [hR] at hTC
  rw [hR]
  refine ⟨?_, ?_, ?_, ?_, ?_, ?_⟩
  · rw [reg_test_RXNEIE, hTC.CR1 5 (by norm_num) (by norm_num)]
    show (reg_clear wT.regs.CR1 USART_CR1_RXNEIE).testBit 5 = false
    rw [testBit_reg_clear _ _ _ (by norm_num)]
    simp [USART_CR1_RXNEIE, testBit_BIT]
  · rw [hTC.rx_status]
  · rw [hTC.mem]
    show wT.mem = w.mem
    rw [hTX.mem, e3]
  · rw [hTC.rx_index]
    show wT.st.rx_index = _
    rw [hTX.rx_index, e1]
  · rw [hTC.rx_buffer]
    show wT.st.rx_buffer = _
    rw [hTX.rx_buffer, e1]
  · rw [hTC.rx_length]
    show wT.st.rx_length = _
    rw [hTX.rx_length, e1]

/-- C8: when the handler observes a received byte (receive instance bound, RXNE set)
together with any of the overrun, noise, framing or parity flags, it clears RXNEIE and
sets rx_status to Idle without storing the byte: destination memory, rx_index, the bound
destination and rx_length are unchanged.  The handler returns nothing. -/
theorem C8_receive_error_discards (w : World) (sr dr : Nat)
    (hinst : w.st.rx_instance.isSome = true)
    (hrx : reg_test sr USART_SR_RXNE = true)
    (herr : reg_test sr USART_SR_ORE = true ∨ reg_test sr USART_SR_NF = true ∨
      reg_test sr USART_SR_FE = true ∨ reg_test sr USART_SR_PE = true) :
    reg_test (irq w (sr, dr)).regs.CR1 USART_CR1_RXNEIE = false ∧
    (irq w (sr, dr)).st.rx_status = USART_RX_Status.USART_RX_IDLE ∧
    (irq w (sr, dr)).mem = w.mem ∧
    (irq w (sr, dr)).st.rx_index = w.st.rx_index ∧
    (irq w (sr, dr)).st.rx_buffer = w.st.rx_buffer ∧
    (irq w (sr, dr)).st.rx_length = w.st.rx_length :=
  irq_rx_error w sr dr hinst hrx herr

/-! ## Transmit drain -/

theorem handler_tx_write (w : World) (h1 : w.st.tx_instance.isSome = true)
    (h2 : w.regs.SR.testBit 7 = true) (h3 : w.st.tx_index < w.st.tx_length) :
    (USART_IRQHandler w).st.tx_index = (w.st.tx_index + 1) % 65536 ∧
    (USART_IRQHandler w).regs.TDR = w.regs.TDR ++ [w.st.tx_buffer w.st.tx_index] ∧
    (USART_IRQHandler w).st.tx_status = w.st.tx_status ∧
    (USART_IRQHandler w).regs.CR1.testBit 6 = w.regs.CR1.testBit 6 ∧
    (USART_IRQHandler w).regs.CR1.testBit 7 = w.regs.CR1.testBit 7 := by
  unfold USART_IRQHandler
  have hT := TXE_write w h1 (by rw [reg_test_TXE]; exact h2) h3
  have hRX := RXNE_frame (USART_IRQHandler_TXE w)
  have b6 : (USART_IRQHandler_RXNE (USART_IRQHandler_TXE w)).regs.SR.testBit 6 = false := by
    rw [hRX.SR 6 (by norm_num) (by norm_num) (by norm_num) (by norm_num) (by norm_num)
      (by norm_num), hT]
    show (reg_clear w.regs.SR (USART_SR_TXE ||| USART_SR_TC)).testBit 6 = false
    rw [testBit_reg_clear _ _ _ (by norm_num)]
    simp [USART_SR_TXE, USART_SR_TC, Nat.testBit_or, testBit_BIT]
  rw [TC_skip _ (by rw [reg_test_TC, b6, Bool.and_false])]
  refine ⟨?_, ?_, ?_, ?_, ?_⟩
  · rw [hRX.tx_index, hT]
  · rw [hRX.TDR, hT]
    rfl
  · rw [hRX.tx_status, hT]
  · rw [hRX.CR1 6 (by norm_num) (by norm_num), hT]
    rfl
  · rw [hRX.CR1 7 (by norm_num) (by norm_num), hT]
    rfl

theorem handler_tx_done (w : World) (h1 : w.st.tx_instance.isSome = true)
    (h2 : w.regs.SR.testBit 7 = true) (h3 : ¬ w.st.tx_index < w.st.tx_length)
    (h4 : w.regs.SR.testBit 6 = false) :
    (USART_IRQHandler w).st.tx_index = w.st.tx_index ∧
    (USART_IRQHandler w).regs.TDR = w.regs.TDR ∧
    (USART_IRQHandler w).st.tx_status = w.st.tx_status ∧
    (USART_IRQHandler w).regs.CR1.testBit 6 = true ∧
    (USART_IRQHandler w).regs.CR1.testBit 7 = false := by
  unfold USART_IRQHandler
  have hT := TXE_done w h1 (by rw [reg_test_TXE]; exact h2) h3
  have hRX := RXNE_frame (USART_IRQHandler_TXE w)
  have b6 : (USART_IRQHandler_RXNE (USART_IRQHandler_TXE w)).regs.SR.testBit 6 = false := by
    rw [hRX.SR 6 (by norm_num) (by norm_num) (by norm_num) (by norm_num) (by norm_num)
      (by norm_num), hT]
    exact h4
  rw [TC_skip _ (by rw [reg_test_TC, b6, Bool.and_false])]
  refine ⟨?_, ?_, ?_, ?_, ?_⟩
  · rw [hRX.tx_index, hT]
  · rw [hRX.TDR, hT]
  · rw [hRX.tx_status, hT]
  · rw [hRX.CR1 6 (by norm_num) (by norm_num), hT]
    show (reg_set (reg_clear w.regs.CR1 USART_CR1_TXEIE) USART_CR1_TCIE).testBit 6 = true
    rw [testBit_reg_set]
    simp [USART_CR1_TCIE, testBit_BIT]
  · rw [hRX.CR1 7 (by norm_num) (by norm_num), hT]
    show (reg_set (reg_clear w.regs.CR1 USART_CR1_TXEIE) USART_CR1_TCIE).testBit 7 = false
    rw [testBit_reg_set, testBit_reg_clear _ _ _ (by norm_num)]
    simp [USART_CR1_TCIE, USART_CR1_TXEIE, testBit_BIT]

theorem TXE_no_write (w : World) (h3 : ¬ w.st.tx_index < w.st.tx_length) :
    (USART_IRQHandler_TXE w).regs.SR = w.regs.SR ∧
    (USART_IRQHandler_TXE w).regs.TDR = w.regs.TDR ∧
    (USART_IRQHandler_TXE w).st = w.st := by
  unfold USART_IRQHandler_TXE
  split_ifs
  · exact ⟨rfl, rfl, rfl⟩
  · exact ⟨rfl, rfl, rfl⟩

theorem handler_tc (w : World) (h1 : w.st.tx_instance.isSome = true)
    (h3 : ¬ w.st.tx_index < w.st.tx_length) (h4 : w.regs.SR.testBit 6 = true) :
    (USART_IRQHandler w).st.tx_index = w.st.tx_index ∧
    (USART_IRQHandler w).regs.TDR = w.regs.TDR ∧
    (USART_IRQHandler w).st.tx_status = USART_TX_Status.USART_TX_IDLE ∧
    (USART_IRQHandler w).regs.CR1.testBit 6 = false ∧
    (USART_IRQHandler w).regs.SR.testBit 6 = false ∧
    (w.regs.SR.testBit 7 = true → (USART_IRQHandler w).regs.CR1.testBit 7 = false) := by
  unfold USART_IRQHandler
  have t4 : w.regs.SR.testBit 7 = true → (USART_IRQHandler_TXE w).regs.CR1.testBit 7 = false := by
    intro h7
    rw [TXE_done w h1 (by rw [reg_test_TXE]; exact h7) h3]
    show (reg_set (reg_clear w.regs.CR1 USART_CR1_TXEIE) USART_CR1_TCIE).testBit 7 = false
    rw [testBit_reg_set, testBit_reg_clear _ _ _ (by norm_num)]
    simp [USART_CR1_TCIE, USART_CR1_TXEIE, testBit_BIT]
  obtain ⟨t1, t2, t3⟩ := TXE_no_write w h3
  have hRX := RXNE_frame (USART_IRQHandler_TXE w)
  have b6 : (USART_IRQHandler_RXNE (USART_IRQHandler_TXE w)).regs.SR.testBit 6 = true := by
    rw [hRX.SR 6 (by norm_num) (by norm_num) (by norm_num) (by norm_num) (by norm_num)
      (by norm_num), t1]
    exact h4
  have hi : (USART_IRQHandler_RXNE (USART_IRQHandler_TXE w)).st.tx_instance.isSome = true := by
    rw [hRX.tx_instance, t3]
    exact h1
  have hTCf := TC_frame (USART_IRQHandler_RXNE (USART_IRQHandler_TXE w))
  have c7 : w.regs.SR.testBit 7 = true →
      (USART_IRQHandler_TC (USART_IRQHandler_RXNE (USART_IRQHandler_TXE w))).regs.CR1.testBit 7
        = false := by
    intro h7
    rw [hTCf.CR1 7 (by norm_num) (by norm_num), hRX.CR1 7 (by norm_num) (by norm_num)]
    exact t4 h7
  refine ⟨?_, ?_, ?_, ?_, ?_, c7⟩
  all_goals rw [TC_fire _ hi (by rw [reg_test_TC]; exact b6)]
  · show (USART_IRQHandler_RXNE (USART_IRQHandler_TXE w)).st.tx_index = _
    rw [hRX.tx_index, t3]
  · show (USART_IRQHandler_RXNE (USART_IRQHandler_TXE w)).regs.TDR = _
    rw [hRX.TDR, t2]
  · show (reg_clear _ USART_CR1_TCIE).testBit 6 = false
    rw [testBit_reg_clear _ _ _ (by norm_num)]
    simp [USART_CR1_TCIE, testBit_BIT]
  · show (reg_clear _ USART_SR_TC).testBit 6 = false
    rw [testBit_reg_clear _ _ _ (by norm_num)]
    simp [USART_SR_TC, testBit_BIT]

theorem drain_step (b T0 : List Nat) (w : World) (k : Nat) (e : Nat × Nat)
    (h : TxDraining b T0 w k) (hk : k < b.length) (hb : b.length ≤ 512)
    (hf : reg_test e.1 USART_SR_TXE = true) :
    TxDraining b T0 (irq w e) (k + 1) := by
  unfold irq
  generalize hw0 : ({ w with regs := { w.regs with SR := e.1, DR := e.2 } } : World) = w0
  have e1 : w0.st = w.st := by rw [← hw0]
  have e2 : w0.regs.SR = e.1 := by rw [← hw0]
  have e3 : w0.regs.TDR = w.regs.TDR := by rw [← hw0]
  have e4 : w0.regs.CR1 = w.regs.CR1 := by rw [← hw0]
  have hF := handler_frame w0
  obtain ⟨a1, a2, a3, _, a5⟩ := handler_tx_write w0 (by rw [e1]; exact h.inst)
    (by rw [e2, ← reg_test_TXE]; exact hf) (by rw [e1, h.idx, h.len]; exact hk)
  refine ⟨?_, ?_, ?_, ?_, ?_, ?_, ?_⟩
  · rw [hF.tx_instance, e1]
    exact h.inst
  · rw [hF.tx_length, e1]
    exact h.len
  · rw [a1, e1, h.idx]
    apply Nat.mod_eq_of_lt
    omega
  · intro i hi
    rw [hF.tx_buffer, e1]
    exact h.buf i hi
  · rw [a3, e1]
    exact h.busy
  · rw [a2, e3, h.tdr, e1, h.idx, h.buf k hk, List.append_assoc]
    congr 1
    rw [← List.take_concat_get b k hk, List.concat_eq_append]
    rfl
  · rw [a5, e4]
    exact h.txeie

theorem drain_irqs (b T0 : List Nat) (hb : b.length ≤ 512) (es : List (Nat × Nat)) :
    ∀ (w : World) (k : Nat), TxDraining b T0 w k → k + es.length ≤ b.length →
      (∀ e ∈ es, reg_test e.1 USART_SR_TXE = true) →
      TxDraining b T0 (irqs w es) (k + es.length) := by
  induction es with
  | nil =>
    intro w k h _ _
    exact h
  | cons e es ih =>
    intro w k h hk hf
    have hk1 : k < b.length := by
      simp only [List.length_cons] at hk
      omega
    have h1 := drain_step b T0 w k e h hk1 hb (hf e (List.mem_cons_self _ _))
    have h2 := ih (irq w e) (k + 1) h1
      (by simp only [List.length_cons] at hk; omega)
      (fun e' he' => hf e' (List.mem_cons_of_mem _ he'))
    have : k + (e :: es).length = k + 1 + es.length := by
      simp only [List.length_cons]
      omega
    rw [this]
    exact h2

theorem transmit_draining (w : World) (cfg : USART_Config_t) (inst : USART_Instance)
    (b : List Nat) (hcfg : cfg.instance_ptr = some inst)
    (hidle : w.st.tx_status = USART_TX_Status.USART_TX_IDLE)
    (h1 : 1 ≤ b.length) (h2 : b.length ≤ 512) :
    TxDraining b w.regs.TDR (USART_Transmit_IRQ (some cfg) (some b) b.length w).2 0 := by
  obtain ⟨_, c2, c3, c4, c5, c6⟩ := transmit_begins w cfg inst b b.length hcfg hidle rfl h1 h2
  refine ⟨?_, c3, c4, c2, c5, ?_, ?_⟩
  · rw [USART_Transmit_IRQ_idle w cfg inst b b.length hcfg hidle h1 h2]
    rfl
  · rw [USART_Transmit_IRQ_idle w cfg inst b b.length hcfg hidle h1 h2]
    simp
  · rw [← reg_test_TXEIE]
    exact c6

/-- C6: after a successful transmit request for the bytes b (length n), any k <= n
handler runs that see TXE (and not TC) have written exactly b[0..k-1], in order, to
the data register and left tx_index = k (status still Busy); the next run that sees TXE
(and not TC) writes nothing, clears TXEIE and sets TCIE; a run that then sees TC clears
the TC flag and TCIE and sets tx_status to Idle, again writing nothing. -/
theorem C6_transmit_drain (w : World) (cfg : USART_Config_t) (inst : USART_Instance)
    (b : List Nat) (n : Nat) (hcfg : cfg.instance_ptr = some inst)
    (hidle : w.st.tx_status = USART_TX_Status.USART_TX_IDLE)
    (hlen : b.length = n) (h1 : 1 ≤ n) (h2 : n ≤ 512) :
    (∀ es : List (Nat × Nat), es.length ≤ n →
      (∀ e ∈ es, reg_test e.1 USART_SR_TXE = true ∧ reg_test e.1 USART_SR_TC = false) →
      (irqs (USART_Transmit_IRQ (some cfg) (some b) n w).2 es).regs.TDR
          = w.regs.TDR ++ b.take es.length ∧
      (irqs (USART_Transmit_IRQ (some cfg) (some b) n w).2 es).st.tx_index = es.length ∧
      (irqs (USART_Transmit_IRQ (some cfg) (some b) n w).2 es).st.tx_status
          = USART_TX_Status.USART_TX_BUSY) ∧
    (∀ (es : List (Nat × Nat)) (e : Nat × Nat), es.length = n →
      (∀ e ∈ es, reg_test e.1 USART_SR_TXE = true ∧ reg_test e.1 USART_SR_TC = false) →
      reg_test e.1 USART_SR_TXE = true → reg_test e.1 USART_SR_TC = false →
      (irq (irqs (USART_Transmit_IRQ (some cfg) (some b) n w).2 es) e).regs.TDR
          = w.regs.TDR ++ b ∧
      reg_test (irq (irqs (USART_Transmit_IRQ (some cfg) (some b) n w).2 es) e).regs.CR1
          USART_CR1_TXEIE = false ∧
      reg_test (irq (irqs (USART_Transmit_IRQ (some cfg) (some b) n w).2 es) e).regs.CR1
          USART_CR1_TCIE = true ∧
      (irq (irqs (USART_Transmit_IRQ (some cfg) (some b) n w).2 es) e).st.tx_status
          = USART_TX_Status.USART_TX_BUSY ∧
      ∀ e2 : Nat × Nat, reg_test e2.1 USART_SR_TC = true →
        reg_test (irq (irq (irqs (USART_Transmit_IRQ (some cfg) (some b) n w).2 es) e)
            e2).regs.SR USART_SR_TC = false ∧
        reg_test (irq (irq (irqs (USART_Transmit_IRQ (some cfg) (some b) n w).2 es) e)
            e2).regs.CR1 USART_CR1_TCIE = false ∧
        (irq (irq (irqs (USART_Transmit_IRQ (some cfg) (some b) n w).2 es) e) e2).st.tx_status
            = USART_TX_Status.USART_TX_IDLE ∧
        (irq (irq (irqs (USART_Transmit_IRQ (some cfg) (some b) n w).2 es) e) e2).regs.TDR
            = w.regs.TDR ++ b) := by
  subst hlen
  have h0 := transmit_draining w cfg inst b hcfg hidle h1 h2
  generalize (USART_Transmit_IRQ (some cfg) (some b) b.length w).2 = w0 at h0
  constructor
  · intro es hes hf
    have h := drain_irqs b w.regs.TDR h2 es w0 0 h0 (by omega) (fun e he => (hf e he).1)
    rw [Nat.zero_add] at h
    exact ⟨h.tdr, h.idx, h.busy⟩
  · intro es e hes hf hf1 hf2
    have h := drain_irqs b w.regs.TDR h2 es w0 0 h0 (by omega) (fun e he => (hf e he).1)
    rw [Nat.zero_add, hes] at h
    generalize irqs w0 es = wn at h
    -- the run that finds the cursor at the length
    have hd : (irq wn e).st.tx_index = b.length ∧ (irq wn e).regs.TDR = w.regs.TDR ++ b ∧
        (irq wn e).st.tx_status = USART_TX_Status.USART_TX_BUSY ∧
        (irq wn e).regs.CR1.testBit 6 = true ∧ (irq wn e).regs.CR1.testBit 7 = false ∧
        (irq wn e).st.tx_instance.isSome = true ∧ (irq wn e).st.tx_length = b.length := by
      unfold irq
      generalize hw0 : ({ wn with regs := { wn.regs with SR := e.1, DR := e.2 } } : World) = w1
      have e1 : w1.st = wn.st := by rw [← hw0]
      have e2 : w1.regs.SR = e.1 := by rw [← hw0]
      have e3 : w1.regs.TDR = wn.regs.TDR := by rw [← hw0]
      have hF := handler_frame w1
      obtain ⟨a1, a2, a3, a4, a5⟩ := handler_tx_done w1 (by rw [e1]; exact h.inst)
        (by rw [e2, ← reg_test_TXE]; exact hf1)
        (by rw [e1, h.idx, h.len]; omega)
        (by rw [e2, ← reg_test_TC]; exact hf2)
      refine ⟨?_, ?_, ?_, a4, a5, ?_, ?_⟩
      · rw [a1, e1, h.idx]
      · rw [a2, e3, h.tdr, List.take_length]
      · rw [a3, e1, h.busy]
      · rw [hF.tx_instance, e1]
        exact h.inst
      · rw [hF.tx_length, e1, h.len]
    obtain ⟨d1, d2, d3, d4, d5, d6, d7⟩ := hd
    refine ⟨d2, ?_, ?_, d3, ?_⟩
    · rw [reg_test_TXEIE]
      exact d5
    · rw [reg_test_TCIE]
      exact d4
    · intro e2 hf3
      generalize irq wn e = wd at d1 d2 d3 d4 d5 d6 d7
      unfold irq
      generalize hw0 : ({ wd with regs := { wd.regs with SR := e2.1, DR := e2.2 } } : World) = w1
      have e1 : w1.st = wd.st := by rw [← hw0]
      have e2' : w1.regs.SR = e2.1 := by rw [← hw0]
      have e3 : w1.regs.TDR = wd.regs.TDR := by rw [← hw0]
      obtain ⟨_, a2, a3, a4, a5, _⟩ := handler_tc w1 (by rw [e1]; exact d6)
        (by rw [e1, d1, d7]; omega)
        (by rw [e2', ← reg_test_TC]; exact hf3)
      refine ⟨?_, ?_, a3, ?_⟩
      · rw [reg_test_TC]
        exact a5
      · rw [reg_test_TCIE]
        exact a4
      · rw [a2, e3, d2]

/-! ## Receive fill -/

theorem store_rx_apply (w : World) (dest : Nat) (data : Nat) (i : Nat)
    (h : w.st.rx_buffer = some dest) :
    store_rx w data dest i = if i = w.st.rx_index then data else w.mem dest i := by
  unfold store_rx
  rw [h]
  simp only [Function.update_same]
  by_cases hi : i = w.st.rx_index
  · rw [if_pos hi, hi, Function.update_same]
  · rw [if_neg hi, Function.update_noteq hi]

theorem handler_rx_store (w : World) (h1 : w.st.rx_instance.isSome = true)
    (h2 : w.regs.SR.testBit 5 = true) (h3 : reg_test w.regs.SR USART_SR_ERRORS = false)
    (h4 : w.st.rx_status = USART_RX_Status.USART_RX_BUSY)
    (h5 : w.st.rx_index < w.st.rx_length) (h6 : w.st.rx_length < 65536) :
    (USART_IRQHandler w).st.rx_index = w.st.rx_index + 1 ∧
    (USART_IRQHandler w).mem = store_rx w (w.regs.DR % 256) ∧
    (w.st.rx_index + 1 < w.st.rx_length →
      (USART_IRQHandler w).st.rx_status = USART_RX_Status.USART_RX_BUSY ∧
      (USART_IRQHandler w).regs.CR1.testBit 5 = w.regs.CR1.testBit 5) ∧
    (w.st.rx_index + 1 = w.st.rx_length →
      (USART_IRQHandler w).st.rx_status = USART_RX_Status.USART_RX_IDLE ∧
      (USART_IRQHandler w).regs.CR1.testBit 5 = false) := by
  unfold USART_IRQHandler
  have hTX := TXE_frame w
  generalize USART_IRQHandler_TXE w = wT at hTX
  have hTC := TC_frame (USART_IRQHandler_RXNE wT)
  have hmod : (w.st.rx_index + 1) % 65536 = w.st.rx_index + 1 := by
    apply Nat.mod_eq_of_lt
    omega
  have g1 : wT.st.rx_instance.isSome = true := by rw [hTX.rx_instance]; exact h1
  have g2 : reg_test wT.regs.SR USART_SR_RXNE = true := by
    rw [reg_test_RXNE, hTX.SR 5 (by norm_num) (by norm_num) (by norm_num)]
    exact h2
  have g3 : reg_test wT.regs.SR USART_SR_ERRORS = false := by
    rw [reg_test_ERRORS] at h3 ⊢
    rw [hTX.SR 3 (by norm_num) (by norm_num) (by norm_num),
      hTX.SR 2 (by norm_num) (by norm_num) (by norm_num),
      hTX.SR 1 (by norm_num) (by norm_num) (by norm_num),
      hTX.SR 0 (by norm_num) (by norm_num) (by norm_num)]
    exact h3
  have g4 : wT.st.rx_status = USART_RX_Status.USART_RX_BUSY := by rw [hTX.rx_status]; exact h4
  have g5 : wT.st.rx_index < wT.st.rx_length := by rw [hTX.rx_index, hTX.rx_length]; exact h5
  have gs : store_rx wT (wT.regs.DR % 256) = store_rx w (w.regs.DR % 256) := by
    unfold store_rx
    rw [hTX.rx_buffer, hTX.mem, hTX.rx_index, hTX.DR]
  by_cases hlast : w.st.rx_index + 1 < w.st.rx_length
  · have g6 : ¬ ((wT.st.rx_index + 1) % 65536 ≥ wT.st.rx_length) := by
      rw [hTX.rx_index, hTX.rx_length, hmod]
      omega
    have hR := RXNE_store wT g1 g2 g3 g4 g5 g6
    rw [hR] at hTC
    rw [hR]
    refine ⟨?_, ?_, ?_, ?_⟩
    · rw [hTC.rx_index]
      show (wT.st.rx_index + 1) % 65536 = _
      rw [hTX.rx_index, hmod]
    · rw [hTC.mem]
      exact gs
    · intro _
      constructor
      · rw [hTC.rx_status]
        exact g4
      · rw [hTC.CR1 5 (by norm_num) (by norm_num)]
        show wT.regs.read_DR.2.CR1.testBit 5 = _
        show wT.regs.CR1.testBit 5 = _
        rw [hTX.CR1 5 (by norm_num) (by norm_num) (by norm_num)]
    · intro h
      omega
  · have g6 : (wT.st.rx_index + 1) % 65536 ≥ wT.st.rx_length := by
      rw [hTX.rx_index, hTX.rx_length, hmod]
      omega
    have hR := RXNE_store_last wT g1 g2 g3 g4 g5 g6
    rw [hR] at hTC
    rw [hR]
    refine ⟨?_, ?_, ?_, ?_⟩
    · rw [hTC.rx_index]
      show (wT.st.rx_index + 1) % 65536 = _
      rw [hTX.rx_index, hmod]
    · rw [hTC.mem]
      exact gs
    · intro h
      omega
    · intro _
      constructor
      · rw [hTC.rx_status]
      · rw [hTC.CR1 5 (by norm_num) (by norm_num)]
        show (reg_clear wT.regs.CR1 USART_CR1_RXNEIE).testBit 5 = false
        rw [testBit_reg_clear _ _ _ (by norm_num)]
        simp [USART_CR1_RXNEIE, testBit_BIT]

theorem fill_step (dest n : Nat) (bs : List Nat) (w : World) (e : Nat × Nat)
    (h : RxFilling dest n bs w) (hk : bs.length < n) (hn : n < 65536)
    (hf : reg_test e.1 USART_SR_RXNE = true) (hne : reg_test e.1 USART_SR_ERRORS = false) :
    RxFilling dest n (bs ++ [e.2 % 256]) (irq w e) := by
  unfold irq
  generalize hw0 : ({ w with regs := { w.regs with SR := e.1, DR := e.2 } } : World) = w0
  have e1 : w0.st = w.st := by rw [← hw0]
  have e2 : w0.regs.SR = e.1 := by rw [← hw0]
  have e3 : w0.regs.DR = e.2 := by rw [← hw0]
  have e4 : w0.regs.CR1 = w.regs.CR1 := by rw [← hw0]
  have e5 : w0.mem = w.mem := by rw [← hw0]
  have hF := handler_frame w0
  obtain ⟨a1, a2, a3, a4⟩ := handler_rx_store w0 (by rw [e1]; exact h.inst)
    (by rw [e2, ← reg_test_RXNE]; exact hf) (by rw [e2]; exact hne)
    (by rw [e1]; exact (h.busy hk).1) (by rw [e1, h.idx, h.len]; exact hk)
    (by rw [e1, h.len]; exact hn)
  have hb0 : w0.st.rx_buffer = some dest := by rw [e1]; exact h.buf
  refine ⟨?_, ?_, ?_, ?_, ?_, ?_, ?_⟩
  · rw [hF.rx_instance, e1]
    exact h.inst
  · rw [hF.rx_buffer, e1]
    exact h.buf
  · rw [hF.rx_length, e1]
    exact h.len
  · rw [a1, e1, h.idx, List.length_append]
    rfl
  · intro i hi
    rw [a2, store_rx_apply w0 dest _ i hb0, e1, h.idx, e3, e5]
    by_cases hi2 : i = bs.length
    · rw [if_pos hi2]
      subst hi2
      simp
    · rw [if_neg hi2]
      have hi3 : i < bs.length := by
        rw [List.length_append] at hi
        simp only [List.length_singleton] at hi
        omega
      rw [h.data i hi3]
      simp [List.getElem_append_left hi3]
  · intro hlt
    rw [List.length_append] at hlt
    simp only [List.length_singleton] at hlt
    obtain ⟨b1, b2⟩ := a3 (by rw [e1, h.idx, h.len]; exact hlt)
    refine ⟨b1, ?_⟩
    rw [b2, e4]
    exact (h.busy hk).2
  · intro heq
    rw [List.length_append] at heq
    simp only [List.length_singleton] at heq
    exact a4 (by rw [e1, h.idx, h.len]; exact heq)

theorem fill_irqs (dest n : Nat) (hn : n < 65536) (es : List (Nat × Nat)) :
    ∀ (w : World) (bs : List Nat), RxFilling dest n bs w → bs.length + es.length ≤ n →
      (∀ e ∈ es, reg_test e.1 USART_SR_RXNE = true ∧ reg_test e.1 USART_SR_ERRORS = false) →
      RxFilling dest n (bs ++ es.map (fun e => e.2 % 256)) (irqs w es) := by
  induction es with
  | nil =>
    intro w bs h _ _
    simpa using h
  | cons e es ih =>
    intro w bs h hk hf
    have hk1 : bs.length < n := by
      simp only [List.length_cons] at hk
      omega
    obtain ⟨f1, f2⟩ := hf e (List.mem_cons_self _ _)
    have h1 := fill_step dest n bs w e h hk1 hn f1 f2
    have h2 := ih (irq w e) (bs ++ [e.2 % 256]) h1
      (by simp only [List.length_cons, List.length_append, List.length_singleton,
            List.length_nil] at hk ⊢
          omega)
      (fun e' he' => hf e' (List.mem_cons_of_mem _ he'))
    simpa [irqs] using h2

theorem receive_filling (w : World) (cfg : USART_Config_t) (inst : USART_Instance)
    (dest n : Nat) (hcfg : cfg.instance_ptr = some inst)
    (hidle : w.st.rx_status = USART_RX_Status.USART_RX_IDLE) (h1 : 1 ≤ n) :
    RxFilling dest n [] (USART_Receive_IRQ (some cfg) (some dest) n w).2 := by
  rw [USART_Receive_IRQ_idle w cfg inst dest n hcfg hidle h1]
  refine ⟨rfl, rfl, rfl, rfl, ?_, ?_, ?_⟩
  · intro i hi
    simp at hi
  · intro _
    refine ⟨rfl, ?_⟩
    show (reg_set w.regs.CR1 USART_CR1_RXNEIE).testBit 5 = true
    rw [testBit_reg_set]
    simp [USART_CR1_RXNEIE, testBit_BIT]
  · intro h
    simp only [List.length_nil] at h
    omega

/-- C7: after a successful receive request for n bytes, once the handler has processed
k <= n received bytes with no error flag set, the first k destination bytes are those
bytes (the low 8 bits of the data register) in arrival order and rx_index = k; while
k < n the status is still Busy (RXNEIE still set), and at k = n RXNEIE is cleared and
the status is Idle. -/
theorem C7_receive_fill (w : World) (cfg : USART_Config_t) (inst : USART_Instance)
    (dest n : Nat) (hcfg : cfg.instance_ptr = some inst)
    (hidle : w.st.rx_status = USART_RX_Status.USART_RX_IDLE) (h1 : 1 ≤ n) (hn : n < 65536)
    (es : List (Nat × Nat)) (hes : es.length ≤ n)
    (hf : ∀ e ∈ es, reg_test e.1 USART_SR_RXNE = true ∧
      reg_test e.1 USART_SR_ORE = false ∧ reg_test e.1 USART_SR_NF = false ∧
      reg_test e.1 USART_SR_FE = false ∧ reg_test e.1 USART_SR_PE = false) :
    (∀ i (hi : i < es.length),
      (irqs (USART_Receive_IRQ (some cfg) (some dest) n w).2 es).mem dest i
        = (es.get ⟨i, hi⟩).2 % 256) ∧
    (irqs (USART_Receive_IRQ (some cfg) (some dest) n w).2 es).st.rx_index = es.length ∧
    (es.length < n →
      (irqs (USART_Receive_IRQ (some cfg) (some dest) n w).2 es).st.rx_status
        = USART_RX_Status.USART_RX_BUSY ∧
      reg_test (irqs (USART_Receive_IRQ (some cfg) (some dest) n w).2 es).regs.CR1
        USART_CR1_RXNEIE = true) ∧
    (es.length = n →
      (irqs (USART_Receive_IRQ (some cfg) (some dest) n w).2 es).st.rx_status
        = USART_RX_Status.USART_RX_IDLE ∧
      reg_test (irqs (USART_Receive_IRQ (some cfg) (some dest) n w).2 es).regs.CR1
        USART_CR1_RXNEIE = false) := by
  have h0 := receive_filling w cfg inst dest n hcfg hidle h1
  have hf2 : ∀ e ∈ es, reg_test e.1 USART_SR_RXNE = true ∧
      reg_test e.1 USART_SR_ERRORS = false := by
    intro e he
    obtain ⟨a, b, c, d, f⟩ := hf e he
    refine ⟨a, ?_⟩
    unfold USART_SR_ERRORS
    simp only [reg_test_or, b, c, d, f, Bool.or_self]
  have h := fill_irqs dest n hn es _ [] h0 (by simpa using hes) hf2
  simp only [List.nil_append] at h
  generalize irqs (USART_Receive_IRQ (some cfg) (some dest) n w).2 es = wk at h
  have hl : (es.map (fun e => e.2 % 256)).length = es.length := List.length_map _ _
  refine ⟨?_, ?_, ?_, ?_⟩
  · intro i hi
    rw [h.data i (by rw [hl]; exact hi)]
    simp
  · rw [h.idx, hl]
  · intro hlt
    rw [reg_test_RXNEIE]
    exact h.busy (by rw [hl]; exact hlt)
  · intro heq
    rw [reg_test_RXNEIE]
    exact h.done (by rw [hl]; exact heq)

/-! ## The mock environment: hardware slice -/

theorem mock_rxd_facts (outbox : List Nat) (r : USART_t) :
    (mock_rxd outbox r).2.CR1 = r.CR1 ∧ (mock_rxd outbox r).2.TDR = r.TDR ∧
    (∀ j, j ≠ 5 → (mock_rxd outbox r).2.SR.testBit j = r.SR.testBit j) := by
  unfold mock_rxd
  split_ifs
  · exact ⟨rfl, rfl, fun _ _ => rfl⟩
  · cases outbox with
    | nil => exact ⟨rfl, rfl, fun _ _ => rfl⟩
    | cons b rest =>
      refine ⟨rfl, rfl, ?_⟩
      intro j hj
      show (reg_set r.SR USART_SR_RXNE).testBit j = _
      rw [testBit_reg_set]
      simp only [USART_SR_RXNE, testBit_BIT]
      have : ¬ (5 = j) := fun h => hj h.symm
      simp [this]

theorem mock_hw_regs {δ : Type} (D : Device δ) (m : Mock δ) (r : USART_t) :
    (mock_hw D m r).2 = mock_txd (mock_rxd m.outbox r).2 := by
  unfold mock_hw
  dsimp only
  split <;> rfl

theorem mock_hw_facts {δ : Type} (D : Device δ) (m : Mock δ) (r : USART_t) :
    (mock_hw D m r).2.CR1 = r.CR1 ∧
    (mock_hw D m r).2.TDR = [] ∧
    (mock_hw D m r).2.SR.testBit 7 = true ∧
    (r.TDR = [] → (mock_hw D m r).2.SR.testBit 6 = r.SR.testBit 6) ∧
    (r.TDR ≠ [] → (mock_hw D m r).2.SR.testBit 6 = true) ∧
    (∀ j, j ≠ 5 → j ≠ 6 → j ≠ 7 → (mock_hw D m r).2.SR.testBit j = r.SR.testBit j) := by
  obtain ⟨a, b, c⟩ := mock_rxd_facts m.outbox r
  rw [mock_hw_regs]
  unfold mock_txd
  dsimp only
  rw [b]
  refine ⟨a, rfl, ?_, ?_, ?_, ?_⟩
  · split_ifs
    · rw [testBit_reg_set]
      simp [USART_SR_TXE, testBit_BIT]
    · rw [testBit_reg_set, testBit_reg_set]
      simp [USART_SR_TXE, testBit_BIT]
  · intro h
    rw [if_pos h, testBit_reg_set, c 6 (by norm_num)]
    simp [USART_SR_TXE, testBit_BIT]
  · intro h
    rw [if_neg h, testBit_reg_set]
    simp [USART_SR_TC, testBit_BIT]
  · intro j h5 h6 h7
    have a6 : ¬ (6 = j) := fun h => h6 h.symm
    have a7 : ¬ (7 = j) := fun h => h7 h.symm
    split_ifs
    · rw [testBit_reg_set, c j h5]
      simp [USART_SR_TXE, testBit_BIT, a7]
    · rw [testBit_reg_set, testBit_reg_set, c j h5]
      simp [USART_SR_TXE, USART_SR_TC, testBit_BIT, a6, a7]

/-! ## The mock environment: one slot -/

theorem frame_refl (w : World) : Frame 0 w w :=
  ⟨rfl, rfl, rfl, rfl, rfl, rfl, rfl, fun h => ⟨h, rfl, rfl⟩, fun h => h, Nat.le_refl _⟩

theorem frame_trans {a b : Nat} {w w1 w2 : World} (h1 : Frame a w w1) (h2 : Frame b w1 w2) :
    Frame (a + b) w w2 := by
  refine ⟨?_, ?_, ?_, ?_, ?_, ?_, ?_, ?_, ?_, ?_⟩
  · rw [h2.tx_instance, h1.tx_instance]
  · rw [h2.tx_buffer, h1.tx_buffer]
  · rw [h2.tx_length, h1.tx_length]
  · rw [h2.rx_instance, h1.rx_instance]
  · rw [h2.rx_buffer, h1.rx_buffer]
  · rw [h2.rx_length, h1.rx_length]
  · rw [h2.trace, h1.trace]
  · intro h
    obtain ⟨x1, x2, x3⟩ := h1.rx_idle h
    obtain ⟨y1, y2, y3⟩ := h2.rx_idle x1
    exact ⟨y1, by rw [y2, x2], by rw [y3, x3]⟩
  · intro h
    exact h2.tx_idle (h1.tx_idle h)
  · have := h1.tick
    have := h2.tick
    omega

theorem frame_mono {a b : Nat} {w w1 : World} (h : Frame a w w1) (hab : a ≤ b) :
    Frame b w w1 :=
  { h with tick := by have := h.tick; omega }

theorem mock_poll_irq {δ : Type} (D : Device δ) (m : Mock δ) (w : World)
    (h : irq_pending (mock_hw D m w.regs).2 = true) :
    (mock_poll D m w).2 = USART_IRQHandler { w with regs := (mock_hw D m w.regs).2 } := by
  unfold mock_poll
  dsimp only
  rw [if_pos h]

theorem mock_poll_tick {δ : Type} (D : Device δ) (m : Mock δ) (w : World)
    (h : irq_pending (mock_hw D m w.regs).2 = false) :
    (mock_poll D m w).2 = SysTick_Handler { w with regs := (mock_hw D m w.regs).2 } := by
  unfold mock_poll
  dsimp only
  rw [h]
  rfl

theorem mock_poll_frame {δ : Type} (D : Device δ) (m : Mock δ) (w : World) :
    Frame 1 w (mock_poll D m w).2 := by
  cases h : irq_pending (mock_hw D m w.regs).2
  · rw [mock_poll_tick D m w h]
    refine ⟨rfl, rfl, rfl, rfl, rfl, rfl, rfl, fun h => ⟨h, rfl, rfl⟩, fun h => h, ?_⟩
    show (w.g_systick_time + 1) % 4294967296 ≤ _
    exact Nat.mod_le _ _
  · rw [mock_poll_irq D m w h]
    have hF := handler_frame { w with regs := (mock_hw D m w.regs).2 }
    refine ⟨hF.tx_instance, hF.tx_buffer, hF.tx_length, hF.rx_instance, hF.rx_buffer,
      hF.rx_length, hF.trace, hF.rx_idle, hF.tx_idle, ?_⟩
    rw [hF.tick]
    exact Nat.le_succ _

theorem polls_frame {δ : Type} (D : Device δ) (k : Nat) :
    ∀ s : Mock δ × World, Frame k s.2 (polls (mock D) k s).2 := by
  induction k with
  | zero =>
    intro s
    exact frame_refl s.2
  | succ k ih =>
    intro s
    have h1 := mock_poll_frame D s.1 s.2
    have h2 := ih (mock_poll D s.1 s.2)
    have := frame_trans h1 h2
    rw [Nat.add_comm] at this
    exact this

theorem handler_quiet (w : World) (h7 : w.regs.CR1.testBit 7 = false)
    (h6 : w.regs.SR.testBit 6 = false) (hidx : ¬ w.st.tx_index < w.st.tx_length) :
    (USART_IRQHandler w).regs.CR1.testBit 7 = false ∧
    (USART_IRQHandler w).regs.SR.testBit 6 = false ∧
    (USART_IRQHandler w).regs.TDR = w.regs.TDR ∧
    (USART_IRQHandler w).st.tx_index = w.st.tx_index ∧
    (USART_IRQHandler w).st.tx_status = w.st.tx_status := by
  unfold USART_IRQHandler
  obtain ⟨t1, t2, t3⟩ := TXE_no_write w hidx
  have t7 : (USART_IRQHandler_TXE w).regs.CR1.testBit 7 = false := by
    unfold USART_IRQHandler_TXE
    split_ifs
    · show (reg_set (reg_clear w.regs.CR1 USART_CR1_TXEIE) USART_CR1_TCIE).testBit 7 = false
      rw [testBit_reg_set, testBit_reg_clear _ _ _ (by norm_num)]
      simp [USART_CR1_TCIE, USART_CR1_TXEIE, testBit_BIT]
    · exact h7
  have hRX := RXNE_frame (USART_IRQHandler_TXE w)
  have b6 : (USART_IRQHandler_RXNE (USART_IRQHandler_TXE w)).regs.SR.testBit 6 = false := by
    rw [hRX.SR 6 (by norm_num) (by norm_num) (by norm_num) (by norm_num) (by norm_num)
      (by norm_num), t1]
    exact h6
  rw [TC_skip _ (by rw [reg_test_TC, b6, Bool.and_false])]
  refine ⟨?_, b6, ?_, ?_, ?_⟩
  · rw [hRX.CR1 7 (by norm_num) (by norm_num)]
    exact t7
  · rw [hRX.TDR, t2]
  · rw [hRX.tx_index, t3]
  · rw [hRX.tx_status, t3]

theorem irq_self (w : World) : irq w (w.regs.SR, w.regs.DR) = USART_IRQHandler w := rfl

/-- One slot of the mock environment during the receive phase: the invariant is kept,
and either the handler ran (tick unchanged; a Busy receiver took one more byte or went
Idle) or a tick elapsed with the port state unchanged. -/
theorem mock_poll_rx {δ : Type} (D : Device δ) (m : Mock δ) (w : World) (h : RxW w) :
    RxW (mock_poll D m w).2 ∧
    (((mock_poll D m w).2.g_systick_time = w.g_systick_time ∧
        (w.st.rx_status = USART_RX_Status.USART_RX_BUSY →
          (mock_poll D m w).2.st.rx_status = USART_RX_Status.USART_RX_IDLE ∨
          (mock_poll D m w).2.st.rx_index = w.st.rx_index + 1)) ∨
      ((mock_poll D m w).2.g_systick_time = (w.g_systick_time + 1) % 4294967296 ∧
        (mock_poll D m w).2.st = w.st)) := by
  obtain ⟨f1, f2, f3, f4, _, f6⟩ := mock_hw_facts D m w.regs
  have s6 : (mock_hw D m w.regs).2.SR.testBit 6 = false := by
    rw [f4 h.quiet.tdr]
    exact h.quiet.tc
  cases hp : irq_pending (mock_hw D m w.regs).2
  · -- a tick elapses
    rw [mock_poll_tick D m w hp]
    refine ⟨⟨⟨?_, s6, f2, h.quiet.idx, h.quiet.idle⟩, ?_⟩, Or.inr ⟨rfl, rfl⟩⟩
    · show (mock_hw D m w.regs).2.CR1.testBit 7 = false
      rw [f1]
      exact h.quiet.txeie
    · intro hb
      have := h.rx hb
      refine ⟨this.inst, ?_, this.idx, this.len⟩
      show (mock_hw D m w.regs).2.CR1.testBit 5 = true
      rw [f1]
      exact this.ie
  · -- the handler runs
    rw [mock_poll_irq D m w hp]
    generalize hw1 : ({ w with regs := (mock_hw D m w.regs).2 } : World) = w1
    have e1 : w1.st = w.st := by rw [← hw1]
    have e2 : w1.regs = (mock_hw D m w.regs).2 := by rw [← hw1]
    have e3 : w1.g_systick_time = w.g_systick_time := by rw [← hw1]
    have hF := handler_frame w1
    have hT : (USART_IRQHandler w1).g_systick_time = w.g_systick_time := by rw [hF.tick, e3]
    obtain ⟨q1, q2, q3, q4, q5⟩ := handler_quiet w1
      (by rw [e2, f1]; exact h.quiet.txeie) (by rw [e2]; exact s6)
      (by rw [e1]; exact h.quiet.idx)
    have hQ : Quiet (USART_IRQHandler w1) := by
      refine ⟨q1, q2, ?_, ?_, ?_⟩
      · rw [q3, e2]
        exact f2
      · rw [q4, hF.tx_length, e1]
        exact h.quiet.idx
      · rw [q5, e1]
        exact h.quiet.idle
    have p5 : (mock_hw D m w.regs).2.CR1.testBit 5 = true ∧
        (mock_hw D m w.regs).2.SR.testBit 5 = true := by
      unfold irq_pending at hp
      rw [reg_test_TXEIE, reg_test_TCIE, reg_test_RXNEIE, reg_test_TXE, reg_test_TC,
        reg_test_RXNE, f1, h.quiet.txeie, s6] at hp
      rw [f1]
      simpa using hp
    by_cases hb : w.st.rx_status = USART_RX_Status.USART_RX_BUSY
    · have hi := h.rx hb
      by_cases herr : reg_test w1.regs.SR USART_SR_ERRORS = true
      · -- line error: the reception is dropped
        have herr2 : reg_test w1.regs.SR USART_SR_ORE = true ∨
            reg_test w1.regs.SR USART_SR_NF = true ∨
            reg_test w1.regs.SR USART_SR_FE = true ∨ reg_test w1.regs.SR USART_SR_PE = true := by
          unfold USART_SR_ERRORS at herr
          simp only [reg_test_or, Bool.or_eq_true] at herr
          tauto
        have hE := irq_rx_error w1 w1.regs.SR w1.regs.DR (by rw [e1]; exact hi.inst)
          (by rw [reg_test_RXNE, e2]; exact p5.2) herr2
        rw [irq_self] at hE
        refine ⟨⟨hQ, ?_⟩, Or.inl ⟨hT, fun _ => Or.inl hE.2.1⟩⟩
        intro hb2
        rw [hE.2.1] at hb2
        exact absurd hb2 (by decide)
      · -- a byte is stored
        have herr3 : reg_test w1.regs.SR USART_SR_ERRORS = false := by
          cases hh : reg_test w1.regs.SR USART_SR_ERRORS
          · rfl
          · exact absurd hh herr
        obtain ⟨a1, _, a3, a4⟩ := handler_rx_store w1 (by rw [e1]; exact hi.inst)
          (by rw [e2]; exact p5.2) herr3 (by rw [e1]; exact hb)
          (by rw [e1]; exact hi.idx) (by rw [e1]; exact hi.len)
        rw [e1] at a1 a3 a4
        refine ⟨⟨hQ, ?_⟩, Or.inl ⟨hT, fun _ => Or.inr a1⟩⟩
        intro hb2
        by_cases hlast : w.st.rx_index + 1 < w.st.rx_length
        · obtain ⟨_, b2⟩ := a3 hlast
          refine ⟨?_, ?_, ?_, ?_⟩
          · rw [hF.rx_instance, e1]
            exact hi.inst
          · rw [b2, e2]
            exact p5.1
          · rw [a1, hF.rx_length, e1]
            exact hlast
          · rw [hF.rx_length, e1]
            exact hi.len
        · have heq : w.st.rx_index + 1 = w.st.rx_length := by
            have := hi.idx
            omega
          obtain ⟨b1, _⟩ := a4 heq
          rw [b1] at hb2
          exact absurd hb2 (by decide)
    · -- receiver Idle: it stays Idle
      have hidle : w1.st.rx_status = USART_RX_Status.USART_RX_IDLE := by
        rw [e1]
        cases hh : w.st.rx_status
        · rfl
        · exact absurd hh hb
      obtain ⟨c1, _, _⟩ := hF.rx_idle hidle
      refine ⟨⟨hQ, ?_⟩, Or.inl ⟨hT, fun hb2 => absurd hb2 hb⟩⟩
      intro hb2
      rw [c1] at hb2
      exact absurd hb2 (by decide)

theorem polls_rx {δ : Type} (D : Device δ) (k : Nat) :
    ∀ s : Mock δ × World, RxW s.2 → RxW (polls (mock D) k s).2 := by
  induction k with
  | zero =>
    intro s h
    exact h
  | succ k ih =>
    intro s h
    exact ih (mock_poll D s.1 s.2) (mock_poll_rx D s.1 s.2 h).1

/-! ## Single-precision arithmetic: rounding -/

theorem round_even_floor_le (q : ℚ) : ⌊q⌋ ≤ round_even q := by
  unfold round_even
  split_ifs <;> omega

theorem round_even_le_floor_succ (q : ℚ) : round_even q ≤ ⌊q⌋ + 1 := by
  unfold round_even
  split_ifs <;> omega

theorem round_even_sub_le (q : ℚ) : ((round_even q : ℤ) : ℚ) - q ≤ 1 / 2 := by
  have h1 := Int.floor_le q
  have h2 := Int.lt_floor_add_one q
  unfold round_even
  split_ifs with a b c
  · linarith
  · push_cast
    linarith
  · linarith
  · push_cast
    linarith

theorem sub_round_even_le (q : ℚ) : q - ((round_even q : ℤ) : ℚ) ≤ 1 / 2 := by
  have h1 := Int.floor_le q
  have h2 := Int.lt_floor_add_one q
  unfold round_even
  split_ifs with a b c
  · linarith
  · push_cast
    linarith
  · linarith
  · push_cast
    linarith

theorem round_even_intCast (n : ℤ) : round_even (n : ℚ) = n := by
  unfold round_even
  rw [Int.floor_intCast]
  simp

theorem round_even_mono {p q : ℚ} (h : p ≤ q) : round_even p ≤ round_even q := by
  have hf : ⌊p⌋ ≤ ⌊q⌋ := Int.floor_mono h
  rcases lt_or_eq_of_le hf with hlt | heq
  · have := round_even_le_floor_succ p
    have := round_even_floor_le q
    omega
  · unfold round_even
    rw [heq]
    have hq : p - (⌊q⌋ : ℚ) ≤ q - (⌊q⌋ : ℚ) := by linarith
    split_ifs <;> first | omega | (exfalso; linarith)

theorem f32_ulp_pos (x : ℚ) : 0 < f32_ulp x := by
  unfold f32_ulp
  positivity

theorem f32_nonneg {x : ℚ} (h : 0 ≤ x) : 0 ≤ f32 x := by
  unfold f32
  have hu := f32_ulp_pos x
  have h0 : (0 : ℤ) ≤ round_even (x / f32_ulp x) := by
    have := round_even_mono (show (0 : ℚ) ≤ x / f32_ulp x by positivity)
    have e : round_even (0 : ℚ) = 0 := by simpa using round_even_intCast 0
    rw [e] at this
    exact this
  have : (0 : ℚ) ≤ (round_even (x / f32_ulp x) : ℚ) := by exact_mod_cast h0
  positivity

/-- The rounding error is at most half a unit in the last place. -/
theorem f32_sub_abs_le (x : ℚ) : |f32 x - x| ≤ f32_ulp x / 2 := by
  have hu := f32_ulp_pos x
  have e : f32 x - x = ((round_even (x / f32_ulp x) : ℚ) - x / f32_ulp x) * f32_ulp x := by
    unfold f32
    field_simp
  rw [e, abs_mul, abs_of_pos hu]
  have h1 := round_even_sub_le (x / f32_ulp x)
  have h2 := sub_round_even_le (x / f32_ulp x)
  have h3 : |(round_even (x / f32_ulp x) : ℚ) - x / f32_ulp x| ≤ 1 / 2 := by
    rw [abs_le]
    constructor <;> linarith
  calc |(round_even (x / f32_ulp x) : ℚ) - x / f32_ulp x| * f32_ulp x
      ≤ 1 / 2 * f32_ulp x := by
        apply mul_le_mul_of_nonneg_right h3 (le_of_lt hu)
    _ = f32_ulp x / 2 := by ring

theorem f32_ulp_le {x : ℚ} (h0 : 0 < x) (k : ℤ) (hx : x < 2 ^ (k + 1)) :
    f32_ulp x ≤ 2 ^ (k - 23) := by
  unfold f32_ulp
  rw [abs_of_pos h0]
  have hl : Int.log 2 x < k + 1 := by
    have := (Int.lt_zpow_iff_log_lt (R := ℚ) (b := 2) (by norm_num) h0 (x := k + 1)).1
      (by exact_mod_cast hx)
    exact this
  apply zpow_le_zpow_right₀ (by norm_num)
  omega

/-- Below `2 ^ 32` a binary32 rounding moves a value by at most 128. -/
theorem f32_near {x : ℚ} (h0 : 0 ≤ x) (hx : x < 4294967296) : |f32 x - x| ≤ 128 := by
  rcases eq_or_lt_of_le h0 with h | h
  · rw [← h]
    have : f32 0 = 0 := by
      unfold f32
      simp [round_even]
    rw [this]
    norm_num
  · have h1 := f32_sub_abs_le x
    have h2 := f32_ulp_le h 31 (by norm_num; exact hx)
    have h3 : (2 : ℚ) ^ ((31 : ℤ) - 23) = 256 := by norm_num
    rw [h3] at h2
    linarith

theorem f32_ulp_eq {x : ℚ} (e : ℤ) (h1 : 2 ^ e ≤ x) (h2 : x < 2 ^ (e + 1)) :
    f32_ulp x = 2 ^ (e - 23) := by
  have h0 : (0 : ℚ) < x := lt_of_lt_of_le (by positivity) h1
  unfold f32_ulp
  rw [abs_of_pos h0]
  have a : e ≤ Int.log 2 x :=
    (Int.zpow_le_iff_le_log (R := ℚ) (b := 2) (by norm_num) h0 (x := e)).1 (by exact_mod_cast h1)
  have b : Int.log 2 x < e + 1 :=
    (Int.lt_zpow_iff_log_lt (R := ℚ) (b := 2) (by norm_num) h0 (x := e + 1)).1
      (by exact_mod_cast h2)
  have : Int.log 2 x = e := by omega
  rw [this]

/-- Evaluation of a rounding: for `x` in the binade of exponent `e`, the result is the
rounded significand times the unit in the last place. -/
theorem f32_eval {x : ℚ} (e : ℤ) (h1 : 2 ^ e ≤ x) (h2 : x < 2 ^ (e + 1)) :
    f32 x = (round_even (x / 2 ^ (e - 23)) : ℚ) * 2 ^ (e - 23) := by
  unfold f32
  rw [f32_ulp_eq e h1 h2]

theorem round_even_of_near (q : ℚ) (m : ℤ) (h1 : q - m < 1 / 2) (h2 : (m : ℚ) - q < 1 / 2) :
    round_even q = m := by
  have a := round_even_sub_le q
  have b := sub_round_even_le q
  have : ((round_even q : ℤ) : ℚ) - m < 1 := by linarith
  have : (m : ℚ) - ((round_even q : ℤ) : ℚ) < 1 := by linarith
  have c1 : round_even q - m < 1 := by exact_mod_cast (show ((round_even q - m : ℤ) : ℚ) < 1 by push_cast; linarith)
  have c2 : m - round_even q < 1 := by exact_mod_cast (show ((m - round_even q : ℤ) : ℚ) < 1 by push_cast; linarith)
  omega

theorem two_zpow_succ (e : ℤ) : (16777216 : ℚ) * 2 ^ (e - 23) = 2 ^ (e + 1) := by
  have h : (16777216 : ℚ) = 2 ^ (24 : ℤ) := by norm_num
  rw [h, ← zpow_add₀ (by norm_num)]
  congr 1
  omega

theorem two_zpow_self (e : ℤ) : (8388608 : ℚ) * 2 ^ (e - 23) = 2 ^ e := by
  have h : (8388608 : ℚ) = 2 ^ (23 : ℤ) := by norm_num
  rw [h, ← zpow_add₀ (by norm_num)]
  congr 1
  omega

/-- Binary32 rounding is monotone on the non-negative numbers. -/
theorem f32_mono {x y : ℚ} (h0 : 0 ≤ x) (h : x ≤ y) : f32 x ≤ f32 y := by
  rcases eq_or_lt_of_le h0 with hz | hx
  · rw [← hz]
    have : f32 0 = 0 := by
      unfold f32
      simp [round_even]
    rw [this]
    exact f32_nonneg (le_trans h0 h)
  · have hy : 0 < y := lt_of_lt_of_le hx h
    have ax := Int.zpow_log_le_self (R := ℚ) (b := 2) (by norm_num) hx
    have bx := Int.lt_zpow_succ_log_self (R := ℚ) (b := 2) (by norm_num) x
    have ay := Int.zpow_log_le_self (R := ℚ) (b := 2) (by norm_num) hy
    have byy := Int.lt_zpow_succ_log_self (R := ℚ) (b := 2) (by norm_num) y
    push_cast at ax bx ay byy
    have hl : Int.log 2 x ≤ Int.log 2 y := Int.log_mono_right hx h
    rw [f32_eval _ ax bx, f32_eval _ ay byy]
    rcases lt_or_eq_of_le hl with hlt | heq
    · -- different binades
      have hux : (0 : ℚ) < 2 ^ (Int.log 2 x - 23) := by positivity
      have huy : (0 : ℚ) < 2 ^ (Int.log 2 y - 23) := by positivity
      have c1 : round_even (x / 2 ^ (Int.log 2 x - 23)) ≤ 2 ^ 24 := by
        have hq : x / 2 ^ (Int.log 2 x - 23) ≤ ((2 ^ 24 : ℤ) : ℚ) := by
          rw [div_le_iff₀ hux]
          have e : (((2 : ℤ) ^ 24 : ℤ) : ℚ) * 2 ^ (Int.log 2 x - 23) = 2 ^ (Int.log 2 x + 1) := by
            push_cast
            exact two_zpow_succ _
          rw [e]
          exact le_of_lt bx
        have := round_even_mono hq
        rw [round_even_intCast] at this
        exact this
      have c2 : (2 : ℤ) ^ 23 ≤ round_even (y / 2 ^ (Int.log 2 y - 23)) := by
        have hq : (((2 : ℤ) ^ 23 : ℤ) : ℚ) ≤ y / 2 ^ (Int.log 2 y - 23) := by
          rw [le_div_iff₀ huy]
          have e : (((2 : ℤ) ^ 23 : ℤ) : ℚ) * 2 ^ (Int.log 2 y - 23) = 2 ^ (Int.log 2 y) := by
            push_cast
            exact two_zpow_self _
          rw [e]
          exact ay
        have := round_even_mono hq
        rw [round_even_intCast] at this
        exact this
      have d1 : (round_even (x / 2 ^ (Int.log 2 x - 23)) : ℚ) * 2 ^ (Int.log 2 x - 23)
          ≤ 2 ^ (Int.log 2 x + 1) := by
        have : ((round_even (x / 2 ^ (Int.log 2 x - 23)) : ℤ) : ℚ) ≤ ((2 ^ 24 : ℤ) : ℚ) := by
          exact_mod_cast c1
        calc (round_even (x / 2 ^ (Int.log 2 x - 23)) : ℚ) * 2 ^ (Int.log 2 x - 23)
            ≤ ((2 ^ 24 : ℤ) : ℚ) * 2 ^ (Int.log 2 x - 23) :=
              mul_le_mul_of_nonneg_right this (le_of_lt hux)
          _ = 2 ^ (Int.log 2 x + 1) := by
              push_cast
              exact two_zpow_succ _
      have d2 : (2 : ℚ) ^ (Int.log 2 y)
          ≤ (round_even (y / 2 ^ (Int.log 2 y - 23)) : ℚ) * 2 ^ (Int.log 2 y - 23) := by
        have : (((2 : ℤ) ^ 23 : ℤ) : ℚ) ≤ ((round_even (y / 2 ^ (Int.log 2 y - 23)) : ℤ) : ℚ) := by
          exact_mod_cast c2
        calc (2 : ℚ) ^ (Int.log 2 y) = (((2 : ℤ) ^ 23 : ℤ) : ℚ) * 2 ^ (Int.log 2 y - 23) := by
              push_cast
              exact (two_zpow_self _).symm
          _ ≤ _ := mul_le_mul_of_nonneg_right this (le_of_lt huy)
      have d3 : (2 : ℚ) ^ (Int.log 2 x + 1) ≤ 2 ^ (Int.log 2 y) :=
        zpow_le_zpow_right₀ (by norm_num) (by omega)
      linarith
    · rw [heq]
      have hu : (0 : ℚ) < 2 ^ (Int.log 2 y - 23) := by positivity
      have hq : x / 2 ^ (Int.log 2 y - 23) ≤ y / 2 ^ (Int.log 2 y - 23) :=
        div_le_div_of_nonneg_right h (le_of_lt hu)
      have := round_even_mono hq
      have : ((round_even (x / 2 ^ (Int.log 2 y - 23)) : ℤ) : ℚ)
          ≤ ((round_even (y / 2 ^ (Int.log 2 y - 23)) : ℤ) : ℚ) := by exact_mod_cast this
      exact mul_le_mul_of_nonneg_right this (le_of_lt hu)

/-- A number with a significand of at most 24 bits is its own rounding. -/
theorem f32_exact (m : ℕ) (k : ℤ) (h1 : 2 ^ 23 ≤ m) (h2 : m < 2 ^ 24) :
    f32 ((m : ℚ) * 2 ^ k) = (m : ℚ) * 2 ^ k := by
  have hk : (0 : ℚ) < 2 ^ k := by positivity
  have a : (2 : ℚ) ^ (k + 23) ≤ (m : ℚ) * 2 ^ k := by
    rw [zpow_add₀ (by norm_num), mul_comm]
    apply mul_le_mul_of_nonneg_right _ (le_of_lt hk)
    exact_mod_cast h1
  have b : (m : ℚ) * 2 ^ k < 2 ^ (k + 23 + 1) := by
    have e : (2 : ℚ) ^ (k + 23 + 1) = 2 ^ 24 * 2 ^ k := by
      rw [← zpow_natCast, ← zpow_add₀ (by norm_num)]
      congr 1
      push_cast
      omega
    rw [e]
    apply mul_lt_mul_of_pos_right _ hk
    exact_mod_cast h2
  rw [f32_eval (k + 23) a b]
  have e : k + 23 - 23 = k := by omega
  rw [e, mul_div_assoc, div_self (ne_of_gt hk), mul_one]
  have : round_even ((m : ℚ)) = (m : ℤ) := by
    have := round_even_intCast (m : ℤ)
    simpa using this
  rw [this]
  simp

theorem f32_zero : f32 0 = 0 := by
  unfold f32
  simp [round_even]

/-- The rounded significand of a positive number has 24 bits, or is `2 ^ 24`. -/
theorem f32_sig_bounds {x : ℚ} (hx : 0 < x) :
    (2 : ℤ) ^ 23 ≤ round_even (x / f32_ulp x) ∧ round_even (x / f32_ulp x) ≤ 2 ^ 24 := by
  have ax := Int.zpow_log_le_self (R := ℚ) (b := 2) (by norm_num) hx
  have bx := Int.lt_zpow_succ_log_self (R := ℚ) (b := 2) (by norm_num) x
  push_cast at ax bx
  rw [f32_ulp_eq _ ax bx]
  have hu : (0 : ℚ) < 2 ^ (Int.log 2 x - 23) := by positivity
  constructor
  · have hq : (((2 : ℤ) ^ 23 : ℤ) : ℚ) ≤ x / 2 ^ (Int.log 2 x - 23) := by
      rw [le_div_iff₀ hu]
      push_cast
      rw [two_zpow_self]
      exact ax
    have := round_even_mono hq
    rw [round_even_intCast] at this
    exact this
  · have hq : x / 2 ^ (Int.log 2 x - 23) ≤ ((2 ^ 24 : ℤ) : ℚ) := by
      rw [div_le_iff₀ hu]
      push_cast
      rw [two_zpow_succ]
      exact le_of_lt bx
    have := round_even_mono hq
    rw [round_even_intCast] at this
    exact this

/-- Rounding a binary32 value again does not change it. -/
theorem f32_idem {x : ℚ} (h0 : 0 ≤ x) : f32 (f32 x) = f32 x := by
  rcases eq_or_lt_of_le h0 with hz | hx
  · rw [← hz, f32_zero, f32_zero]
  · obtain ⟨b1, b2⟩ := f32_sig_bounds hx
    have e0 : f32 x = (round_even (x / f32_ulp x) : ℚ) * f32_ulp x := rfl
    have eu : f32_ulp x = 2 ^ (Int.log 2 |x| - 23) := rfl
    generalize round_even (x / f32_ulp x) = m at b1 b2 e0
    rw [e0, eu]
    generalize Int.log 2 |x| - 23 = k
    obtain ⟨n, rfl⟩ : ∃ n : ℕ, m = (n : ℤ) := ⟨m.toNat, by omega⟩
    have c1 : 2 ^ 23 ≤ n := by exact_mod_cast b1
    have c2 : n ≤ 2 ^ 24 := by exact_mod_cast b2
    rcases lt_or_eq_of_le c2 with hlt | heq
    · have := f32_exact n k c1 hlt
      simpa using this
    · have h := f32_exact (2 ^ 23) (k + 1) (le_refl _) (by norm_num)
      have e : (((2 ^ 23 : ℕ) : ℚ)) * 2 ^ (k + 1) = (((n : ℤ) : ℚ)) * 2 ^ k := by
        rw [heq, zpow_add₀ (by norm_num)]
        push_cast
        ring
      rw [e] at h
      exact h

/-- Evaluation of a rounding from a certificate: the exponent `e` of the binade of `x`
and the integer `m` nearest to the scaled value, not a tie. -/
theorem f32_cert (x y : ℚ) (e m : ℤ) (h1 : 2 ^ e ≤ x) (h2 : x < 2 ^ (e + 1))
    (h3 : x / 2 ^ (e - 23) - m < 1 / 2) (h4 : (m : ℚ) - x / 2 ^ (e - 23) < 1 / 2)
    (hy : y = m * 2 ^ (e - 23)) : f32 x = y := by
  rw [f32_eval e h1 h2, round_even_of_near _ m h3 h4, hy]

theorem round_even_half (n : ℤ) :
    round_even ((n : ℚ) + 1 / 2) = if n % 2 = 0 then n else n + 1 := by
  have hf : ⌊(n : ℚ) + 1 / 2⌋ = n := by
    rw [Int.floor_eq_iff]
    constructor <;> norm_num
  unfold round_even
  rw [hf]
  have e : (n : ℚ) + 1 / 2 - (n : ℚ) = 1 / 2 := by ring
  rw [e]
  simp

/-- Evaluation of a rounding at a tie: the even significand is taken. -/
theorem f32_cert_tie (x y : ℚ) (e m : ℤ) (h1 : 2 ^ e ≤ x) (h2 : x < 2 ^ (e + 1))
    (h3 : x / 2 ^ (e - 23) = (m : ℚ) + 1 / 2) (hm : m % 2 = 0)
    (hy : y = m * 2 ^ (e - 23)) : f32 x = y := by
  rw [f32_eval e h1 h2, h3, round_even_half, if_pos hm, hy]

/-- The integers from `2 ^ 32 - 128` on are converted to `2 ^ 32`: the largest binary32
value below is `2 ^ 32 - 256`, and the tie goes to the even significand. -/
theorem f32_top : f32 (4294967296 - 128) = 4294967296 := by
  rw [f32_eval 31 (by norm_num) (by norm_num)]
  have e : ((4294967296 : ℚ) - 128) / 2 ^ ((31 : ℤ) - 23) = ((16777215 : ℤ) : ℚ) + 1 / 2 := by
    norm_num
  rw [e, round_even_half]
  norm_num

theorem f32_two_pow_32 : f32 4294967296 = 4294967296 := by
  have h := f32_exact (2 ^ 23) 9 (le_refl _) (by norm_num)
  norm_num at h
  exact h

/-- The conversion of a value of the 32-bit tick counter is at most `2 ^ 32`. -/
theorem f32_tick_le (t : Nat) (h : t < 4294967296) : f32 (t : ℚ) ≤ 4294967296 := by
  have h1 : (t : ℚ) ≤ 4294967296 := by exact_mod_cast (le_of_lt h)
  have := f32_mono (by positivity) h1
  rw [f32_two_pow_32] at this
  exact this

theorem f32_tick_top (t : Nat) (h : 4294967296 - 128 ≤ t) : 4294967296 ≤ f32 (t : ℚ) := by
  have h1 : (4294967296 : ℚ) - 128 ≤ (t : ℚ) := by
    have h2 : (4294967168 : ℚ) ≤ (t : ℚ) := by exact_mod_cast h
    linarith
  have := f32_mono (by norm_num) h1
  rw [f32_top] at this
  exact this

/-! ## The mock environment: the receive wait -/

theorem wait_rx_idle {σ : Type} (env : Env σ) (usart : Option USART_Config_t) (chk : Bool)
    (start : Nat) (T : Option ℚ) (fuel : Nat) (s : σ × World)
    (h : s.2.st.rx_status = USART_RX_Status.USART_RX_IDLE) :
    wait_rx env usart chk start T (fuel + 1) s = some (Status.SUCCESS, s) := by
  have hne : ¬ (s.2.st.rx_status = USART_RX_Status.USART_RX_BUSY) := by
    rw [h]
    decide
  rw [wait_rx, if_neg hne]

theorem wait_rx_poll {σ : Type} (env : Env σ) (usart : Option USART_Config_t) (chk : Bool)
    (start : Nat) (T : Option ℚ) (fuel : Nat) (s : σ × World)
    (h : s.2.st.rx_status = USART_RX_Status.USART_RX_BUSY)
    (ht : timeout_elapsed start T s.2.g_systick_time = false) :
    wait_rx env usart chk start T (fuel + 1) s
      = wait_rx env usart chk start T fuel (env.poll s.1 s.2) := by
  rw [wait_rx, if_pos h, if_neg (by rw [ht]; decide)]

theorem wait_rx_abort {σ : Type} (env : Env σ) (cfg : USART_Config_t) (inst : USART_Instance)
    (hcfg : cfg.instance_ptr = some inst) (chk : Bool)
    (start : Nat) (T : Option ℚ) (fuel : Nat) (s : σ × World)
    (h : s.2.st.rx_status = USART_RX_Status.USART_RX_BUSY)
    (ht : timeout_elapsed start T s.2.g_systick_time = true) :
    wait_rx env (some cfg) chk start T (fuel + 1) s
      = some (Status.SUCCESS, (s.1, (USART_Abort_Receive_IRQ (some cfg) (log Ev.abort s.2)).2)) := by
  rw [wait_rx, if_pos h, if_pos ht]
  dsimp only
  rw [USART_Abort_Receive_IRQ_eq _ cfg inst hcfg]
  cases chk <;> rfl

theorem abort_quiet (cfg : USART_Config_t) (inst : USART_Instance)
    (hcfg : cfg.instance_ptr = some inst) (w : World) (h : Quiet w) :
    Quiet (USART_Abort_Receive_IRQ (some cfg) (log Ev.abort w)).2 := by
  rw [USART_Abort_Receive_IRQ_eq _ cfg inst hcfg]
  refine ⟨?_, h.tc, h.tdr, h.idx, h.idle⟩
  show (reg_clear w.regs.CR1 USART_CR1_RXNEIE).testBit 7 = false
  rw [testBit_reg_clear _ _ _ (by norm_num), h.txeie]
  rfl

/-- The timeout test on a finite timeout, as a comparison of binary32 values. -/
theorem timeout_elapsed_iff (start : Nat) (T : ℚ) (t : Nat) :
    timeout_elapsed start (some T) t = true ↔ f32 (f32 (start : ℚ) + T) < f32 (t : ℚ) := by
  unfold timeout_elapsed
  simp

/-- The timeout test does not hold at the tick the wait starts at. -/
theorem timeout_elapsed_start (start : Nat) (T : ℚ) (hT : 0 ≤ T) :
    timeout_elapsed start (some T) start = false := by
  have h0 : (0 : ℚ) ≤ f32 (start : ℚ) := f32_nonneg (by positivity)
  have h1 := f32_mono h0 (show f32 (start : ℚ) ≤ f32 (start : ℚ) + T by linarith)
  rw [f32_idem (by positivity)] at h1
  have : ¬ (timeout_elapsed start (some T) start = true) := by
    rw [timeout_elapsed_iff]
    exact not_lt.2 h1
  simpa using this

/-- The timeout test, once it holds, holds at every later tick. -/
theorem timeout_elapsed_mono (start : Nat) (T : Option ℚ) (t t1 : Nat) (h : t ≤ t1)
    (ht : timeout_elapsed start T t = true) : timeout_elapsed start T t1 = true := by
  cases T with
  | none => exact absurd ht (by simp [timeout_elapsed])
  | some T =>
    rw [timeout_elapsed_iff] at ht ⊢
    exact lt_of_lt_of_le ht (f32_mono (by positivity) (by exact_mod_cast h))

/-- A value that is a binary32 number is its own rounding. -/
theorem f32_fix (x : ℚ) (e m : ℤ) (h1 : 2 ^ e ≤ x) (h2 : x < 2 ^ (e + 1))
    (hx : x = m * 2 ^ (e - 23)) : f32 x = x := by
  have hp : (0 : ℚ) < 2 ^ (e - 23) := by positivity
  have hq : x / 2 ^ (e - 23) = m := by
    rw [hx]
    field_simp
  exact f32_cert x x e m h1 h2 (by rw [hq]; norm_num) (by rw [hq]; norm_num) hx

/-- A tick at which the timeout test holds, for a wait that starts at `start` with a
finite timeout `T` and a sum below `2 ^ 32 - 385`: the test holds 385 ticks after the
integer part of `start + T` at the latest, and not before `start + T - 384`. -/
theorem timeout_elapsed_near (start : Nat) (T : ℚ) (hT : 0 ≤ T)
    (hb : (start : ℚ) + T + 385 < 4294967296) :
    timeout_elapsed start (some T) (⌊(start : ℚ) + T⌋₊ + 385) = true ∧
    ∀ t : Nat, t < 4294967296 → timeout_elapsed start (some T) t = true →
      (start : ℚ) + T - 384 < (t : ℚ) := by
  have hs0 : (0 : ℚ) ≤ (start : ℚ) := by positivity
  have hs : (start : ℚ) < 4294967296 := by linarith
  have e1 := abs_le.1 (f32_near hs0 hs)
  have hy0 : (0 : ℚ) ≤ f32 (start : ℚ) + T := by
    have := f32_nonneg hs0
    linarith
  have hy : f32 (start : ℚ) + T < 4294967296 := by linarith [e1.2]
  have e2 := abs_le.1 (f32_near hy0 hy)
  have ha : (0 : ℚ) ≤ (start : ℚ) + T := by positivity
  have hfl := Nat.lt_floor_add_one ((start : ℚ) + T)
  have hfl2 := Nat.floor_le ha
  constructor
  · rw [timeout_elapsed_iff]
    have ht0 : (0 : ℚ) ≤ ((⌊(start : ℚ) + T⌋₊ + 385 : Nat) : ℚ) := by positivity
    have ht : ((⌊(start : ℚ) + T⌋₊ + 385 : Nat) : ℚ) < 4294967296 := by
      push_cast
      linarith
    have e3 := abs_le.1 (f32_near ht0 ht)
    push_cast at e3 ⊢
    linarith [e1.1, e1.2, e2.1, e2.2, e3.1, e3.2]
  · intro t ht hel
    rw [timeout_elapsed_iff] at hel
    have ht0 : (0 : ℚ) ≤ (t : ℚ) := by positivity
    have htq : (t : ℚ) < 4294967296 := by exact_mod_cast ht
    have e3 := abs_le.1 (f32_near ht0 htq)
    linarith [e1.1, e1.2, e2.1, e2.2, e3.1, e3.2]

/-- The first tick from `lo` on at which the timeout test holds, when there is one below
`2 ^ 32`. -/
theorem timeout_first (start : Nat) (T : Option ℚ) (lo t0 : Nat) (h0 : lo ≤ t0)
    (ht0 : timeout_elapsed start T t0 = true) :
    ∃ N : Nat, lo ≤ N ∧ N ≤ t0 ∧ timeout_elapsed start T N = true ∧
      ∀ t, lo ≤ t → t < N → timeout_elapsed start T t = false := by
  have hex : ∃ n, lo ≤ n ∧ timeout_elapsed start T n = true := ⟨t0, h0, ht0⟩
  refine ⟨Nat.find hex, (Nat.find_spec hex).1, Nat.find_min' hex ⟨h0, ht0⟩,
    (Nat.find_spec hex).2, ?_⟩
  intro t hlo hlt
  have := Nat.find_min hex hlt
  by_contra hc
  apply this
  refine ⟨hlo, ?_⟩
  cases h : timeout_elapsed start T t
  · exact absurd h hc
  · rfl

/-- On the mock environment the receive wait ends when the timeout test holds at some
tick `N` the counter has not passed: with the receiver Idle, after the handler
completed or dropped the reception or after the timeout aborted it. -/
theorem wait_rx_mock {δ : Type} (D : Device δ) (cfg : USART_Config_t) (inst : USART_Instance)
    (hcfg : cfg.instance_ptr = some inst) (chk : Bool) (start : Nat) (T : Option ℚ)
    (lo N : Nat) (hN : timeout_elapsed start T N = true)
    (hnot : ∀ t, lo ≤ t → t < N → timeout_elapsed start T t = false)
    (hNb : N < 4294967296) :
    ∀ (μ : Nat) (s : Mock δ × World), RxW s.2 →
      lo ≤ s.2.g_systick_time → s.2.g_systick_time ≤ N →
      (s.2.st.rx_status = USART_RX_Status.USART_RX_BUSY →
        (s.2.st.rx_length - s.2.st.rx_index) + (N - s.2.g_systick_time) ≤ μ) →
      ∃ r : Mock δ × World,
        (∀ fuel, μ + 2 ≤ fuel →
          wait_rx (mock D) (some cfg) chk start T fuel s = some (Status.SUCCESS, r)) ∧
        Quiet r.2 ∧ r.2.st.rx_status = USART_RX_Status.USART_RX_IDLE ∧
        (r.2.trace = s.2.trace ∨ r.2.trace = s.2.trace ++ [Ev.abort]) ∧
        r.2.g_systick_time ≤ N := by
  have base : ∀ (μ : Nat) (s : Mock δ × World), RxW s.2 → s.2.g_systick_time ≤ N →
      (¬ (s.2.st.rx_status = USART_RX_Status.USART_RX_BUSY) ∨ N ≤ s.2.g_systick_time) →
      ∃ r : Mock δ × World,
        (∀ fuel, μ + 2 ≤ fuel →
          wait_rx (mock D) (some cfg) chk start T fuel s = some (Status.SUCCESS, r)) ∧
        Quiet r.2 ∧ r.2.st.rx_status = USART_RX_Status.USART_RX_IDLE ∧
        (r.2.trace = s.2.trace ∨ r.2.trace = s.2.trace ++ [Ev.abort]) ∧
        r.2.g_systick_time ≤ N := by
    intro μ s hW hhi hc
    by_cases hb : s.2.st.rx_status = USART_RX_Status.USART_RX_BUSY
    · have hN' : s.2.g_systick_time = N := by
        rcases hc with hc | hc
        · exact absurd hb hc
        · omega
      refine ⟨(s.1, (USART_Abort_Receive_IRQ (some cfg) (log Ev.abort s.2)).2), ?_, ?_, ?_, ?_, ?_⟩
      · intro fuel hf
        obtain ⟨f, rfl⟩ : ∃ f, fuel = f + 1 := ⟨fuel - 1, by omega⟩
        exact wait_rx_abort (mock D) cfg inst hcfg chk start T f s hb (by rw [hN']; exact hN)
      · exact abort_quiet cfg inst hcfg s.2 hW.quiet
      · rw [USART_Abort_Receive_IRQ_eq _ cfg inst hcfg]
      · right
        rw [USART_Abort_Receive_IRQ_eq _ cfg inst hcfg]
        rfl
      · rw [USART_Abort_Receive_IRQ_eq _ cfg inst hcfg]
        exact hhi
    · have hidle : s.2.st.rx_status = USART_RX_Status.USART_RX_IDLE := by
        cases hh : s.2.st.rx_status
        · rfl
        · exact absurd hh hb
      refine ⟨s, ?_, hW.quiet, hidle, Or.inl rfl, hhi⟩
      intro fuel hf
      obtain ⟨f, rfl⟩ : ∃ f, fuel = f + 1 := ⟨fuel - 1, by omega⟩
      exact wait_rx_idle (mock D) (some cfg) chk start T f s hidle
  intro μ
  induction μ with
  | zero =>
    intro s hW hlo hhi hμ
    apply base 0 s hW hhi
    by_cases hb : s.2.st.rx_status = USART_RX_Status.USART_RX_BUSY
    · right
      have h1 := hμ hb
      have h2 := (hW.rx hb).idx
      omega
    · left
      exact hb
  | succ μ ih =>
    intro s hW hlo hhi hμ
    by_cases hc : ¬ (s.2.st.rx_status = USART_RX_Status.USART_RX_BUSY) ∨ N ≤ s.2.g_systick_time
    · exact base (μ + 1) s hW hhi hc
    · have hb : s.2.st.rx_status = USART_RX_Status.USART_RX_BUSY := by
        by_contra hh
        exact hc (Or.inl hh)
      have ht : s.2.g_systick_time < N := by
        by_contra hh
        exact hc (Or.inr (by omega))
      have hm := hμ hb
      have hi := hW.rx hb
      obtain ⟨hW1, hstep⟩ := mock_poll_rx D s.1 s.2 hW
      have hF := mock_poll_frame D s.1 s.2
      have htk1 : s.2.g_systick_time ≤ (mock_poll D s.1 s.2).2.g_systick_time ∧
          (mock_poll D s.1 s.2).2.g_systick_time ≤ N := by
        rcases hstep with ⟨t1, _⟩ | ⟨t1, _⟩
        · rw [t1]
          omega
        · rw [t1, Nat.mod_eq_of_lt (by omega)]
          omega
      have hμ1 : (mock_poll D s.1 s.2).2.st.rx_status = USART_RX_Status.USART_RX_BUSY →
          ((mock_poll D s.1 s.2).2.st.rx_length - (mock_poll D s.1 s.2).2.st.rx_index)
            + (N - (mock_poll D s.1 s.2).2.g_systick_time) ≤ μ := by
        intro hb1
        rw [hF.rx_length]
        rcases hstep with ⟨t1, t2⟩ | ⟨t1, t2⟩
        · rw [t1]
          rcases t2 hb with t3 | t3
          · rw [t3] at hb1
            exact absurd hb1 (by decide)
          · rw [t3]
            have := hi.idx
            omega
        · rw [t1, t2, Nat.mod_eq_of_lt (by omega)]
          have := hi.idx
          omega
      obtain ⟨r, r1, r2, r3, r4, r5⟩ := ih (mock_poll D s.1 s.2) hW1 (by omega) htk1.2 hμ1
      refine ⟨r, ?_, r2, r3, ?_, r5⟩
      · intro fuel hf
        obtain ⟨f, rfl⟩ : ∃ f, fuel = f + 1 := ⟨fuel - 1, by omega⟩
        rw [wait_rx_poll (mock D) (some cfg) chk start T f s hb (hnot _ hlo ht)]
        exact r1 f (by omega)
      · rw [hF.trace] at r4
        exact r4

/-! ## The mock environment: the transmit wait -/

theorem mock_poll_drain {δ : Type} (D : Device δ) (m : Mock δ) (w : World) (h : Drn w) :
    (w.st.tx_index < w.st.tx_length →
      Drn (mock_poll D m w).2 ∧
      (mock_poll D m w).2.st.tx_index = w.st.tx_index + 1) ∧
    (¬ w.st.tx_index < w.st.tx_length → Quiet (mock_poll D m w).2) := by
  obtain ⟨f1, f2, f3, _, f5, _⟩ := mock_hw_facts D m w.regs
  have hp : irq_pending (mock_hw D m w.regs).2 = true := by
    unfold irq_pending
    rw [reg_test_TXEIE, reg_test_TXE, f1, h.txeie, f3]
    rfl
  rw [mock_poll_irq D m w hp]
  generalize hw1 : ({ w with regs := (mock_hw D m w.regs).2 } : World) = w1
  have e1 : w1.st = w.st := by rw [← hw1]
  have e2 : w1.regs = (mock_hw D m w.regs).2 := by rw [← hw1]
  have hF := handler_frame w1
  constructor
  · intro hlt
    obtain ⟨a1, a2, a3, _, a5⟩ := handler_tx_write w1 (by rw [e1]; exact h.inst)
      (by rw [e2]; exact f3) (by rw [e1]; exact hlt)
    have hidx : (USART_IRQHandler w1).st.tx_index = w.st.tx_index + 1 := by
      rw [a1, e1]
      apply Nat.mod_eq_of_lt
      have := h.len
      omega
    refine ⟨⟨?_, ?_, ?_, ?_, ?_⟩, hidx⟩
    · rw [hF.tx_instance, e1]
      exact h.inst
    · rw [a3, e1]
      exact h.busy
    · rw [a5, e2, f1]
      exact h.txeie
    · rw [hF.tx_length, e1]
      exact h.len
    · right
      rw [a2]
      simp
  · intro hge
    have htdr : w.regs.TDR ≠ [] := by
      rcases h.prog with hh | hh
      · exact absurd hh hge
      · exact hh
    obtain ⟨a1, a2, a3, _, a5, a6⟩ := handler_tc w1 (by rw [e1]; exact h.inst)
      (by rw [e1]; exact hge) (by rw [e2]; exact f5 htdr)
    refine ⟨a6 (by rw [e2]; exact f3), a5, ?_, ?_, a3⟩
    · rw [a2, e2]
      exact f2
    · rw [a1, hF.tx_length, e1]
      exact hge

theorem wait_tx_busy {σ : Type} (env : Env σ) (fuel : Nat) (s : σ × World)
    (h : s.2.st.tx_status = USART_TX_Status.USART_TX_BUSY) :
    wait_tx env (fuel + 1) s = wait_tx env fuel (env.poll s.1 s.2) := by
  rw [wait_tx, if_pos h]

theorem wait_tx_idle {σ : Type} (env : Env σ) (fuel : Nat) (s : σ × World)
    (h : s.2.st.tx_status = USART_TX_Status.USART_TX_IDLE) :
    wait_tx env (fuel + 1) s = some s := by
  have hne : ¬ (s.2.st.tx_status = USART_TX_Status.USART_TX_BUSY) := by
    rw [h]
    decide
  rw [wait_tx, if_neg hne]

/-- On the mock environment the transmit wait ends, with the transmitter at rest. -/
theorem wait_tx_mock {δ : Type} (D : Device δ) :
    ∀ (k : Nat) (s : Mock δ × World), Drn s.2 → s.2.st.tx_length - s.2.st.tx_index ≤ k →
      ∃ r : Mock δ × World,
        (∀ fuel, k + 2 ≤ fuel → wait_tx (mock D) fuel s = some r) ∧
        Quiet r.2 ∧ Frame (k + 1) s.2 r.2 := by
  have done : ∀ (k : Nat) (s : Mock δ × World), Drn s.2 →
      ¬ s.2.st.tx_index < s.2.st.tx_length →
      ∃ r : Mock δ × World,
        (∀ fuel, k + 2 ≤ fuel → wait_tx (mock D) fuel s = some r) ∧
        Quiet r.2 ∧ Frame (k + 1) s.2 r.2 := by
    intro k s hD hge
    have hQ := (mock_poll_drain D s.1 s.2 hD).2 hge
    refine ⟨mock_poll D s.1 s.2, ?_, hQ, frame_mono (mock_poll_frame D s.1 s.2) (by omega)⟩
    intro fuel hf
    obtain ⟨f, rfl⟩ : ∃ f, fuel = f + 2 := ⟨fuel - 2, by omega⟩
    rw [wait_tx_busy (mock D) (f + 1) s hD.busy]
    exact wait_tx_idle (mock D) f _ hQ.idle
  intro k
  induction k with
  | zero =>
    intro s hD hk
    exact done 0 s hD (by omega)
  | succ k ih =>
    intro s hD hk
    by_cases hlt : s.2.st.tx_index < s.2.st.tx_length
    · obtain ⟨hD1, hi1⟩ := (mock_poll_drain D s.1 s.2 hD).1 hlt
      have hF := mock_poll_frame D s.1 s.2
      obtain ⟨r, r1, r2, r3⟩ := ih (mock_poll D s.1 s.2) hD1
        (by rw [hi1, hF.tx_length]; omega)
      refine ⟨r, ?_, r2, ?_⟩
      · intro fuel hf
        obtain ⟨f, rfl⟩ : ∃ f, fuel = f + 1 := ⟨fuel - 1, by omega⟩
        rw [wait_tx_busy (mock D) f s hD.busy]
        exact r1 f (by omega)
      · exact frame_mono (frame_trans hF r3) (by omega)
    · exact done (k + 1) s hD hlt

/-! ## The mock environment: one transfer -/

theorem calc_timeout_f32_eq (cfg : USART_Config_t) (margin : ℚ) (length : Nat) :
    (USART_Calc_Timeout_f32 (some cfg) (some (some 0)) margin length).1 = Status.SUCCESS := rfl

/-- A finite timeout computed with margin 5 is not negative. -/
theorem calc_timeout_f32_nonneg (cfg : USART_Config_t) (length : Nat) (T : ℚ)
    (h : (USART_Calc_Timeout_f32 (some cfg) (some (some 0)) 5 length).2 = some T) :
    0 ≤ T := by
  have key : ∀ sb : ℚ, 0 ≤ sb →
      0 ≤ f32 (f32 (f32 (f32 (f32 (1 / f32 (cfg.baud_rate : ℚ)) * f32 (SEC_TO_MSEC : ℚ))
        * f32 (f32 (f32 (8 + f32 (cfg.word_length : ℚ)) + f32 (cfg.parity_control : ℚ)) + sb))
        * f32 (length : ℚ)) * 5) := by
    intro sb hsb
    have h1 : (0 : ℚ) ≤ f32 (f32 (1 / f32 (cfg.baud_rate : ℚ)) * f32 (SEC_TO_MSEC : ℚ)) := by
      apply f32_nonneg
      apply mul_nonneg
      · apply f32_nonneg
        have : (0 : ℚ) ≤ f32 (cfg.baud_rate : ℚ) := f32_nonneg (by positivity)
        positivity
      · exact f32_nonneg (by positivity)
    have h2 : (0 : ℚ) ≤ f32 (f32 (f32 (8 + f32 (cfg.word_length : ℚ))
        + f32 (cfg.parity_control : ℚ)) + sb) := by
      apply f32_nonneg
      apply add_nonneg _ hsb
      apply f32_nonneg
      apply add_nonneg
      · apply f32_nonneg
        have : (0 : ℚ) ≤ f32 (cfg.word_length : ℚ) := f32_nonneg (by positivity)
        linarith
      · exact f32_nonneg (by positivity)
    apply f32_nonneg
    apply mul_nonneg _ (by norm_num)
    apply f32_nonneg
    apply mul_nonneg
    · exact f32_nonneg (mul_nonneg h1 h2)
    · exact f32_nonneg (by positivity)
  unfold USART_Calc_Timeout_f32 at h
  dsimp only at h
  split_ifs at h <;> rw [← Option.some.inj h] <;> exact key _ (by norm_num)

theorem CHECK_STATUS_success {σ : Type} (s : σ × World) (k : σ × World → Outcome σ) :
    CHECK_STATUS (some (Status.SUCCESS, s)) k = k s := rfl

theorem Delay_Loop_pos {σ : Type} (env : Env σ) (d : Nat) (hd : 1 ≤ d) (s : σ × World) :
    Delay_Loop env d s = polls env (env.delay_slots d) (s.1, log (Ev.delay d) s.2) := by
  unfold Delay_Loop
  rw [if_neg (by omega)]

theorem delay_mock {δ : Type} (D : Device δ) (d : Nat) (hd : 1 ≤ d) (s : Mock δ × World)
    (h : RxW s.2) :
    RxW (Delay_Loop (mock D) d s).2 ∧
    (Delay_Loop (mock D) d s).2.trace = s.2.trace ++ [Ev.delay d] ∧
    Frame d (log (Ev.delay d) s.2) (Delay_Loop (mock D) d s).2 := by
  rw [Delay_Loop_pos (mock D) d hd s]
  show RxW (polls (mock D) d (s.1, log (Ev.delay d) s.2)).2 ∧ _
  have hW : RxW (s.1, log (Ev.delay d) s.2).2 := ⟨⟨h.quiet.txeie, h.quiet.tc, h.quiet.tdr,
    h.quiet.idx, h.quiet.idle⟩, fun hb => ⟨(h.rx hb).inst, (h.rx hb).ie, (h.rx hb).idx,
    (h.rx hb).len⟩⟩
  have hF := polls_frame D d (s.1, log (Ev.delay d) s.2)
  refine ⟨polls_rx D d _ hW, ?_, hF⟩
  show (polls (mock D) d (s.1, log (Ev.delay d) s.2)).2.trace = _
  rw [hF.trace]
  rfl

/-- On the mock environment, with any device, a transfer started on an Idle port with a
command of 1 to 512 bytes and a reception of 1 to 65535 bytes returns SUCCESS, provided
the timeout `T` is finite and the tick counter stays 385 ticks clear of its 32-bit
limit: the binary32 test of the wait holds 385 ticks after `start + T` at the latest. -/
theorem transfer_mock {δ : Type} (D : Device δ) (cfg : USART_Config_t) (inst : USART_Instance)
    (hcfg : cfg.instance_ptr = some inst) (cmd : List Nat) (n dest : Nat) (zi : Bool)
    (rxlen d tlen : Nat) (chk : Bool) (s : Mock δ × World)
    (htx : s.2.st.tx_status = USART_TX_Status.USART_TX_IDLE)
    (hrx : s.2.st.rx_status = USART_RX_Status.USART_RX_IDLE)
    (hn1 : 1 ≤ n) (hn2 : n ≤ 512) (hr1 : 1 ≤ rxlen) (hr2 : rxlen < 65536) (hd : 1 ≤ d)
    (T : ℚ) (hTdef : (USART_Calc_Timeout_f32 (some cfg) (some (some 0)) 5 tlen).2 = some T)
    (htick : (s.2.g_systick_time : ℚ) + ((n : ℚ) + 1 + (d : ℚ) + T + 385) < 4294967296) :
    ∃ (F : Nat) (r : Mock δ × World),
      (∀ fuel, F ≤ fuel →
        BNO_transfer (mock D) fuel (some cfg) cmd n dest zi rxlen d tlen chk s
          = some (Status.SUCCESS, r)) ∧
      Transferred (cmd.take n) dest rxlen d ((n : ℚ) + 1 + (d : ℚ) + T + 385) s.2 r.2 := by
  have hT := calc_timeout_f32_nonneg cfg tlen T hTdef
  -- transmit
  have hE1 := USART_Transmit_IRQ_idle s.2 cfg inst cmd n hcfg htx hn1 hn2
  generalize hw1 : ({ s.2 with
      st := { s.2.st with
        tx_instance := some inst,
        tx_buffer := copy_tx_buffer cmd n s.2.st.tx_buffer,
        tx_length := n,
        tx_index := 0,
        tx_status := USART_TX_Status.USART_TX_BUSY },
      regs := { s.2.regs with CR1 := reg_set s.2.regs.CR1 USART_CR1_TXEIE } } : World) = w1
    at hE1
  have w1_rx : w1.st.rx_status = USART_RX_Status.USART_RX_IDLE := by rw [← hw1]; exact hrx
  have w1_tr : w1.trace = s.2.trace := by rw [← hw1]
  have w1_tk : w1.g_systick_time = s.2.g_systick_time := by rw [← hw1]
  have hD : Drn (s.1, log (Ev.tx (cmd.take n)) w1).2 := by
    rw [← hw1]
    refine ⟨rfl, rfl, ?_, ?_, ?_⟩
    · show (reg_set s.2.regs.CR1 USART_CR1_TXEIE).testBit 7 = true
      rw [testBit_reg_set]
      simp [USART_CR1_TXEIE, testBit_BIT]
    · show n < 65536
      omega
    · left
      show 0 < n
      omega
  obtain ⟨r2, hwt, hQ2, hF2⟩ := wait_tx_mock D n (s.1, log (Ev.tx (cmd.take n)) w1) hD
    (by show w1.st.tx_length - w1.st.tx_index ≤ n
        rw [← hw1]
        show n - 0 ≤ n
        omega)
  obtain ⟨r2_rx, _, _⟩ := hF2.rx_idle w1_rx
  -- receive
  generalize hw2 : (if zi = true then
      { r2.2 with mem := Function.update r2.2.mem dest (fun _ => 0) } else r2.2 : World) = w2
  have w2_st : w2.st = r2.2.st := by
    rw [← hw2]
    split_ifs <;> rfl
  have w2_regs : w2.regs = r2.2.regs := by
    rw [← hw2]
    split_ifs <;> rfl
  have w2_tr : w2.trace = r2.2.trace := by
    rw [← hw2]
    split_ifs <;> rfl
  have w2_tk : w2.g_systick_time = r2.2.g_systick_time := by
    rw [← hw2]
    split_ifs <;> rfl
  have hE2 := USART_Receive_IRQ_idle w2 cfg inst dest rxlen hcfg (by rw [w2_st]; exact r2_rx) hr1
  generalize hw3 : ({ w2 with
      st := { w2.st with
        rx_instance := some inst,
        rx_buffer := some dest,
        rx_length := rxlen,
        rx_index := 0,
        rx_status := USART_RX_Status.USART_RX_BUSY },
      regs := { w2.regs with CR1 := reg_set w2.regs.CR1 USART_CR1_RXNEIE } } : World) = w3
    at hE2
  have hW3 : RxW (r2.1, log (Ev.rx dest rxlen) w3).2 := by
    rw [← hw3]
    refine ⟨⟨?_, ?_, ?_, ?_, ?_⟩, fun _ => ⟨rfl, ?_, ?_, ?_⟩⟩
    · show (reg_set w2.regs.CR1 USART_CR1_RXNEIE).testBit 7 = false
      rw [testBit_reg_set, w2_regs, hQ2.txeie]
      simp [USART_CR1_RXNEIE, testBit_BIT]
    · show w2.regs.SR.testBit 6 = false
      rw [w2_regs]
      exact hQ2.tc
    · show w2.regs.TDR = []
      rw [w2_regs]
      exact hQ2.tdr
    · show ¬ w2.st.tx_index < w2.st.tx_length
      rw [w2_st]
      exact hQ2.idx
    · show w2.st.tx_status = _
      rw [w2_st]
      exact hQ2.idle
    · show (reg_set w2.regs.CR1 USART_CR1_RXNEIE).testBit 5 = true
      rw [testBit_reg_set]
      simp [USART_CR1_RXNEIE, testBit_BIT]
    · show 0 < rxlen
      omega
    · exact hr2
  obtain ⟨hW4, h4tr, hF4⟩ := delay_mock D d hd (r2.1, log (Ev.rx dest rxlen) w3) hW3
  generalize hs4 : Delay_Loop (mock D) d (r2.1, log (Ev.rx dest rxlen) w3) = s4
    at hW4 h4tr hF4
  -- tick bounds
  have t2 : r2.2.g_systick_time ≤ s.2.g_systick_time + (n + 1) := by
    have := hF2.tick
    have e : (s.1, log (Ev.tx (cmd.take n)) w1).2.g_systick_time = s.2.g_systick_time := w1_tk
    rw [e] at this
    exact this
  have t4 : s4.2.g_systick_time ≤ s.2.g_systick_time + (n + 1) + d := by
    have := hF4.tick
    have e : (log (Ev.delay d) (r2.1, log (Ev.rx dest rxlen) w3).2).g_systick_time
        = r2.2.g_systick_time := by
      rw [← hw3]
      exact w2_tk
    rw [e] at this
    omega
  have t4q : (s4.2.g_systick_time : ℚ) ≤ (s.2.g_systick_time : ℚ) + ((n : ℚ) + 1) + (d : ℚ) := by
    exact_mod_cast t4
  -- the receive wait
  have ha : (0 : ℚ) ≤ (s4.2.g_systick_time : ℚ) + T := by positivity
  have hfl : ((⌊(s4.2.g_systick_time : ℚ) + T⌋₊ : Nat) : ℚ) ≤ (s4.2.g_systick_time : ℚ) + T :=
    Nat.floor_le ha
  have hfl0 : s4.2.g_systick_time ≤ ⌊(s4.2.g_systick_time : ℚ) + T⌋₊ := by
    apply Nat.le_floor
    linarith
  obtain ⟨hel, _⟩ := timeout_elapsed_near s4.2.g_systick_time T hT (by linarith)
  obtain ⟨N, hlo, hhi, hPN, hnot⟩ := timeout_first s4.2.g_systick_time (some T)
    s4.2.g_systick_time (⌊(s4.2.g_systick_time : ℚ) + T⌋₊ + 385) (by omega) hel
  have hNq : (N : ℚ) ≤ (s4.2.g_systick_time : ℚ) + T + 385 := by
    have : (N : ℚ) ≤ ((⌊(s4.2.g_systick_time : ℚ) + T⌋₊ + 385 : Nat) : ℚ) := by
      exact_mod_cast hhi
    push_cast at this
    linarith
  have hNb : N < 4294967296 := by
    have : (N : ℚ) < ((4294967296 : Nat) : ℚ) := by
      push_cast
      linarith
    exact_mod_cast this
  have h4len : s4.2.st.rx_length = rxlen := by
    rw [hF4.rx_length, ← hw3]
    rfl
  obtain ⟨r, hwr, hQ, hidle, htr, htk⟩ := wait_rx_mock D cfg inst hcfg chk s4.2.g_systick_time
    (some T) s4.2.g_systick_time N hPN hnot hNb (rxlen + N) s4 hW4 (le_refl _) hlo
    (by intro _
        rw [h4len]
        omega)
  refine ⟨max (n + 2) (rxlen + N + 2), r, ?_, hQ, hidle, ?_, ?_⟩
  · intro fuel hf
    have hf1 : n + 2 ≤ fuel := le_trans (le_max_left _ _) hf
    have hf2 : rxlen + N + 2 ≤ fuel := le_trans (le_max_right _ _) hf
    unfold BNO_transfer
    simp only [USART_Get_State, hcfg]
    rw [hE1]
    simp only [CHECK_STATUS_success]
    rw [hwt fuel hf1]
    simp only [hw2]
    rw [hE2]
    simp only [CHECK_STATUS_success, hs4, calc_timeout_f32_eq, hTdef]
    exact hwr fuel hf2
  · have e4 : s4.2.trace = s.2.trace ++ [Ev.tx (cmd.take n), Ev.rx dest rxlen, Ev.delay d] := by
      rw [h4tr]
      show (w3.trace ++ [Ev.rx dest rxlen]) ++ [Ev.delay d] = _
      rw [← hw3]
      show (w2.trace ++ [Ev.rx dest rxlen]) ++ [Ev.delay d] = _
      rw [w2_tr, hF2.trace]
      show ((w1.trace ++ [Ev.tx (cmd.take n)]) ++ [Ev.rx dest rxlen]) ++ [Ev.delay d] = _
      rw [w1_tr]
      simp
    rcases htr with h | h
    · left
      rw [h, e4]
    · right
      rw [h, e4]
      simp
  · have h1 : (r.2.g_systick_time : ℚ) ≤ (N : ℚ) := by
      exact_mod_cast htk
    linarith

/-! ## Retry policy of the register protocol -/

theorem attempt_of_transferred (frame chk : List Nat) (dest rxlen d : Nat) (bound : ℚ)
    (w r : World) (h : Transferred frame dest rxlen d bound w r) :
    Attempt frame chk dest rxlen bound w (log (Ev.checked chk) r) := by
  refine ⟨h.quiet.idle, h.rx_idle, ?_, h.tick⟩
  rcases h.trace with ht | ht
  · refine ⟨[Ev.tx frame, Ev.rx dest rxlen, Ev.delay d, Ev.checked chk], ?_, rfl, rfl, rfl⟩
    show r.trace ++ [Ev.checked chk] = _
    rw [ht]
    simp
  · refine ⟨[Ev.tx frame, Ev.rx dest rxlen, Ev.delay d, Ev.abort, Ev.checked chk], ?_, rfl, rfl,
      rfl⟩
    show r.trace ++ [Ev.checked chk] = _
    rw [ht]
    simp

theorem delay_idle {δ : Type} (D : Device δ) (d : Nat) (hd : 1 ≤ d) (s : Mock δ × World)
    (htx : s.2.st.tx_status = USART_TX_Status.USART_TX_IDLE)
    (hrx : s.2.st.rx_status = USART_RX_Status.USART_RX_IDLE) :
    (Delay_Loop (mock D) d s).2.st.tx_status = USART_TX_Status.USART_TX_IDLE ∧
    (Delay_Loop (mock D) d s).2.st.rx_status = USART_RX_Status.USART_RX_IDLE ∧
    (Delay_Loop (mock D) d s).2.trace = s.2.trace ++ [Ev.delay d] ∧
    (Delay_Loop (mock D) d s).2.g_systick_time ≤ s.2.g_systick_time + d ∧
    (Delay_Loop (mock D) d s).2.mem = s.2.mem := by
  rw [Delay_Loop_pos (mock D) d hd s]
  have hF := polls_frame D d (s.1, log (Ev.delay d) s.2)
  obtain ⟨a, b, _⟩ := hF.rx_idle hrx
  exact ⟨hF.tx_idle htx, a, hF.trace, hF.tick, b⟩

theorem read_retry_mock {δ : Type} (D : Device δ) (cfg : USART_Config_t) (inst : USART_Instance)
    (hcfg : cfg.instance_ptr = some inst) (reg length dest : Nat) (s : Mock δ × World)
    (htx : s.2.st.tx_status = USART_TX_Status.USART_TX_IDLE)
    (hrx : s.2.st.rx_status = USART_RX_Status.USART_RX_IDLE)
    (hl1 : 1 ≤ length) (hl2 : (2 + length) % 65536 ≠ 0) (T : ℚ)
    (hTdef : (USART_Calc_Timeout_f32 (some cfg) (some (some 0)) 5 ((2 + length) % 65536)).2
      = some T)
    (htick : (s.2.g_systick_time : ℚ) + (T + 405) < 4294967296) :
    ∃ (F : Nat) (r : Mock δ × World),
      (∀ fuel, F ≤ fuel →
        BNO_Read_Reg_Retry (mock D) fuel (some cfg) reg length (some dest) s
          = some (if r.2.mem dest 0 = 0xEE then Status.ERROR else Status.SUCCESS, r)) ∧
      Attempt [0xAA, 0x01, reg, length % 256] [r.2.mem dest 0] dest ((2 + length) % 65536)
        (T + 405) s.2 r.2 := by
  have hlen : (BNO_RESPONSE_HEADER_LENGTH + length) % 65536 = (2 + length) % 65536 := rfl
  have hlt : (2 + length) % 65536 < 65536 := Nat.mod_lt _ (by norm_num)
  obtain ⟨F, r, hrun, hT⟩ := transfer_mock D cfg inst hcfg [0xAA, 0x01, reg, length % 256] 4 dest
    false ((2 + length) % 65536) 15 ((2 + length) % 65536) true s htx hrx (by norm_num)
    (by norm_num) (by omega) hlt (by norm_num) T hTdef
    (by push_cast
        linarith)
  have hb : ((4 : Nat) : ℚ) + 1 + ((15 : Nat) : ℚ) + T + 385 = T + 405 := by
    push_cast
    ring
  rw [hb] at hT
  refine ⟨F, (r.1, log (Ev.checked [r.2.mem dest 0]) r.2), ?_, ?_⟩
  · intro fuel hf
    unfold BNO_Read_Reg_Retry
    simp only [hlen]
    rw [if_neg (by omega), hrun fuel hf, CHECK_STATUS_success]
    show (if r.2.mem dest 0 = 0xEE
        then some (Status.ERROR, (r.1, log (Ev.checked [r.2.mem dest 0]) r.2))
        else some (Status.SUCCESS, (r.1, log (Ev.checked [r.2.mem dest 0]) r.2))) = _
    by_cases h : r.2.mem dest 0 = 0xEE
    · rw [if_pos h]
      show _ = some (if r.2.mem dest 0 = 0xEE then Status.ERROR else Status.SUCCESS, _)
      rw [if_pos h]
    · rw [if_neg h]
      show _ = some (if r.2.mem dest 0 = 0xEE then Status.ERROR else Status.SUCCESS, _)
      rw [if_neg h]
  · exact attempt_of_transferred _ _ dest ((2 + length) % 65536) 15 _ s.2 r.2 hT

theorem tx_frames_append (a b : List Ev) : tx_frames (a ++ b) = tx_frames a ++ tx_frames b := by
  unfold tx_frames
  exact List.filterMap_append _ _ _

theorem calls_append (a b : List Ev) : calls (a ++ b) = calls a ++ calls b := by
  unfold calls
  exact List.filter_append _ _

theorem checks_append (a b : List Ev) : checks (a ++ b) = checks a ++ checks b := by
  unfold checks
  exact List.filterMap_append _ _ _

/-- The retry loop on the mock environment, for any retry function that behaves as one
attempt. -/
theorem retry_loop_mock {δ : Type} (D : Device δ) (retry : Nat → Mock δ × World → Outcome (Mock δ))
    (frame : List Nat) (err : List Nat → Bool) (dest rxlen : Nat) (B : ℚ)
    (hretry : ∀ s : Mock δ × World,
      s.2.st.tx_status = USART_TX_Status.USART_TX_IDLE →
      s.2.st.rx_status = USART_RX_Status.USART_RX_IDLE →
      (s.2.g_systick_time : ℚ) + B < 4294967296 →
      ∃ (F : Nat) (r : Mock δ × World) (c : List Nat),
        (∀ fuel, F ≤ fuel →
          retry fuel s = some (if err c = true then Status.ERROR else Status.SUCCESS, r)) ∧
        Attempt frame c dest rxlen B s.2 r.2) :
    ∀ (n : Nat) (ret : Status) (s : Mock δ × World),
      s.2.st.tx_status = USART_TX_Status.USART_TX_IDLE →
      s.2.st.rx_status = USART_RX_Status.USART_RX_IDLE →
      (s.2.g_systick_time : ℚ) + (n : ℚ) * (B + 10) < 4294967296 →
      ∃ (F : Nat) (st : Status) (r : Mock δ × World) (evs : List Ev),
        (∀ fuel, F ≤ fuel → retry_loop (mock D) (retry fuel) n ret s = some (st, r)) ∧
        r.2.trace = s.2.trace ++ evs ∧
        RetryOutcome frame err n ret (tx_frames evs) (checks evs) st ∧
        calls evs = attempt_calls frame dest rxlen (tx_frames evs).length := by
  intro n
  induction n with
  | zero =>
    intro ret s _ _ _
    refine ⟨0, ret, s, [], ?_, by simp, ?_, rfl⟩
    · intro fuel _
      rfl
    · exact ⟨rfl, rfl, rfl⟩
  | succ n ih =>
    intro ret s htx hrx htick
    obtain ⟨d1, d2, d3, d4, _⟩ := delay_idle D 10 (by norm_num) s htx hrx
    have d4q : ((Delay_Loop (mock D) 10 s).2.g_systick_time : ℚ)
        ≤ (s.2.g_systick_time : ℚ) + 10 := by
      exact_mod_cast d4
    have hn : (0 : ℚ) ≤ (n : ℚ) := by positivity
    push_cast at htick
    by_cases hB : 0 ≤ B + 10
    · obtain ⟨F1, r1, c, hrun1, hA⟩ := hretry (Delay_Loop (mock D) 10 s) d1 d2
        (by nlinarith)
      obtain ⟨evs1, e1, e2, e3, e4⟩ := hA.trace
      cases hc : err c
      · -- the response is not an error: the loop ends
        refine ⟨F1, Status.SUCCESS, r1, [Ev.delay 10] ++ evs1, ?_, ?_, ?_, ?_⟩
        · intro fuel hf
          rw [retry_loop, hrun1 fuel hf, hc]
          rfl
        · rw [e1, d3]
          simp
        · refine ⟨c, Or.inl ⟨hc, ?_, ?_, rfl⟩⟩
          · rw [tx_frames_append, e2]
            rfl
          · rw [checks_append, e3]
            rfl
        · rw [calls_append, tx_frames_append, e2, e4]
          rfl
      · -- the response is an error: next iteration
        obtain ⟨F2, st, r, evs2, hrun2, f1, f2, f3⟩ := ih Status.ERROR r1 hA.tx_idle hA.rx_idle
          (by have := hA.tick
              nlinarith)
        refine ⟨max F1 F2, st, r, [Ev.delay 10] ++ evs1 ++ evs2, ?_, ?_, ?_, ?_⟩
        · intro fuel hf
          rw [retry_loop, hrun1 fuel (le_trans (le_max_left _ _) hf), hc]
          exact hrun2 fuel (le_trans (le_max_right _ _) hf)
        · rw [f1, e1, d3]
          simp
        · refine ⟨c, Or.inr ⟨hc, tx_frames evs2, checks evs2, ?_, ?_, f2⟩⟩
          · rw [tx_frames_append, tx_frames_append, e2]
            rfl
          · rw [checks_append, checks_append, e3]
            rfl
        · rw [calls_append, calls_append, tx_frames_append, tx_frames_append, e2, e4, f3]
          rfl
    · -- impossible: the bound of an attempt is not negative
      exfalso
      obtain ⟨F1, r1, c, _, hA⟩ := hretry (s.1, { s.2 with g_systick_time := 0 }) htx hrx
        (by show ((0 : Nat) : ℚ) + B < 4294967296
            push_cast
            linarith)
      have := hA.tick
      have h0 : ((0 : Nat) : ℚ) ≤ (r1.2.g_systick_time : ℚ) := by positivity
      have h1 : ((s.1, { s.2 with g_systick_time := 0 }) : Mock δ × World).2.g_systick_time = 0 :=
        rfl
      rw [h1] at this
      push_cast at this h0
      linarith

theorem read_err_singleton (b : Nat) : read_err [b] = decide (b = 0xEE) := by
  unfold read_err
  by_cases h : b = 0xEE <;> simp [h]

theorem read_reg_mock {δ : Type} (D : Device δ) (cfg : USART_Config_t) (inst : USART_Instance)
    (hcfg : cfg.instance_ptr = some inst) (reg length dest : Nat) (s : Mock δ × World)
    (htx : s.2.st.tx_status = USART_TX_Status.USART_TX_IDLE)
    (hrx : s.2.st.rx_status = USART_RX_Status.USART_RX_IDLE)
    (hl1 : 1 ≤ length) (hl2 : (2 + length) % 65536 ≠ 0) (T : ℚ)
    (hTdef : (USART_Calc_Timeout_f32 (some cfg) (some (some 0)) 5 ((2 + length) % 65536)).2
      = some T)
    (htick : (s.2.g_systick_time : ℚ) + 3 * (T + 415) < 4294967296) :
    ∃ (F : Nat) (st : Status) (r : Mock δ × World) (evs : List Ev),
      (∀ fuel, F ≤ fuel →
        BNO_Read_Reg (mock D) fuel (some cfg) reg length (some dest) s = some (st, r)) ∧
      r.2.trace = s.2.trace ++ evs ∧
      RetryOutcome [0xAA, 0x01, reg, length % 256] read_err 3 Status.SUCCESS
        (tx_frames evs) (checks evs) st ∧
      calls evs = attempt_calls [0xAA, 0x01, reg, length % 256] dest ((2 + length) % 65536)
        (tx_frames evs).length := by
  have hT := calc_timeout_f32_nonneg cfg ((2 + length) % 65536) T hTdef
  have hlen : (BNO_RESPONSE_HEADER_LENGTH + length) % 65536 = (2 + length) % 65536 := rfl
  have hlt : (2 + length) % 65536 < 65536 := Nat.mod_lt _ (by norm_num)
  -- first attempt
  obtain ⟨F1, r1, hrun1, hT1⟩ := transfer_mock D cfg inst hcfg [0xAA, 0x01, reg, length % 256] 4
    dest false ((2 + length) % 65536) 10 ((2 + length) % 65536) true s htx hrx (by norm_num)
    (by norm_num) (by omega) hlt (by norm_num) T hTdef
    (by push_cast
        linarith)
  have hA := attempt_of_transferred _ [r1.2.mem dest 0] dest ((2 + length) % 65536) 10 _ s.2
    r1.2 hT1
  obtain ⟨evs1, e1, e2, e3, e4⟩ := hA.trace
  have hfirst : ∀ fuel, F1 ≤ fuel →
      BNO_Read_Reg (mock D) fuel (some cfg) reg length (some dest) s
        = if r1.2.mem dest 0 = 0xEE then
            retry_loop (mock D) (BNO_Read_Reg_Retry (mock D) fuel (some cfg) reg length (some dest))
              2 Status.SUCCESS (r1.1, log (Ev.checked [r1.2.mem dest 0]) r1.2)
          else some (Status.SUCCESS, (r1.1, log (Ev.checked [r1.2.mem dest 0]) r1.2)) := by
    intro fuel hf
    unfold BNO_Read_Reg
    simp only [hlen]
    rw [if_neg (by omega), hrun1 fuel hf, CHECK_STATUS_success]
    rfl
  by_cases hb : r1.2.mem dest 0 = 0xEE
  · -- error sentinel: retry loop
    obtain ⟨F2, st, r, evs2, hrun2, f1, f2, f3⟩ := retry_loop_mock D
      (fun fuel => BNO_Read_Reg_Retry (mock D) fuel (some cfg) reg length (some dest))
      [0xAA, 0x01, reg, length % 256] read_err dest ((2 + length) % 65536) (T + 405)
      (by
        intro s' htx' hrx' htick'
        obtain ⟨F, r', hrun', hA'⟩ := read_retry_mock D cfg inst hcfg reg length dest s' htx' hrx'
          hl1 hl2 T hTdef htick'
        refine ⟨F, r', [r'.2.mem dest 0], ?_, hA'⟩
        intro fuel hf
        show BNO_Read_Reg_Retry (mock D) fuel (some cfg) reg length (some dest) s' = _
        rw [hrun' fuel hf, read_err_singleton]
        by_cases h : r'.2.mem dest 0 = 0xEE <;> simp [h])
      2 Status.SUCCESS (r1.1, log (Ev.checked [r1.2.mem dest 0]) r1.2) hA.tx_idle hA.rx_idle
      (by have ht := hA.tick
          push_cast at ht
          show ((log (Ev.checked [r1.2.mem dest 0]) r1.2).g_systick_time : ℚ)
            + ((2 : Nat) : ℚ) * (T + 405 + 10) < 4294967296
          push_cast
          linarith)
    refine ⟨max F1 F2, st, r, evs1 ++ evs2, ?_, ?_, ?_, ?_⟩
    · intro fuel hf
      rw [hfirst fuel (le_trans (le_max_left _ _) hf), if_pos hb]
      exact hrun2 fuel (le_trans (le_max_right _ _) hf)
    · rw [f1, e1]
      simp
    · refine ⟨[r1.2.mem dest 0], Or.inr ⟨?_, tx_frames evs2, checks evs2, ?_, ?_, f2⟩⟩
      · rw [read_err_singleton]
        simp [hb]
      · rw [tx_frames_append, e2]
        rfl
      · rw [checks_append, e3]
        rfl
    · rw [calls_append, tx_frames_append, e2, e4, f3]
      rfl
  · refine ⟨F1, Status.SUCCESS, (r1.1, log (Ev.checked [r1.2.mem dest 0]) r1.2), evs1, ?_, e1,
      ?_, ?_⟩
    · intro fuel hf
      rw [hfirst fuel hf, if_neg hb]
    · refine ⟨[r1.2.mem dest 0], Or.inl ⟨?_, e2, e3, rfl⟩⟩
      rw [read_err_singleton]
      simp [hb]
    · rw [e2, e4]
      rfl

theorem read_err_false (c : List Nat) (h : read_err c = false) : c.getD 0 0 ≠ 0xEE := by
  unfold read_err at h
  simpa using h

theorem read_err_true (c : List Nat) (h : read_err c = true) : c.getD 0 0 = 0xEE := by
  unfold read_err at h
  simpa using h

/-- C1: on the mock transport, with any device behaviour, a read on an Idle port returns
after one to three command frames, all equal to `0xAA 0x01 reg length`: it returns
SUCCESS after the first attempt that leaves a first byte other than 0xEE in the response
buffer, every earlier attempt having left 0xEE there, and ERROR exactly when all three
attempts left 0xEE.  In particular a first byte 0xEE followed by a valid one gives
SUCCESS with two frames sent.  The receive waits test the timeout in binary32; the call
is made with a finite timeout `T` (so a baud rate other than 0) and a tick counter at
least `3 * (T + 415)` ticks below its 32-bit limit, which is what makes every wait
end. -/
theorem C1_read_retry_policy {δ : Type} (D : Device δ) (cfg : USART_Config_t)
    (inst : USART_Instance) (hcfg : cfg.instance_ptr = some inst) (reg length dest : Nat)
    (s : Mock δ × World)
    (htx : s.2.st.tx_status = USART_TX_Status.USART_TX_IDLE)
    (hrx : s.2.st.rx_status = USART_RX_Status.USART_RX_IDLE)
    (hl1 : 1 ≤ length) (hl2 : (2 + length) % 65536 ≠ 0) (T : ℚ)
    (hT : (USART_Calc_Timeout_f32 (some cfg) (some (some 0)) 5 ((2 + length) % 65536)).2
      = some T)
    (htick : (s.2.g_systick_time : ℚ) + 3 * (T + 415) < 4294967296) :
    ∃ (F : Nat) (st : Status) (r : Mock δ × World) (evs : List Ev),
      (∀ fuel, F ≤ fuel →
        BNO_Read_Reg (mock D) fuel (some cfg) reg length (some dest) s = some (st, r)) ∧
      r.2.trace = s.2.trace ++ evs ∧
      ((∃ b, b ≠ 0xEE ∧ first_bytes evs = [b] ∧
          tx_frames evs = [[0xAA, 0x01, reg, length % 256]] ∧ st = Status.SUCCESS) ∨
        (∃ b, b ≠ 0xEE ∧ first_bytes evs = [0xEE, b] ∧
          tx_frames evs = [[0xAA, 0x01, reg, length % 256], [0xAA, 0x01, reg, length % 256]] ∧
          st = Status.SUCCESS) ∨
        (∃ b, b ≠ 0xEE ∧ first_bytes evs = [0xEE, 0xEE, b] ∧
          tx_frames evs = [[0xAA, 0x01, reg, length % 256], [0xAA, 0x01, reg, length % 256],
            [0xAA, 0x01, reg, length % 256]] ∧
          st = Status.SUCCESS) ∨
        (first_bytes evs = [0xEE, 0xEE, 0xEE] ∧
          tx_frames evs = [[0xAA, 0x01, reg, length % 256], [0xAA, 0x01, reg, length % 256],
            [0xAA, 0x01, reg, length % 256]] ∧
          st = Status.ERROR)) := by
  obtain ⟨F, st, r, evs, hrun, htr, hout, _⟩ :=
    read_reg_mock D cfg inst hcfg reg length dest s htx hrx hl1 hl2 T hT htick
  refine ⟨F, st, r, evs, hrun, htr, ?_⟩
  unfold first_bytes
  generalize tx_frames evs = frames at hout
  generalize checks evs = chks at hout
  simp only [RetryOutcome] at hout
  obtain ⟨c1, h1⟩ := hout
  rcases h1 with ⟨e1, rfl, rfl, rfl⟩ | ⟨e1, fr1, ch1, rfl, rfl, c2, h2⟩
  · exact Or.inl ⟨c1.getD 0 0, read_err_false c1 e1, rfl, rfl, rfl⟩
  · rcases h2 with ⟨e2, rfl, rfl, rfl⟩ | ⟨e2, fr2, ch2, rfl, rfl, c3, h3⟩
    · refine Or.inr (Or.inl ⟨c2.getD 0 0, read_err_false c2 e2, ?_, rfl, rfl⟩)
      simp only [List.map_cons, List.map_nil, read_err_true c1 e1]
    · rcases h3 with ⟨e3, rfl, rfl, rfl⟩ | ⟨e3, fr3, ch3, rfl, rfl, rfl, rfl, rfl⟩
      · refine Or.inr (Or.inr (Or.inl ⟨c3.getD 0 0, read_err_false c3 e3, ?_, rfl, rfl⟩))
        simp only [List.map_cons, List.map_nil, read_err_true c1 e1, read_err_true c2 e2]
      · refine Or.inr (Or.inr (Or.inr ⟨?_, rfl, rfl⟩))
        simp only [List.map_cons, List.map_nil, read_err_true c1 e1, read_err_true c2 e2,
          read_err_true c3 e3]

/-! ## Write path -/

theorem attempt_mono {frame chk : List Nat} {dest rxlen : Nat} {b1 b2 : ℚ} {w r : World}
    (h : Attempt frame chk dest rxlen b1 w r) (hb : b1 ≤ b2) :
    Attempt frame chk dest rxlen b2 w r :=
  { h with tick := le_trans h.tick (by linarith) }

theorem write_err_pair (b0 b1 : Nat) :
    write_err [b0, b1] = decide (b0 = 0xEE ∧ b1 ≠ 0x01) := by
  unfold write_err
  by_cases h0 : b0 = 0xEE <;> by_cases h1 : b1 = 0x01 <;> simp [h0, h1]

theorem write_transfer_bound (n d : Nat) (T : ℚ) (hn : n ≤ 255) (hd : d ≤ 15) :
    (n : ℚ) + 1 + (d : ℚ) + T + 385 ≤ T + 656 := by
  have h1 : (n : ℚ) ≤ 255 := by exact_mod_cast hn
  have h2 : (d : ℚ) ≤ 15 := by exact_mod_cast hd
  linarith

theorem write_retry_mock {δ : Type} (D : Device δ) (cfg : USART_Config_t) (inst : USART_Instance)
    (hcfg : cfg.instance_ptr = some inst) (reg length : Nat) (payload : List Nat)
    (s : Mock δ × World)
    (htx : s.2.st.tx_status = USART_TX_Status.USART_TX_IDLE)
    (hrx : s.2.st.rx_status = USART_RX_Status.USART_RX_IDLE)
    (hl1 : 1 ≤ length) (hl2 : (4 + length) % 256 ≠ 0) (T : ℚ)
    (hTdef : (USART_Calc_Timeout_f32 (some cfg) (some (some 0)) 5 2).2 = some T)
    (htick : (s.2.g_systick_time : ℚ) + (T + 656) < 4294967296) :
    ∃ (F : Nat) (r : Mock δ × World),
      (∀ fuel, F ≤ fuel →
        BNO_Write_Reg_Retry (mock D) fuel (some cfg) reg length (some payload) s
          = some (if write_err [r.2.mem write_response 0, r.2.mem write_response 1] = true
              then Status.ERROR else Status.SUCCESS, r)) ∧
      Attempt ((write_cmd reg length payload).take ((4 + length) % 256))
        [r.2.mem write_response 0, r.2.mem write_response 1] write_response 2
        (T + 656) s.2 r.2 := by
  have hn : (4 + length) % 256 ≤ 255 := by
    have := Nat.mod_lt (4 + length) (by norm_num : 256 > 0)
    omega
  have hbound := write_transfer_bound ((4 + length) % 256) 15 T hn (by norm_num)
  obtain ⟨F, r, hrun, hT⟩ := transfer_mock D cfg inst hcfg (write_cmd reg length payload)
    ((4 + length) % 256) write_response true 2 15 2 false s htx hrx (by omega) (by omega)
    (by norm_num) (by norm_num) (by norm_num) T hTdef (by linarith)
  refine ⟨F, (r.1, log (Ev.checked [r.2.mem write_response 0, r.2.mem write_response 1]) r.2),
    ?_, ?_⟩
  · intro fuel hf
    unfold BNO_Write_Reg_Retry
    dsimp only
    rw [if_neg (by omega)]
    show CHECK_STATUS (BNO_transfer (mock D) fuel (some cfg) (write_cmd reg length payload)
      ((4 + length) % 256) write_response true 2 15 2 false s) _ = _
    rw [hrun fuel hf, CHECK_STATUS_success]
    show (if r.2.mem write_response 0 = 0xEE ∧ r.2.mem write_response 1 ≠ 0x01
        then some (Status.ERROR,
          (r.1, log (Ev.checked [r.2.mem write_response 0, r.2.mem write_response 1]) r.2))
        else some (Status.SUCCESS,
          (r.1, log (Ev.checked [r.2.mem write_response 0, r.2.mem write_response 1]) r.2)))
      = some (if write_err [r.2.mem write_response 0, r.2.mem write_response 1] = true
          then Status.ERROR else Status.SUCCESS, _)
    rw [write_err_pair]
    by_cases h : r.2.mem write_response 0 = 0xEE ∧ r.2.mem write_response 1 ≠ 0x01
    · rw [if_pos h]
      simp [h]
    · rw [if_neg h]
      simp [h]
  · exact attempt_mono (attempt_of_transferred _ _ write_response 2 15 _ s.2 r.2 hT) hbound

theorem write_reg_mock {δ : Type} (D : Device δ) (cfg : USART_Config_t) (inst : USART_Instance)
    (hcfg : cfg.instance_ptr = some inst) (reg length : Nat) (payload : List Nat)
    (s : Mock δ × World)
    (htx : s.2.st.tx_status = USART_TX_Status.USART_TX_IDLE)
    (hrx : s.2.st.rx_status = USART_RX_Status.USART_RX_IDLE)
    (hl1 : 1 ≤ length) (hl2 : (4 + length) % 256 ≠ 0) (T : ℚ)
    (hTdef : (USART_Calc_Timeout_f32 (some cfg) (some (some 0)) 5 2).2 = some T)
    (htick : (s.2.g_systick_time : ℚ) + 3 * (T + 666) < 4294967296) :
    ∃ (F : Nat) (st : Status) (r : Mock δ × World) (evs : List Ev),
      (∀ fuel, F ≤ fuel →
        BNO_Write_Reg (mock D) fuel (some cfg) reg length (some payload) s = some (st, r)) ∧
      r.2.trace = s.2.trace ++ evs ∧
      RetryOutcome ((write_cmd reg length payload).take ((4 + length) % 256)) write_err 3
        Status.SUCCESS (tx_frames evs) (checks evs) st ∧
      calls evs = attempt_calls ((write_cmd reg length payload).take ((4 + length) % 256))
        write_response 2 (tx_frames evs).length := by
  have hT := calc_timeout_f32_nonneg cfg 2 T hTdef
  have hn : (4 + length) % 256 ≤ 255 := by
    have := Nat.mod_lt (4 + length) (by norm_num : 256 > 0)
    omega
  have hbound := write_transfer_bound ((4 + length) % 256) 10 T hn (by norm_num)
  -- first attempt
  obtain ⟨F1, r1, hrun1, hT1⟩ := transfer_mock D cfg inst hcfg (write_cmd reg length payload)
    ((4 + length) % 256) write_response true 2 10 2 true s htx hrx (by omega) (by omega)
    (by norm_num) (by norm_num) (by norm_num) T hTdef
    (by linarith)
  have hA := attempt_mono (attempt_of_transferred _
    [r1.2.mem write_response 0, r1.2.mem write_response 1] write_response 2 10 _ s.2 r1.2 hT1)
    hbound
  obtain ⟨evs1, e1, e2, e3, e4⟩ := hA.trace
  have hfirst : ∀ fuel, F1 ≤ fuel →
      BNO_Write_Reg (mock D) fuel (some cfg) reg length (some payload) s
        = if r1.2.mem write_response 0 = 0xEE ∧ r1.2.mem write_response 1 ≠ 0x01 then
            retry_loop (mock D)
              (BNO_Write_Reg_Retry (mock D) fuel (some cfg) reg length (some payload))
              2 Status.SUCCESS
              (r1.1,
                log (Ev.checked [r1.2.mem write_response 0, r1.2.mem write_response 1]) r1.2)
          else some (Status.SUCCESS,
            (r1.1,
              log (Ev.checked [r1.2.mem write_response 0, r1.2.mem write_response 1]) r1.2)) := by
    intro fuel hf
    unfold BNO_Write_Reg
    dsimp only
    rw [if_neg (by omega)]
    show CHECK_STATUS (BNO_transfer (mock D) fuel (some cfg) (write_cmd reg length payload)
      ((4 + length) % 256) write_response true 2 10 2 true s) _ = _
    rw [hrun1 fuel hf, CHECK_STATUS_success]
    rfl
  by_cases hb : r1.2.mem write_response 0 = 0xEE ∧ r1.2.mem write_response 1 ≠ 0x01
  · obtain ⟨F2, st, r, evs2, hrun2, f1, f2, f3⟩ := retry_loop_mock D
      (fun fuel => BNO_Write_Reg_Retry (mock D) fuel (some cfg) reg length (some payload))
      ((write_cmd reg length payload).take ((4 + length) % 256)) write_err write_response 2
      (T + 656)
      (by
        intro s' htx' hrx' htick'
        obtain ⟨F, r', hrun', hA'⟩ := write_retry_mock D cfg inst hcfg reg length payload s' htx'
          hrx' hl1 hl2 T hTdef htick'
        exact ⟨F, r', [r'.2.mem write_response 0, r'.2.mem write_response 1], hrun', hA'⟩)
      2 Status.SUCCESS
      (r1.1, log (Ev.checked [r1.2.mem write_response 0, r1.2.mem write_response 1]) r1.2)
      hA.tx_idle hA.rx_idle
      (by have ht := hA.tick
          show ((log (Ev.checked [r1.2.mem write_response 0, r1.2.mem write_response 1])
            r1.2).g_systick_time : ℚ) + ((2 : Nat) : ℚ) * (T + 656 + 10) < 4294967296
          push_cast
          linarith)
    refine ⟨max F1 F2, st, r, evs1 ++ evs2, ?_, ?_, ?_, ?_⟩
    · intro fuel hf
      rw [hfirst fuel (le_trans (le_max_left _ _) hf), if_pos hb]
      exact hrun2 fuel (le_trans (le_max_right _ _) hf)
    · rw [f1, e1]
      simp
    · refine ⟨[r1.2.mem write_response 0, r1.2.mem write_response 1],
        Or.inr ⟨?_, tx_frames evs2, checks evs2, ?_, ?_, f2⟩⟩
      · rw [write_err_pair]
        simp [hb]
      · rw [tx_frames_append, e2]
        rfl
      · rw [checks_append, e3]
        rfl
    · rw [calls_append, tx_frames_append, e2, e4, f3]
      rfl
  · refine ⟨F1, Status.SUCCESS,
      (r1.1, log (Ev.checked [r1.2.mem write_response 0, r1.2.mem write_response 1]) r1.2),
      evs1, ?_, e1, ?_, ?_⟩
    · intro fuel hf
      rw [hfirst fuel hf, if_neg hb]
    · refine ⟨[r1.2.mem write_response 0, r1.2.mem write_response 1],
        Or.inl ⟨?_, e2, e3, rfl⟩⟩
      rw [write_err_pair]
      simp only [decide_eq_false_iff_not]
      exact hb
    · rw [e2, e4]
      rfl

theorem write_err_iff (c : List Nat) :
    write_err c = true ↔ is_write_error (c.getD 0 0, c.getD 1 0) := by
  unfold write_err is_write_error
  simp

theorem write_err_false_iff (c : List Nat) :
    write_err c = false ↔ ¬ is_write_error (c.getD 0 0, c.getD 1 0) := by
  rw [← write_err_iff]
  simp

/-- C2: on the mock transport, with any device behaviour, a write on an Idle port treats
a 2-byte response as an error exactly when byte 0 is 0xEE and byte 1 is not 0x01.  It
returns SUCCESS with one frame sent when the first response is not an error (so for
`0xEE 0x01` and for any byte 0 other than 0xEE); it retries only after an error response,
at most twice, and returns ERROR exactly when all three responses are errors.  The
receive waits test the timeout in binary32; the call is made with a finite timeout `T`
(so a baud rate other than 0) and a tick counter at least `3 * (T + 666)` ticks below its
32-bit limit, which is what makes every wait end. -/
theorem C2_write_error_predicate {δ : Type} (D : Device δ) (cfg : USART_Config_t)
    (inst : USART_Instance) (hcfg : cfg.instance_ptr = some inst) (reg length : Nat)
    (payload : List Nat) (s : Mock δ × World)
    (htx : s.2.st.tx_status = USART_TX_Status.USART_TX_IDLE)
    (hrx : s.2.st.rx_status = USART_RX_Status.USART_RX_IDLE)
    (hl1 : 1 ≤ length) (hl2 : (4 + length) % 256 ≠ 0) (T : ℚ)
    (hT : (USART_Calc_Timeout_f32 (some cfg) (some (some 0)) 5 2).2 = some T)
    (htick : (s.2.g_systick_time : ℚ) + 3 * (T + 666) < 4294967296) :
    (is_write_error (0xEE, 0x01) ↔ False) ∧ (∀ b0 b1, b0 ≠ 0xEE → ¬ is_write_error (b0, b1)) ∧
    (∀ b1, b1 ≠ 0x01 → is_write_error (0xEE, b1)) ∧
    ∃ (F : Nat) (st : Status) (r : Mock δ × World) (evs : List Ev),
      (∀ fuel, F ≤ fuel →
        BNO_Write_Reg (mock D) fuel (some cfg) reg length (some payload) s = some (st, r)) ∧
      r.2.trace = s.2.trace ++ evs ∧
      ((∃ p, ¬ is_write_error p ∧ response_pairs evs = [p] ∧
          tx_frames evs = [(write_cmd reg length payload).take ((4 + length) % 256)] ∧
          st = Status.SUCCESS) ∨
        (∃ p1 p2, is_write_error p1 ∧ ¬ is_write_error p2 ∧ response_pairs evs = [p1, p2] ∧
          tx_frames evs = [(write_cmd reg length payload).take ((4 + length) % 256),
            (write_cmd reg length payload).take ((4 + length) % 256)] ∧
          st = Status.SUCCESS) ∨
        (∃ p1 p2 p3, is_write_error p1 ∧ is_write_error p2 ∧ ¬ is_write_error p3 ∧
          response_pairs evs = [p1, p2, p3] ∧
          tx_frames evs = [(write_cmd reg length payload).take ((4 + length) % 256),
            (write_cmd reg length payload).take ((4 + length) % 256),
            (write_cmd reg length payload).take ((4 + length) % 256)] ∧
          st = Status.SUCCESS) ∨
        (∃ p1 p2 p3, is_write_error p1 ∧ is_write_error p2 ∧ is_write_error p3 ∧
          response_pairs evs = [p1, p2, p3] ∧
          tx_frames evs = [(write_cmd reg length payload).take ((4 + length) % 256),
            (write_cmd reg length payload).take ((4 + length) % 256),
            (write_cmd reg length payload).take ((4 + length) % 256)] ∧
          st = Status.ERROR)) := by
  refine ⟨?_, ?_, ?_, ?_⟩
  · unfold is_write_error
    simp
  · intro b0 b1 h
    unfold is_write_error
    simp [h]
  · intro b1 h
    unfold is_write_error
    simp [h]
  obtain ⟨F, st, r, evs, hrun, htr, hout, _⟩ :=
    write_reg_mock D cfg inst hcfg reg length payload s htx hrx hl1 hl2 T hT htick
  refine ⟨F, st, r, evs, hrun, htr, ?_⟩
  unfold response_pairs
  generalize tx_frames evs = frames at hout
  generalize checks evs = chks at hout
  simp only [RetryOutcome] at hout
  obtain ⟨c1, h1⟩ := hout
  rcases h1 with ⟨e1, rfl, rfl, rfl⟩ | ⟨e1, fr1, ch1, rfl, rfl, c2, h2⟩
  · exact Or.inl ⟨_, (write_err_false_iff c1).1 e1, rfl, rfl, rfl⟩
  · rcases h2 with ⟨e2, rfl, rfl, rfl⟩ | ⟨e2, fr2, ch2, rfl, rfl, c3, h3⟩
    · exact Or.inr (Or.inl ⟨_, _, (write_err_iff c1).1 e1, (write_err_false_iff c2).1 e2,
        rfl, rfl, rfl⟩)
    · rcases h3 with ⟨e3, rfl, rfl, rfl⟩ | ⟨e3, fr3, ch3, rfl, rfl, rfl, rfl, rfl⟩
      · exact Or.inr (Or.inr (Or.inl ⟨_, _, _, (write_err_iff c1).1 e1, (write_err_iff c2).1 e2,
          (write_err_false_iff c3).1 e3, rfl, rfl, rfl⟩))
      · exact Or.inr (Or.inr (Or.inr ⟨_, _, _, (write_err_iff c1).1 e1, (write_err_iff c2).1 e2,
          (write_err_iff c3).1 e3, rfl, rfl, rfl⟩))

/-- C3 (failing input): for a write of 252 bytes, whose 256-byte command fits the
512-byte transmit buffer, `uint8_t cmd_length = 4U + length` wraps to 0, the transmit
request is rejected, and `BNO_Write_Reg` returns INVALID_PARAM with nothing sent and
the world unchanged, in every environment and from every state. -/
theorem C3_write_252_rejected {σ : Type} (env : Env σ) (fuel : Nat) (cfg : USART_Config_t)
    (reg : Nat) (payload : List Nat) (s : σ × World) :
    4 + 252 ≤ TX_BUFFER_SIZE ∧ 2 + 252 ≤ RX_BUFFER_SIZE ∧
    BNO_Write_Reg env fuel (some cfg) reg 252 (some payload) s
      = some (Status.INVALID_PARAM, s) := by
  refine ⟨by decide, by decide, ?_⟩
  unfold BNO_Write_Reg BNO_transfer USART_Transmit_IRQ USART_Get_State
  cases h : cfg.instance_ptr <;> simp [CHECK_STATUS, h]

/-! ## Transport engine: rejected transmit requests and the timeout formula -/

/-- C11: `USART_Transmit_IRQ` returns INVALID_PARAM when the configuration pointer or the
buffer pointer is null, or when the byte count is 0 or greater than the 512-byte
transmit buffer; the world, and with it the port state, is then exactly the one before
the call, whatever the transmit status. -/
theorem C11_transmit_invalid_param (init_config : Option USART_Config_t)
    (tx_buffer : Option (List Nat)) (tx_length : Nat) (w : World)
    (h : init_config = none ∨ tx_buffer = none ∨ tx_length = 0 ∨ TX_BUFFER_SIZE < tx_length) :
    TX_BUFFER_SIZE = 512 ∧
    USART_Transmit_IRQ init_config tx_buffer tx_length w = (Status.INVALID_PARAM, w) := by
  refine ⟨rfl, ?_⟩
  unfold USART_Transmit_IRQ
  cases init_config with
  | none => rfl
  | some cfg =>
    cases tx_buffer with
    | none => rfl
    | some buf =>
      have hc : tx_length ≤ 0 ∨ tx_length > TX_BUFFER_SIZE := by
        rcases h with h | h | h | h
        · exact absurd h (by simp)
        · exact absurd h (by simp)
        · exact Or.inl (by omega)
        · exact Or.inr h
      simp only [if_pos hc]

/-- C12: with non-null pointers `USART_Calc_Timeout` returns SUCCESS and stores
`(1000 / baud_rate) * (8 + word_length + parity_control + stop) * length * margin`, where
`stop` is 1/2 for USART_STOP_0_5, 1 for USART_STOP_1 and 2 otherwise; in exact arithmetic
the value for 115200 baud, 8-bit words, no parity, 1 stop bit, 3 bytes and margin 5 is
1.171875 ms. -/
theorem C12_calc_timeout_formula (cfg : USART_Config_t) (t0 margin : ℚ) (length : Nat) :
    USART_Calc_Timeout (some cfg) (some t0) margin length
      = (Status.SUCCESS,
          (1000 / (cfg.baud_rate : ℚ))
            * (8 + (cfg.word_length : ℚ) + (cfg.parity_control : ℚ)
                + (if cfg.stop_bits = USART_STOP_0_5 then 1 / 2
                    else if cfg.stop_bits = USART_STOP_1 then 1 else 2))
            * (length : ℚ) * margin) ∧
    USART_STOP_0_5 = 1 ∧ USART_STOP_1 = 0 ∧
    USART_Calc_Timeout (some example_config) (some 0) 5 3
      = (Status.SUCCESS, 1171875 / 1000000) := by
  refine ⟨?_, rfl, rfl, ?_⟩
  · unfold USART_Calc_Timeout
    simp only [SEC_TO_MSEC, Prod.mk.injEq, true_and]
    push_cast
    ring
  · unfold USART_Calc_Timeout
    simp only [Prod.mk.injEq, true_and]
    norm_num [example_config, USART_STOP_0_5, USART_STOP_1, SEC_TO_MSEC]

/-! ## Frames handed to the transport -/

theorem retry_outcome_length (frame : List Nat) (err : List Nat → Bool) :
    ∀ (n : Nat) (ret : Status) (frames chks : List (List Nat)) (st : Status),
      RetryOutcome frame err n ret frames chks st →
      frames.length ≤ n ∧ (1 ≤ n → 1 ≤ frames.length) := by
  intro n
  induction n with
  | zero =>
    intro ret frames chks st h
    obtain ⟨h1, _, _⟩ := h
    rw [h1]
    exact ⟨Nat.le_refl _, fun h => h⟩
  | succ n ih =>
    intro ret frames chks st h
    obtain ⟨c, h1⟩ := h
    rcases h1 with ⟨_, hf, _, _⟩ | ⟨_, fr, ch, hf, _, h2⟩
    · rw [hf]
      exact ⟨by simp, fun _ => by simp⟩
    · rw [hf]
      have := (ih Status.ERROR fr ch st h2).1
      exact ⟨by simp; omega, fun _ => by simp⟩

/-- C13 (failing input: length 256): on the mock transport, with any device, a read of
256 bytes on an Idle port returns after one to three attempts, and each attempt hands
the transport the frame `0xAA 0x01 reg 0x00`, whose length byte is 0 (neither the
requested 256 nor at least 1), and then starts one reception of 258 bytes into the
caller's buffer.  The call is made with a finite timeout `T` and a tick counter at least
`3 * (T + 415)` ticks below its 32-bit limit, so that every receive wait ends. -/
theorem C13_read_length_byte_wraps {δ : Type} (D : Device δ) (cfg : USART_Config_t)
    (inst : USART_Instance) (hcfg : cfg.instance_ptr = some inst) (reg dest : Nat)
    (s : Mock δ × World)
    (htx : s.2.st.tx_status = USART_TX_Status.USART_TX_IDLE)
    (hrx : s.2.st.rx_status = USART_RX_Status.USART_RX_IDLE)
    (T : ℚ) (hT : (USART_Calc_Timeout_f32 (some cfg) (some (some 0)) 5 258).2 = some T)
    (htick : (s.2.g_systick_time : ℚ) + 3 * (T + 415) < 4294967296) :
    ∃ (F : Nat) (st : Status) (r : Mock δ × World) (evs : List Ev) (k : Nat),
      (∀ fuel, F ≤ fuel →
        BNO_Read_Reg (mock D) fuel (some cfg) reg 256 (some dest) s = some (st, r)) ∧
      r.2.trace = s.2.trace ++ evs ∧ 1 ≤ k ∧ k ≤ 3 ∧
      calls evs = attempt_calls [0xAA, 0x01, reg, 0] dest 258 k := by
  obtain ⟨F, st, r, evs, hrun, htr, hout, hcalls⟩ :=
    read_reg_mock D cfg inst hcfg reg 256 dest s htx hrx (by norm_num) (by norm_num) T hT htick
  obtain ⟨h1, h2⟩ := retry_outcome_length _ _ 3 _ _ _ _ hout
  exact ⟨F, st, r, evs, (tx_frames evs).length, hrun, htr, h2 (by norm_num), h1, hcalls⟩

theorem write_cmd_take_one (reg : Nat) (payload : List Nat) :
    (write_cmd reg 253 payload).take ((4 + 253) % 256) = [0xAA] := rfl

/-- C14 (failing input: a payload of 253 bytes): on the mock transport, with any device,
a write of 253 bytes on an Idle port returns after one to three attempts, and each
attempt hands the transport the single byte `0xAA` instead of the 257 bytes of the
command, because the command length is held in a `uint8_t`; each attempt then starts a
reception of 2 bytes.  The call is made with a finite timeout `T` and a tick counter at
least `3 * (T + 666)` ticks below its 32-bit limit, so that every receive wait ends. -/
theorem C14_write_frame_truncated {δ : Type} (D : Device δ) (cfg : USART_Config_t)
    (inst : USART_Instance) (hcfg : cfg.instance_ptr = some inst) (reg : Nat)
    (payload : List Nat) (s : Mock δ × World)
    (htx : s.2.st.tx_status = USART_TX_Status.USART_TX_IDLE)
    (hrx : s.2.st.rx_status = USART_RX_Status.USART_RX_IDLE)
    (T : ℚ) (hT : (USART_Calc_Timeout_f32 (some cfg) (some (some 0)) 5 2).2 = some T)
    (htick : (s.2.g_systick_time : ℚ) + 3 * (T + 666) < 4294967296) :
    4 + 253 ≤ TX_BUFFER_SIZE ∧
    ∃ (F : Nat) (st : Status) (r : Mock δ × World) (evs : List Ev) (k : Nat),
      (∀ fuel, F ≤ fuel →
        BNO_Write_Reg (mock D) fuel (some cfg) reg 253 (some payload) s = some (st, r)) ∧
      r.2.trace = s.2.trace ++ evs ∧ 1 ≤ k ∧ k ≤ 3 ∧
      calls evs = attempt_calls [0xAA] write_response 2 k := by
  refine ⟨by decide, ?_⟩
  obtain ⟨F, st, r, evs, hrun, htr, hout, hcalls⟩ :=
    write_reg_mock D cfg inst hcfg reg 253 payload s htx hrx (by norm_num) (by norm_num) T hT
      htick
  obtain ⟨h1, h2⟩ := retry_outcome_length _ _ 3 _ _ _ _ hout
  rw [write_cmd_take_one] at hcalls
  exact ⟨F, st, r, evs, (tx_frames evs).length, hrun, htr, h2 (by norm_num), h1, hcalls⟩

/-! ## The mock environment: slots without reception -/

theorem keeps_refl (w : World) : Keeps w w :=
  ⟨rfl, rfl, rfl, rfl, rfl, rfl, rfl, rfl, fun _ _ => rfl, rfl⟩

theorem keeps_trans {w w1 w2 : World} (h1 : Keeps w w1) (h2 : Keeps w1 w2) : Keeps w w2 := by
  refine ⟨?_, ?_, ?_, ?_, ?_, ?_, ?_, ?_, ?_, ?_⟩
  · rw [h2.mem, h1.mem]
  · rw [h2.rx_status, h1.rx_status]
  · rw [h2.rx_index, h1.rx_index]
  · rw [h2.rx_instance, h1.rx_instance]
  · rw [h2.rx_buffer, h1.rx_buffer]
  · rw [h2.rx_length, h1.rx_length]
  · rw [h2.trace, h1.trace]
  · rw [h2.rxne, h1.rxne]
  · intro j hj
    rw [h2.err j hj, h1.err j hj]
  · rw [h2.rxneie, h1.rxneie]

theorem mock_rxd_nil (r : USART_t) : mock_rxd [] r = ([], r) := by
  unfold mock_rxd
  split_ifs <;> rfl

theorem mock_hw_norx {δ : Type} (D : Device δ) (m : Mock δ) (r : USART_t)
    (h : m.outbox = []) :
    mock_hw D m r = (deliver D m.dev (m.inbox ++ r.TDR), mock_txd r) := by
  unfold mock_hw deliver
  rw [h, mock_rxd_nil]
  dsimp only
  cases D.respond m.dev (m.inbox ++ r.TDR) with
  | none => rfl
  | some p => simp

theorem mock_txd_facts (r : USART_t) :
    (mock_txd r).CR1 = r.CR1 ∧ (mock_txd r).DR = r.DR ∧ (mock_txd r).TDR = [] ∧
    (mock_txd r).SR.testBit 7 = true ∧
    (r.TDR = [] → (mock_txd r).SR.testBit 6 = r.SR.testBit 6) ∧
    (r.TDR ≠ [] → (mock_txd r).SR.testBit 6 = true) ∧
    (∀ j, j ≠ 6 → j ≠ 7 → (mock_txd r).SR.testBit j = r.SR.testBit j) := by
  unfold mock_txd
  dsimp only
  refine ⟨rfl, rfl, rfl, ?_, ?_, ?_, ?_⟩
  · split_ifs
    · rw [testBit_reg_set]
      simp [USART_SR_TXE, testBit_BIT]
    · rw [testBit_reg_set, testBit_reg_set]
      simp [USART_SR_TXE, testBit_BIT]
  · intro h
    rw [if_pos h, testBit_reg_set]
    simp [USART_SR_TXE, testBit_BIT]
  · intro h
    rw [if_neg h, testBit_reg_set]
    simp [USART_SR_TC, testBit_BIT]
  · intro j h6 h7
    have a6 : ¬ (6 = j) := fun h => h6 h.symm
    have a7 : ¬ (7 = j) := fun h => h7 h.symm
    split_ifs
    · rw [testBit_reg_set]
      simp [USART_SR_TXE, testBit_BIT, a7]
    · rw [testBit_reg_set, testBit_reg_set]
      simp [USART_SR_TXE, USART_SR_TC, testBit_BIT, a6, a7]

/-- A handler run that finds RXNE clear leaves the receive state, the memory and the
receive flags alone. -/
theorem handler_norx (w : World) (h5 : w.regs.SR.testBit 5 = false) :
    Keeps w (USART_IRQHandler w) := by
  unfold USART_IRQHandler
  have hT := TXE_frame w
  have s5 : (USART_IRQHandler_TXE w).regs.SR.testBit 5 = false := by
    rw [hT.SR 5 (by norm_num) (by norm_num) (by norm_num)]
    exact h5
  rw [RXNE_skip _ (by rw [reg_test_RXNE, s5, Bool.and_false])]
  have hC := TC_frame (USART_IRQHandler_TXE w)
  refine ⟨?_, ?_, ?_, ?_, ?_, ?_, ?_, ?_, ?_, ?_⟩
  · rw [hC.mem, hT.mem]
  · rw [hC.rx_status, hT.rx_status]
  · rw [hC.rx_index, hT.rx_index]
  · rw [hC.rx_instance, hT.rx_instance]
  · rw [hC.rx_buffer, hT.rx_buffer]
  · rw [hC.rx_length, hT.rx_length]
  · rw [hC.trace, hT.trace]
  · rw [hC.SR 5 (by norm_num) (by norm_num), hT.SR 5 (by norm_num) (by norm_num) (by norm_num)]
  · intro j hj
    rw [hC.SR j (by omega) (by omega), hT.SR j (by omega) (by omega) (by omega)]
  · rw [hC.CR1 5 (by norm_num) (by norm_num), hT.CR1 5 (by norm_num) (by norm_num) (by norm_num)]

/-- One slot with nothing queued for reception: the transmitted bytes reach the device,
and the receive side stays as it was. -/
theorem mock_poll_norx {δ : Type} (D : Device δ) (m : Mock δ) (w : World) (h : NoRx (m, w)) :
    (mock_poll D m w).1 = deliver D m.dev (m.inbox ++ w.regs.TDR) ∧
    Keeps w (mock_poll D m w).2 := by
  have hhw := mock_hw_norx D m w.regs h.outbox
  obtain ⟨t1, t2, t3, t4, t5, t6, t7⟩ := mock_txd_facts w.regs
  have s5 : (mock_txd w.regs).SR.testBit 5 = false := by
    rw [t7 5 (by norm_num) (by norm_num)]
    exact h.rxne
  constructor
  · unfold mock_poll
    dsimp only
    rw [hhw]
    split_ifs <;> rfl
  · cases hp : irq_pending (mock_hw D m w.regs).2
    · rw [mock_poll_tick D m w hp, hhw]
      refine ⟨rfl, rfl, rfl, rfl, rfl, rfl, rfl, ?_, ?_, ?_⟩
      · show (mock_txd w.regs).SR.testBit 5 = _
        rw [t7 5 (by norm_num) (by norm_num)]
      · intro j hj
        show (mock_txd w.regs).SR.testBit j = _
        rw [t7 j (by omega) (by omega)]
      · show (mock_txd w.regs).CR1.testBit 5 = _
        rw [t1]
    · rw [mock_poll_irq D m w hp, hhw]
      have hK := handler_norx { w with regs := mock_txd w.regs } s5
      refine keeps_trans ?_ hK
      refine ⟨rfl, rfl, rfl, rfl, rfl, rfl, rfl, ?_, ?_, ?_⟩
      · show (mock_txd w.regs).SR.testBit 5 = _
        rw [t7 5 (by norm_num) (by norm_num)]
      · intro j hj
        show (mock_txd w.regs).SR.testBit j = _
        rw [t7 j (by omega) (by omega)]
      · show (mock_txd w.regs).CR1.testBit 5 = _
        rw [t1]

theorem deliver_silent {δ : Type} (D : Device δ) (m : Mock δ) (h1 : m.outbox = [])
    (h2 : D.respond m.dev m.inbox = none) : deliver D m.dev (m.inbox ++ []) = m := by
  unfold deliver
  rw [List.append_nil, h2]
  cases m
  simp only [Mock.mk.injEq, true_and]
  exact h1.symm

/-- One slot of the mock transport at rest: a tick elapses and nothing else changes. -/
theorem rest_poll {δ : Type} (D : Device δ) (s : Mock δ × World) (h : Rest D s) :
    Rest D (mock_poll D s.1 s.2) ∧ (mock_poll D s.1 s.2).1 = s.1 ∧
    Keeps s.2 (mock_poll D s.1 s.2).2 ∧
    (mock_poll D s.1 s.2).2.st = s.2.st ∧
    (mock_poll D s.1 s.2).2.regs.CR1 = s.2.regs.CR1 ∧
    (mock_poll D s.1 s.2).2.g_systick_time = (s.2.g_systick_time + 1) % 4294967296 := by
  obtain ⟨m, w⟩ := s
  obtain ⟨hm, hK⟩ := mock_poll_norx D m w h.norx
  have hm' : (mock_poll D m w).1 = m := by
    rw [hm]
    have e : w.regs.TDR = [] := h.quiet.tdr
    rw [e]
    exact deliver_silent D m h.norx.outbox h.silent
  have hhw := mock_hw_norx D m w.regs h.norx.outbox
  obtain ⟨t1, t2, t3, t4, t5, t6, t7⟩ := mock_txd_facts w.regs
  have hp : irq_pending (mock_hw D m w.regs).2 = false := by
    rw [hhw]
    unfold irq_pending
    rw [reg_test_TXEIE, reg_test_TCIE, reg_test_RXNEIE, reg_test_TXE, reg_test_TC,
      reg_test_RXNE, t1, t5 h.quiet.tdr, t7 5 (by norm_num) (by norm_num)]
    have a := h.quiet.txeie
    have b := h.quiet.tc
    have c := h.norx.rxne
    simp only at a b c
    rw [a, b, c]
    simp
  have hw : (mock_poll D m w).2 = SysTick_Handler { w with regs := mock_txd w.regs } := by
    rw [mock_poll_tick D m w hp, hhw]
  refine ⟨⟨?_, ⟨?_, ?_, ?_⟩, ?_⟩, hm', hK, ?_, ?_, ?_⟩
  · rw [hw]
    refine ⟨?_, ?_, t3, h.quiet.idx, h.quiet.idle⟩
    · show (mock_txd w.regs).CR1.testBit 7 = false
      rw [t1]
      exact h.quiet.txeie
    · show (mock_txd w.regs).SR.testBit 6 = false
      rw [t5 h.quiet.tdr]
      exact h.quiet.tc
  · rw [hm']
    exact h.norx.outbox
  · rw [hK.rxne]
    exact h.norx.rxne
  · intro j hj
    rw [hK.err j hj]
    exact h.norx.err j hj
  · rw [hm']
    exact h.silent
  · rw [hw]
    rfl
  · rw [hw]
    exact t1
  · rw [hw]
    rfl

/-! ## The mock environment: a command reaches the device -/

theorem polls_add {σ : Type} (env : Env σ) (a b : Nat) :
    ∀ s : σ × World, polls env (a + b) s = polls env b (polls env a s) := by
  induction a with
  | zero =>
    intro s
    rw [Nat.zero_add]
    rfl
  | succ a ih =>
    intro s
    rw [Nat.succ_add]
    exact ih (env.poll s.1 s.2)

/-- `k` slots of the mock transport at rest: `k` ticks elapse and nothing else changes. -/
theorem rest_polls {δ : Type} (D : Device δ) (k : Nat) :
    ∀ s : Mock δ × World, Rest D s →
      Rest D (polls (mock D) k s) ∧ (polls (mock D) k s).1 = s.1 ∧
      Keeps s.2 (polls (mock D) k s).2 ∧
      (polls (mock D) k s).2.st = s.2.st ∧
      (polls (mock D) k s).2.regs.CR1 = s.2.regs.CR1 ∧
      (polls (mock D) k s).2.g_systick_time % 4294967296
        = (s.2.g_systick_time + k) % 4294967296 ∧
      (s.2.g_systick_time < 4294967296 →
        (polls (mock D) k s).2.g_systick_time < 4294967296) := by
  induction k with
  | zero =>
    intro s h
    exact ⟨h, rfl, keeps_refl _, rfl, rfl, rfl, fun h => h⟩
  | succ k ih =>
    intro s h
    obtain ⟨a1, a2, a3, a4, a5, a6⟩ := rest_poll D s h
    obtain ⟨b1, b2, b3, b4, b5, b6, b7⟩ := ih (mock_poll D s.1 s.2) a1
    refine ⟨b1, ?_, keeps_trans a3 b3, ?_, ?_, ?_, ?_⟩
    · exact b2.trans a2
    · exact b4.trans a4
    · exact b5.trans a5
    · show (polls (mock D) k (mock_poll D s.1 s.2)).2.g_systick_time % 4294967296 = _
      rw [b6, a6]
      omega
    · intro _
      apply b7
      rw [a6]
      exact Nat.mod_lt _ (by norm_num)

/-- One slot while the command is draining and bytes are left: the next byte goes to the
data register, the previous one reaches the device, no tick elapses. -/
theorem mock_poll_send {δ : Type} (D : Device δ) (d0 : δ) (i0 b : List Nat)
    (s : Mock δ × World) (h : TxLink d0 i0 b s) (hlt : s.2.st.tx_index < s.2.st.tx_length)
    (hpre : ∀ k, k < b.length → D.respond d0 (i0 ++ b.take k) = none) :
    TxLink d0 i0 b (mock_poll D s.1 s.2) ∧
    (mock_poll D s.1 s.2).2.st.tx_index = s.2.st.tx_index + 1 ∧
    Keeps s.2 (mock_poll D s.1 s.2).2 ∧
    (mock_poll D s.1 s.2).2.g_systick_time = s.2.g_systick_time := by
  obtain ⟨m, w⟩ := s
  have hdrn : Drn w := h.drn
  have hdev : m.dev = d0 := h.dev
  have hlen : w.st.tx_length = b.length := h.len
  have hsent : m.inbox ++ w.regs.TDR = i0 ++ b.take w.st.tx_index := h.sent
  have hlt' : w.st.tx_index < w.st.tx_length := hlt
  show TxLink d0 i0 b (mock_poll D m w) ∧ (mock_poll D m w).2.st.tx_index = w.st.tx_index + 1 ∧
    Keeps w (mock_poll D m w).2 ∧ (mock_poll D m w).2.g_systick_time = w.g_systick_time
  obtain ⟨hm, hK⟩ := mock_poll_norx D m w h.norx
  obtain ⟨hD1, hi1⟩ := (mock_poll_drain D m w hdrn).1 hlt'
  have hF := mock_poll_frame D m w
  obtain ⟨f1, f2, f3, _, f5, _⟩ := mock_hw_facts D m w.regs
  have hp : irq_pending (mock_hw D m w.regs).2 = true := by
    unfold irq_pending
    rw [reg_test_TXEIE, reg_test_TXE, f1, hdrn.txeie, f3]
    rfl
  have hw := mock_poll_irq D m w hp
  generalize hw1 : ({ w with regs := (mock_hw D m w.regs).2 } : World) = w1 at hw
  have e1 : w1.st = w.st := by rw [← hw1]
  have e2 : w1.regs = (mock_hw D m w.regs).2 := by rw [← hw1]
  have e3 : w1.g_systick_time = w.g_systick_time := by rw [← hw1]
  obtain ⟨_, a2, _, _, _⟩ := handler_tx_write w1 (by rw [e1]; exact hdrn.inst)
    (by rw [e2]; exact f3) (by rw [e1]; exact hlt')
  have hHF := handler_frame w1
  have htdr : (mock_poll D m w).2.regs.TDR = [w.st.tx_buffer w.st.tx_index] := by
    rw [hw, a2, e2, f2, e1]
    rfl
  have htick : (mock_poll D m w).2.g_systick_time = w.g_systick_time := by
    rw [hw, hHF.tick, e3]
  have hidx : w.st.tx_index < b.length := by
    rw [← hlen]
    exact hlt'
  have hmock : (mock_poll D m w).1
      = { dev := d0, inbox := i0 ++ b.take w.st.tx_index, outbox := [] } := by
    rw [hm, hsent, hdev]
    unfold deliver
    rw [hpre _ hidx]
  refine ⟨⟨hD1, ⟨?_, ?_, ?_⟩, ?_, ?_, ?_, ?_⟩, hi1, hK, htick⟩
  · rw [hmock]
  · rw [hK.rxne]
    exact h.norx.rxne
  · intro j hj
    rw [hK.err j hj]
    exact h.norx.err j hj
  · rw [hmock]
  · rw [hF.tx_length]
    exact hlen
  · intro i hi
    rw [hF.tx_buffer]
    exact h.buf i hi
  · rw [hmock, htdr, hi1]
    show (i0 ++ b.take w.st.tx_index) ++ [w.st.tx_buffer w.st.tx_index] = _
    rw [h.buf _ hidx, List.append_assoc]
    congr 1
    rw [← List.take_concat_get b _ hidx, List.concat_eq_append]
    rfl

/-- The slot after the last byte was written: that byte reaches the device, which now
holds the whole command, and the transmitter comes to rest; no tick elapses. -/
theorem mock_poll_last {δ : Type} (D : Device δ) (d0 : δ) (i0 b : List Nat)
    (s : Mock δ × World) (h : TxLink d0 i0 b s) (hge : ¬ s.2.st.tx_index < s.2.st.tx_length) :
    Quiet (mock_poll D s.1 s.2).2 ∧
    (mock_poll D s.1 s.2).1 = deliver D d0 (i0 ++ b) ∧
    Keeps s.2 (mock_poll D s.1 s.2).2 ∧
    (mock_poll D s.1 s.2).2.g_systick_time = s.2.g_systick_time := by
  obtain ⟨m, w⟩ := s
  have hdrn : Drn w := h.drn
  have hdev : m.dev = d0 := h.dev
  have hlen : w.st.tx_length = b.length := h.len
  have hsent : m.inbox ++ w.regs.TDR = i0 ++ b.take w.st.tx_index := h.sent
  have hge' : ¬ w.st.tx_index < w.st.tx_length := hge
  show Quiet (mock_poll D m w).2 ∧ (mock_poll D m w).1 = deliver D d0 (i0 ++ b) ∧
    Keeps w (mock_poll D m w).2 ∧ (mock_poll D m w).2.g_systick_time = w.g_systick_time
  obtain ⟨hm, hK⟩ := mock_poll_norx D m w h.norx
  have hQ := (mock_poll_drain D m w hdrn).2 hge'
  obtain ⟨f1, f2, f3, _, f5, _⟩ := mock_hw_facts D m w.regs
  have hp : irq_pending (mock_hw D m w.regs).2 = true := by
    unfold irq_pending
    rw [reg_test_TXEIE, reg_test_TXE, f1, hdrn.txeie, f3]
    rfl
  have hw := mock_poll_irq D m w hp
  have hHF := handler_frame { w with regs := (mock_hw D m w.regs).2 }
  refine ⟨hQ, ?_, hK, ?_⟩
  · rw [hm, hsent, hdev, List.take_of_length_le (by omega)]
  · rw [hw, hHF.tick]

/-- On the mock environment the transmit wait ends with the transmitter at rest and the
whole command handed to the device, provided the device does not answer a proper prefix
of it; no tick elapses and the receive side is untouched. -/
theorem wait_tx_link {δ : Type} (D : Device δ) (d0 : δ) (i0 b : List Nat)
    (hpre : ∀ k, k < b.length → D.respond d0 (i0 ++ b.take k) = none) :
    ∀ (k : Nat) (s : Mock δ × World), TxLink d0 i0 b s →
      s.2.st.tx_length - s.2.st.tx_index ≤ k →
      ∃ r : Mock δ × World,
        (∀ fuel, k + 2 ≤ fuel → wait_tx (mock D) fuel s = some r) ∧
        Quiet r.2 ∧ r.1 = deliver D d0 (i0 ++ b) ∧ Keeps s.2 r.2 ∧
        r.2.g_systick_time = s.2.g_systick_time := by
  have done : ∀ (k : Nat) (s : Mock δ × World), TxLink d0 i0 b s →
      ¬ s.2.st.tx_index < s.2.st.tx_length →
      ∃ r : Mock δ × World,
        (∀ fuel, k + 2 ≤ fuel → wait_tx (mock D) fuel s = some r) ∧
        Quiet r.2 ∧ r.1 = deliver D d0 (i0 ++ b) ∧ Keeps s.2 r.2 ∧
        r.2.g_systick_time = s.2.g_systick_time := by
    intro k s hL hge
    obtain ⟨hQ, hm, hK, ht⟩ := mock_poll_last D d0 i0 b s hL hge
    refine ⟨mock_poll D s.1 s.2, ?_, hQ, hm, hK, ht⟩
    intro fuel hf
    obtain ⟨f, rfl⟩ : ∃ f, fuel = f + 2 := ⟨fuel - 2, by omega⟩
    rw [wait_tx_busy (mock D) (f + 1) s hL.drn.busy]
    exact wait_tx_idle (mock D) f _ hQ.idle
  intro k
  induction k with
  | zero =>
    intro s hL hk
    exact done 0 s hL (by omega)
  | succ k ih =>
    intro s hL hk
    by_cases hlt : s.2.st.tx_index < s.2.st.tx_length
    · obtain ⟨hL1, hi1, hK1, ht1⟩ := mock_poll_send D d0 i0 b s hL hlt hpre
      have hF := mock_poll_frame D s.1 s.2
      obtain ⟨r, r1, r2, r3, r4, r5⟩ := ih (mock_poll D s.1 s.2) hL1
        (by rw [hi1, hF.tx_length]; omega)
      refine ⟨r, ?_, r2, r3, keeps_trans hK1 r4, r5.trans ht1⟩
      intro fuel hf
      obtain ⟨f, rfl⟩ : ∃ f, fuel = f + 1 := ⟨fuel - 1, by omega⟩
      rw [wait_tx_busy (mock D) f s hL.drn.busy]
      exact r1 f (by omega)
    · exact done (k + 1) s hL hlt

/-! ## The mock environment: a device that does not answer -/

theorem abort_rest {δ : Type} (D : Device δ) (cfg : USART_Config_t) (inst : USART_Instance)
    (hcfg : cfg.instance_ptr = some inst) (s : Mock δ × World) (h : Rest D s) :
    Rest D (s.1, (USART_Abort_Receive_IRQ (some cfg) (log Ev.abort s.2)).2) := by
  refine ⟨abort_quiet cfg inst hcfg s.2 h.quiet, ⟨h.norx.outbox, ?_, ?_⟩, h.silent⟩
  · rw [USART_Abort_Receive_IRQ_eq _ cfg inst hcfg]
    exact h.norx.rxne
  · rw [USART_Abort_Receive_IRQ_eq _ cfg inst hcfg]
    exact h.norx.err

/-- The receive wait on a mock transport at rest: nothing arrives, so the wait ends by
the abort at the first tick `N` at which the timeout test holds; memory is untouched. -/
theorem wait_rx_rest {δ : Type} (D : Device δ) (cfg : USART_Config_t) (inst : USART_Instance)
    (hcfg : cfg.instance_ptr = some inst) (chk : Bool) (start : Nat) (T : Option ℚ)
    (lo N : Nat) (hN : timeout_elapsed start T N = true)
    (hnot : ∀ t, lo ≤ t → t < N → timeout_elapsed start T t = false)
    (hNb : N < 4294967296) :
    ∀ (μ : Nat) (s : Mock δ × World), Rest D s →
      s.2.st.rx_status = USART_RX_Status.USART_RX_BUSY →
      lo ≤ s.2.g_systick_time → s.2.g_systick_time ≤ N →
      N - s.2.g_systick_time ≤ μ →
      ∃ r : Mock δ × World,
        (∀ fuel, μ + 1 ≤ fuel →
          wait_rx (mock D) (some cfg) chk start T fuel s = some (Status.SUCCESS, r)) ∧
        Rest D r ∧ r.1 = s.1 ∧ r.2.mem = s.2.mem ∧ r.2.trace = s.2.trace ++ [Ev.abort] ∧
        r.2.st.rx_status = USART_RX_Status.USART_RX_IDLE ∧
        r.2.g_systick_time = N := by
  have base : ∀ (μ : Nat) (s : Mock δ × World), Rest D s →
      s.2.st.rx_status = USART_RX_Status.USART_RX_BUSY → s.2.g_systick_time = N →
      ∃ r : Mock δ × World,
        (∀ fuel, μ + 1 ≤ fuel →
          wait_rx (mock D) (some cfg) chk start T fuel s = some (Status.SUCCESS, r)) ∧
        Rest D r ∧ r.1 = s.1 ∧ r.2.mem = s.2.mem ∧ r.2.trace = s.2.trace ++ [Ev.abort] ∧
        r.2.st.rx_status = USART_RX_Status.USART_RX_IDLE ∧
        r.2.g_systick_time = N := by
    intro μ s hR hb hN'
    refine ⟨(s.1, (USART_Abort_Receive_IRQ (some cfg) (log Ev.abort s.2)).2), ?_,
      abort_rest D cfg inst hcfg s hR, rfl, ?_, ?_, ?_, ?_⟩
    · intro fuel hf
      obtain ⟨f, rfl⟩ : ∃ f, fuel = f + 1 := ⟨fuel - 1, by omega⟩
      exact wait_rx_abort (mock D) cfg inst hcfg chk start T f s hb (by rw [hN']; exact hN)
    · rw [USART_Abort_Receive_IRQ_eq _ cfg inst hcfg]
      rfl
    · rw [USART_Abort_Receive_IRQ_eq _ cfg inst hcfg]
      rfl
    · rw [USART_Abort_Receive_IRQ_eq _ cfg inst hcfg]
    · rw [USART_Abort_Receive_IRQ_eq _ cfg inst hcfg]
      exact hN'
  intro μ
  induction μ with
  | zero =>
    intro s hR hb hlo hhi hμ
    exact base 0 s hR hb (by omega)
  | succ μ ih =>
    intro s hR hb hlo hhi hμ
    by_cases hc : N ≤ s.2.g_systick_time
    · exact base (μ + 1) s hR hb (by omega)
    · obtain ⟨a1, a2, a3, a4, _, a6⟩ := rest_poll D s hR
      have htk : (mock_poll D s.1 s.2).2.g_systick_time = s.2.g_systick_time + 1 := by
        rw [a6]
        exact Nat.mod_eq_of_lt (by omega)
      obtain ⟨r, r1, r2, r3, r4, r5, r6, r7⟩ := ih (mock_poll D s.1 s.2) a1
        (by rw [a4]; exact hb) (by rw [htk]; omega) (by rw [htk]; omega) (by rw [htk]; omega)
      refine ⟨r, ?_, r2, r3.trans a2, r4.trans a3.mem, ?_, r6, r7⟩
      · intro fuel hf
        obtain ⟨f, rfl⟩ : ∃ f, fuel = f + 1 := ⟨fuel - 1, by omega⟩
        rw [wait_rx_poll (mock D) (some cfg) chk start T f s hb (hnot _ hlo (by omega))]
        exact r1 f (by omega)
      · rw [r5, a3.trace]

/-- The receive wait on a mock transport at rest never ends when the timeout test holds
at no value of the 32-bit tick counter. -/
theorem wait_rx_hang {δ : Type} (D : Device δ) (usart : Option USART_Config_t) (chk : Bool)
    (start : Nat) (T : Option ℚ)
    (hnever : ∀ t : Nat, t < 4294967296 → timeout_elapsed start T t = false) :
    ∀ (fuel : Nat) (s : Mock δ × World), Rest D s →
      s.2.st.rx_status = USART_RX_Status.USART_RX_BUSY →
      s.2.g_systick_time < 4294967296 →
      wait_rx (mock D) usart chk start T fuel s = none := by
  intro fuel
  induction fuel with
  | zero =>
    intro s _ _ _
    rfl
  | succ fuel ih =>
    intro s hR hb ht
    rw [wait_rx_poll (mock D) usart chk start T fuel s hb (hnever _ ht)]
    obtain ⟨a1, _, _, a4, _, a6⟩ := rest_poll D s hR
    apply ih (mock_poll D s.1 s.2) a1
    · show (mock_poll D s.1 s.2).2.st.rx_status = _
      rw [a4]
      exact hb
    · show (mock_poll D s.1 s.2).2.g_systick_time < _
      rw [a6]
      exact Nat.mod_lt _ (by norm_num)

/-- The timeout test holds at no value of the 32-bit tick counter when the binary32 sum
is `2 ^ 32` or more: the conversion of the counter is at most `2 ^ 32`. -/
theorem timeout_never (start : Nat) (T : ℚ)
    (h : 4294967296 ≤ f32 (f32 (start : ℚ) + T)) :
    ∀ t : Nat, t < 4294967296 → timeout_elapsed start (some T) t = false := by
  intro t ht
  have h1 := f32_tick_le t ht
  have : ¬ (timeout_elapsed start (some T) t = true) := by
    rw [timeout_elapsed_iff]
    linarith
  simpa using this

/-- From `2 ^ 32 - 128` on, the start tick is converted to `2 ^ 32`, and with it the
binary32 sum is `2 ^ 32` or more for every timeout that is not negative. -/
theorem timeout_sum_top (start : Nat) (T : ℚ) (hT : 0 ≤ T) (h : 4294967296 - 128 ≤ start) :
    4294967296 ≤ f32 (f32 (start : ℚ) + T) := by
  have h1 := f32_tick_top start h
  have h2 := f32_mono (by norm_num) (show (4294967296 : ℚ) ≤ f32 (start : ℚ) + T by linarith)
  rw [f32_two_pow_32] at h2
  exact h2

/-- C16 (failing input: tick counter at 4294967295 when the wait starts): on a mock
transport whose device does not answer, the receive wait loop never exits, whatever the
number of polls, when the binary32 sum `start_time + timeout_ms` is `2 ^ 32` or more: the
tick counter, converted to `float` for the comparison, is at most `2 ^ 32` before it
wraps to 0, so the test never holds and the abort is never called.  This is the case for
every start tick from `2 ^ 32 - 128` on, which the conversion to `float` rounds to
`2 ^ 32`, with any timeout that is not negative; the wait does not exit either when the
timeout is not finite (a baud rate of 0). -/
theorem C16_wait_hangs_near_wrap {δ : Type} (D : Device δ) (usart : Option USART_Config_t)
    (s : Mock δ × World) (hrest : Rest D s)
    (hbusy : s.2.st.rx_status = USART_RX_Status.USART_RX_BUSY)
    (htick : s.2.g_systick_time < 4294967296) :
    (∀ T : ℚ, 4294967296 ≤ f32 (f32 (s.2.g_systick_time : ℚ) + T) →
      ∀ fuel, wait_rx (mock D) usart true s.2.g_systick_time (some T) fuel s = none) ∧
    (4294967296 - 128 ≤ s.2.g_systick_time → ∀ T : ℚ, 0 ≤ T →
      ∀ fuel, wait_rx (mock D) usart true s.2.g_systick_time (some T) fuel s = none) ∧
    (∀ fuel, wait_rx (mock D) usart true s.2.g_systick_time none fuel s = none) := by
  refine ⟨fun T hT fuel => ?_, fun h T hT fuel => ?_, fun fuel => ?_⟩
  · exact wait_rx_hang D usart true s.2.g_systick_time (some T)
      (timeout_never _ T hT) fuel s hrest hbusy htick
  · exact wait_rx_hang D usart true s.2.g_systick_time (some T)
      (timeout_never _ T (timeout_sum_top _ T hT h)) fuel s hrest hbusy htick
  · exact wait_rx_hang D usart true s.2.g_systick_time none (fun _ _ => rfl) fuel s hrest hbusy
      htick

/-! ## The mock environment: one transfer, byte by byte -/

theorem log_keeps (e : Ev) (w r : World) (h : Keeps (log e w) r) :
    r.mem = w.mem ∧ r.st.rx_status = w.st.rx_status ∧ r.st.rx_index = w.st.rx_index ∧
    r.trace = w.trace ++ [e] ∧ r.regs.SR.testBit 5 = w.regs.SR.testBit 5 ∧
    (∀ j, j < 4 → r.regs.SR.testBit j = w.regs.SR.testBit j) ∧
    r.regs.CR1.testBit 5 = w.regs.CR1.testBit 5 :=
  ⟨h.mem, h.rx_status, h.rx_index, h.trace, h.rxne, h.err, h.rxneie⟩

/-- Transmit phase of a transfer on the mock environment, started with the transmitter
Idle and nothing being received: the request is accepted, the wait ends with the
transmitter at rest and the command handed to the device; the receive side, the memory
and the tick counter are as before. -/
theorem transmit_link {δ : Type} (D : Device δ) (cfg : USART_Config_t) (inst : USART_Instance)
    (hcfg : cfg.instance_ptr = some inst) (cmd : List Nat) (n : Nat) (hn : n = cmd.length)
    (hn1 : 1 ≤ n) (hn2 : n ≤ 512) (s : Mock δ × World)
    (htx : s.2.st.tx_status = USART_TX_Status.USART_TX_IDLE) (htdr : s.2.regs.TDR = [])
    (hnorx : NoRx s)
    (hpre : ∀ k, k < cmd.length → D.respond s.1.dev (s.1.inbox ++ cmd.take k) = none) :
    (USART_Transmit_IRQ (some cfg) (some cmd) n s.2).1 = Status.SUCCESS ∧
    ∃ r : Mock δ × World,
      (∀ fuel, n + 2 ≤ fuel →
        wait_tx (mock D) fuel
          (s.1, log (Ev.tx (cmd.take n)) (USART_Transmit_IRQ (some cfg) (some cmd) n s.2).2)
          = some r) ∧
      Quiet r.2 ∧ r.1 = deliver D s.1.dev (s.1.inbox ++ cmd) ∧
      Keeps (log (Ev.tx cmd) s.2) r.2 ∧ r.2.g_systick_time = s.2.g_systick_time := by
  subst hn
  rw [USART_Transmit_IRQ_idle s.2 cfg inst cmd cmd.length hcfg htx hn1 hn2, List.take_length]
  refine ⟨rfl, ?_⟩
  generalize hw1 : ({ s.2 with
      st := { s.2.st with
        tx_instance := some inst,
        tx_buffer := copy_tx_buffer cmd cmd.length s.2.st.tx_buffer,
        tx_length := cmd.length,
        tx_index := 0,
        tx_status := USART_TX_Status.USART_TX_BUSY },
      regs := { s.2.regs with CR1 := reg_set s.2.regs.CR1 USART_CR1_TXEIE } } : World) = w1
  have hL : TxLink s.1.dev s.1.inbox cmd (s.1, log (Ev.tx cmd) w1) := by
    rw [← hw1]
    refine ⟨⟨rfl, rfl, ?_, ?_, ?_⟩, ⟨hnorx.outbox, hnorx.rxne, hnorx.err⟩, rfl, rfl, ?_, ?_⟩
    · show (reg_set s.2.regs.CR1 USART_CR1_TXEIE).testBit 7 = true
      rw [testBit_reg_set]
      simp [USART_CR1_TXEIE, testBit_BIT]
    · show cmd.length < 65536
      omega
    · left
      show 0 < cmd.length
      omega
    · intro i hi
      show copy_tx_buffer cmd cmd.length s.2.st.tx_buffer i = _
      rw [copy_tx_buffer_apply, if_pos (by unfold TX_BUFFER_SIZE; omega)]
      simp [List.getD_eq_getElem?_getD, List.getElem?_eq_getElem hi]
    · show s.1.inbox ++ s.2.regs.TDR = s.1.inbox ++ cmd.take 0
      rw [htdr]
      rfl
  obtain ⟨r, r1, r2, r3, r4, r5⟩ := wait_tx_link D s.1.dev s.1.inbox cmd hpre cmd.length
    (s.1, log (Ev.tx cmd) w1) hL
    (by show w1.st.tx_length - w1.st.tx_index ≤ _
        rw [← hw1]
        show cmd.length - 0 ≤ _
        omega)
  refine ⟨r, r1, r2, r3, ?_, ?_⟩
  · refine keeps_trans ?_ r4
    rw [← hw1]
    refine ⟨rfl, rfl, rfl, rfl, rfl, rfl, rfl, rfl, fun _ _ => rfl, ?_⟩
    show (reg_set s.2.regs.CR1 USART_CR1_TXEIE).testBit 5 = s.2.regs.CR1.testBit 5
    rw [testBit_reg_set]
    simp [USART_CR1_TXEIE, testBit_BIT]
  · rw [r5, ← hw1]
    rfl

theorem deliver_none {δ : Type} (D : Device δ) (d : δ) (inb : List Nat)
    (h : D.respond d inb = none) :
    deliver D d inb = { dev := d, inbox := inb, outbox := [] } := by
  unfold deliver
  rw [h]

/-- A transfer on the mock environment with a device that does not answer: the command
is sent once, the reception is started, nothing arrives, and the receive wait, started
at tick `start + d`, ends by the abort at the first tick at which the binary32 timeout
test holds: at least one tick after the wait started, and within 385 ticks of the start
tick plus the timeout.  The memory is not written (but for the zero-initialisation of
the local response array), and the status is SUCCESS. -/
theorem transfer_silent {δ : Type} (D : Device δ) (cfg : USART_Config_t) (inst : USART_Instance)
    (hcfg : cfg.instance_ptr = some inst) (cmd : List Nat) (n : Nat) (hn : n = cmd.length)
    (hn1 : 1 ≤ n) (hn2 : n ≤ 512) (dest : Nat) (zi : Bool) (rxlen d tlen : Nat) (chk : Bool)
    (hr1 : 1 ≤ rxlen) (hd : 1 ≤ d) (s : Mock δ × World)
    (hq : Quiet s.2) (hnorx : NoRx s)
    (hrx : s.2.st.rx_status = USART_RX_Status.USART_RX_IDLE)
    (hsil : ∀ inb, D.respond s.1.dev inb = none) (T : ℚ)
    (hTdef : (USART_Calc_Timeout_f32 (some cfg) (some (some 0)) 5 tlen).2 = some T)
    (htick : (s.2.g_systick_time : ℚ) + (d : ℚ) + T + 385 < 4294967296) :
    ∃ (F : Nat) (r : Mock δ × World),
      (∀ fuel, F ≤ fuel →
        BNO_transfer (mock D) fuel (some cfg) cmd n dest zi rxlen d tlen chk s
          = some (Status.SUCCESS, r)) ∧
      Rest D r ∧ r.1 = { dev := s.1.dev, inbox := s.1.inbox ++ cmd, outbox := [] } ∧
      r.2.mem = (if zi = true then Function.update s.2.mem dest (fun _ => 0) else s.2.mem) ∧
      r.2.trace = s.2.trace ++ [Ev.tx cmd, Ev.rx dest rxlen, Ev.delay d, Ev.abort] ∧
      r.2.st.rx_status = USART_RX_Status.USART_RX_IDLE ∧
      timeout_elapsed (s.2.g_systick_time + d) (some T) r.2.g_systick_time = true ∧
      (∀ t, s.2.g_systick_time + d ≤ t → t < r.2.g_systick_time →
        timeout_elapsed (s.2.g_systick_time + d) (some T) t = false) ∧
      s.2.g_systick_time + d < r.2.g_systick_time ∧
      ((s.2.g_systick_time : ℚ) + (d : ℚ) + T - 384 < (r.2.g_systick_time : ℚ)) ∧
      ((r.2.g_systick_time : ℚ) ≤ (s.2.g_systick_time : ℚ) + (d : ℚ) + T + 385) := by
  have hT := calc_timeout_f32_nonneg cfg tlen T hTdef
  have hdq : (0 : ℚ) ≤ (d : ℚ) := by positivity
  have hs0 : (0 : ℚ) ≤ (s.2.g_systick_time : ℚ) := by positivity
  -- transmit
  obtain ⟨hE1, r2, hwt, hQ2, hm2, hK2, ht2⟩ := transmit_link D cfg inst hcfg cmd n hn hn1 hn2 s
    hq.idle hq.tdr hnorx (fun k _ => hsil _)
  rw [deliver_none D _ _ (hsil _)] at hm2
  obtain ⟨k1, k2, k3, k4, k5, k6, k7⟩ := log_keeps _ _ _ hK2
  -- receive
  generalize hw2 : (if zi = true then
      { r2.2 with mem := Function.update r2.2.mem dest (fun _ => 0) } else r2.2 : World) = w2
  have w2_st : w2.st = r2.2.st := by
    rw [← hw2]
    split_ifs <;> rfl
  have w2_regs : w2.regs = r2.2.regs := by
    rw [← hw2]
    split_ifs <;> rfl
  have w2_tr : w2.trace = r2.2.trace := by
    rw [← hw2]
    split_ifs <;> rfl
  have w2_tk : w2.g_systick_time = r2.2.g_systick_time := by
    rw [← hw2]
    split_ifs <;> rfl
  have w2_mem : w2.mem
      = (if zi = true then Function.update s.2.mem dest (fun _ => 0) else s.2.mem) := by
    rw [← hw2]
    split_ifs
    · show Function.update r2.2.mem dest (fun _ => 0) = _
      rw [k1]
    · exact k1
  have hE2 := USART_Receive_IRQ_idle w2 cfg inst dest rxlen hcfg
    (by rw [w2_st, k2]; exact hrx) hr1
  generalize hw3 : ({ w2 with
      st := { w2.st with
        rx_instance := some inst,
        rx_buffer := some dest,
        rx_length := rxlen,
        rx_index := 0,
        rx_status := USART_RX_Status.USART_RX_BUSY },
      regs := { w2.regs with CR1 := reg_set w2.regs.CR1 USART_CR1_RXNEIE } } : World) = w3
    at hE2
  have hR3 : Rest D (r2.1, log (Ev.delay d) (log (Ev.rx dest rxlen) w3)) := by
    rw [← hw3]
    refine ⟨⟨?_, ?_, ?_, ?_, ?_⟩, ⟨?_, ?_, ?_⟩, ?_⟩
    · show (reg_set w2.regs.CR1 USART_CR1_RXNEIE).testBit 7 = false
      rw [testBit_reg_set, w2_regs, hQ2.txeie]
      simp [USART_CR1_RXNEIE, testBit_BIT]
    · show w2.regs.SR.testBit 6 = false
      rw [w2_regs]
      exact hQ2.tc
    · show w2.regs.TDR = []
      rw [w2_regs]
      exact hQ2.tdr
    · show ¬ w2.st.tx_index < w2.st.tx_length
      rw [w2_st]
      exact hQ2.idx
    · show w2.st.tx_status = _
      rw [w2_st]
      exact hQ2.idle
    · show r2.1.outbox = []
      rw [hm2]
    · show w2.regs.SR.testBit 5 = false
      rw [w2_regs, k5]
      exact hnorx.rxne
    · intro j hj
      show w2.regs.SR.testBit j = false
      rw [w2_regs, k6 j hj]
      exact hnorx.err j hj
    · show D.respond r2.1.dev r2.1.inbox = none
      rw [hm2]
      exact hsil _
  have hdelay : Delay_Loop (mock D) d (r2.1, log (Ev.rx dest rxlen) w3)
      = polls (mock D) d (r2.1, log (Ev.delay d) (log (Ev.rx dest rxlen) w3)) :=
    Delay_Loop_pos (mock D) d hd _
  have h3tk : (log (Ev.delay d) (log (Ev.rx dest rxlen) w3)).g_systick_time
      = s.2.g_systick_time := by
    rw [← hw3]
    show w2.g_systick_time = _
    rw [w2_tk, ht2]
  have hsM : s.2.g_systick_time + d + 1 < 4294967296 := by
    have : ((s.2.g_systick_time + d + 1 : Nat) : ℚ) < ((4294967296 : Nat) : ℚ) := by
      push_cast
      linarith
    exact_mod_cast this
  obtain ⟨hR4, h4m, hK4, h4st, _, h4tk, h4lt'⟩ := rest_polls D d _ hR3
  generalize hs4 : polls (mock D) d (r2.1, log (Ev.delay d) (log (Ev.rx dest rxlen) w3)) = s4
    at hR4 h4m hK4 h4st h4tk h4lt' hdelay
  have h3tk' : (r2.1, log (Ev.delay d) (log (Ev.rx dest rxlen) w3)).2.g_systick_time
      = s.2.g_systick_time := h3tk
  rw [h3tk'] at h4tk h4lt'
  have h4lt : s4.2.g_systick_time < 4294967296 := h4lt' (by omega)
  have h4t : s4.2.g_systick_time = s.2.g_systick_time + d := by
    omega
  have h4busy : s4.2.st.rx_status = USART_RX_Status.USART_RX_BUSY := by
    rw [h4st, ← hw3]
    rfl
  -- the receive wait
  have ha : (0 : ℚ) ≤ (s4.2.g_systick_time : ℚ) + T := by positivity
  have hfl : ((⌊(s4.2.g_systick_time : ℚ) + T⌋₊ : Nat) : ℚ) ≤ (s4.2.g_systick_time : ℚ) + T :=
    Nat.floor_le ha
  have hfl0 : s4.2.g_systick_time ≤ ⌊(s4.2.g_systick_time : ℚ) + T⌋₊ := by
    apply Nat.le_floor
    linarith
  have h4q : (s4.2.g_systick_time : ℚ) = (s.2.g_systick_time : ℚ) + (d : ℚ) := by
    rw [h4t]
    push_cast
    rfl
  obtain ⟨hel, hlow⟩ := timeout_elapsed_near s4.2.g_systick_time T hT (by linarith)
  obtain ⟨N, hlo, hhi, hPN, hnot⟩ := timeout_first s4.2.g_systick_time (some T)
    s4.2.g_systick_time (⌊(s4.2.g_systick_time : ℚ) + T⌋₊ + 385) (by omega) hel
  have hNq : (N : ℚ) ≤ (s4.2.g_systick_time : ℚ) + T + 385 := by
    have : (N : ℚ) ≤ ((⌊(s4.2.g_systick_time : ℚ) + T⌋₊ + 385 : Nat) : ℚ) := by
      exact_mod_cast hhi
    push_cast at this
    linarith
  have hNb : N < 4294967296 := by
    have : (N : ℚ) < ((4294967296 : Nat) : ℚ) := by
      push_cast
      linarith
    exact_mod_cast this
  have hstart : s4.2.g_systick_time < N := by
    rcases Nat.lt_or_ge s4.2.g_systick_time N with h | h
    · exact h
    · have e : N = s4.2.g_systick_time := by omega
      rw [e, timeout_elapsed_start _ T hT] at hPN
      exact absurd hPN (by decide)
  obtain ⟨r, hwr, hRr, hrm, hrmem, hrtr, hridle, hrtk⟩ := wait_rx_rest D cfg inst hcfg chk
    s4.2.g_systick_time (some T) s4.2.g_systick_time N hPN hnot hNb
    (N - s4.2.g_systick_time) s4 hR4 h4busy (Nat.le_refl _) hlo (Nat.le_refl _)
  refine ⟨max (n + 2) (N - s4.2.g_systick_time + 1), r,
    ?_, hRr, ?_, ?_, ?_, hridle, ?_, ?_, ?_, ?_, ?_⟩
  · intro fuel hf
    have hf1 : n + 2 ≤ fuel := le_trans (le_max_left _ _) hf
    have hf2 : N - s4.2.g_systick_time + 1 ≤ fuel :=
      le_trans (le_max_right _ _) hf
    unfold BNO_transfer
    simp only [USART_Get_State, hcfg]
    generalize hR1 : USART_Transmit_IRQ (some cfg) (some cmd) n s.2 = R1 at hE1 hwt
    obtain ⟨st1, w1⟩ := R1
    simp only at hE1 hwt
    subst hE1
    simp only [CHECK_STATUS_success]
    rw [hwt fuel hf1]
    simp only [hw2]
    rw [hE2]
    simp only [CHECK_STATUS_success, hdelay, calc_timeout_f32_eq, hTdef]
    exact hwr fuel hf2
  · rw [hrm, h4m, hm2]
  · rw [hrmem, hK4.mem, ← hw3]
    exact w2_mem
  · rw [hrtr, hK4.trace, ← hw3]
    show ((w2.trace ++ [Ev.rx dest rxlen]) ++ [Ev.delay d]) ++ [Ev.abort] = _
    rw [w2_tr, k4]
    simp
  · rw [hrtk, ← h4t]
    exact hPN
  · intro t h1 h2
    rw [← h4t] at h1 ⊢
    rw [hrtk] at h2
    exact hnot t h1 h2
  · rw [hrtk, ← h4t]
    exact hstart
  · rw [hrtk]
    have := hlow N hNb hPN
    linarith
  · rw [hrtk]
    linarith

/-- C15: on the mock transport, with a device that never delivers a response byte and a
caller's buffer whose first byte is not 0xEE, a read on a port at rest sends the command
frame exactly once, starts the reception, and, nothing having arrived, calls
`USART_Abort_Receive_IRQ` when the timeout expires: at the first tick at which the
binary32 test `(start_time + timeout_ms) < g_systick_time` holds, which comes after the
wait started (10 ticks into the call) and within 385 ticks of `start_time + timeout_ms`,
the tick counter staying clear of its 32-bit limit.  It returns SUCCESS, not an error,
with the receive status Idle and the memory, so the buffer, unchanged. -/
theorem C15_read_timeout_returns_success {δ : Type} (D : Device δ) (cfg : USART_Config_t)
    (inst : USART_Instance) (hcfg : cfg.instance_ptr = some inst) (reg length dest : Nat)
    (s : Mock δ × World) (hq : Quiet s.2) (hnorx : NoRx s)
    (hrx : s.2.st.rx_status = USART_RX_Status.USART_RX_IDLE)
    (hsil : ∀ inb, D.respond s.1.dev inb = none)
    (hl1 : 1 ≤ length) (hl2 : (2 + length) % 65536 ≠ 0)
    (h0 : s.2.mem dest 0 ≠ 0xEE) (T : ℚ)
    (hT : (USART_Calc_Timeout_f32 (some cfg) (some (some 0)) 5 ((2 + length) % 65536)).2
      = some T)
    (htick : (s.2.g_systick_time : ℚ) + 10 + T + 385 < 4294967296) :
    ∃ (F : Nat) (r : Mock δ × World),
      (∀ fuel, F ≤ fuel →
        BNO_Read_Reg (mock D) fuel (some cfg) reg length (some dest) s
          = some (Status.SUCCESS, r)) ∧
      r.2.trace = s.2.trace ++ [Ev.tx [0xAA, 0x01, reg, length % 256],
        Ev.rx dest ((2 + length) % 65536), Ev.delay 10, Ev.abort,
        Ev.checked [s.2.mem dest 0]] ∧
      r.2.st.rx_status = USART_RX_Status.USART_RX_IDLE ∧
      r.2.mem = s.2.mem ∧
      timeout_elapsed (s.2.g_systick_time + 10) (some T) r.2.g_systick_time = true ∧
      (∀ t, s.2.g_systick_time + 10 ≤ t → t < r.2.g_systick_time →
        timeout_elapsed (s.2.g_systick_time + 10) (some T) t = false) ∧
      s.2.g_systick_time + 10 < r.2.g_systick_time ∧
      ((s.2.g_systick_time : ℚ) + 10 + T - 384 < (r.2.g_systick_time : ℚ)) ∧
      ((r.2.g_systick_time : ℚ) ≤ (s.2.g_systick_time : ℚ) + 10 + T + 385) := by
  have hlen : (BNO_RESPONSE_HEADER_LENGTH + length) % 65536 = (2 + length) % 65536 := rfl
  obtain ⟨F, r, hrun, _, _, hmem, htr, hidle, hp1, hp2, hp3, ht1, ht2⟩ := transfer_silent D cfg
    inst hcfg [0xAA, 0x01, reg, length % 256] 4 rfl (by norm_num) (by norm_num) dest false
    ((2 + length) % 65536) 10 ((2 + length) % 65536) true (by omega) (by norm_num) s hq hnorx
    hrx hsil T hT (by push_cast; exact htick)
  have hmem' : r.2.mem = s.2.mem := hmem
  push_cast at ht1 ht2
  refine ⟨F, (r.1, log (Ev.checked [r.2.mem dest 0]) r.2), ?_, ?_, hidle, hmem', hp1, hp2, hp3,
    ht1, ht2⟩
  · intro fuel hf
    unfold BNO_Read_Reg
    simp only [hlen]
    rw [if_neg (by omega), hrun fuel hf, CHECK_STATUS_success]
    have hne : ¬ (r.2.mem dest 0 = 0xEE) := by
      rw [hmem']
      exact h0
    show (if r.2.mem dest 0 = 0xEE then _ else _) = _
    rw [if_neg hne]
  · show r.2.trace ++ [Ev.checked [r.2.mem dest 0]] = _
    rw [htr, hmem']
    simp

/-! ## The mock environment: a response reaches the buffer -/

theorem mock_hw_rx {δ : Type} (D : Device δ) (hD0 : ∀ d, D.respond d [] = none) (m : Mock δ)
    (r : USART_t) (b : Nat) (rest : List Nat) (ho : m.outbox = b :: rest) (hi : m.inbox = [])
    (h5 : r.SR.testBit 5 = false) (ht : r.TDR = []) :
    mock_hw D m r = ({ dev := m.dev, inbox := [], outbox := rest },
      mock_txd { r with DR := b, SR := reg_set r.SR USART_SR_RXNE }) := by
  have h5' : reg_test r.SR USART_SR_RXNE = false := by
    rw [reg_test_RXNE]
    exact h5
  unfold mock_hw mock_rxd
  rw [ho, hi, h5']
  simp only [Bool.false_eq_true, if_false, List.nil_append, ht, hD0]

/-- A handler run in which the receive part reads the data register leaves RXNE and the
error flags clear. -/
theorem handler_rx_flags (w : World) (h1 : w.st.rx_instance.isSome = true)
    (h2 : w.regs.SR.testBit 5 = true) (j : Nat) (hj : j = 5 ∨ j < 4) :
    (USART_IRQHandler w).regs.SR.testBit j = false := by
  unfold USART_IRQHandler
  have hT := TXE_frame w
  generalize USART_IRQHandler_TXE w = wT at hT
  have hC := TC_frame (USART_IRQHandler_RXNE wT)
  have g1 : wT.st.rx_instance.isSome = true := by
    rw [hT.rx_instance]
    exact h1
  have g2 : reg_test wT.regs.SR USART_SR_RXNE = true := by
    rw [reg_test_RXNE, hT.SR 5 (by norm_num) (by norm_num) (by norm_num)]
    exact h2
  have hsr : (USART_IRQHandler_RXNE wT).regs.SR = wT.regs.read_DR.2.SR := by
    unfold USART_IRQHandler_RXNE
    simp only [g1, g2, Bool.and_self, if_true]
    split_ifs <;> rfl
  rw [hC.SR j (by omega) (by omega), hsr, testBit_read_DR _ _ (by omega)]
  rcases hj with hj | hj
  · subst hj
    simp
  · have : j = 3 ∨ j = 2 ∨ j = 1 ∨ j = 0 := by omega
    simp [this]

/-- One slot while a response is arriving: the next byte is loaded into the data
register and stored by the handler at the cursor; no tick elapses. -/
theorem mock_poll_fill {δ : Type} (D : Device δ) (hD0 : ∀ d, D.respond d [] = none) (d1 : δ)
    (resp : List Nat) (dest : Nat) (hlen : resp.length < 65536) (s : Mock δ × World) (j : Nat)
    (h : RxLink d1 resp dest s j) (hj : j < resp.length) :
    RxLink d1 resp dest (mock_poll D s.1 s.2) (j + 1) ∧
    (mock_poll D s.1 s.2).2.g_systick_time = s.2.g_systick_time ∧
    (mock_poll D s.1 s.2).2.trace = s.2.trace ∧
    (∀ p, p ≠ dest → (mock_poll D s.1 s.2).2.mem p = s.2.mem p) := by
  obtain ⟨m, w⟩ := s
  have hq : Quiet w := h.quiet
  have hdev : m.dev = d1 := h.dev
  have hinst : w.st.rx_instance.isSome = true := h.inst
  have hbuf : w.st.rx_buffer = some dest := h.buf
  have hlen' : w.st.rx_length = resp.length := h.len
  have hidx : w.st.rx_index = j := h.idx
  have hbusy : w.st.rx_status = USART_RX_Status.USART_RX_BUSY ∧ w.regs.CR1.testBit 5 = true :=
    h.busy hj
  have hrxne : w.regs.SR.testBit 5 = false := h.rxne
  have herr : ∀ i, i < 4 → w.regs.SR.testBit i = false := h.err
  have hdata : ∀ i, i < j → w.mem dest i = resp.getD i 0 % 256 := h.data
  show RxLink d1 resp dest (mock_poll D m w) (j + 1) ∧
    (mock_poll D m w).2.g_systick_time = w.g_systick_time ∧
    (mock_poll D m w).2.trace = w.trace ∧
    (∀ p, p ≠ dest → (mock_poll D m w).2.mem p = w.mem p)
  have ho : m.outbox = resp[j] :: resp.drop (j + 1) := by
    have : m.outbox = resp.drop j := h.outbox
    rw [this]
    exact List.drop_eq_getElem_cons hj
  have hhw := mock_hw_rx D hD0 m w.regs resp[j] (resp.drop (j + 1)) ho h.inbox hrxne hq.tdr
  generalize hr0 : ({ w.regs with DR := resp[j], SR := reg_set w.regs.SR USART_SR_RXNE }
    : USART_t) = r0 at hhw
  have r0_cr1 : r0.CR1 = w.regs.CR1 := by rw [← hr0]
  have r0_tdr : r0.TDR = [] := by
    rw [← hr0]
    exact hq.tdr
  have r0_dr : r0.DR = resp[j] := by rw [← hr0]
  have r0_sr : ∀ i, r0.SR.testBit i = (w.regs.SR.testBit i || decide (5 = i)) := by
    intro i
    rw [← hr0]
    show (reg_set w.regs.SR USART_SR_RXNE).testBit i = _
    rw [testBit_reg_set]
    simp [USART_SR_RXNE, testBit_BIT]
  obtain ⟨t1, t2, t3, t4, t5, t6, t7⟩ := mock_txd_facts r0
  have s5 : (mock_txd r0).SR.testBit 5 = true := by
    rw [t7 5 (by norm_num) (by norm_num), r0_sr]
    simp
  have s6 : (mock_txd r0).SR.testBit 6 = false := by
    rw [t5 r0_tdr, r0_sr, hq.tc]
    simp
  have se : ∀ i, i < 4 → (mock_txd r0).SR.testBit i = false := by
    intro i hi
    rw [t7 i (by omega) (by omega), r0_sr, herr i hi]
    have : ¬ (5 = i) := by omega
    simp [this]
  have hp : irq_pending (mock_hw D m w.regs).2 = true := by
    rw [hhw]
    unfold irq_pending
    rw [reg_test_RXNEIE, reg_test_RXNE, t1, r0_cr1, hbusy.2, s5]
    simp
  have hm : (mock_poll D m w).1 = { dev := m.dev, inbox := [], outbox := resp.drop (j + 1) } := by
    unfold mock_poll
    dsimp only
    rw [hhw]
    split_ifs <;> rfl
  have hw := mock_poll_irq D m w hp
  rw [hhw] at hw
  generalize hw1 : ({ w with regs := mock_txd r0 } : World) = w1
  have hw' : (mock_poll D m w).2 = USART_IRQHandler w1 := by
    rw [hw, ← hw1]
  have e1 : w1.st = w.st := by rw [← hw1]
  have e2 : w1.regs = mock_txd r0 := by rw [← hw1]
  have e3 : w1.g_systick_time = w.g_systick_time := by rw [← hw1]
  have e4 : w1.mem = w.mem := by rw [← hw1]
  have e5 : w1.trace = w.trace := by rw [← hw1]
  have herr1 : reg_test w1.regs.SR USART_SR_ERRORS = false := by
    rw [reg_test_ERRORS, e2, se 3 (by norm_num), se 2 (by norm_num), se 1 (by norm_num),
      se 0 (by norm_num)]
    rfl
  obtain ⟨a1, a2, a3, a4⟩ := handler_rx_store w1 (by rw [e1]; exact hinst)
    (by rw [e2]; exact s5) herr1 (by rw [e1]; exact hbusy.1)
    (by rw [e1, hidx, hlen']; exact hj) (by rw [e1, hlen']; exact hlen)
  obtain ⟨q1, q2, q3, q4, q5⟩ := handler_quiet w1 (by rw [e2, t1, r0_cr1]; exact hq.txeie)
    (by rw [e2]; exact s6) (by rw [e1]; exact hq.idx)
  have hF := handler_frame w1
  have hb1 : w1.st.rx_buffer = some dest := by
    rw [e1]
    exact hbuf
  have hpair : mock_poll D m w
      = ({ dev := m.dev, inbox := [], outbox := resp.drop (j + 1) }, USART_IRQHandler w1) :=
    Prod.ext hm hw'
  rw [hpair]
  refine ⟨⟨⟨q1, q2, ?_, ?_, ?_⟩, hdev, rfl, rfl, ?_, ?_, ?_, ?_, ?_, ?_, ?_, ?_, ?_⟩, ?_, ?_, ?_⟩
  all_goals dsimp only
  · rw [q3, e2]
    exact t3
  · rw [q4, hF.tx_length, e1]
    exact hq.idx
  · rw [q5, e1]
    exact hq.idle
  · exact handler_rx_flags w1 (by rw [e1]; exact hinst) (by rw [e2]; exact s5) 5 (Or.inl rfl)
  · intro i hi
    exact handler_rx_flags w1 (by rw [e1]; exact hinst) (by rw [e2]; exact s5) i (Or.inr hi)
  · rw [hF.rx_instance, e1]
    exact hinst
  · rw [hF.rx_buffer, e1]
    exact hbuf
  · rw [hF.rx_length, e1]
    exact hlen'
  · rw [a1, e1, hidx]
  · intro hlt
    obtain ⟨b1, b2⟩ := a3 (by rw [e1, hidx, hlen']; exact hlt)
    refine ⟨b1, ?_⟩
    rw [b2, e2, t1, r0_cr1]
    exact hbusy.2
  · intro hge
    exact (a4 (by rw [e1, hidx, hlen']; omega)).1
  · intro i hi
    rw [a2, store_rx_apply w1 dest _ i hb1, e1, hidx, e2, t2, r0_dr, e4]
    by_cases hi2 : i = j
    · rw [if_pos hi2, hi2]
      simp [List.getD_eq_getElem?_getD, List.getElem?_eq_getElem hj]
    · rw [if_neg hi2]
      exact hdata i (by omega)
  · rw [hF.tick, e3]
  · rw [hF.trace, e5]
  · intro p hp
    rw [a2]
    unfold store_rx
    rw [hb1]
    show Function.update w1.mem dest _ p = _
    rw [Function.update_noteq hp, e4]

theorem link_rest {δ : Type} (D : Device δ) (hD0 : ∀ d, D.respond d [] = none)
    (s : Mock δ × World) (h : Link s) : Rest D s := by
  refine ⟨h.quiet, h.norx, ?_⟩
  rw [h.inbox]
  exact hD0 _

theorem polls_fill {δ : Type} (D : Device δ) (hD0 : ∀ d, D.respond d [] = none) (d1 : δ)
    (resp : List Nat) (dest : Nat) (hlen : resp.length < 65536) :
    ∀ (k : Nat) (s : Mock δ × World) (j : Nat), RxLink d1 resp dest s j →
      j + k ≤ resp.length →
      RxLink d1 resp dest (polls (mock D) k s) (j + k) ∧
      (polls (mock D) k s).2.g_systick_time = s.2.g_systick_time ∧
      (polls (mock D) k s).2.trace = s.2.trace ∧
      (∀ p, p ≠ dest → (polls (mock D) k s).2.mem p = s.2.mem p) := by
  intro k
  induction k with
  | zero =>
    intro s j h _
    exact ⟨h, rfl, rfl, fun _ _ => rfl⟩
  | succ k ih =>
    intro s j h hk
    obtain ⟨a1, a2, a3, a4⟩ := mock_poll_fill D hD0 d1 resp dest hlen s j h (by omega)
    obtain ⟨b1, b2, b3, b4⟩ := ih (mock_poll D s.1 s.2) (j + 1) a1 (by omega)
    have e : j + 1 + k = j + (k + 1) := by omega
    rw [e] at b1
    refine ⟨b1, b2.trans a2, b3.trans a3, ?_⟩
    intro p hp
    exact (b4 p hp).trans (a4 p hp)

theorem rxlink_done {δ : Type} (d1 : δ) (resp : List Nat) (dest : Nat) (s : Mock δ × World)
    (h : RxLink d1 resp dest s resp.length) : Link s := by
  refine ⟨h.quiet, ⟨?_, h.rxne, h.err⟩, h.inbox, h.done (by omega)⟩
  rw [h.outbox, List.drop_length]

theorem deliver_some {δ : Type} (D : Device δ) (d d1 : δ) (inb resp : List Nat)
    (h : D.respond d inb = some (d1, resp)) :
    deliver D d inb = { dev := d1, inbox := [], outbox := resp } := by
  unfold deliver
  rw [h]

/-- A transfer on the mock environment with a device that answers the command `cmd`
with `resp` (and no proper prefix of it): the device receives exactly the command and
moves to its next state, the response is stored in order in the destination array, no
other array is written, the transport is at rest again and the status is SUCCESS, with
no abort. -/
theorem transfer_link {δ : Type} (D : Device δ) (hD0 : ∀ d, D.respond d [] = none)
    (cfg : USART_Config_t) (inst : USART_Instance) (hcfg : cfg.instance_ptr = some inst)
    (cmd : List Nat) (n : Nat) (hn : n = cmd.length) (hn1 : 1 ≤ n) (hn2 : n ≤ 512)
    (dest : Nat) (zi : Bool) (rxlen d tlen : Nat) (chk : Bool) (s : Mock δ × World)
    (hL : Link s) (d1 : δ) (resp : List Nat)
    (hpre : ∀ k, k < cmd.length → D.respond s.1.dev (cmd.take k) = none)
    (hresp : D.respond s.1.dev cmd = some (d1, resp))
    (hrl : resp.length = rxlen) (hr1 : 1 ≤ rxlen) (hrd : rxlen ≤ d) (hr2 : rxlen < 65536) :
    ∃ r : Mock δ × World,
      (∀ fuel, n + 2 ≤ fuel →
        BNO_transfer (mock D) fuel (some cfg) cmd n dest zi rxlen d tlen chk s
          = some (Status.SUCCESS, r)) ∧
      Link r ∧ r.1.dev = d1 ∧
      (∀ i, i < rxlen → r.2.mem dest i = resp.getD i 0 % 256) ∧
      (∀ p, p ≠ dest → r.2.mem p = s.2.mem p) ∧
      r.2.trace = s.2.trace ++ [Ev.tx cmd, Ev.rx dest rxlen, Ev.delay d] := by
  subst hrl
  have hd : 1 ≤ d := by omega
  -- transmit
  obtain ⟨hE1, r2, hwt, hQ2, hm2, hK2, ht2⟩ := transmit_link D cfg inst hcfg cmd n hn hn1 hn2 s
    hL.quiet.idle hL.quiet.tdr hL.norx
    (by intro k hk
        rw [hL.inbox]
        exact hpre k hk)
  rw [hL.inbox, List.nil_append, deliver_some D _ _ _ _ hresp] at hm2
  obtain ⟨k1, k2, k3, k4, k5, k6, k7⟩ := log_keeps _ _ _ hK2
  -- receive
  generalize hw2 : (if zi = true then
      { r2.2 with mem := Function.update r2.2.mem dest (fun _ => 0) } else r2.2 : World) = w2
  have w2_st : w2.st = r2.2.st := by
    rw [← hw2]
    split_ifs <;> rfl
  have w2_regs : w2.regs = r2.2.regs := by
    rw [← hw2]
    split_ifs <;> rfl
  have w2_tr : w2.trace = r2.2.trace := by
    rw [← hw2]
    split_ifs <;> rfl
  have w2_mem : ∀ p, p ≠ dest → w2.mem p = s.2.mem p := by
    intro p hp
    rw [← hw2]
    split_ifs
    · show Function.update r2.2.mem dest (fun _ => 0) p = _
      rw [Function.update_noteq hp, k1]
    · rw [k1]
  have hE2 := USART_Receive_IRQ_idle w2 cfg inst dest resp.length hcfg
    (by rw [w2_st, k2]; exact hL.rx_idle) hr1
  generalize hw3 : ({ w2 with
      st := { w2.st with
        rx_instance := some inst,
        rx_buffer := some dest,
        rx_length := resp.length,
        rx_index := 0,
        rx_status := USART_RX_Status.USART_RX_BUSY },
      regs := { w2.regs with CR1 := reg_set w2.regs.CR1 USART_CR1_RXNEIE } } : World) = w3
    at hE2
  have hR3 : RxLink d1 resp dest (r2.1, log (Ev.delay d) (log (Ev.rx dest resp.length) w3)) 0 := by
    rw [← hw3]
    refine ⟨⟨?_, ?_, ?_, ?_, ?_⟩, ?_, ?_, ?_, ?_, ?_, rfl, rfl, rfl, rfl, ?_, ?_, ?_⟩
    · show (reg_set w2.regs.CR1 USART_CR1_RXNEIE).testBit 7 = false
      rw [testBit_reg_set, w2_regs, hQ2.txeie]
      simp [USART_CR1_RXNEIE, testBit_BIT]
    · show w2.regs.SR.testBit 6 = false
      rw [w2_regs]
      exact hQ2.tc
    · show w2.regs.TDR = []
      rw [w2_regs]
      exact hQ2.tdr
    · show ¬ w2.st.tx_index < w2.st.tx_length
      rw [w2_st]
      exact hQ2.idx
    · show w2.st.tx_status = _
      rw [w2_st]
      exact hQ2.idle
    · show r2.1.dev = d1
      rw [hm2]
    · show r2.1.inbox = []
      rw [hm2]
    · show r2.1.outbox = resp.drop 0
      rw [hm2]
      rfl
    · show w2.regs.SR.testBit 5 = false
      rw [w2_regs, k5]
      exact hL.norx.rxne
    · intro j hj
      show w2.regs.SR.testBit j = false
      rw [w2_regs, k6 j hj]
      exact hL.norx.err j hj
    · intro _
      refine ⟨rfl, ?_⟩
      show (reg_set w2.regs.CR1 USART_CR1_RXNEIE).testBit 5 = true
      rw [testBit_reg_set]
      simp [USART_CR1_RXNEIE, testBit_BIT]
    · intro h
      omega
    · intro i hi
      omega
  have hdelay : Delay_Loop (mock D) d (r2.1, log (Ev.rx dest resp.length) w3)
      = polls (mock D) d (r2.1, log (Ev.delay d) (log (Ev.rx dest resp.length) w3)) :=
    Delay_Loop_pos (mock D) d hd _
  have hsplit : resp.length + (d - resp.length) = d := by omega
  have hpolls := polls_add (mock D) resp.length (d - resp.length)
    (r2.1, log (Ev.delay d) (log (Ev.rx dest resp.length) w3))
  rw [hsplit] at hpolls
  rw [hpolls] at hdelay
  obtain ⟨f1, _, f3, f4⟩ := polls_fill D hD0 d1 resp dest hr2 resp.length _ 0 hR3 (by omega)
  rw [Nat.zero_add] at f1
  generalize hs4 : polls (mock D) resp.length
    (r2.1, log (Ev.delay d) (log (Ev.rx dest resp.length) w3)) = s4 at f1 f3 f4 hdelay
  have hL4 := rxlink_done d1 resp dest s4 f1
  obtain ⟨g1, g2, g3, g4, _, _, _⟩ := rest_polls D (d - resp.length) s4 (link_rest D hD0 s4 hL4)
  generalize hs5 : polls (mock D) (d - resp.length) s4 = s5 at g1 g2 g3 g4 hdelay
  have h5idle : s5.2.st.rx_status = USART_RX_Status.USART_RX_IDLE := by
    rw [g4]
    exact hL4.rx_idle
  have hL5 : Link s5 := ⟨g1.quiet, g1.norx, by rw [g2]; exact hL4.inbox, h5idle⟩
  refine ⟨s5, ?_, hL5, ?_, ?_, ?_, ?_⟩
  · intro fuel hf
    unfold BNO_transfer
    simp only [USART_Get_State, hcfg]
    generalize hR1 : USART_Transmit_IRQ (some cfg) (some cmd) n s.2 = R1 at hE1 hwt
    obtain ⟨st1, w1⟩ := R1
    simp only at hE1 hwt
    subst hE1
    simp only [CHECK_STATUS_success]
    rw [hwt fuel hf]
    simp only [hw2]
    rw [hE2]
    simp only [CHECK_STATUS_success, hdelay, calc_timeout_f32_eq]
    obtain ⟨f, rfl⟩ : ∃ f, fuel = f + 1 := ⟨fuel - 1, by omega⟩
    exact wait_rx_idle (mock D) (some cfg) chk _ _ f s5 h5idle
  · rw [g2]
    exact f1.dev
  · intro i hi
    rw [g3.mem]
    exact f1.data i hi
  · intro p hp
    rw [g3.mem, f4 p hp, ← hw3]
    exact w2_mem p hp
  · rw [g3.trace, f3, ← hw3]
    show (w2.trace ++ [Ev.rx dest resp.length]) ++ [Ev.delay d] = _
    rw [w2_tr, k4]
    simp

/-! ## The simulated two-bank device: single transactions -/

theorem link_log {δ : Type} (e : Ev) (s : Mock δ × World) (h : Link s) :
    Link (s.1, log e s.2) :=
  ⟨⟨h.quiet.txeie, h.quiet.tc, h.quiet.tdr, h.quiet.idx, h.quiet.idle⟩,
    ⟨h.norx.outbox, h.norx.rxne, h.norx.err⟩, h.inbox, h.rx_idle⟩

theorem link_mem {δ : Type} (s : Mock δ × World) (mem : Nat → Nat → Nat) (h : Link s) :
    Link (s.1, { s.2 with mem := mem }) :=
  ⟨⟨h.quiet.txeie, h.quiet.tc, h.quiet.tdr, h.quiet.idx, h.quiet.idle⟩,
    ⟨h.norx.outbox, h.norx.rxne, h.norx.err⟩, h.inbox, h.rx_idle⟩

/-- A delay on the mock transport between two transactions changes neither the device
nor the memory. -/
theorem delay_link {δ : Type} (D : Device δ) (hD0 : ∀ d, D.respond d [] = none) (d : Nat)
    (s : Mock δ × World) (h : Link s) :
    Link (Delay_Loop (mock D) d s) ∧ (Delay_Loop (mock D) d s).1 = s.1 ∧
    (Delay_Loop (mock D) d s).2.mem = s.2.mem := by
  by_cases hd : d ≤ 0
  · unfold Delay_Loop
    rw [if_pos hd]
    exact ⟨h, rfl, rfl⟩
  · rw [Delay_Loop_pos (mock D) d (by omega) s]
    have hL := link_log (Ev.delay d) s h
    obtain ⟨g1, g2, g3, g4, _, _, _⟩ := rest_polls D ((mock D).delay_slots d) _
      (link_rest D hD0 _ hL)
    refine ⟨⟨g1.quiet, g1.norx, ?_, ?_⟩, g2, g3.mem⟩
    · rw [g2]
      exact h.inbox
    · rw [g4]
      exact h.rx_idle

theorem bno_respond_nil (f : Nat → Bool) (d : Bno055) : bno_respond f d [] = none := rfl

theorem bno_reg_lt (d : Bno055) (a : Nat) : bno_reg d a < 256 := by
  unfold bno_reg
  split_ifs <;> exact Nat.mod_lt _ (by norm_num)

theorem bno_respond_read (f : Nat → Bool) (d : Bno055) (reg : Nat) :
    (bno_device f).respond d [0xAA, 0x01, reg, 1 % 256]
      = some (bno_after_read d reg 1, [0xBB, 1, bno_reg d reg]) := by
  show bno_respond f d [0xAA, 0x01, reg, 1] = _
  unfold bno_respond
  simp
  rfl

theorem bno_respond_read_prefix (f : Nat → Bool) (d : Bno055) (reg : Nat) (k : Nat)
    (hk : k < 4) : (bno_device f).respond d ([0xAA, 0x01, reg, 1 % 256].take k) = none := by
  interval_cases k <;> rfl

/-- A 1-byte read on the mock transport with the simulated device: the device serves
one read, the byte of the register arrives at index 2 of the buffer, no other array is
written, the status is SUCCESS. -/
theorem read_reg_link (f : Nat → Bool) (cfg : USART_Config_t) (inst : USART_Instance)
    (hcfg : cfg.instance_ptr = some inst) (reg dest : Nat) (s : Mock Bno055 × World)
    (hL : Link s) :
    ∃ r : Mock Bno055 × World,
      (∀ fuel, 7 ≤ fuel →
        BNO_Read_Reg (mock (bno_device f)) fuel (some cfg) reg 1 (some dest) s
          = some (Status.SUCCESS, r)) ∧
      Link r ∧ r.1.dev = bno_after_read s.1.dev reg 1 ∧
      r.2.mem dest 2 = bno_reg s.1.dev reg ∧
      (∀ p, p ≠ dest → r.2.mem p = s.2.mem p) := by
  obtain ⟨r, hrun, hLr, hdev, hdata, hframe, _⟩ := transfer_link (bno_device f)
    (bno_respond_nil f) cfg inst hcfg [0xAA, 0x01, reg, 1 % 256] 4 rfl (by norm_num)
    (by norm_num) dest false 3 10 3 true s hL (bno_after_read s.1.dev reg 1)
    [0xBB, 1, bno_reg s.1.dev reg]
    (fun k hk => bno_respond_read_prefix f _ reg k hk)
    (bno_respond_read f _ reg) rfl (by norm_num) (by norm_num) (by norm_num)
  have h0 : r.2.mem dest 0 = 0xBB := hdata 0 (by norm_num)
  have h2 : r.2.mem dest 2 = bno_reg s.1.dev reg := by
    rw [hdata 2 (by norm_num)]
    exact Nat.mod_eq_of_lt (bno_reg_lt _ _)
  refine ⟨(r.1, log (Ev.checked [r.2.mem dest 0]) r.2), ?_, link_log _ r hLr, hdev, h2, hframe⟩
  intro fuel hf
  unfold BNO_Read_Reg
  have hlen : (BNO_RESPONSE_HEADER_LENGTH + 1) % 65536 = 3 := rfl
  simp only [hlen]
  rw [if_neg (by omega), hrun fuel (by omega), CHECK_STATUS_success]
  have hne : ¬ (r.2.mem dest 0 = 0xEE) := by
    rw [h0]
    norm_num
  show (if r.2.mem dest 0 = 0xEE then _ else _) = _
  rw [if_neg hne]

theorem bno_respond_write (f : Nat → Bool) (d : Bno055) (reg v : Nat) :
    (bno_device f).respond d (write_cmd reg 1 [v])
      = some (bno_after_write f d reg [v], if f reg = true then [0xEE, 0x03] else [0xEE, 0x01]) := by
  show bno_respond f d [0xAA, 0x00, reg, 1, v] = _
  unfold bno_respond
  simp

theorem bno_respond_write_prefix (f : Nat → Bool) (d : Bno055) (reg v : Nat) (k : Nat)
    (hk : k < 5) : (bno_device f).respond d ((write_cmd reg 1 [v]).take k) = none := by
  interval_cases k <;> rfl

/-- One attempt of a 1-byte write on the mock transport with the simulated device, as
made by `BNO_Write_Reg_Retry`: the device serves one write; the status is ERROR exactly
when writes to the register are failing. -/
theorem write_retry_link (f : Nat → Bool) (cfg : USART_Config_t) (inst : USART_Instance)
    (hcfg : cfg.instance_ptr = some inst) (reg v : Nat) (s : Mock Bno055 × World)
    (hL : Link s) :
    ∃ r : Mock Bno055 × World,
      (∀ fuel, 7 ≤ fuel →
        BNO_Write_Reg_Retry (mock (bno_device f)) fuel (some cfg) reg 1 (some [v]) s
          = some (if f reg = true then Status.ERROR else Status.SUCCESS, r)) ∧
      Link r ∧ r.1.dev = bno_after_write f s.1.dev reg [v] ∧
      (∀ p, p ≠ write_response → r.2.mem p = s.2.mem p) := by
  obtain ⟨r, hrun, hLr, hdev, hdata, hframe, _⟩ := transfer_link (bno_device f)
    (bno_respond_nil f) cfg inst hcfg (write_cmd reg 1 [v]) 5 rfl (by norm_num)
    (by norm_num) write_response true 2 15 2 false s hL (bno_after_write f s.1.dev reg [v])
    (if f reg = true then [0xEE, 0x03] else [0xEE, 0x01])
    (fun k hk => bno_respond_write_prefix f _ reg v k hk)
    (bno_respond_write f _ reg v) (by split_ifs <;> rfl) (by norm_num) (by norm_num)
    (by norm_num)
  have h0 : r.2.mem write_response 0 = 0xEE := by
    rw [hdata 0 (by norm_num)]
    split_ifs <;> rfl
  have h1 : r.2.mem write_response 1 = (if f reg = true then 0x03 else 0x01) := by
    rw [hdata 1 (by norm_num)]
    split_ifs <;> rfl
  refine ⟨(r.1, log (Ev.checked [r.2.mem write_response 0, r.2.mem write_response 1]) r.2),
    ?_, link_log _ r hLr, hdev, hframe⟩
  intro fuel hf
  unfold BNO_Write_Reg_Retry
  dsimp only
  rw [if_neg (by omega)]
  show CHECK_STATUS (BNO_transfer (mock (bno_device f)) fuel (some cfg) (write_cmd reg 1 [v])
    5 write_response true 2 15 2 false s) _ = _
  rw [hrun fuel hf, CHECK_STATUS_success]
  show (if r.2.mem write_response 0 = 0xEE ∧ r.2.mem write_response 1 ≠ 0x01 then _ else _) = _
  rw [h0, h1]
  by_cases hfr : f reg = true
  · simp [hfr]
  · simp [hfr]

/-- A 1-byte write on the mock transport with the simulated device: when the register
accepts writes the device serves one write and the status is SUCCESS; when writes to it
are failing the write is attempted three times and the status is ERROR.  Only the local
response array is written. -/
theorem write_reg_link (f : Nat → Bool) (cfg : USART_Config_t) (inst : USART_Instance)
    (hcfg : cfg.instance_ptr = some inst) (reg v : Nat) (s : Mock Bno055 × World)
    (hL : Link s) :
    ∃ r : Mock Bno055 × World,
      (∀ fuel, 7 ≤ fuel →
        BNO_Write_Reg (mock (bno_device f)) fuel (some cfg) reg 1 (some [v]) s
          = some (if f reg = true then Status.ERROR else Status.SUCCESS, r)) ∧
      Link r ∧
      r.1.dev = (if f reg = true then
          bno_after_write f (bno_after_write f (bno_after_write f s.1.dev reg [v]) reg [v]) reg [v]
        else bno_after_write f s.1.dev reg [v]) ∧
      (∀ p, p ≠ write_response → r.2.mem p = s.2.mem p) := by
  have hD0 := bno_respond_nil f
  obtain ⟨r, hrun, hLr, hdev, hdata, hframe, _⟩ := transfer_link (bno_device f)
    hD0 cfg inst hcfg (write_cmd reg 1 [v]) 5 rfl (by norm_num)
    (by norm_num) write_response true 2 10 2 true s hL (bno_after_write f s.1.dev reg [v])
    (if f reg = true then [0xEE, 0x03] else [0xEE, 0x01])
    (fun k hk => bno_respond_write_prefix f _ reg v k hk)
    (bno_respond_write f _ reg v) (by split_ifs <;> rfl) (by norm_num) (by norm_num)
    (by norm_num)
  have h0 : r.2.mem write_response 0 = 0xEE := by
    rw [hdata 0 (by norm_num)]
    split_ifs <;> rfl
  have h1 : r.2.mem write_response 1 = (if f reg = true then 0x03 else 0x01) := by
    rw [hdata 1 (by norm_num)]
    split_ifs <;> rfl
  generalize hs2 : ((r.1, log (Ev.checked [r.2.mem write_response 0, r.2.mem write_response 1])
    r.2) : Mock Bno055 × World) = s2
  have hL2 : Link s2 := by
    rw [← hs2]
    exact link_log _ r hLr
  have hdev2 : s2.1.dev = bno_after_write f s.1.dev reg [v] := by
    rw [← hs2]
    exact hdev
  have hframe2 : ∀ p, p ≠ write_response → s2.2.mem p = s.2.mem p := by
    rw [← hs2]
    exact hframe
  have hfirst : ∀ fuel, 7 ≤ fuel →
      BNO_Write_Reg (mock (bno_device f)) fuel (some cfg) reg 1 (some [v]) s
        = if f reg = true then
            retry_loop (mock (bno_device f))
              (BNO_Write_Reg_Retry (mock (bno_device f)) fuel (some cfg) reg 1 (some [v]))
              2 Status.SUCCESS s2
          else some (Status.SUCCESS, s2) := by
    intro fuel hf
    unfold BNO_Write_Reg
    dsimp only
    rw [if_neg (by omega)]
    show CHECK_STATUS (BNO_transfer (mock (bno_device f)) fuel (some cfg) (write_cmd reg 1 [v])
      5 write_response true 2 10 2 true s) _ = _
    rw [hrun fuel hf, CHECK_STATUS_success]
    show (if r.2.mem write_response 0 = 0xEE ∧ r.2.mem write_response 1 ≠ 0x01 then
        retry_loop (mock (bno_device f))
          (BNO_Write_Reg_Retry (mock (bno_device f)) fuel (some cfg) reg 1 (some [v])) 2
          Status.SUCCESS
          (r.1, log (Ev.checked [r.2.mem write_response 0, r.2.mem write_response 1]) r.2)
      else some (Status.SUCCESS,
          (r.1, log (Ev.checked [r.2.mem write_response 0, r.2.mem write_response 1]) r.2))) = _
    rw [hs2]
    have hc : (r.2.mem write_response 0 = 0xEE ∧ r.2.mem write_response 1 ≠ 0x01)
        ↔ f reg = true := by
      rw [h0, h1]
      by_cases hfr : f reg = true
      · simp [hfr]
      · simp [hfr]
    by_cases hfr : f reg = true
    · rw [if_pos (hc.2 hfr), if_pos hfr]
    · rw [if_neg (fun h => hfr (hc.1 h)), if_neg hfr]
  by_cases hfr : f reg = true
  · -- writes are failing: two more attempts
    obtain ⟨a1, a2, a3⟩ := delay_link (bno_device f) hD0 10 s2 hL2
    obtain ⟨r3, hrun3, hL3, hdev3, hframe3⟩ := write_retry_link f cfg inst hcfg reg v
      (Delay_Loop (mock (bno_device f)) 10 s2) a1
    obtain ⟨b1, b2, b3⟩ := delay_link (bno_device f) hD0 10 r3 hL3
    obtain ⟨r4, hrun4, hL4, hdev4, hframe4⟩ := write_retry_link f cfg inst hcfg reg v
      (Delay_Loop (mock (bno_device f)) 10 r3) b1
    refine ⟨r4, ?_, hL4, ?_, ?_⟩
    · intro fuel hf
      rw [hfirst fuel hf, if_pos hfr, if_pos hfr, retry_loop, hrun3 fuel hf, if_pos hfr]
      simp only [if_true]
      rw [retry_loop, hrun4 fuel hf, if_pos hfr]
      simp only [if_true]
      rfl
    · rw [if_pos hfr, hdev4, b2, hdev3, a2, hdev2]
    · intro p hp
      rw [hframe4 p hp, b3, hframe3 p hp, a3, hframe2 p hp]
  · refine ⟨s2, ?_, hL2, ?_, hframe2⟩
    · intro fuel hf
      rw [hfirst fuel hf, if_neg hfr, if_neg hfr]
    · rw [if_neg hfr, hdev2]

/-! ## The simulated two-bank device: pages, operating mode and settings -/

theorem link_zero_local {δ : Type} (p : Nat) (s : Mock δ × World) (h : Link s) :
    Link (zero_local p s) :=
  link_mem s _ h

theorem validate_enum_ok (v lo hi : Int) (h1 : lo ≤ v) (h2 : v ≤ hi) :
    Validate_Enum v lo hi = Status.SUCCESS := by
  unfold Validate_Enum
  rw [if_pos ⟨h1, h2⟩]

/-- `BNO_Select_Page` on the mock transport with the simulated device, writes to the
page register being accepted. -/
theorem select_page_link (f : Nat → Bool) (hf7 : f 0x07 = false) (cfg : USART_Config_t)
    (inst : USART_Instance) (hcfg : cfg.instance_ptr = some inst) (page : Nat) (hp : page ≤ 1)
    (s : Mock Bno055 × World) (hL : Link s) :
    ∃ r : Mock Bno055 × World,
      (∀ fuel, 7 ≤ fuel →
        BNO_Select_Page (mock (bno_device f)) fuel (some cfg) (page : Int) s
          = some (Status.SUCCESS, r)) ∧
      Link r ∧ r.1.dev = dev_Select_Page f s.1.dev page ∧
      (∀ p, p ≠ current_page → p ≠ write_response → r.2.mem p = s.2.mem p) := by
  have hD0 := bno_respond_nil f
  have hv : Validate_Enum (page : Int) BNO_PAGE_0 BNO_PAGE_1 = Status.SUCCESS := by
    apply validate_enum_ok
    · unfold BNO_PAGE_0
      positivity
    · unfold BNO_PAGE_1
      exact_mod_cast hp
  obtain ⟨r1, hrun1, hL1, hdev1, hval1, hframe1⟩ := read_reg_link f cfg inst hcfg BNO_PAGE_ID_REG
    current_page (zero_local current_page s) (link_zero_local _ s hL)
  have hdev1' : r1.1.dev = bno_after_read s.1.dev 0x07 1 := hdev1
  have hval1' : r1.2.mem current_page 2 = bno_reg s.1.dev 0x07 := hval1
  have hframe1' : ∀ p, p ≠ current_page → r1.2.mem p = s.2.mem p := by
    intro p hp
    rw [hframe1 p hp]
    show Function.update s.2.mem current_page (fun _ => 0) p = _
    rw [Function.update_noteq hp]
  by_cases hc : bno_reg s.1.dev 0x07 = page
  · refine ⟨r1, ?_, hL1, ?_, fun p h1 _ => hframe1' p h1⟩
    · intro fuel hf
      unfold BNO_Select_Page
      rw [hv, CHECK_STATUS_success, hrun1 fuel hf, CHECK_STATUS_success]
      have : ¬ (((r1.2.mem current_page 2 : Nat) : Int) ≠ (page : Int)) := by
        rw [hval1', hc]
        simp
      rw [if_neg this]
    · unfold dev_Select_Page
      rw [if_pos hc, hdev1']
  · obtain ⟨a1, a2, a3⟩ := delay_link (bno_device f) hD0 2 r1 hL1
    obtain ⟨r2, hrun2, hL2, hdev2, hframe2⟩ := write_reg_link f cfg inst hcfg BNO_PAGE_ID_REG page
      (Delay_Loop (mock (bno_device f)) 2 r1) a1
    have hf7' : f BNO_PAGE_ID_REG = false := hf7
    rw [hf7'] at hrun2 hdev2
    simp only [Bool.false_eq_true, if_false] at hrun2 hdev2
    refine ⟨r2, ?_, hL2, ?_, ?_⟩
    · intro fuel hf
      unfold BNO_Select_Page
      rw [hv, CHECK_STATUS_success, hrun1 fuel hf, CHECK_STATUS_success]
      have hne : ((r1.2.mem current_page 2 : Nat) : Int) ≠ (page : Int) := by
        rw [hval1']
        exact_mod_cast hc
      rw [if_pos hne]
      have hpv : (if (page : Int) = BNO_PAGE_0 then [0x00]
          else if (page : Int) = BNO_PAGE_1 then [0x01] else [0]) = [page] := by
        unfold BNO_PAGE_0 BNO_PAGE_1
        have : page = 0 ∨ page = 1 := by omega
        rcases this with h | h <;> subst h <;> simp
      simp only [hpv]
      exact hrun2 fuel hf
    · unfold dev_Select_Page dev_write
      rw [if_neg hc, hf7, hdev2, a2, hdev1']
      simp
      rfl
    · intro p h1 h2
      rw [hframe2 p h2, a3, hframe1' p h1]

theorem link_store_byte {δ : Type} (p v : Nat) (s : Mock δ × World) (h : Link s) :
    Link (store_byte p v s) :=
  link_mem s _ h

theorem zero_local_mem {δ : Type} (q p : Nat) (s : Mock δ × World) (h : p ≠ q) :
    (zero_local q s).2.mem p = s.2.mem p := by
  show Function.update s.2.mem q (fun _ => 0) p = _
  rw [Function.update_noteq h]

/-- `BNO_Get_OPR_Mode` on the mock transport with the simulated device. -/
theorem get_opr_mode_link (f : Nat → Bool) (hf7 : f 0x07 = false) (cfg : USART_Config_t)
    (inst : USART_Instance) (hcfg : cfg.instance_ptr = some inst) (out : Nat)
    (s : Mock Bno055 × World) (hL : Link s) :
    ∃ r : Mock Bno055 × World,
      (∀ fuel, 7 ≤ fuel →
        BNO_Get_OPR_Mode (mock (bno_device f)) fuel (some cfg) (some out) s
          = some (Status.SUCCESS, r)) ∧
      Link r ∧ r.1.dev = dev_Get_OPR_Mode f s.1.dev ∧
      r.2.mem out 0 = val_Get_OPR_Mode f s.1.dev ∧
      (∀ p, p ≠ current_page → p ≠ write_response → p ≠ opr_mode_data → p ≠ out →
        r.2.mem p = s.2.mem p) := by
  obtain ⟨r1, hrun1, hL1, hdev1, hframe1⟩ := select_page_link f hf7 cfg inst hcfg 0
    (by norm_num) s hL
  obtain ⟨r2, hrun2, hL2, hdev2, hval2, hframe2⟩ := read_reg_link f cfg inst hcfg
    BNO_OPR_MODE_REG opr_mode_data (zero_local opr_mode_data r1) (link_zero_local _ r1 hL1)
  refine ⟨store_byte out (r2.2.mem opr_mode_data 2) r2, ?_, link_store_byte _ _ r2 hL2, ?_, ?_, ?_⟩
  · intro fuel hf
    unfold BNO_Get_OPR_Mode
    have h1 := hrun1 fuel hf
    have e : ((0 : Nat) : Int) = BNO_PAGE_0 := rfl
    rw [e] at h1
    simp only [h1, CHECK_STATUS_success, hrun2 fuel hf]
  · show r2.1.dev = _
    rw [hdev2]
    show bno_after_read r1.1.dev 0x3D 1 = _
    rw [hdev1]
    rfl
  · show Function.update r2.2.mem out (Function.update (r2.2.mem out) 0 _) out 0 = _
    rw [Function.update_same, Function.update_same, hval2]
    show bno_reg r1.1.dev 0x3D = _
    rw [hdev1]
    rfl
  · intro p h1 h2 h3 h4
    show Function.update r2.2.mem out _ p = _
    rw [Function.update_noteq h4, hframe2 p h3, zero_local_mem _ _ _ h3, hframe1 p h1 h2]

/-- `BNO_Set_Setting` on the mock transport with the simulated device: the register is
read, the byte with the masked bits replaced is written back; the status is ERROR
exactly when writes to the register are failing. -/
theorem set_setting_link (f : Nat → Bool) (cfg : USART_Config_t)
    (inst : USART_Instance) (hcfg : cfg.instance_ptr = some inst) (reg mask val : Nat)
    (s : Mock Bno055 × World) (hL : Link s) :
    ∃ r : Mock Bno055 × World,
      (∀ fuel, 7 ≤ fuel →
        BNO_Set_Setting (mock (bno_device f)) fuel (some cfg) reg mask val s
          = some (if f reg = true then Status.ERROR else Status.SUCCESS, r)) ∧
      Link r ∧ r.1.dev = dev_Set_Setting f s.1.dev reg mask val ∧
      (∀ p, p ≠ reg_val_og → p ≠ write_response → r.2.mem p = s.2.mem p) := by
  obtain ⟨r1, hrun1, hL1, hdev1, hval1, hframe1⟩ := read_reg_link f cfg inst hcfg reg
    reg_val_og (zero_local reg_val_og s) (link_zero_local _ s hL)
  obtain ⟨r2, hrun2, hL2, hdev2, hframe2⟩ := write_reg_link f cfg inst hcfg reg
    (setting_byte (r1.2.mem reg_val_og 2) mask val) r1 hL1
  refine ⟨r2, ?_, hL2, ?_, ?_⟩
  · intro fuel hf
    unfold BNO_Set_Setting
    rw [hrun1 fuel hf, CHECK_STATUS_success]
    show CHECK_STATUS (BNO_Write_Reg (mock (bno_device f)) fuel (some cfg) reg 1
      (some [setting_byte (r1.2.mem reg_val_og 2) mask val]) r1) _ = _
    rw [hrun2 fuel hf]
    by_cases hfr : f reg = true
    · rw [if_pos hfr]
      rfl
    · rw [if_neg hfr]
      rfl
  · rw [hdev2, hval1, hdev1]
    rfl
  · intro p h1 h2
    rw [hframe2 p h2, hframe1 p h1, zero_local_mem _ _ _ h1]

theorem toNat_mod_256 (n : Nat) (h : n < 256) : (((n : Nat) : Int) % 256).toNat = n := by
  omega

/-- `BNO_Set_OPR_Mode` on the mock transport with the simulated device, writes to the
page register and to OPR_MODE being accepted. -/
theorem set_opr_mode_link (f : Nat → Bool) (hf7 : f 0x07 = false) (hf3D : f 0x3D = false)
    (cfg : USART_Config_t) (inst : USART_Instance) (hcfg : cfg.instance_ptr = some inst)
    (mode : Nat) (hm : mode ≤ 12) (s : Mock Bno055 × World) (hL : Link s) :
    ∃ r : Mock Bno055 × World,
      (∀ fuel, 7 ≤ fuel →
        BNO_Set_OPR_Mode (mock (bno_device f)) fuel (some cfg) (mode : Int) s
          = some (Status.SUCCESS, r)) ∧
      Link r ∧ r.1.dev = dev_Set_OPR_Mode f s.1.dev mode ∧
      (∀ p, p ≠ current_page → p ≠ write_response → p ≠ opr_mode_data →
        p ≠ opr_current_opr_mode → p ≠ reg_val_og → r.2.mem p = s.2.mem p) := by
  have hD0 := bno_respond_nil f
  have hv : Validate_Enum (mode : Int) BNO_OPR_CONFIG_MODE BNO_OPR_NDOF_MODE
      = Status.SUCCESS := by
    apply validate_enum_ok
    · unfold BNO_OPR_CONFIG_MODE
      positivity
    · unfold BNO_OPR_NDOF_MODE
      exact_mod_cast hm
  obtain ⟨r1, hrun1, hL1, hdev1, hframe1⟩ := select_page_link f hf7 cfg inst hcfg 0
    (by norm_num) s hL
  obtain ⟨r2, hrun2, hL2, hdev2, _, hframe2⟩ := get_opr_mode_link f hf7 cfg inst hcfg
    opr_current_opr_mode (zero_local opr_current_opr_mode r1) (link_zero_local _ r1 hL1)
  obtain ⟨r3, hrun3, hL3, hdev3, hframe3⟩ := set_setting_link f cfg inst hcfg BNO_OPR_MODE_REG
    BNO_OPR_MODE mode r2 hL2
  have hf3D' : f BNO_OPR_MODE_REG = false := hf3D
  rw [hf3D'] at hrun3
  simp only [Bool.false_eq_true, if_false] at hrun3
  have hdev : r3.1.dev = dev_Set_OPR_Mode f s.1.dev mode := by
    rw [hdev3, hdev2]
    show dev_Set_Setting f (dev_Get_OPR_Mode f r1.1.dev) _ _ _ = _
    rw [hdev1]
    rfl
  have hframe : ∀ p, p ≠ current_page → p ≠ write_response → p ≠ opr_mode_data →
      p ≠ opr_current_opr_mode → p ≠ reg_val_og → r3.2.mem p = s.2.mem p := by
    intro p h1 h2 h3 h4 h5
    rw [hframe3 p h5 h2, hframe2 p h1 h2 h3 h4, zero_local_mem _ _ _ h4, hframe1 p h1 h2]
  have hrun : ∀ fuel, 7 ≤ fuel →
      BNO_Set_OPR_Mode (mock (bno_device f)) fuel (some cfg) (mode : Int) s
        = if (mode : Int) = BNO_OPR_CONFIG_MODE
              ∧ ((r3.2.mem opr_current_opr_mode 0 : Nat) : Int) ≠ BNO_OPR_CONFIG_MODE then
            some (Status.SUCCESS, Delay_Loop (mock (bno_device f)) 19 r3)
          else if ((r3.2.mem opr_current_opr_mode 0 : Nat) : Int) = BNO_OPR_CONFIG_MODE
              ∧ (mode : Int) ≠ BNO_OPR_CONFIG_MODE then
            some (Status.SUCCESS, Delay_Loop (mock (bno_device f)) 7 r3)
          else some (Status.SUCCESS, r3) := by
    intro fuel hf
    unfold BNO_Set_OPR_Mode
    have h1 := hrun1 fuel hf
    have e : ((0 : Nat) : Int) = BNO_PAGE_0 := rfl
    rw [e] at h1
    simp only [hv, CHECK_STATUS_success, h1, hrun2 fuel hf,
      toNat_mod_256 mode (by omega), hrun3 fuel hf]
  by_cases c1 : (mode : Int) = BNO_OPR_CONFIG_MODE
      ∧ ((r3.2.mem opr_current_opr_mode 0 : Nat) : Int) ≠ BNO_OPR_CONFIG_MODE
  · obtain ⟨a1, a2, a3⟩ := delay_link (bno_device f) hD0 19 r3 hL3
    refine ⟨Delay_Loop (mock (bno_device f)) 19 r3, ?_, a1, ?_, ?_⟩
    · intro fuel hf
      rw [hrun fuel hf, if_pos c1]
    · rw [a2, hdev]
    · intro p h1 h2 h3 h4 h5
      rw [a3, hframe p h1 h2 h3 h4 h5]
  · by_cases c2 : ((r3.2.mem opr_current_opr_mode 0 : Nat) : Int) = BNO_OPR_CONFIG_MODE
        ∧ (mode : Int) ≠ BNO_OPR_CONFIG_MODE
    · obtain ⟨a1, a2, a3⟩ := delay_link (bno_device f) hD0 7 r3 hL3
      refine ⟨Delay_Loop (mock (bno_device f)) 7 r3, ?_, a1, ?_, ?_⟩
      · intro fuel hf
        rw [hrun fuel hf, if_neg c1, if_pos c2]
      · rw [a2, hdev]
      · intro p h1 h2 h3 h4 h5
        rw [a3, hframe p h1 h2 h3 h4 h5]
    · refine ⟨r3, ?_, hL3, hdev, hframe⟩
      intro fuel hf
      rw [hrun fuel hf, if_neg c1, if_neg c2]

/-- `BNO_Set_Config_Mode` on the mock transport with the simulated device: the mode byte
read is stored for the caller, and the device is switched to CONFIG when it was in
another mode. -/
theorem set_config_mode_link (f : Nat → Bool) (hf7 : f 0x07 = false) (hf3D : f 0x3D = false)
    (cfg : USART_Config_t) (inst : USART_Instance) (hcfg : cfg.instance_ptr = some inst)
    (out : Nat) (ho1 : out ≠ current_page) (ho2 : out ≠ write_response)
    (ho3 : out ≠ opr_mode_data) (ho4 : out ≠ opr_current_opr_mode) (ho5 : out ≠ reg_val_og)
    (s : Mock Bno055 × World) (hL : Link s) :
    ∃ r : Mock Bno055 × World,
      (∀ fuel, 7 ≤ fuel →
        BNO_Set_Config_Mode (mock (bno_device f)) fuel (some cfg) (some out) s
          = some (Status.SUCCESS, r)) ∧
      Link r ∧ r.1.dev = dev_Set_Config_Mode f s.1.dev ∧
      r.2.mem out 0 = val_Get_OPR_Mode f s.1.dev ∧
      (∀ p, p ≠ current_page → p ≠ write_response → p ≠ opr_mode_data →
        p ≠ opr_current_opr_mode → p ≠ reg_val_og → p ≠ out → r.2.mem p = s.2.mem p) := by
  obtain ⟨r1, hrun1, hL1, hdev1, hval1, hframe1⟩ := get_opr_mode_link f hf7 cfg inst hcfg out s hL
  by_cases hc : val_Get_OPR_Mode f s.1.dev = 0
  · refine ⟨r1, ?_, hL1, ?_, hval1, fun p h1 h2 h3 _ _ h6 => hframe1 p h1 h2 h3 h6⟩
    · intro fuel hf
      unfold BNO_Set_Config_Mode
      simp only [hrun1 fuel hf, CHECK_STATUS_success]
      have : ¬ (((r1.2.mem out 0 : Nat) : Int) ≠ BNO_OPR_CONFIG_MODE) := by
        rw [hval1, hc]
        simp [BNO_OPR_CONFIG_MODE]
      rw [if_neg this]
    · unfold dev_Set_Config_Mode
      rw [if_pos hc, hdev1]
  · obtain ⟨r2, hrun2, hL2, hdev2, hframe2⟩ := set_opr_mode_link f hf7 hf3D cfg inst hcfg 0
      (by norm_num) r1 hL1
    refine ⟨r2, ?_, hL2, ?_, ?_, ?_⟩
    · intro fuel hf
      unfold BNO_Set_Config_Mode
      simp only [hrun1 fuel hf, CHECK_STATUS_success]
      have hne : ((r1.2.mem out 0 : Nat) : Int) ≠ BNO_OPR_CONFIG_MODE := by
        rw [hval1]
        unfold BNO_OPR_CONFIG_MODE
        exact_mod_cast hc
      rw [if_pos hne]
      have h2 := hrun2 fuel hf
      have e : ((0 : Nat) : Int) = BNO_OPR_CONFIG_MODE := rfl
      rw [e] at h2
      rw [h2, CHECK_STATUS_success]
    · unfold dev_Set_Config_Mode
      rw [if_neg hc, hdev2, hdev1]
    · rw [hframe2 out ho1 ho2 ho3 ho4 ho5, hval1]
    · intro p h1 h2 h3 h4 h5 h6
      rw [hframe2 p h1 h2 h3 h4 h5, hframe1 p h1 h2 h3 h6]

/-- `BNO_Set_PWR_Mode` on the mock transport with the simulated device: SUCCESS when the
write to PWR_MODE is accepted; when it fails, its ERROR is returned at once. -/
theorem set_pwr_mode_link (f : Nat → Bool) (hf7 : f 0x07 = false) (hf3D : f 0x3D = false)
    (cfg : USART_Config_t) (inst : USART_Instance) (hcfg : cfg.instance_ptr = some inst)
    (pwr : Nat) (hp : pwr ≤ 2) (s : Mock Bno055 × World) (hL : Link s)
    (hmode : val_Get_OPR_Mode f (dev_Select_Page f s.1.dev 0) ≤ 12) :
    ∃ r : Mock Bno055 × World,
      (∀ fuel, 7 ≤ fuel →
        BNO_Set_PWR_Mode (mock (bno_device f)) fuel (some cfg) (pwr : Int) s
          = some (if f 0x3E = true then Status.ERROR else Status.SUCCESS, r)) ∧
      Link r ∧ r.1.dev = dev_Set_PWR_Mode f s.1.dev pwr := by
  have hv : Validate_Enum (pwr : Int) BNO_PWR_NORMAL_MODE BNO_PWR_SUSPEND_MODE
      = Status.SUCCESS := by
    apply validate_enum_ok
    · unfold BNO_PWR_NORMAL_MODE
      positivity
    · unfold BNO_PWR_SUSPEND_MODE
      exact_mod_cast hp
  obtain ⟨r1, hrun1, hL1, hdev1, hframe1⟩ := select_page_link f hf7 cfg inst hcfg 0
    (by norm_num) s hL
  obtain ⟨r2, hrun2, hL2, hdev2, hval2, hframe2⟩ := set_config_mode_link f hf7 hf3D cfg inst hcfg
    pwr_current_opr_mode (by decide) (by decide) (by decide) (by decide) (by decide)
    (zero_local pwr_current_opr_mode r1) (link_zero_local _ r1 hL1)
  have hdev2' : r2.1.dev = dev_Set_Config_Mode f (dev_Select_Page f s.1.dev 0) := by
    rw [hdev2]
    show dev_Set_Config_Mode f r1.1.dev = _
    rw [hdev1]
  have hval2' : r2.2.mem pwr_current_opr_mode 0
      = val_Get_OPR_Mode f (dev_Select_Page f s.1.dev 0) := by
    rw [hval2]
    show val_Get_OPR_Mode f r1.1.dev = _
    rw [hdev1]
  obtain ⟨r3, hrun3, hL3, hdev3, hframe3⟩ := set_setting_link f cfg inst hcfg BNO_PWR_MODE_REG
    BNO_PWR_MODE pwr r2 hL2
  have hval3 : r3.2.mem pwr_current_opr_mode 0
      = val_Get_OPR_Mode f (dev_Select_Page f s.1.dev 0) := by
    rw [hframe3 _ (by decide) (by decide), hval2']
  have hdev3' : r3.1.dev
      = dev_Set_Setting f (dev_Set_Config_Mode f (dev_Select_Page f s.1.dev 0)) 0x3E 0x03 pwr := by
    rw [hdev3, hdev2']
    rfl
  have hpre : ∀ fuel, 7 ≤ fuel →
      BNO_Set_PWR_Mode (mock (bno_device f)) fuel (some cfg) (pwr : Int) s
        = CHECK_STATUS (some (if f 0x3E = true then Status.ERROR else Status.SUCCESS, r3))
            fun s3 =>
          CHECK_STATUS (BNO_Set_OPR_Mode (mock (bno_device f)) fuel (some cfg)
            ((s3.2.mem pwr_current_opr_mode 0 : Nat) : Int) s3) fun s4 =>
          some (Status.SUCCESS, s4) := by
    intro fuel hf
    unfold BNO_Set_PWR_Mode
    have h1 := hrun1 fuel hf
    have e : ((0 : Nat) : Int) = BNO_PAGE_0 := rfl
    rw [e] at h1
    simp only [hv, CHECK_STATUS_success, h1, hrun2 fuel hf, toNat_mod_256 pwr (by omega)]
    rw [hrun3 fuel hf]
    rfl
  by_cases hfr : f 0x3E = true
  · refine ⟨r3, ?_, hL3, ?_⟩
    · intro fuel hf
      rw [hpre fuel hf, if_pos hfr]
      rfl
    · unfold dev_Set_PWR_Mode
      rw [if_pos hfr, hdev3']
  · obtain ⟨r4, hrun4, hL4, hdev4, _⟩ := set_opr_mode_link f hf7 hf3D cfg inst hcfg
      (val_Get_OPR_Mode f (dev_Select_Page f s.1.dev 0)) hmode r3 hL3
    refine ⟨r4, ?_, hL4, ?_⟩
    · intro fuel hf
      rw [hpre fuel hf, if_neg hfr, CHECK_STATUS_success]
      simp only [hval3]
      rw [hrun4 fuel hf, CHECK_STATUS_success]
    · unfold dev_Set_PWR_Mode
      rw [if_neg hfr, hdev4, hdev3']

theorem sensor_base_adr_eq (sensor : Nat) (h : sensor ≤ 3) :
    (if (sensor : Int) = BNO_ACC_CONFIG then BNO_ACC_CONFIG_REG
      else if (sensor : Int) = BNO_MAG_CONFIG then BNO_MAG_CONFIG_REG
      else if (sensor : Int) = BNO_GYR_0_CONFIG then BNO_GYR_CONFIG_0_REG
      else if (sensor : Int) = BNO_GYR_1_CONFIG then BNO_GYR_CONFIG_1_REG
      else 0) = 0x08 + sensor := by
  interval_cases sensor <;> rfl

/-- `BNO_Set_Sensor_Setting` on the mock transport with the simulated device, writes to
the sensor configuration register at `0x08 + sensor` being accepted. -/
theorem set_sensor_setting_link (f : Nat → Bool) (hf7 : f 0x07 = false)
    (hf3D : f 0x3D = false) (cfg : USART_Config_t) (inst : USART_Instance)
    (hcfg : cfg.instance_ptr = some inst) (sensor mask val : Nat) (hs : sensor ≤ 3)
    (hfb : f (0x08 + sensor) = false) (s : Mock Bno055 × World) (hL : Link s)
    (hmode : val_Get_OPR_Mode f (dev_Select_Page f s.1.dev 1) ≤ 12) :
    ∃ r : Mock Bno055 × World,
      (∀ fuel, 7 ≤ fuel →
        BNO_Set_Sensor_Setting (mock (bno_device f)) fuel (some cfg) (sensor : Int) mask val s
          = some (Status.SUCCESS, r)) ∧
      Link r ∧ r.1.dev = dev_Set_Sensor_Setting f s.1.dev (0x08 + sensor) mask val := by
  have hv : Validate_Enum (sensor : Int) BNO_ACC_CONFIG BNO_GYR_1_CONFIG
      = Status.SUCCESS := by
    apply validate_enum_ok
    · unfold BNO_ACC_CONFIG
      positivity
    · unfold BNO_GYR_1_CONFIG
      exact_mod_cast hs
  obtain ⟨r1, hrun1, hL1, hdev1, hframe1⟩ := select_page_link f hf7 cfg inst hcfg 1
    (by norm_num) s hL
  obtain ⟨r2, hrun2, hL2, hdev2, hval2, hframe2⟩ := set_config_mode_link f hf7 hf3D cfg inst hcfg
    sensor_current_opr_mode (by decide) (by decide) (by decide) (by decide) (by decide)
    (zero_local sensor_current_opr_mode r1) (link_zero_local _ r1 hL1)
  have hdev2' : r2.1.dev = dev_Set_Config_Mode f (dev_Select_Page f s.1.dev 1) := by
    rw [hdev2]
    show dev_Set_Config_Mode f r1.1.dev = _
    rw [hdev1]
  have hval2' : r2.2.mem sensor_current_opr_mode 0
      = val_Get_OPR_Mode f (dev_Select_Page f s.1.dev 1) := by
    rw [hval2]
    show val_Get_OPR_Mode f r1.1.dev = _
    rw [hdev1]
  obtain ⟨r3, hrun3, hL3, hdev3, hframe3⟩ := set_setting_link f cfg inst hcfg (0x08 + sensor)
    mask val r2 hL2
  rw [hfb] at hrun3
  simp only [Bool.false_eq_true, if_false] at hrun3
  have hval3 : r3.2.mem sensor_current_opr_mode 0
      = val_Get_OPR_Mode f (dev_Select_Page f s.1.dev 1) := by
    rw [hframe3 _ (by decide) (by decide), hval2']
  obtain ⟨r4, hrun4, hL4, hdev4, _⟩ := set_opr_mode_link f hf7 hf3D cfg inst hcfg
    (val_Get_OPR_Mode f (dev_Select_Page f s.1.dev 1)) hmode r3 hL3
  refine ⟨r4, ?_, hL4, ?_⟩
  · intro fuel hf
    unfold BNO_Set_Sensor_Setting
    have h1 := hrun1 fuel hf
    have e : ((1 : Nat) : Int) = BNO_PAGE_1 := rfl
    rw [e] at h1
    simp only [hv, CHECK_STATUS_success, h1, hrun2 fuel hf, sensor_base_adr_eq sensor hs,
      hrun3 fuel hf, hval3, hrun4 fuel hf]
  · unfold dev_Set_Sensor_Setting
    rw [hdev4, hdev3, hdev2']

/-! ## The simulated two-bank device: effect of the calls on the registers -/

theorem plumb_refl (d : Bno055) : Plumb d d :=
  ⟨fun _ _ _ => rfl, [], by simp, by simp⟩

theorem plumb_trans {a b c : Bno055} (h1 : Plumb a b) (h2 : Plumb b c) : Plumb a c := by
  obtain ⟨H1, e1, p1⟩ := h1.hist
  obtain ⟨H2, e2, p2⟩ := h2.hist
  refine ⟨fun p x hx => by rw [h2.banks p x hx, h1.banks p x hx], H1 ++ H2, ?_, ?_⟩
  · rw [e2, e1, List.append_assoc]
  · intro t ht
    rcases List.mem_append.1 ht with h | h
    · exact p1 t h
    · exact p2 t h

theorem dev_write_ok (f : Nat → Bool) (d : Bno055) (reg v : Nat) (hf : f reg = false) :
    dev_write f d reg v = { bno_store d reg v with history := d.history ++
      [{ write := true, page := d.page, mode := bno_mode d, reg := reg, data := [v],
         ok := true }] } := by
  unfold dev_write bno_after_write
  simp [hf, bno_store_all]

theorem dev_write_fail (f : Nat → Bool) (d : Bno055) (reg v : Nat) (hf : f reg = true) :
    dev_write f d reg v = { d with history := d.history ++
      [{ write := true, page := d.page, mode := bno_mode d, reg := reg, data := [v],
         ok := false },
       { write := true, page := d.page, mode := bno_mode d, reg := reg, data := [v],
         ok := false },
       { write := true, page := d.page, mode := bno_mode d, reg := reg, data := [v],
         ok := false }] } := by
  unfold dev_write bno_after_write
  simp [hf, bno_mode]

/-- `BNO_Select_Page` on the simulated device: the page register is read, and written
only when the page differs from the target. -/
theorem select_page_pure (f : Nat → Bool) (hf7 : f 0x07 = false) (d : Bno055) (t : Nat)
    (hd : d.page < 256) :
    (dev_Select_Page f d t).page = t ∧ (dev_Select_Page f d t).bank = d.bank ∧
    (dev_Select_Page f d t).history = d.history ++
      (if d.page = t then
        [{ write := false, page := d.page, mode := bno_mode d, reg := 0x07,
           data := [d.page], ok := true }]
       else
        [{ write := false, page := d.page, mode := bno_mode d, reg := 0x07,
           data := [d.page], ok := true },
         { write := true, page := d.page, mode := bno_mode d, reg := 0x07,
           data := [t], ok := true }]) := by
  have hr : bno_reg d 0x07 = d.page := by simp [bno_reg, Nat.mod_eq_of_lt hd]
  unfold dev_Select_Page
  rw [hr]
  by_cases h : d.page = t
  · rw [if_pos h, if_pos h]
    refine ⟨h, rfl, ?_⟩
    have hrange : List.range 1 = [0] := rfl
    simp [bno_after_read, hr, hrange]
  · rw [if_neg h, if_neg h, dev_write_ok _ _ _ _ hf7]
    refine ⟨?_, ?_, ?_⟩
    · simp [bno_store]
    · simp [bno_store, bno_after_read]
    · have hrange : List.range 1 = [0] := rfl
      simp [bno_after_read, hr, bno_mode, hrange]

theorem select_page_plumb (f : Nat → Bool) (hf7 : f 0x07 = false) (d : Bno055) (t : Nat)
    (hd : d.page < 256) :
    Plumb d (dev_Select_Page f d t) ∧ (dev_Select_Page f d t).page = t ∧
      bno_mode (dev_Select_Page f d t) = bno_mode d := by
  obtain ⟨hp, hb, hh⟩ := select_page_pure f hf7 d t hd
  refine ⟨⟨fun p a _ => by rw [hb], _, hh, ?_⟩, hp, ?_⟩
  · intro x hx
    split at hx
    · simp at hx
      left
      rw [hx]
    · simp at hx
      left
      rcases hx with hx | hx <;> rw [hx]
  · unfold bno_mode
    rw [hb]

theorem get_opr_mode_pure (f : Nat → Bool) (hf7 : f 0x07 = false) (d : Bno055)
    (hd : d.page < 256) :
    Plumb d (dev_Get_OPR_Mode f d) ∧ (dev_Get_OPR_Mode f d).page = 0 ∧
      bno_mode (dev_Get_OPR_Mode f d) = bno_mode d ∧
      val_Get_OPR_Mode f d = bno_mode d % 256 := by
  obtain ⟨hpl, hp, hm⟩ := select_page_plumb f hf7 d 0 hd
  refine ⟨?_, hp, hm, ?_⟩
  · refine plumb_trans hpl ⟨fun _ _ _ => rfl, _, rfl, ?_⟩
    intro x hx
    simp at hx
    right
    rw [hx]
  · unfold val_Get_OPR_Mode bno_reg
    rw [hp]
    simp
    rw [← hm]
    rfl

/-- `BNO_Set_Setting` on the simulated device, for a register other than the page
register whose writes are accepted: one read and one write, on the selected page. -/
theorem set_setting_pure (f : Nat → Bool) (d : Bno055) (reg mask val : Nat)
    (hreg : reg ≠ 0x07) (hf : f reg = false) :
    (dev_Set_Setting f d reg mask val).page = d.page ∧
    (dev_Set_Setting f d reg mask val).bank = Function.update d.bank d.page
      (Function.update (d.bank d.page) reg (setting_byte (d.bank d.page reg % 256) mask val)) ∧
    (dev_Set_Setting f d reg mask val).history = d.history ++
      [{ write := false, page := d.page, mode := bno_mode d, reg := reg,
         data := [d.bank d.page reg % 256], ok := true },
       { write := true, page := d.page, mode := bno_mode d, reg := reg,
         data := [setting_byte (d.bank d.page reg % 256) mask val], ok := true }] := by
  have hr : bno_reg d reg = d.bank d.page reg % 256 := by simp [bno_reg, hreg]
  unfold dev_Set_Setting
  rw [dev_write_ok _ _ _ _ hf, hr]
  refine ⟨?_, ?_, ?_⟩
  · simp [bno_store, hreg, bno_after_read]
  · simp [bno_store, hreg, bno_after_read]
  · have hrange : List.range 1 = [0] := rfl
    simp [bno_after_read, hr, bno_mode, hrange]

/-- `BNO_Set_Setting` on the simulated device, for a register whose writes are refused:
one read and the three refused attempts, the registers unchanged. -/
theorem set_setting_refused (f : Nat → Bool) (d : Bno055) (reg mask val : Nat)
    (hreg : reg ≠ 0x07) (hf : f reg = true) :
    (dev_Set_Setting f d reg mask val).page = d.page ∧
    (dev_Set_Setting f d reg mask val).bank = d.bank ∧
    (dev_Set_Setting f d reg mask val).history = d.history ++
      [{ write := false, page := d.page, mode := bno_mode d, reg := reg,
         data := [d.bank d.page reg % 256], ok := true },
       { write := true, page := d.page, mode := bno_mode d, reg := reg,
         data := [setting_byte (d.bank d.page reg % 256) mask val], ok := false },
       { write := true, page := d.page, mode := bno_mode d, reg := reg,
         data := [setting_byte (d.bank d.page reg % 256) mask val], ok := false },
       { write := true, page := d.page, mode := bno_mode d, reg := reg,
         data := [setting_byte (d.bank d.page reg % 256) mask val], ok := false }] := by
  have hr : bno_reg d reg = d.bank d.page reg % 256 := by simp [bno_reg, hreg]
  unfold dev_Set_Setting
  rw [dev_write_fail _ _ _ _ hf, hr]
  refine ⟨?_, ?_, ?_⟩
  · simp [bno_after_read]
  · simp [bno_after_read]
  · have hrange : List.range 1 = [0] := rfl
    simp [bno_after_read, hr, bno_mode, hrange]

theorem setting_byte_mode (m v : Nat) (hm : m < 16) (hv : v < 256) :
    setting_byte (m % 256) 0x0F v = v := by
  unfold setting_byte
  have h : (m % 256 &&& (0xFFFFFFFF ^^^ 0x0F)) % 256 = 0 := by
    interval_cases m <;> rfl
  rw [h, Nat.zero_or, Nat.mod_eq_of_lt hv]

theorem set_opr_mode_pure (f : Nat → Bool) (hf7 : f 0x07 = false) (hf3D : f 0x3D = false)
    (d : Bno055) (mode : Nat) (hd : d.page < 256) (hm : bno_mode d < 16) (hv : mode < 256) :
    Plumb d (dev_Set_OPR_Mode f d mode) ∧ (dev_Set_OPR_Mode f d mode).page = 0 ∧
      bno_mode (dev_Set_OPR_Mode f d mode) = mode := by
  obtain ⟨hpl1, hp1, hm1⟩ := select_page_plumb f hf7 d 0 hd
  obtain ⟨hpl2, hp2, hm2, _⟩ := get_opr_mode_pure f hf7 (dev_Select_Page f d 0)
    (by rw [hp1]; norm_num)
  obtain ⟨hp3, hb3, hh3⟩ := set_setting_pure f (dev_Get_OPR_Mode f (dev_Select_Page f d 0))
    0x3D 0x0F mode (by norm_num) hf3D
  have hm2' : (dev_Get_OPR_Mode f (dev_Select_Page f d 0)).bank 0 0x3D = bno_mode d := by
    rw [← hm1, ← hm2]
    rfl
  rw [hp2] at hb3 hh3 hp3
  rw [hm2', setting_byte_mode _ _ hm hv] at hb3 hh3
  unfold dev_Set_OPR_Mode
  refine ⟨plumb_trans (plumb_trans hpl1 hpl2) ⟨?_, _, hh3, ?_⟩, hp3, ?_⟩
  · intro p a hpa
    rw [hb3]
    by_cases hp : p = 0
    · subst hp
      have ha : a ≠ 0x3D := fun h => hpa ⟨rfl, h⟩
      simp [Function.update, ha]
    · simp [Function.update, hp]
  · intro x hx
    simp at hx
    right
    rcases hx with hx | hx <;> rw [hx]
  · unfold bno_mode
    rw [hb3]
    simp

theorem set_config_mode_pure (f : Nat → Bool) (hf7 : f 0x07 = false)
    (hf3D : f 0x3D = false) (d : Bno055) (hd : d.page < 256) (hm : bno_mode d < 16) :
    Plumb d (dev_Set_Config_Mode f d) ∧ (dev_Set_Config_Mode f d).page = 0 ∧
      bno_mode (dev_Set_Config_Mode f d) = 0 ∧ val_Get_OPR_Mode f d = bno_mode d := by
  obtain ⟨hpl1, hp1, hm1, hv1⟩ := get_opr_mode_pure f hf7 d hd
  rw [Nat.mod_eq_of_lt (by omega)] at hv1
  unfold dev_Set_Config_Mode
  by_cases h0 : val_Get_OPR_Mode f d = 0
  · rw [if_pos h0]
    exact ⟨hpl1, hp1, by rw [hm1, ← hv1, h0], hv1⟩
  · rw [if_neg h0]
    obtain ⟨hpl2, hp2, hm2⟩ := set_opr_mode_pure f hf7 hf3D (dev_Get_OPR_Mode f d) 0
      (by rw [hp1]; norm_num) (by rw [hm1]; exact hm) (by norm_num)
    exact ⟨plumb_trans hpl1 hpl2, hp2, hm2, hv1⟩

theorem example_rest_quiet : Quiet example_rest_world :=
  ⟨by decide, by decide, rfl, by decide, rfl⟩

theorem example_bno_link (page mode : Nat) :
    Link (example_bno_mock page mode, example_rest_world) := by
  refine ⟨example_rest_quiet, ⟨rfl, ?_, ?_⟩, rfl, rfl⟩
  · show example_rest_world.regs.SR.testBit 5 = false
    decide
  · show ∀ j, j < 4 → example_rest_world.regs.SR.testBit j = false
    decide

/-- The opening of a bracketed mutator on the simulated device, page selection followed
by the switch to CONFIG mode: the device ends on page 0 in CONFIG mode, whatever page
was selected first, and the mode saved is the mode it was in. -/
theorem config_prefix_pure (f : Nat → Bool) (hf7 : f 0x07 = false) (hf3D : f 0x3D = false)
    (d : Bno055) (t : Nat) (hd : d.page < 256) (ht : t < 256) (hm : bno_mode d < 16) :
    Plumb d (dev_Set_Config_Mode f (dev_Select_Page f d t)) ∧
      (dev_Set_Config_Mode f (dev_Select_Page f d t)).page = 0 ∧
      bno_mode (dev_Set_Config_Mode f (dev_Select_Page f d t)) = 0 ∧
      val_Get_OPR_Mode f (dev_Select_Page f d t) = bno_mode d := by
  obtain ⟨hpl1, hp1, hm1⟩ := select_page_plumb f hf7 d t hd
  obtain ⟨hpl2, hp2, hm2, hv2⟩ := set_config_mode_pure f hf7 hf3D (dev_Select_Page f d t)
    (by rw [hp1]; exact ht) (by rw [hm1]; exact hm)
  exact ⟨plumb_trans hpl1 hpl2, hp2, hm2, by rw [hv2, hm1]⟩

/-- A bracketed settings write on the simulated device, the write being accepted: the
register is read and written on page 0 in CONFIG mode, whatever page was selected first,
and the mode is restored. -/
theorem bracket_pure (f : Nat → Bool) (hf7 : f 0x07 = false) (hf3D : f 0x3D = false)
    (d : Bno055) (t reg mask val : Nat) (hd : d.page < 256) (ht : t < 256)
    (hm : bno_mode d < 16) (hreg7 : reg ≠ 0x07) (hreg3D : reg ≠ 0x3D)
    (hf : f reg = false) :
    ∃ H1 H2 : List Txn,
      (dev_Set_OPR_Mode f
        (dev_Set_Setting f (dev_Set_Config_Mode f (dev_Select_Page f d t)) reg mask val)
        (val_Get_OPR_Mode f (dev_Select_Page f d t))).history
        = d.history ++ H1 ++
          [{ write := false, page := 0, mode := 0, reg := reg,
             data := [d.bank 0 reg % 256], ok := true },
           { write := true, page := 0, mode := 0, reg := reg,
             data := [setting_byte (d.bank 0 reg % 256) mask val], ok := true }] ++ H2 ∧
      (∀ x ∈ H1 ++ H2, x.reg = 0x07 ∨ x.reg = 0x3D) ∧
      bno_mode (dev_Set_OPR_Mode f
        (dev_Set_Setting f (dev_Set_Config_Mode f (dev_Select_Page f d t)) reg mask val)
        (val_Get_OPR_Mode f (dev_Select_Page f d t))) = bno_mode d ∧
      (dev_Set_OPR_Mode f
        (dev_Set_Setting f (dev_Set_Config_Mode f (dev_Select_Page f d t)) reg mask val)
        (val_Get_OPR_Mode f (dev_Select_Page f d t))).bank 0 reg
        = setting_byte (d.bank 0 reg % 256) mask val ∧
      (∀ p a, ¬ (p = 0 ∧ (a = reg ∨ a = 0x3D)) →
        (dev_Set_OPR_Mode f
          (dev_Set_Setting f (dev_Set_Config_Mode f (dev_Select_Page f d t)) reg mask val)
          (val_Get_OPR_Mode f (dev_Select_Page f d t))).bank p a = d.bank p a) := by
  obtain ⟨hpl2, hp2, hm2, hv2⟩ := config_prefix_pure f hf7 hf3D d t hd ht hm
  obtain ⟨hp3, hb3, hh3⟩ := set_setting_pure f (dev_Set_Config_Mode f (dev_Select_Page f d t))
    reg mask val hreg7 hf
  rw [hp2] at hp3 hb3 hh3
  rw [hm2, hpl2.banks 0 reg (fun h => hreg3D h.2)] at hh3
  rw [hpl2.banks 0 reg (fun h => hreg3D h.2)] at hb3
  have hm3 : bno_mode (dev_Set_Setting f (dev_Set_Config_Mode f (dev_Select_Page f d t))
      reg mask val) = 0 := by
    unfold bno_mode
    rw [hb3]
    simp [Function.update, Ne.symm hreg3D]
    exact hm2
  obtain ⟨hpl4, _, hm4⟩ := set_opr_mode_pure f hf7 hf3D
    (dev_Set_Setting f (dev_Set_Config_Mode f (dev_Select_Page f d t)) reg mask val)
    (val_Get_OPR_Mode f (dev_Select_Page f d t)) (by rw [hp3]; norm_num)
    (by rw [hm3]; norm_num) (by rw [hv2]; omega)
  obtain ⟨H1, e1, q1⟩ := hpl2.hist
  obtain ⟨H2, e2, q2⟩ := hpl4.hist
  refine ⟨H1, H2, ?_, ?_, ?_, ?_, ?_⟩
  · rw [e2, hh3, e1]
  · intro x hx
    rcases List.mem_append.1 hx with h | h
    · exact q1 x h
    · exact q2 x h
  · rw [hm4, hv2]
  · rw [hpl4.banks 0 reg (fun h => hreg3D h.2), hb3]
    simp [Function.update]
  · intro p a hpa
    have h3D : ¬ (p = 0 ∧ a = 0x3D) := fun h => hpa ⟨h.1, Or.inr h.2⟩
    rw [hpl4.banks p a h3D, hb3, ← hpl2.banks p a h3D]
    by_cases hp : p = 0
    · subst hp
      have ha : a ≠ reg := fun h => hpa ⟨rfl, Or.inl h⟩
      simp [Function.update, ha]
    · simp [Function.update, hp]

/-- A bracketed settings write on the simulated device, the write being refused: after
the switch to CONFIG mode, the register is read and the write attempted three times;
the device stays in CONFIG mode. -/
theorem bracket_refused (f : Nat → Bool) (hf7 : f 0x07 = false) (hf3D : f 0x3D = false)
    (d : Bno055) (t reg mask val : Nat) (hd : d.page < 256) (ht : t < 256)
    (hm : bno_mode d < 16) (hreg7 : reg ≠ 0x07) (hreg3D : reg ≠ 0x3D)
    (hf : f reg = true) :
    ∃ H1 : List Txn,
      (dev_Set_Setting f (dev_Set_Config_Mode f (dev_Select_Page f d t)) reg mask val).history
        = d.history ++ H1 ++
          [{ write := false, page := 0, mode := 0, reg := reg,
             data := [d.bank 0 reg % 256], ok := true },
           { write := true, page := 0, mode := 0, reg := reg,
             data := [setting_byte (d.bank 0 reg % 256) mask val], ok := false },
           { write := true, page := 0, mode := 0, reg := reg,
             data := [setting_byte (d.bank 0 reg % 256) mask val], ok := false },
           { write := true, page := 0, mode := 0, reg := reg,
             data := [setting_byte (d.bank 0 reg % 256) mask val], ok := false }] ∧
      (∀ x ∈ H1, x.reg = 0x07 ∨ x.reg = 0x3D) ∧
      bno_mode (dev_Set_Setting f (dev_Set_Config_Mode f (dev_Select_Page f d t))
        reg mask val) = 0 := by
  obtain ⟨hpl2, hp2, hm2, hv2⟩ := config_prefix_pure f hf7 hf3D d t hd ht hm
  obtain ⟨hp3, hb3, hh3⟩ := set_setting_refused f
    (dev_Set_Config_Mode f (dev_Select_Page f d t)) reg mask val hreg7 hf
  rw [hp2] at hp3 hh3
  rw [hm2, hpl2.banks 0 reg (fun h => hreg3D h.2)] at hh3
  obtain ⟨H1, e1, q1⟩ := hpl2.hist
  refine ⟨H1, ?_, q1, ?_⟩
  · rw [hh3, e1]
  · unfold bno_mode
    rw [hb3]
    exact hm2

/-! ## Page and operating mode around a settings write -/

/-- C17 (defect): on the simulated two-bank device on which every transaction succeeds,
`BNO_Set_Sensor_Setting` returns SUCCESS, but its read and its write of the sensor
configuration register (ACC_CONFIG, MAG_CONFIG, GYR_CONFIG_0 or GYR_CONFIG_1, at
`0x08 + sensor`) are served with page 0 selected, not page 1: the switch to CONFIG mode
selects page 0 again after page 1 was selected.  Every other transaction of the call is on
the page register or OPR_MODE; the page-1 register keeps its content and the byte lands
in the page-0 bank. -/
theorem C17_sensor_write_lands_on_page_0 (cfg : USART_Config_t) (inst : USART_Instance)
    (hcfg : cfg.instance_ptr = some inst) (sensor mask val : Nat) (hs : sensor ≤ 3)
    (s : Mock Bno055 × World) (hL : Link s) (hd : s.1.dev.page ≤ 1)
    (hm : bno_mode s.1.dev ≤ 12) :
    ∃ (r : Mock Bno055 × World) (H1 H2 : List Txn),
      (∀ fuel, 7 ≤ fuel →
        BNO_Set_Sensor_Setting (mock (bno_device no_fault)) fuel (some cfg) (sensor : Int)
          mask val s = some (Status.SUCCESS, r)) ∧
      r.1.dev.history = s.1.dev.history ++ H1 ++
        [{ write := false, page := 0, mode := 0, reg := 0x08 + sensor,
           data := [s.1.dev.bank 0 (0x08 + sensor) % 256], ok := true },
         { write := true, page := 0, mode := 0, reg := 0x08 + sensor,
           data := [setting_byte (s.1.dev.bank 0 (0x08 + sensor) % 256) mask val],
           ok := true }] ++ H2 ∧
      (∀ x ∈ H1 ++ H2, x.reg = 0x07 ∨ x.reg = 0x3D) ∧
      r.1.dev.bank 1 (0x08 + sensor) = s.1.dev.bank 1 (0x08 + sensor) ∧
      r.1.dev.bank 0 (0x08 + sensor)
        = setting_byte (s.1.dev.bank 0 (0x08 + sensor) % 256) mask val := by
  obtain ⟨_, _, _, hv⟩ := config_prefix_pure no_fault rfl rfl s.1.dev 1 (by omega)
    (by norm_num) (by omega)
  obtain ⟨r, hrun, _, hdev⟩ := set_sensor_setting_link no_fault rfl rfl cfg inst hcfg sensor
    mask val hs rfl s hL (by rw [hv]; exact hm)
  obtain ⟨H1, H2, hh, hq, _, hb0, hb⟩ := bracket_pure no_fault rfl rfl s.1.dev 1 (0x08 + sensor)
    mask val (by omega) (by norm_num) (by omega) (by omega) (by omega) rfl
  refine ⟨r, H1, H2, hrun, ?_, hq, ?_, ?_⟩
  · rw [hdev]
    exact hh
  · rw [hdev]
    exact hb 1 _ (by norm_num)
  · rw [hdev]
    exact hb0

/-- C18: on the simulated device on which every transaction succeeds, in any of the 13
operating modes `m`, `BNO_Set_PWR_Mode` returns SUCCESS; its read and its write of
PWR_MODE are served on page 0 while the device's operating mode is CONFIG (0), every
other transaction of the call is on the page register or OPR_MODE, and the device's
operating mode is `m` again at the end. -/
theorem C18_set_pwr_mode_brackets_config (cfg : USART_Config_t) (inst : USART_Instance)
    (hcfg : cfg.instance_ptr = some inst) (pwr m : Nat) (hp : pwr ≤ 2) (hm : m ≤ 12)
    (s : Mock Bno055 × World) (hL : Link s) (hd : s.1.dev.page ≤ 1)
    (hmode : bno_mode s.1.dev = m) :
    ∃ (r : Mock Bno055 × World) (H1 H2 : List Txn),
      (∀ fuel, 7 ≤ fuel →
        BNO_Set_PWR_Mode (mock (bno_device no_fault)) fuel (some cfg) (pwr : Int) s
          = some (Status.SUCCESS, r)) ∧
      r.1.dev.history = s.1.dev.history ++ H1 ++
        [{ write := false, page := 0, mode := 0, reg := 0x3E,
           data := [s.1.dev.bank 0 0x3E % 256], ok := true },
         { write := true, page := 0, mode := 0, reg := 0x3E,
           data := [setting_byte (s.1.dev.bank 0 0x3E % 256) 0x03 pwr], ok := true }]
        ++ H2 ∧
      (∀ x ∈ H1 ++ H2, x.reg = 0x07 ∨ x.reg = 0x3D) ∧
      bno_mode r.1.dev = m ∧
      r.1.dev.bank 0 0x3E = setting_byte (s.1.dev.bank 0 0x3E % 256) 0x03 pwr := by
  obtain ⟨_, _, _, hv⟩ := config_prefix_pure no_fault rfl rfl s.1.dev 0 (by omega)
    (by norm_num) (by omega)
  obtain ⟨r, hrun, _, hdev⟩ := set_pwr_mode_link no_fault rfl rfl cfg inst hcfg pwr hp s hL
    (by rw [hv]; omega)
  obtain ⟨H1, H2, hh, hq, hmd, hb0, _⟩ := bracket_pure no_fault rfl rfl s.1.dev 0 0x3E 0x03 pwr
    (by omega) (by norm_num) (by omega) (by norm_num) (by norm_num) rfl
  have hfn : ¬ (no_fault 0x3E = true) := by decide
  have hdev1 : r.1.dev = dev_Set_OPR_Mode no_fault
      (dev_Set_Setting no_fault (dev_Set_Config_Mode no_fault
        (dev_Select_Page no_fault s.1.dev 0)) 0x3E 0x03 pwr)
      (val_Get_OPR_Mode no_fault (dev_Select_Page no_fault s.1.dev 0)) := by
    rw [hdev]
    unfold dev_Set_PWR_Mode
    rw [if_neg hfn]
  refine ⟨r, H1, H2, ?_, ?_, hq, ?_, ?_⟩
  · intro fuel hf
    rw [hrun fuel hf, if_neg hfn]
  · rw [hdev1]
    exact hh
  · rw [hdev1, hmd, hmode]
  · rw [hdev1]
    exact hb0

/-- C19: on the simulated device that refuses every write to PWR_MODE, in a non-CONFIG
operating mode, `BNO_Set_PWR_Mode` returns ERROR, the status of the failed write; the
three refused attempts are the last transactions of the call, so the mode is not
restored and the device is left in CONFIG mode (0). -/
theorem C19_failed_write_leaves_config_mode (cfg : USART_Config_t) (inst : USART_Instance)
    (hcfg : cfg.instance_ptr = some inst) (pwr : Nat) (hp : pwr ≤ 2)
    (s : Mock Bno055 × World) (hL : Link s) (hd : s.1.dev.page ≤ 1)
    (hm : bno_mode s.1.dev ≤ 12) (hne : bno_mode s.1.dev ≠ BNO_OPR_CONFIG_MODE.toNat) :
    ∃ (r : Mock Bno055 × World) (H1 : List Txn),
      (∀ fuel, 7 ≤ fuel →
        BNO_Set_PWR_Mode (mock (bno_device pwr_fault)) fuel (some cfg) (pwr : Int) s
          = some (Status.ERROR, r)) ∧
      r.1.dev.history = s.1.dev.history ++ H1 ++
        [{ write := false, page := 0, mode := 0, reg := 0x3E,
           data := [s.1.dev.bank 0 0x3E % 256], ok := true },
         { write := true, page := 0, mode := 0, reg := 0x3E,
           data := [setting_byte (s.1.dev.bank 0 0x3E % 256) 0x03 pwr], ok := false },
         { write := true, page := 0, mode := 0, reg := 0x3E,
           data := [setting_byte (s.1.dev.bank 0 0x3E % 256) 0x03 pwr], ok := false },
         { write := true, page := 0, mode := 0, reg := 0x3E,
           data := [setting_byte (s.1.dev.bank 0 0x3E % 256) 0x03 pwr], ok := false }] ∧
      (∀ x ∈ H1, x.reg = 0x07 ∨ x.reg = 0x3D) ∧
      bno_mode r.1.dev = BNO_OPR_CONFIG_MODE.toNat ∧
      bno_mode r.1.dev ≠ bno_mode s.1.dev := by
  obtain ⟨_, _, _, hv⟩ := config_prefix_pure pwr_fault rfl rfl s.1.dev 0 (by omega)
    (by norm_num) (by omega)
  obtain ⟨r, hrun, _, hdev⟩ := set_pwr_mode_link pwr_fault rfl rfl cfg inst hcfg pwr hp s hL
    (by rw [hv]; omega)
  obtain ⟨H1, hh, hq, hmd⟩ := bracket_refused pwr_fault rfl rfl s.1.dev 0 0x3E 0x03 pwr
    (by omega) (by norm_num) (by omega) (by norm_num) (by norm_num) rfl
  have hft : pwr_fault 0x3E = true := rfl
  have hdev1 : r.1.dev = dev_Set_Setting pwr_fault (dev_Set_Config_Mode pwr_fault
      (dev_Select_Page pwr_fault s.1.dev 0)) 0x3E 0x03 pwr := by
    rw [hdev]
    unfold dev_Set_PWR_Mode
    rw [if_pos hft]
  have h0 : bno_mode r.1.dev = BNO_OPR_CONFIG_MODE.toNat := by
    rw [hdev1, hmd]
    rfl
  refine ⟨r, H1, ?_, ?_, hq, h0, ?_⟩
  · intro fuel hf
    rw [hrun fuel hf, if_pos hft]
  · rw [hdev1]
    exact hh
  · rw [h0]
    exact fun h => hne h.symm

/-- C20: on the simulated device, which honours writes, `BNO_Select_Page` reads the page
register and writes it only when the page read back differs from the target; a second
call with the same target only reads.  Two consecutive calls thus issue exactly one
write in total when the device started on the other page, and none when it was already
on the target page. -/
theorem C20_select_page_writes_when_page_differs (cfg : USART_Config_t)
    (inst : USART_Instance) (hcfg : cfg.instance_ptr = some inst) (t : Nat) (ht : t ≤ 1)
    (s : Mock Bno055 × World) (hL : Link s) (hd : s.1.dev.page ≤ 1) :
    ∃ r1 r2 : Mock Bno055 × World,
      (∀ fuel, 7 ≤ fuel →
        BNO_Select_Page (mock (bno_device no_fault)) fuel (some cfg) (t : Int) s
          = some (Status.SUCCESS, r1)) ∧
      (∀ fuel, 7 ≤ fuel →
        BNO_Select_Page (mock (bno_device no_fault)) fuel (some cfg) (t : Int) r1
          = some (Status.SUCCESS, r2)) ∧
      r1.1.dev.history = s.1.dev.history ++
        (if s.1.dev.page = t then
          [{ write := false, page := s.1.dev.page, mode := bno_mode s.1.dev, reg := 0x07,
             data := [s.1.dev.page], ok := true }]
         else
          [{ write := false, page := s.1.dev.page, mode := bno_mode s.1.dev, reg := 0x07,
             data := [s.1.dev.page], ok := true },
           { write := true, page := s.1.dev.page, mode := bno_mode s.1.dev, reg := 0x07,
             data := [t], ok := true }]) ∧
      r2.1.dev.history = r1.1.dev.history ++
        [{ write := false, page := t, mode := bno_mode s.1.dev, reg := 0x07, data := [t],
           ok := true }] ∧
      ((r2.1.dev.history.drop s.1.dev.history.length).filter (fun x => x.write)).length
        = (if s.1.dev.page = t then 0 else 1) ∧
      r1.1.dev.page = t ∧ r2.1.dev.page = t := by
  obtain ⟨r1, hrun1, hL1, hdev1, _⟩ := select_page_link no_fault rfl cfg inst hcfg t ht s hL
  obtain ⟨r2, hrun2, _, hdev2, _⟩ := select_page_link no_fault rfl cfg inst hcfg t ht r1 hL1
  obtain ⟨hp1, hb1, hh1⟩ := select_page_pure no_fault rfl s.1.dev t (by omega)
  rw [← hdev1] at hp1 hb1 hh1
  obtain ⟨hp2, _, hh2⟩ := select_page_pure no_fault rfl r1.1.dev t (by omega)
  rw [← hdev2] at hp2 hh2
  have hm1 : bno_mode r1.1.dev = bno_mode s.1.dev := by
    unfold bno_mode
    rw [hb1]
  rw [hp1, if_pos rfl, hm1] at hh2
  refine ⟨r1, r2, hrun1, hrun2, hh1, hh2, ?_, hp1, hp2⟩
  rw [hh2, hh1, List.append_assoc]
  by_cases h : s.1.dev.page = t
  · simp [h]
  · simp [h]

/-! ## Arguments rejected before any traffic -/

/-- C23: `BNO_Read_Reg` returns INVALID_PARAM when the output buffer is null or the
length is 0, whatever the environment and the port; the state returned is the state it
was called in, trace included: no frame is transmitted, no reception is started and the
port state is unchanged. -/
theorem C23_read_reg_invalid_param {σ : Type} (env : Env σ) (fuel : Nat)
    (usart : Option USART_Config_t) (reg length : Nat) (data : Option Nat) (s : σ × World)
    (h : data = none ∨ length = 0) :
    BNO_Read_Reg env fuel usart reg length data s = some (Status.INVALID_PARAM, s) := by
  unfold BNO_Read_Reg
  cases data with
  | none => rfl
  | some dest =>
    rcases h with h | h
    · exact absurd h (by simp)
    · simp only [if_pos (show length ≤ 0 by omega)]

/-- C24: an out-of-range enum argument is rejected before any device traffic, whatever
the environment and the port: `BNO_Set_OPR_Mode` returns INVALID_PARAM for every mode
value outside 0..12 and `BNO_Select_Page` for every page value other than 0 and 1; the
state returned is the state they were called in, so no frame is transmitted. -/
theorem C24_enum_out_of_range_rejected {σ : Type} (env : Env σ) (fuel : Nat)
    (usart : Option USART_Config_t) (mode page : Int) (s : σ × World)
    (hm : mode < 0 ∨ 12 < mode) (hp : page ≠ 0 ∧ page ≠ 1) :
    BNO_OPR_CONFIG_MODE = 0 ∧ BNO_OPR_NDOF_MODE = 12 ∧
    BNO_Set_OPR_Mode env fuel usart mode s = some (Status.INVALID_PARAM, s) ∧
    BNO_Select_Page env fuel usart page s = some (Status.INVALID_PARAM, s) := by
  refine ⟨rfl, rfl, ?_, ?_⟩
  · have hv : Validate_Enum mode BNO_OPR_CONFIG_MODE BNO_OPR_NDOF_MODE
        = Status.INVALID_PARAM := by
      unfold Validate_Enum BNO_OPR_CONFIG_MODE BNO_OPR_NDOF_MODE
      rw [if_neg (by omega)]
    unfold BNO_Set_OPR_Mode
    rw [hv]
    rfl
  · have hv : Validate_Enum page BNO_PAGE_0 BNO_PAGE_1 = Status.INVALID_PARAM := by
      unfold Validate_Enum BNO_PAGE_0 BNO_PAGE_1
      rw [if_neg (by omega)]
    unfold BNO_Select_Page
    rw [hv]
    rfl

/-! ## Read-modify-write of a setting -/

/-- Bits of the byte `BNO_Set_Setting` writes back: within the byte, the bits of `mask`
are cleared in the byte read and the bits of `val` are set. -/
theorem setting_byte_testBit (r mask val i : Nat) :
    (setting_byte r mask val).testBit i
      = (decide (i < 8) && ((r.testBit i && !mask.testBit i) || val.testBit i)) := by
  unfold setting_byte
  have h256 : (256 : Nat) = 2 ^ 8 := by norm_num
  have hff : (0xFFFFFFFF : Nat) = 2 ^ 32 - 1 := by norm_num
  rw [h256, hff]
  simp only [Nat.testBit_mod_two_pow, Nat.testBit_lor, Nat.testBit_land, Nat.testBit_xor,
    Nat.testBit_two_pow_sub_one]
  by_cases h8 : i < 8
  · have h32 : i < 32 := by omega
    simp [h8, h32]
  · simp [h8]

theorem CHECK_STATUS_return {σ : Type} (r : Outcome σ) :
    CHECK_STATUS r (fun s => some (Status.SUCCESS, s)) = r := by
  unfold CHECK_STATUS
  rcases r with _ | ⟨st, s⟩
  · rfl
  · cases st <;> rfl

theorem set_setting_history (f : Nat → Bool) (d : Bno055) (reg mask val : Nat) :
    (dev_Set_Setting f d reg mask val).history = d.history ++
      ({ write := false, page := d.page, mode := bno_mode d, reg := reg,
         data := [bno_reg d reg], ok := true } ::
       if f reg = true then
         [{ write := true, page := d.page, mode := bno_mode d, reg := reg,
            data := [setting_byte (bno_reg d reg) mask val], ok := false },
          { write := true, page := d.page, mode := bno_mode d, reg := reg,
            data := [setting_byte (bno_reg d reg) mask val], ok := false },
          { write := true, page := d.page, mode := bno_mode d, reg := reg,
            data := [setting_byte (bno_reg d reg) mask val], ok := false }]
       else
         [{ write := true, page := d.page, mode := bno_mode d, reg := reg,
            data := [setting_byte (bno_reg d reg) mask val], ok := true }]) := by
  have hrange : List.range 1 = [0] := rfl
  unfold dev_Set_Setting
  by_cases hf : f reg = true
  · rw [dev_write_fail _ _ _ _ hf, if_pos hf]
    simp [bno_after_read, bno_mode, hrange]
  · rw [dev_write_ok _ _ _ _ (by simpa using hf), if_neg hf]
    simp [bno_after_read, bno_mode, hrange]

/-- C28: `BNO_Set_Setting` reads one byte `r` (byte 2 of the response array) and writes
back `(r AND NOT mask) OR setting_val` to the same register.  On the simulated device
the call issues one read of `reg` and then the write of that byte: the status is SUCCESS
when the write is accepted, and ERROR, after three refused attempts, when it is not.
Bit `i` of the byte written is bit `i` of `r` outside `mask`, or bit `i` of
`setting_val`.  In every environment, a read that does not return SUCCESS ends the call
with the read's status in the state the read left, so no write is issued, and after a
successful read the outcome is that of the write. -/
theorem C28_set_setting_read_modify_write (f : Nat → Bool) (cfg : USART_Config_t)
    (inst : USART_Instance) (hcfg : cfg.instance_ptr = some inst) (reg mask val : Nat)
    (s : Mock Bno055 × World) (hL : Link s) :
    (∃ r : Mock Bno055 × World,
      (∀ fuel, 7 ≤ fuel →
        BNO_Set_Setting (mock (bno_device f)) fuel (some cfg) reg mask val s
          = some (if f reg = true then Status.ERROR else Status.SUCCESS, r)) ∧
      r.1.dev.history = s.1.dev.history ++
        ({ write := false, page := s.1.dev.page, mode := bno_mode s.1.dev, reg := reg,
           data := [bno_reg s.1.dev reg], ok := true } ::
         if f reg = true then
           [{ write := true, page := s.1.dev.page, mode := bno_mode s.1.dev, reg := reg,
              data := [setting_byte (bno_reg s.1.dev reg) mask val], ok := false },
            { write := true, page := s.1.dev.page, mode := bno_mode s.1.dev, reg := reg,
              data := [setting_byte (bno_reg s.1.dev reg) mask val], ok := false },
            { write := true, page := s.1.dev.page, mode := bno_mode s.1.dev, reg := reg,
              data := [setting_byte (bno_reg s.1.dev reg) mask val], ok := false }]
         else
           [{ write := true, page := s.1.dev.page, mode := bno_mode s.1.dev, reg := reg,
              data := [setting_byte (bno_reg s.1.dev reg) mask val], ok := true }])) ∧
    (∀ r i : Nat, (setting_byte r mask val).testBit i
      = (decide (i < 8) && ((r.testBit i && !mask.testBit i) || val.testBit i))) ∧
    (∀ (σ : Type) (env : Env σ) (fuel : Nat) (usart : Option USART_Config_t)
        (t t1 : σ × World) (st : Status),
      BNO_Read_Reg env fuel usart reg 1 (some reg_val_og) (zero_local reg_val_og t)
        = some (st, t1) →
      (st ≠ Status.SUCCESS →
        BNO_Set_Setting env fuel usart reg mask val t = some (st, t1)) ∧
      (st = Status.SUCCESS →
        BNO_Set_Setting env fuel usart reg mask val t
          = BNO_Write_Reg env fuel usart reg 1
              (some [setting_byte (t1.2.mem reg_val_og 2) mask val]) t1)) := by
  refine ⟨?_, fun r i => setting_byte_testBit r mask val i, ?_⟩
  · obtain ⟨r, hrun, _, hdev, _⟩ := set_setting_link f cfg inst hcfg reg mask val s hL
    refine ⟨r, hrun, ?_⟩
    rw [hdev]
    exact set_setting_history f s.1.dev reg mask val
  · intro σ env fuel usart t t1 st hread
    constructor
    · intro hst
      unfold BNO_Set_Setting
      rw [hread]
      cases st with
      | SUCCESS => exact absurd rfl hst
      | _ => rfl
    · intro hst
      subst hst
      unfold BNO_Set_Setting
      rw [hread, CHECK_STATUS_success]
      exact CHECK_STATUS_return _

/-! ## Delays in the trace of register transactions -/

theorem calm_of_trace {w r : World} (h : r.trace = w.trace) : Calm w r :=
  ⟨[], by rw [h, List.append_nil], by simp⟩

theorem calm_refl (w : World) : Calm w w := calm_of_trace rfl

theorem calm_trans {a b c : World} (h1 : Calm a b) (h2 : Calm b c) : Calm a c := by
  obtain ⟨T1, e1, p1⟩ := h1
  obtain ⟨T2, e2, p2⟩ := h2
  refine ⟨T1 ++ T2, by rw [e2, e1, List.append_assoc], ?_⟩
  intro ms hms
  rcases List.mem_append.1 hms with h | h
  · exact p1 ms h
  · exact p2 ms h

theorem calm_log (e : Ev) (w : World) (h : ∀ ms, e = Ev.delay ms → ms = 2 ∨ ms = 10 ∨ ms = 15) :
    Calm w (log e w) := by
  refine ⟨[e], rfl, ?_⟩
  intro ms hms
  simp at hms
  exact h ms hms.symm

theorem calm_delay {δ : Type} (D : Device δ) (ms : Nat) (hms : ms = 2 ∨ ms = 10 ∨ ms = 15)
    (s : Mock δ × World) : Calm s.2 (Delay_Loop (mock D) ms s).2 := by
  rw [Delay_Loop_pos (mock D) ms (by omega) s]
  have h := (polls_frame D ((mock D).delay_slots ms) (s.1, log (Ev.delay ms) s.2)).trace
  refine calm_trans (calm_log (Ev.delay ms) s.2 ?_) (calm_of_trace h)
  intro m hm
  cases hm
  exact hms

theorem wait_tx_trace {δ : Type} (D : Device δ) :
    ∀ (fuel : Nat) (s r : Mock δ × World), wait_tx (mock D) fuel s = some r →
      r.2.trace = s.2.trace := by
  intro fuel
  induction fuel with
  | zero =>
    intro s r h
    simp [wait_tx] at h
  | succ n ih =>
    intro s r h
    unfold wait_tx at h
    split_ifs at h
    · rw [ih _ _ h]
      exact (mock_poll_frame D s.1 s.2).trace
    · cases h
      rfl

theorem abort_trace (usart : Option USART_Config_t) (w : World) :
    (USART_Abort_Receive_IRQ usart w).2.trace = w.trace := by
  unfold USART_Abort_Receive_IRQ
  repeat' split
  all_goals rfl

theorem transmit_trace (usart : Option USART_Config_t) (buf : Option (List Nat)) (n : Nat)
    (w : World) : (USART_Transmit_IRQ usart buf n w).2.trace = w.trace := by
  unfold USART_Transmit_IRQ
  repeat' split
  all_goals first
    | rfl
    | (dsimp only; split_ifs <;> rfl)

theorem receive_trace (usart : Option USART_Config_t) (buf : Option Nat) (n : Nat)
    (w : World) : (USART_Receive_IRQ usart buf n w).2.trace = w.trace := by
  unfold USART_Receive_IRQ
  repeat' split
  all_goals first
    | rfl
    | (dsimp only; split_ifs <;> rfl)

theorem wait_rx_calm {δ : Type} (D : Device δ) (usart : Option USART_Config_t) (chk : Bool)
    (start : Nat) (T : Option ℚ) :
    ∀ (fuel : Nat) (s r : Mock δ × World) (st : Status),
      wait_rx (mock D) usart chk start T fuel s = some (st, r) → Calm s.2 r.2 := by
  intro fuel
  induction fuel with
  | zero =>
    intro s r st h
    simp [wait_rx] at h
  | succ n ih =>
    intro s r st h
    unfold wait_rx at h
    by_cases hb : s.2.st.rx_status = USART_RX_Status.USART_RX_BUSY
    · rw [if_pos hb] at h
      by_cases ht : timeout_elapsed start T s.2.g_systick_time = true
      · rw [if_pos ht] at h
        simp only [Option.some.injEq, Prod.mk.injEq] at h
        rw [← h.2]
        refine calm_trans (calm_log Ev.abort s.2 (fun ms h => by cases h)) (calm_of_trace ?_)
        exact abort_trace usart _
      · rw [if_neg ht] at h
        exact calm_trans (calm_of_trace (mock_poll_frame D s.1 s.2).trace) (ih _ _ _ h)
    · rw [if_neg hb] at h
      simp only [Option.some.injEq, Prod.mk.injEq] at h
      rw [← h.2]
      exact calm_refl _

/-- What `CHECK_STATUS` returns comes from the call or from the code after it. -/
theorem check_status_calm {σ : Type} (w : World) (r : Outcome σ) (k : σ × World → Outcome σ)
    (st : Status) (x : σ × World) (h : CHECK_STATUS r k = some (st, x))
    (h1 : ∀ st1 s1, r = some (st1, s1) → Calm w s1.2)
    (h2 : ∀ s1 st2 x2, Calm w s1.2 → k s1 = some (st2, x2) → Calm w x2.2) :
    Calm w x.2 := by
  unfold CHECK_STATUS at h
  rcases r with _ | ⟨st1, s1⟩
  · simp at h
  · have hc := h1 st1 s1 rfl
    cases st1 with
    | SUCCESS => exact h2 s1 st x hc h
    | _ =>
      simp only [Option.some.injEq, Prod.mk.injEq] at h
      rw [← h.2]
      exact hc

theorem some_pair_calm {σ : Type} {w : World} {st st1 : Status} {x s1 : σ × World}
    (e : (some (st1, s1) : Outcome σ) = some (st, x)) (h : Calm w s1.2) : Calm w x.2 := by
  simp only [Option.some.injEq, Prod.mk.injEq] at e
  rw [← e.2]
  exact h

/-- One transfer on the mock transport appends only the call events and the delay of
the register protocol to the trace. -/
theorem transfer_calm {δ : Type} (D : Device δ) (fuel : Nat) (usart : Option USART_Config_t)
    (cmd : List Nat) (n dest : Nat) (zi : Bool) (rxlen d tl : Nat) (chk : Bool)
    (s r : Mock δ × World) (st : Status) (hd : d = 10 ∨ d = 15)
    (h : BNO_transfer (mock D) fuel usart cmd n dest zi rxlen d tl chk s = some (st, r)) :
    Calm s.2 r.2 := by
  unfold BNO_transfer at h
  cases hg : USART_Get_State usart with
  | none =>
    rw [hg] at h
    exact some_pair_calm h (calm_refl _)
  | some i =>
    rw [hg] at h
    dsimp only at h
    refine check_status_calm s.2 _ _ st r h ?_ ?_
    · intro st1 s1 e
      exact some_pair_calm e (calm_of_trace (transmit_trace _ _ _ _))
    · intro s1 st2 x2 hc hk
      cases hw : wait_tx (mock D) fuel (s1.1, log (Ev.tx (cmd.take n)) s1.2) with
      | none =>
        rw [hw] at hk
        simp at hk
      | some s2 =>
        rw [hw] at hk
        dsimp only at hk
        have h2 : Calm s.2 s2.2 :=
          calm_trans hc (calm_trans (calm_log (Ev.tx (cmd.take n)) s1.2 (fun ms h => by cases h))
            (calm_of_trace (wait_tx_trace D _ _ _ hw)))
        refine check_status_calm s.2 _ _ st2 x2 hk ?_ ?_
        · intro st3 s3 e
          refine some_pair_calm e (calm_trans h2 (calm_of_trace ?_))
          rw [receive_trace]
          split_ifs <;> rfl
        · intro s3 st4 x4 hc3 hk3
          refine check_status_calm s.2 _ _ st4 x4 hk3 ?_ ?_
          · intro st5 s5 e
            refine some_pair_calm e (calm_trans hc3
              (calm_trans (calm_log (Ev.rx dest rxlen) s3.2 (fun ms h => by cases h)) ?_))
            exact calm_delay D d (Or.inr hd) (s3.1, log (Ev.rx dest rxlen) s3.2)
          · intro s5 st6 x6 hc5 hk5
            exact calm_trans hc5 (wait_rx_calm D usart chk _ _ fuel s5 x6 st6 hk5)

theorem retry_loop_calm {δ : Type} (D : Device δ)
    (retry : Mock δ × World → Outcome (Mock δ))
    (hretry : ∀ s st r, retry s = some (st, r) → Calm s.2 r.2) :
    ∀ (n : Nat) (ret : Status) (s r : Mock δ × World) (st : Status),
      retry_loop (mock D) retry n ret s = some (st, r) → Calm s.2 r.2 := by
  intro n
  induction n with
  | zero =>
    intro ret s r st h
    exact some_pair_calm h (calm_refl _)
  | succ n ih =>
    intro ret s r st h
    unfold retry_loop at h
    cases hr : retry (Delay_Loop (mock D) 10 s) with
    | none =>
      rw [hr] at h
      simp at h
    | some p =>
      obtain ⟨st1, s1⟩ := p
      rw [hr] at h
      dsimp only at h
      have h1 : Calm s.2 s1.2 :=
        calm_trans (calm_delay D 10 (Or.inr (Or.inl rfl)) s) (hretry _ _ _ hr)
      by_cases he : st1 = Status.ERROR
      · rw [if_pos he] at h
        exact calm_trans h1 (ih _ _ _ _ h)
      · rw [if_neg he] at h
        exact some_pair_calm h h1

theorem read_retry_calm {δ : Type} (D : Device δ) (fuel : Nat) (usart : Option USART_Config_t)
    (reg length : Nat) (data : Option Nat) (s r : Mock δ × World) (st : Status)
    (h : BNO_Read_Reg_Retry (mock D) fuel usart reg length data s = some (st, r)) :
    Calm s.2 r.2 := by
  unfold BNO_Read_Reg_Retry at h
  cases data with
  | none => exact some_pair_calm h (calm_refl _)
  | some dest =>
    dsimp only at h
    by_cases hl : length ≤ 0
    · rw [if_pos hl] at h
      exact some_pair_calm h (calm_refl _)
    · rw [if_neg hl] at h
      refine check_status_calm s.2 _ _ st r h ?_ ?_
      · intro st1 s1 e
        exact transfer_calm D _ _ _ _ _ _ _ _ _ _ _ _ _ (Or.inr rfl) e
      · intro s1 st2 x2 hc hk
        have hc2 : Calm s.2 (log (Ev.checked [s1.2.mem dest 0]) s1.2) :=
          calm_trans hc (calm_log _ s1.2 (fun ms h => by cases h))
        split_ifs at hk
        · exact some_pair_calm hk hc2
        · exact some_pair_calm hk hc2

theorem read_reg_calm {δ : Type} (D : Device δ) (fuel : Nat) (usart : Option USART_Config_t)
    (reg length : Nat) (data : Option Nat) (s r : Mock δ × World) (st : Status)
    (h : BNO_Read_Reg (mock D) fuel usart reg length data s = some (st, r)) :
    Calm s.2 r.2 := by
  unfold BNO_Read_Reg at h
  cases data with
  | none => exact some_pair_calm h (calm_refl _)
  | some dest =>
    dsimp only at h
    by_cases hl : length ≤ 0
    · rw [if_pos hl] at h
      exact some_pair_calm h (calm_refl _)
    · rw [if_neg hl] at h
      refine check_status_calm s.2 _ _ st r h ?_ ?_
      · intro st1 s1 e
        exact transfer_calm D _ _ _ _ _ _ _ _ _ _ _ _ _ (Or.inl rfl) e
      · intro s1 st2 x2 hc hk
        have hc2 : Calm s.2 (log (Ev.checked [s1.2.mem dest 0]) s1.2) :=
          calm_trans hc (calm_log _ s1.2 (fun ms h => by cases h))
        split_ifs at hk
        · exact calm_trans hc2 (retry_loop_calm D _
            (fun a b c hr => read_retry_calm D fuel usart reg length (some dest) a c b hr)
            _ _ _ _ _ hk)
        · exact some_pair_calm hk hc2

theorem write_retry_calm {δ : Type} (D : Device δ) (fuel : Nat)
    (usart : Option USART_Config_t) (reg length : Nat) (data : Option (List Nat))
    (s r : Mock δ × World) (st : Status)
    (h : BNO_Write_Reg_Retry (mock D) fuel usart reg length data s = some (st, r)) :
    Calm s.2 r.2 := by
  unfold BNO_Write_Reg_Retry at h
  cases data with
  | none => exact some_pair_calm h (calm_refl _)
  | some payload =>
    dsimp only at h
    by_cases hl : length ≤ 0
    · rw [if_pos hl] at h
      exact some_pair_calm h (calm_refl _)
    · rw [if_neg hl] at h
      refine check_status_calm s.2 _ _ st r h ?_ ?_
      · intro st1 s1 e
        exact transfer_calm D _ _ _ _ _ _ _ _ _ _ _ _ _ (Or.inr rfl) e
      · intro s1 st2 x2 hc hk
        have hc2 : Calm s.2
            (log (Ev.checked [s1.2.mem write_response 0, s1.2.mem write_response 1]) s1.2) :=
          calm_trans hc (calm_log _ s1.2 (fun ms h => by cases h))
        split_ifs at hk
        · exact some_pair_calm hk hc2
        · exact some_pair_calm hk hc2

theorem write_reg_calm {δ : Type} (D : Device δ) (fuel : Nat) (usart : Option USART_Config_t)
    (reg length : Nat) (data : Option (List Nat)) (s r : Mock δ × World) (st : Status)
    (h : BNO_Write_Reg (mock D) fuel usart reg length data s = some (st, r)) :
    Calm s.2 r.2 := by
  unfold BNO_Write_Reg at h
  cases data with
  | none => exact some_pair_calm h (calm_refl _)
  | some payload =>
    dsimp only at h
    by_cases hl : length ≤ 0
    · rw [if_pos hl] at h
      exact some_pair_calm h (calm_refl _)
    · rw [if_neg hl] at h
      refine check_status_calm s.2 _ _ st r h ?_ ?_
      · intro st1 s1 e
        exact transfer_calm D _ _ _ _ _ _ _ _ _ _ _ _ _ (Or.inl rfl) e
      · intro s1 st2 x2 hc hk
        have hc2 : Calm s.2
            (log (Ev.checked [s1.2.mem write_response 0, s1.2.mem write_response 1]) s1.2) :=
          calm_trans hc (calm_log _ s1.2 (fun ms h => by cases h))
        split_ifs at hk
        · exact calm_trans hc2 (retry_loop_calm D _
            (fun a b c hr => write_retry_calm D fuel usart reg length (some payload) a c b hr)
            _ _ _ _ _ hk)
        · exact some_pair_calm hk hc2

theorem select_page_calm {δ : Type} (D : Device δ) (fuel : Nat)
    (usart : Option USART_Config_t) (page_id : Int) (s r : Mock δ × World) (st : Status)
    (h : BNO_Select_Page (mock D) fuel usart page_id s = some (st, r)) : Calm s.2 r.2 := by
  unfold BNO_Select_Page at h
  refine check_status_calm s.2 _ _ st r h ?_ ?_
  · intro st1 s1 e
    exact some_pair_calm e (calm_refl _)
  · intro s0 st2 x2 hc0 hk
    refine check_status_calm s.2 _ _ st2 x2 hk ?_ ?_
    · intro st1 s1 e
      exact calm_trans hc0 (read_reg_calm D _ _ _ _ _ (zero_local current_page s0) _ _ e)
    · intro s1 st3 x3 hc1 hk1
      by_cases hp : ((s1.2.mem current_page 2 : Nat) : Int) ≠ page_id
      · rw [if_pos hp] at hk1
        exact calm_trans hc1 (calm_trans (calm_delay D 2 (Or.inl rfl) s1)
          (write_reg_calm D _ _ _ _ _ _ _ _ hk1))
      · rw [if_neg hp] at hk1
        exact some_pair_calm hk1 hc1

theorem get_opr_mode_calm {δ : Type} (D : Device δ) (fuel : Nat)
    (usart : Option USART_Config_t) (out : Option Nat) (s r : Mock δ × World) (st : Status)
    (h : BNO_Get_OPR_Mode (mock D) fuel usart out s = some (st, r)) : Calm s.2 r.2 := by
  unfold BNO_Get_OPR_Mode at h
  cases out with
  | none => exact some_pair_calm h (calm_refl _)
  | some p =>
    dsimp only at h
    refine check_status_calm s.2 _ _ st r h ?_ ?_
    · intro st1 s1 e
      exact select_page_calm D _ _ _ _ _ _ e
    · intro s1 st2 x2 hc1 hk
      refine check_status_calm s.2 _ _ st2 x2 hk ?_ ?_
      · intro st3 s3 e
        exact calm_trans hc1 (read_reg_calm D _ _ _ _ _ (zero_local opr_mode_data s1) _ _ e)
      · intro s2 st4 x4 hc2 hk2
        exact some_pair_calm hk2 hc2

theorem set_setting_calm {δ : Type} (D : Device δ) (fuel : Nat)
    (usart : Option USART_Config_t) (reg mask val : Nat) (s r : Mock δ × World) (st : Status)
    (h : BNO_Set_Setting (mock D) fuel usart reg mask val s = some (st, r)) :
    Calm s.2 r.2 := by
  unfold BNO_Set_Setting at h
  refine check_status_calm s.2 _ _ st r h ?_ ?_
  · intro st1 s1 e
    exact read_reg_calm D _ _ _ _ _ (zero_local reg_val_og s) _ _ e
  · intro s1 st2 x2 hc1 hk
    refine check_status_calm s.2 _ _ st2 x2 hk ?_ ?_
    · intro st3 s3 e
      exact calm_trans hc1 (write_reg_calm D _ _ _ _ _ _ _ _ e)
    · intro s2 st4 x4 hc2 hk2
      exact some_pair_calm hk2 hc2

/-! ## Operating mode switches: transactions and settle delay -/

theorem delay_trace {δ : Type} (D : Device δ) (ms : Nat) (hms : 1 ≤ ms) (s : Mock δ × World) :
    (Delay_Loop (mock D) ms s).2.trace = s.2.trace ++ [Ev.delay ms] := by
  rw [Delay_Loop_pos (mock D) ms hms s]
  exact (polls_frame D ((mock D).delay_slots ms) (s.1, log (Ev.delay ms) s.2)).trace

theorem get_opr_mode_history (f : Nat → Bool) (hf7 : f 0x07 = false) (d : Bno055)
    (hd : d.page < 256) :
    (dev_Get_OPR_Mode f d).history = d.history ++ select_txns d 0 ++
      [{ write := false, page := 0, mode := bno_mode d, reg := 0x3D,
         data := [bno_mode d % 256], ok := true }] := by
  obtain ⟨hp, hb, hh⟩ := select_page_pure f hf7 d 0 hd
  have hrange : List.range 1 = [0] := rfl
  have hm : bno_mode (dev_Select_Page f d 0) = bno_mode d := by
    unfold bno_mode
    rw [hb]
  have hr : bno_reg (dev_Select_Page f d 0) 0x3D = bno_mode d % 256 := by
    unfold bno_reg
    rw [hp, hb]
    rfl
  unfold dev_Get_OPR_Mode
  simp only [bno_after_read, hrange, List.map, Nat.add_zero, hr, hm, hp, hh]
  rfl

theorem set_opr_mode_history (f : Nat → Bool) (hf7 : f 0x07 = false) (hf3D : f 0x3D = false)
    (d : Bno055) (mode : Nat) (hd : d.page < 256) (hm : bno_mode d < 16) (hv : mode < 256) :
    (dev_Set_OPR_Mode f d mode).history = d.history ++ select_txns d 0 ++
      [{ write := false, page := 0, mode := bno_mode d, reg := 0x07, data := [0], ok := true },
       { write := false, page := 0, mode := bno_mode d, reg := 0x3D, data := [bno_mode d],
         ok := true },
       { write := false, page := 0, mode := bno_mode d, reg := 0x3D, data := [bno_mode d],
         ok := true },
       { write := true, page := 0, mode := bno_mode d, reg := 0x3D, data := [mode],
         ok := true }] := by
  obtain ⟨hpl1, hp1, hm1⟩ := select_page_plumb f hf7 d 0 hd
  obtain ⟨_, _, hh1⟩ := select_page_pure f hf7 d 0 hd
  have hh2 := get_opr_mode_history f hf7 (dev_Select_Page f d 0) (by rw [hp1]; norm_num)
  obtain ⟨_, hp2, hm2, _⟩ := get_opr_mode_pure f hf7 (dev_Select_Page f d 0)
    (by rw [hp1]; norm_num)
  have hh3 := set_setting_history f (dev_Get_OPR_Mode f (dev_Select_Page f d 0)) 0x3D 0x0F mode
  have hr : bno_reg (dev_Get_OPR_Mode f (dev_Select_Page f d 0)) 0x3D = bno_mode d % 256 := by
    unfold bno_reg
    rw [hp2]
    show bno_mode (dev_Get_OPR_Mode f (dev_Select_Page f d 0)) % 256 = _
    rw [hm2, hm1]
  have hmod : bno_mode d % 256 = bno_mode d := Nat.mod_eq_of_lt (by omega)
  have hsel : select_txns (dev_Select_Page f d 0) 0
      = [{ write := false, page := 0, mode := bno_mode d, reg := 0x07, data := [0],
           ok := true }] := by
    unfold select_txns
    rw [if_pos hp1, hp1, hm1]
  unfold dev_Set_OPR_Mode
  rw [hh3, hh2, hsel, hr, hp2, hm2, hm1, if_neg (by simp [hf3D]), setting_byte_mode _ _ hm hv,
    hmod]
  have hh1' : (dev_Select_Page f d 0).history = d.history ++ select_txns d 0 := hh1
  rw [hh1']
  simp

theorem set_config_mode_history (f : Nat → Bool) (hf7 : f 0x07 = false)
    (hf3D : f 0x3D = false) (d : Bno055) (hd : d.page < 256) (hm : bno_mode d < 16) :
    (dev_Set_Config_Mode f d).history = d.history ++ select_txns d 0 ++
      ({ write := false, page := 0, mode := bno_mode d, reg := 0x3D, data := [bno_mode d],
         ok := true } ::
       if bno_mode d = 0 then []
       else
        [{ write := false, page := 0, mode := bno_mode d, reg := 0x07, data := [0],
           ok := true },
         { write := false, page := 0, mode := bno_mode d, reg := 0x07, data := [0],
           ok := true },
         { write := false, page := 0, mode := bno_mode d, reg := 0x3D, data := [bno_mode d],
           ok := true },
         { write := false, page := 0, mode := bno_mode d, reg := 0x3D, data := [bno_mode d],
           ok := true },
         { write := true, page := 0, mode := bno_mode d, reg := 0x3D, data := [0],
           ok := true }]) := by
  obtain ⟨_, hp1, hm1, hv1⟩ := get_opr_mode_pure f hf7 d hd
  have hmod : bno_mode d % 256 = bno_mode d := Nat.mod_eq_of_lt (by omega)
  rw [hmod] at hv1
  have hh1 := get_opr_mode_history f hf7 d hd
  rw [hmod] at hh1
  unfold dev_Set_Config_Mode
  rw [hv1]
  by_cases h0 : bno_mode d = 0
  · rw [if_pos h0, if_pos h0, hh1]
  · rw [if_neg h0, if_neg h0]
    have hh2 := set_opr_mode_history f hf7 hf3D (dev_Get_OPR_Mode f d) 0
      (by rw [hp1]; norm_num) (by rw [hm1]; exact hm) (by norm_num)
    have hsel : select_txns (dev_Get_OPR_Mode f d) 0
        = [{ write := false, page := 0, mode := bno_mode d, reg := 0x07, data := [0],
             ok := true }] := by
      unfold select_txns
      rw [if_pos hp1, hp1, hm1]
    rw [hh2, hsel, hm1, hh1]
    simp

/-- `BNO_Set_OPR_Mode` on the mock transport with the simulated device, up to the settle
delay: the state `r3` after the settings write, and the delay that follows it. -/
theorem set_opr_mode_settle (f : Nat → Bool) (hf7 : f 0x07 = false) (hf3D : f 0x3D = false)
    (cfg : USART_Config_t) (inst : USART_Instance) (hcfg : cfg.instance_ptr = some inst)
    (mode : Nat) (hm : mode ≤ 12) (s : Mock Bno055 × World) (hL : Link s)
    (hd : s.1.dev.page < 256) (hM : bno_mode s.1.dev < 16) :
    ∃ r3 : Mock Bno055 × World,
      Link r3 ∧ r3.1.dev = dev_Set_OPR_Mode f s.1.dev mode ∧ Calm s.2 r3.2 ∧
      ∀ fuel, 7 ≤ fuel →
        BNO_Set_OPR_Mode (mock (bno_device f)) fuel (some cfg) (mode : Int) s
          = some (Status.SUCCESS,
              if mode = 0 ∧ bno_mode s.1.dev ≠ 0 then Delay_Loop (mock (bno_device f)) 19 r3
              else if bno_mode s.1.dev = 0 ∧ mode ≠ 0 then
                Delay_Loop (mock (bno_device f)) 7 r3
              else r3) := by
  have hv : Validate_Enum (mode : Int) BNO_OPR_CONFIG_MODE BNO_OPR_NDOF_MODE
      = Status.SUCCESS := by
    apply validate_enum_ok
    · unfold BNO_OPR_CONFIG_MODE
      positivity
    · unfold BNO_OPR_NDOF_MODE
      exact_mod_cast hm
  obtain ⟨r1, hrun1, hL1, hdev1, hframe1⟩ := select_page_link f hf7 cfg inst hcfg 0
    (by norm_num) s hL
  obtain ⟨r2, hrun2, hL2, hdev2, hval2, hframe2⟩ := get_opr_mode_link f hf7 cfg inst hcfg
    opr_current_opr_mode (zero_local opr_current_opr_mode r1) (link_zero_local _ r1 hL1)
  obtain ⟨r3, hrun3, hL3, hdev3, hframe3⟩ := set_setting_link f cfg inst hcfg BNO_OPR_MODE_REG
    BNO_OPR_MODE mode r2 hL2
  have hf3D' : f BNO_OPR_MODE_REG = false := hf3D
  rw [hf3D'] at hrun3
  simp only [Bool.false_eq_true, if_false] at hrun3
  have hdev : r3.1.dev = dev_Set_OPR_Mode f s.1.dev mode := by
    rw [hdev3, hdev2]
    show dev_Set_Setting f (dev_Get_OPR_Mode f r1.1.dev) _ _ _ = _
    rw [hdev1]
    rfl
  obtain ⟨_, hp1, hm1⟩ := select_page_plumb f hf7 s.1.dev 0 hd
  obtain ⟨_, _, _, hv2⟩ := get_opr_mode_pure f hf7 (dev_Select_Page f s.1.dev 0)
    (by rw [hp1]; norm_num)
  have hcur : r3.2.mem opr_current_opr_mode 0 = bno_mode s.1.dev := by
    rw [hframe3 _ (by decide) (by decide), hval2]
    show val_Get_OPR_Mode f r1.1.dev = _
    rw [hdev1, hv2, hm1]
    exact Nat.mod_eq_of_lt (by omega)
  have hcalm : Calm s.2 r3.2 := by
    have c1 := select_page_calm (bno_device f) _ _ _ _ _ _ (hrun1 7 le_rfl)
    have c2 := get_opr_mode_calm (bno_device f) _ _ _ _ _ _ (hrun2 7 le_rfl)
    have c3 := set_setting_calm (bno_device f) _ _ _ _ _ _ _ _ (hrun3 7 le_rfl)
    exact calm_trans c1 (calm_trans c2 c3)
  refine ⟨r3, hL3, hdev, hcalm, ?_⟩
  intro fuel hf
  unfold BNO_Set_OPR_Mode
  have h1 := hrun1 fuel hf
  have e : ((0 : Nat) : Int) = BNO_PAGE_0 := rfl
  rw [e] at h1
  simp only [hv, CHECK_STATUS_success, h1, hrun2 fuel hf,
    toNat_mod_256 mode (by omega), hrun3 fuel hf, hcur]
  have e1 : ((mode : Int) = BNO_OPR_CONFIG_MODE) ↔ mode = 0 := by
    unfold BNO_OPR_CONFIG_MODE
    exact_mod_cast Iff.rfl
  have e2 : (((bno_mode s.1.dev : Nat) : Int) = BNO_OPR_CONFIG_MODE) ↔ bno_mode s.1.dev = 0 := by
    unfold BNO_OPR_CONFIG_MODE
    exact_mod_cast Iff.rfl
  by_cases c1 : mode = 0 ∧ bno_mode s.1.dev ≠ 0
  · rw [if_pos c1, if_pos ⟨e1.2 c1.1, fun h => c1.2 (e2.1 h)⟩]
  · rw [if_neg c1, if_neg (fun h => c1 ⟨e1.1 h.1, fun h0 => h.2 (e2.2 h0)⟩)]
    by_cases c2 : bno_mode s.1.dev = 0 ∧ mode ≠ 0
    · rw [if_pos c2, if_pos ⟨e2.2 c2.1, fun h => c2.2 (e1.1 h)⟩]
    · rw [if_neg c2, if_neg (fun h => c2 ⟨e2.1 h.1, fun h0 => h.2 (e1.2 h0)⟩)]

/-- C21: on the simulated device on which every transaction succeeds, in mode `m`,
`BNO_Set_OPR_Mode` with target `mode` returns SUCCESS with the device in the target
mode; the mode read back before the write is `m`.  The trace of the call is that of its
register transactions, whose only delays are those of the register protocol (10 and
15 ms) and the one before a page write (2 ms), followed by the settle delay: 19 ms
exactly when the target is CONFIG and `m` is not, 7 ms exactly when `m` is CONFIG and
the target is not, none in the remaining cases.  The delay is part of the call: it is
in the trace of the state returned with SUCCESS. -/
theorem C21_set_opr_mode_settle_delay (cfg : USART_Config_t) (inst : USART_Instance)
    (hcfg : cfg.instance_ptr = some inst) (mode m : Nat) (hmode : mode ≤ 12) (hm : m ≤ 12)
    (s : Mock Bno055 × World) (hL : Link s) (hd : s.1.dev.page ≤ 1)
    (hcur : bno_mode s.1.dev = m) :
    ∃ (r : Mock Bno055 × World) (T : List Ev),
      (∀ fuel, 7 ≤ fuel →
        BNO_Set_OPR_Mode (mock (bno_device no_fault)) fuel (some cfg) (mode : Int) s
          = some (Status.SUCCESS, r)) ∧
      r.2.trace = s.2.trace ++ T ++
        (if mode = 0 ∧ m ≠ 0 then [Ev.delay 19]
         else if m = 0 ∧ mode ≠ 0 then [Ev.delay 7]
         else []) ∧
      (∀ ms, Ev.delay ms ∈ T → ms = 2 ∨ ms = 10 ∨ ms = 15) ∧
      r.1.dev.history = s.1.dev.history ++ select_txns s.1.dev 0 ++
        [{ write := false, page := 0, mode := m, reg := 0x07, data := [0], ok := true },
         { write := false, page := 0, mode := m, reg := 0x3D, data := [m], ok := true },
         { write := false, page := 0, mode := m, reg := 0x3D, data := [m], ok := true },
         { write := true, page := 0, mode := m, reg := 0x3D, data := [mode], ok := true }] ∧
      bno_mode r.1.dev = mode := by
  have hD0 := bno_respond_nil no_fault
  obtain ⟨r3, hL3, hdev3, ⟨T, hT, hTc⟩, hrun⟩ := set_opr_mode_settle no_fault rfl rfl cfg inst
    hcfg mode hmode s hL (by omega) (by omega)
  obtain ⟨_, _, hmd⟩ := set_opr_mode_pure no_fault rfl rfl s.1.dev mode (by omega) (by omega)
    (by omega)
  have hh := set_opr_mode_history no_fault rfl rfl s.1.dev mode (by omega) (by omega)
    (by omega)
  rw [hcur] at hrun hh
  by_cases c1 : mode = 0 ∧ m ≠ 0
  · obtain ⟨_, a2, _⟩ := delay_link (bno_device no_fault) hD0 19 r3 hL3
    refine ⟨Delay_Loop (mock (bno_device no_fault)) 19 r3, T, ?_, ?_, hTc, ?_, ?_⟩
    · intro fuel hf
      rw [hrun fuel hf, if_pos c1]
    · rw [if_pos c1, delay_trace _ 19 (by norm_num), hT]
    · rw [a2, hdev3]
      exact hh
    · rw [a2, hdev3]
      exact hmd
  · by_cases c2 : m = 0 ∧ mode ≠ 0
    · obtain ⟨_, a2, _⟩ := delay_link (bno_device no_fault) hD0 7 r3 hL3
      refine ⟨Delay_Loop (mock (bno_device no_fault)) 7 r3, T, ?_, ?_, hTc, ?_, ?_⟩
      · intro fuel hf
        rw [hrun fuel hf, if_neg c1, if_pos c2]
      · rw [if_neg c1, if_pos c2, delay_trace _ 7 (by norm_num), hT]
      · rw [a2, hdev3]
        exact hh
      · rw [a2, hdev3]
        exact hmd
    · refine ⟨r3, T, ?_, ?_, hTc, ?_, ?_⟩
      · intro fuel hf
        rw [hrun fuel hf, if_neg c1, if_neg c2]
      · rw [if_neg c1, if_neg c2, hT, List.append_nil]
      · rw [hdev3]
        exact hh
      · rw [hdev3]
        exact hmd

/-- C22: on the simulated device on which every transaction succeeds, in mode `m`,
`BNO_Set_Config_Mode` returns SUCCESS, stores `m`, the mode it read, for the caller, and
leaves the device in CONFIG mode (0).  After the page selection and the read of
OPR_MODE it issues no transaction when `m` is CONFIG, and otherwise those of
`BNO_Set_OPR_Mode`, ending with the write of CONFIG to OPR_MODE: a mode write is issued
exactly when the mode read is not CONFIG. -/
theorem C22_set_config_mode (cfg : USART_Config_t) (inst : USART_Instance)
    (hcfg : cfg.instance_ptr = some inst) (out m : Nat)
    (hout : out ∉ [write_response, current_page, opr_mode_data, reg_val_og,
      opr_current_opr_mode]) (hm : m ≤ 12)
    (s : Mock Bno055 × World) (hL : Link s) (hd : s.1.dev.page ≤ 1)
    (hcur : bno_mode s.1.dev = m) :
    ∃ r : Mock Bno055 × World,
      (∀ fuel, 7 ≤ fuel →
        BNO_Set_Config_Mode (mock (bno_device no_fault)) fuel (some cfg) (some out) s
          = some (Status.SUCCESS, r)) ∧
      r.2.mem out 0 = m ∧ bno_mode r.1.dev = 0 ∧
      r.1.dev.history = s.1.dev.history ++ select_txns s.1.dev 0 ++
        ({ write := false, page := 0, mode := m, reg := 0x3D, data := [m], ok := true } ::
         if m = 0 then []
         else
          [{ write := false, page := 0, mode := m, reg := 0x07, data := [0], ok := true },
           { write := false, page := 0, mode := m, reg := 0x07, data := [0], ok := true },
           { write := false, page := 0, mode := m, reg := 0x3D, data := [m], ok := true },
           { write := false, page := 0, mode := m, reg := 0x3D, data := [m], ok := true },
           { write := true, page := 0, mode := m, reg := 0x3D, data := [0], ok := true }]) ∧
      (r.1.dev.history.drop s.1.dev.history.length).filter
          (fun t => t.write && t.reg == 0x3D)
        = (if m = 0 then []
           else [{ write := true, page := 0, mode := m, reg := 0x3D, data := [0],
                   ok := true }]) := by
  simp only [List.mem_cons, List.mem_singleton, List.not_mem_nil, or_false, not_or] at hout
  obtain ⟨ho2, ho1, ho3, ho5, ho4⟩ := hout
  obtain ⟨r, hrun, _, hdev, hval, _⟩ := set_config_mode_link no_fault rfl rfl cfg inst hcfg out
    ho1 ho2 ho3 ho4 ho5 s hL
  obtain ⟨_, _, hmd, hv⟩ := set_config_mode_pure no_fault rfl rfl s.1.dev (by omega) (by omega)
  have hh := set_config_mode_history no_fault rfl rfl s.1.dev (by omega) (by omega)
  rw [hcur] at hh hv
  rw [← hdev] at hh hmd
  refine ⟨r, hrun, by rw [hval, hv], hmd, hh, ?_⟩
  rw [hh, List.append_assoc, List.drop_left]
  unfold select_txns
  by_cases hp : s.1.dev.page = 0 <;> by_cases h0 : m = 0 <;> simp [hp, h0]

/-! ## Bracketed mutators of page-1 settings -/

/-- The bracket of a settings mutator on the mock transport with the simulated device:
page 1 is selected, the device is switched to CONFIG mode with the mode saved at `out`,
the step `mid` runs, and the saved mode is restored. -/
theorem bracket_link (f : Nat → Bool) (hf7 : f 0x07 = false) (hf3D : f 0x3D = false)
    (cfg : USART_Config_t) (inst : USART_Instance) (hcfg : cfg.instance_ptr = some inst)
    (out : Nat)
    (hout : out ∉ [write_response, current_page, opr_mode_data, reg_val_og,
      opr_current_opr_mode])
    (mid : Nat → Mock Bno055 × World → Outcome (Mock Bno055)) (g : Bno055 → Bno055)
    (hmid : ∀ s : Mock Bno055 × World, Link s →
      ∃ r : Mock Bno055 × World,
        (∀ fuel, 7 ≤ fuel → mid fuel s = some (Status.SUCCESS, r)) ∧ Link r ∧
        r.1.dev = g s.1.dev ∧ r.2.mem out 0 = s.2.mem out 0)
    (s : Mock Bno055 × World) (hL : Link s)
    (hmode : val_Get_OPR_Mode f (dev_Select_Page f s.1.dev 1) ≤ 12) :
    ∃ r : Mock Bno055 × World,
      (∀ fuel, 7 ≤ fuel →
        (CHECK_STATUS (BNO_Select_Page (mock (bno_device f)) fuel (some cfg) BNO_PAGE_1 s)
            fun s1 =>
          CHECK_STATUS
            (BNO_Set_Config_Mode (mock (bno_device f)) fuel (some cfg) (some out)
              (zero_local out s1)) fun s2 =>
          CHECK_STATUS (mid fuel s2) fun s3 =>
          CHECK_STATUS
            (BNO_Set_OPR_Mode (mock (bno_device f)) fuel (some cfg)
              ((s3.2.mem out 0 : Nat) : Int) s3) fun s4 =>
          some (Status.SUCCESS, s4)) = some (Status.SUCCESS, r)) ∧
      Link r ∧
      r.1.dev = dev_Set_OPR_Mode f (g (dev_Set_Config_Mode f (dev_Select_Page f s.1.dev 1)))
        (val_Get_OPR_Mode f (dev_Select_Page f s.1.dev 1)) := by
  simp only [List.mem_cons, List.mem_singleton, List.not_mem_nil, or_false, not_or] at hout
  obtain ⟨ho2, ho1, ho3, ho5, ho4⟩ := hout
  obtain ⟨r1, hrun1, hL1, hdev1, _⟩ := select_page_link f hf7 cfg inst hcfg 1
    (by norm_num) s hL
  obtain ⟨r2, hrun2, hL2, hdev2, hval2, _⟩ := set_config_mode_link f hf7 hf3D cfg inst hcfg
    out ho1 ho2 ho3 ho4 ho5 (zero_local out r1) (link_zero_local _ r1 hL1)
  have hdev2' : r2.1.dev = dev_Set_Config_Mode f (dev_Select_Page f s.1.dev 1) := by
    rw [hdev2]
    show dev_Set_Config_Mode f r1.1.dev = _
    rw [hdev1]
  have hval2' : r2.2.mem out 0 = val_Get_OPR_Mode f (dev_Select_Page f s.1.dev 1) := by
    rw [hval2]
    show val_Get_OPR_Mode f r1.1.dev = _
    rw [hdev1]
  obtain ⟨r3, hrun3, hL3, hdev3, hval3⟩ := hmid r2 hL2
  rw [hval2'] at hval3
  obtain ⟨r4, hrun4, hL4, hdev4, _⟩ := set_opr_mode_link f hf7 hf3D cfg inst hcfg
    (val_Get_OPR_Mode f (dev_Select_Page f s.1.dev 1)) hmode r3 hL3
  refine ⟨r4, ?_, hL4, ?_⟩
  · intro fuel hf
    have h1 := hrun1 fuel hf
    have e : ((1 : Nat) : Int) = BNO_PAGE_1 := rfl
    rw [e] at h1
    simp only [CHECK_STATUS_success, h1, hrun2 fuel hf, hrun3 fuel hf, hval3, hrun4 fuel hf]
  · rw [hdev4, hdev3, hdev2']

/-- The step `BNO_Set_Setting` inside a bracket, writes to `reg` being accepted. -/
theorem set_setting_mid (f : Nat → Bool) (cfg : USART_Config_t) (inst : USART_Instance)
    (hcfg : cfg.instance_ptr = some inst) (reg mask val out : Nat) (hf : f reg = false)
    (ho1 : out ≠ reg_val_og) (ho2 : out ≠ write_response) (s : Mock Bno055 × World)
    (hL : Link s) :
    ∃ r : Mock Bno055 × World,
      (∀ fuel, 7 ≤ fuel →
        BNO_Set_Setting (mock (bno_device f)) fuel (some cfg) reg mask val s
          = some (Status.SUCCESS, r)) ∧ Link r ∧
      r.1.dev = dev_Set_Setting f s.1.dev reg mask val ∧ r.2.mem out 0 = s.2.mem out 0 := by
  obtain ⟨r, hrun, hLr, hdev, hframe⟩ := set_setting_link f cfg inst hcfg reg mask val s hL
  rw [hf] at hrun
  simp only [Bool.false_eq_true, if_false] at hrun
  exact ⟨r, hrun, hLr, hdev, by rw [hframe out ho1 ho2]⟩

/-- The step `BNO_Write_Reg` of one byte inside a bracket, writes to `reg` being
accepted. -/
theorem write_reg_mid (f : Nat → Bool) (cfg : USART_Config_t) (inst : USART_Instance)
    (hcfg : cfg.instance_ptr = some inst) (reg v out : Nat) (hf : f reg = false)
    (ho2 : out ≠ write_response) (s : Mock Bno055 × World) (hL : Link s) :
    ∃ r : Mock Bno055 × World,
      (∀ fuel, 7 ≤ fuel →
        BNO_Write_Reg (mock (bno_device f)) fuel (some cfg) reg 1 (some [v]) s
          = some (Status.SUCCESS, r)) ∧ Link r ∧
      r.1.dev = dev_write f s.1.dev reg v ∧ r.2.mem out 0 = s.2.mem out 0 := by
  obtain ⟨r, hrun, hLr, hdev, hframe⟩ := write_reg_link f cfg inst hcfg reg v s hL
  rw [hf] at hrun hdev
  simp only [Bool.false_eq_true, if_false] at hrun hdev
  refine ⟨r, hrun, hLr, ?_, by rw [hframe out ho2]⟩
  rw [hdev]
  unfold dev_write
  rw [if_neg (by simp [hf])]

/-- `BNO_Set_Axis_State` on the mock transport with the simulated device, for the axes
X and Y. -/
theorem set_axis_state_link (f : Nat → Bool) (hf7 : f 0x07 = false) (hf3D : f 0x3D = false)
    (cfg : USART_Config_t) (inst : USART_Instance) (hcfg : cfg.instance_ptr = some inst)
    (axis irq_adr mask state : Nat) (ha : axis ≤ 1) (hfr : f irq_adr = false)
    (s : Mock Bno055 × World) (hL : Link s)
    (hmode : val_Get_OPR_Mode f (dev_Select_Page f s.1.dev 1) ≤ 12) :
    ∃ r : Mock Bno055 × World,
      (∀ fuel, 7 ≤ fuel →
        BNO_Set_Axis_State (mock (bno_device f)) fuel (some cfg) (axis : Int) irq_adr mask
          state s = some (Status.SUCCESS, r)) ∧
      Link r ∧
      r.1.dev = dev_Set_Sensor_Setting f s.1.dev irq_adr mask state := by
  have hv : Validate_Enum (axis : Int) BNO_AXIS_X BNO_AXIS_Y = Status.SUCCESS := by
    apply validate_enum_ok
    · unfold BNO_AXIS_X
      positivity
    · unfold BNO_AXIS_Y
      exact_mod_cast ha
  obtain ⟨r, hrun, hLr, hdev⟩ := bracket_link f hf7 hf3D cfg inst hcfg axis_current_opr_mode
    (by decide)
    (fun fuel s2 => BNO_Set_Setting (mock (bno_device f)) fuel (some cfg) irq_adr mask state s2)
    (fun d => dev_Set_Setting f d irq_adr mask state)
    (fun s2 h2 => set_setting_mid f cfg inst hcfg irq_adr mask state axis_current_opr_mode
      hfr (by decide) (by decide) s2 h2)
    s hL hmode
  refine ⟨r, ?_, hLr, hdev⟩
  intro fuel hf
  unfold BNO_Set_Axis_State
  rw [hv, CHECK_STATUS_success]
  exact hrun fuel hf

/-- C27 (defect): the per-axis interrupt enable setters reject the Z axis.
`BNO_Set_Axis_State` validates the axis against the range `BNO_AXIS_X` .. `BNO_AXIS_Y`,
so `BNO_Set_ACC_AM_Axis_State` with `BNO_AXIS_Z` and a valid state returns
INVALID_PARAM in every environment, in the state it was called in: no transaction is
issued.  On the simulated device on which every transaction succeeds the axes X and Y
are accepted and the call returns SUCCESS. -/
theorem C27_axis_z_rejected (cfg : USART_Config_t) (inst : USART_Instance)
    (hcfg : cfg.instance_ptr = some inst) (state : Nat) (hst : state ≤ 1)
    (s : Mock Bno055 × World) (hL : Link s) (hd : s.1.dev.page ≤ 1)
    (hm : bno_mode s.1.dev ≤ 12) :
    BNO_AXIS_Z = 2 ∧
    (∀ fuel,
      BNO_Set_ACC_AM_Axis_State (mock (bno_device no_fault)) fuel (some cfg) BNO_AXIS_Z
        (state : Int) s = some (Status.INVALID_PARAM, s)) ∧
    (∀ (σ : Type) (env : Env σ) (fuel : Nat) (usart : Option USART_Config_t)
        (irq_adr mask val : Nat) (t : σ × World),
      BNO_Set_Axis_State env fuel usart BNO_AXIS_Z irq_adr mask val t
        = some (Status.INVALID_PARAM, t)) ∧
    (∀ axis : Nat, axis ≤ 1 →
      ∃ r : Mock Bno055 × World, ∀ fuel, 7 ≤ fuel →
        BNO_Set_ACC_AM_Axis_State (mock (bno_device no_fault)) fuel (some cfg) (axis : Int)
          (state : Int) s = some (Status.SUCCESS, r)) := by
  have hvs : Validate_Enum (state : Int) BNO_IRQ_AXIS_DISABLED BNO_IRQ_AXIS_ENABLED
      = Status.SUCCESS := by
    apply validate_enum_ok
    · unfold BNO_IRQ_AXIS_DISABLED
      positivity
    · unfold BNO_IRQ_AXIS_ENABLED
      exact_mod_cast hst
  have hz : ∀ (σ : Type) (env : Env σ) (fuel : Nat) (usart : Option USART_Config_t)
      (irq_adr mask val : Nat) (t : σ × World),
      BNO_Set_Axis_State env fuel usart BNO_AXIS_Z irq_adr mask val t
        = some (Status.INVALID_PARAM, t) := by
    intro σ env fuel usart irq_adr mask val t
    unfold BNO_Set_Axis_State
    rfl
  refine ⟨rfl, ?_, hz, ?_⟩
  · intro fuel
    unfold BNO_Set_ACC_AM_Axis_State
    rw [hvs, CHECK_STATUS_success]
    dsimp only
    rw [hz]
    rfl
  · intro axis ha
    obtain ⟨_, _, _, hv⟩ := config_prefix_pure no_fault rfl rfl s.1.dev 1 (by omega)
      (by norm_num) (by omega)
    obtain ⟨r, hrun, _, _⟩ := set_axis_state_link no_fault rfl rfl cfg inst hcfg axis
      BNO_ACC_INT_SETTINGS_REG
      ((0x01 <<< (((BNO_ACC_INT_SETTINGS_AM_NM_X_AXIS_Pos : Int) + (axis : Int))
        % 4294967296).toNat) % 4294967296 % 256)
      ((((state : Int) % 256).toNat <<< (((BNO_ACC_INT_SETTINGS_AM_NM_X_AXIS_Pos : Int)
        + (axis : Int)) % 4294967296).toNat) % 4294967296 % 256)
      ha rfl s hL (by rw [hv]; exact hm)
    refine ⟨r, ?_⟩
    intro fuel hf
    unfold BNO_Set_ACC_AM_Axis_State
    rw [hvs, CHECK_STATUS_success]
    dsimp only
    rw [hrun fuel hf]
    rfl

/-! ## Sensor configuration fields -/

theorem example_bno_with_link (page mode a v : Nat) :
    Link (example_bno_with_mock page mode a v, example_rest_world) := by
  refine ⟨example_rest_quiet, ⟨rfl, ?_, ?_⟩, rfl, rfl⟩
  · show example_rest_world.regs.SR.testBit 5 = false
    decide
  · show ∀ j, j < 4 → example_rest_world.regs.SR.testBit j = false
    decide

/-- `BNO_Set_Sensor_Setting` on the simulated device on which every transaction
succeeds: SUCCESS, with the read and the write of the sensor configuration register
served on page 0 in CONFIG mode between transactions on the page register and
OPR_MODE. -/
theorem sensor_setting_run (cfg : USART_Config_t) (inst : USART_Instance)
    (hcfg : cfg.instance_ptr = some inst) (sensor mask val : Nat) (hs : sensor ≤ 3)
    (s : Mock Bno055 × World) (hL : Link s) (hd : s.1.dev.page ≤ 1)
    (hm : bno_mode s.1.dev ≤ 12) :
    ∃ (r : Mock Bno055 × World) (H1 H2 : List Txn),
      (∀ fuel, 7 ≤ fuel →
        BNO_Set_Sensor_Setting (mock (bno_device no_fault)) fuel (some cfg) (sensor : Int)
          mask val s = some (Status.SUCCESS, r)) ∧
      r.1.dev.history = s.1.dev.history ++ H1 ++
        [{ write := false, page := 0, mode := 0, reg := 0x08 + sensor,
           data := [s.1.dev.bank 0 (0x08 + sensor) % 256], ok := true },
         { write := true, page := 0, mode := 0, reg := 0x08 + sensor,
           data := [setting_byte (s.1.dev.bank 0 (0x08 + sensor) % 256) mask val],
           ok := true }] ++ H2 ∧
      (∀ x ∈ H1 ++ H2, x.reg = 0x07 ∨ x.reg = 0x3D) := by
  obtain ⟨_, _, _, hv⟩ := config_prefix_pure no_fault rfl rfl s.1.dev 1 (by omega)
    (by norm_num) (by omega)
  obtain ⟨r, hrun, _, hdev⟩ := set_sensor_setting_link no_fault rfl rfl cfg inst hcfg sensor
    mask val hs rfl s hL (by rw [hv]; exact hm)
  obtain ⟨H1, H2, hh, hq, _, _, _⟩ := bracket_pure no_fault rfl rfl s.1.dev 1 (0x08 + sensor)
    mask val (by omega) (by norm_num) (by omega) (by omega) (by omega) rfl
  refine ⟨r, H1, H2, hrun, ?_, hq⟩
  rw [hdev]
  exact hh

set_option maxRecDepth 100000 in
theorem acc_bw_bits : ∀ b0 < 256, ∀ bw < 8,
    acc_bw_of_byte (setting_byte b0 BNO_ACC_CONFIG_BW bw) = bw / 4 ∧
    setting_byte b0 BNO_ACC_CONFIG_BW bw % 4 = (b0 % 4) ||| (bw % 4) ∧
    setting_byte b0 BNO_ACC_CONFIG_BW bw / 16 = b0 / 16 := by
  decide

set_option maxRecDepth 100000 in
theorem gyr_range_bits : ∀ b0 < 256, ∀ range < 5,
    setting_byte b0 BNO_GYR_CONFIG_0_REG range % 8 = ((b0 % 8) &&& 5) ||| range ∧
    setting_byte b0 BNO_GYR_CONFIG_0_REG range / 8 % 8 = (b0 / 8 % 8) &&& 6 ∧
    setting_byte b0 BNO_GYR_CONFIG_0_REG range / 64 = b0 / 64 := by
  decide

/-- C29 (defect): on the simulated device on which every transaction succeeds,
`BNO_Set_ACC_BW` returns SUCCESS for every bandwidth value `bw` of the enum (0..7), but
the byte it writes back to ACC_CONFIG for the prior byte `r` holds `bw` unshifted:
the bits of `bw` are ORed into bits [2:0], so the range bits [1:0] become those of `r`
OR those of `bw`, and the value `BNO_Get_ACC_BW` extracts from the byte written, its
bits [3:2] shifted right by `BNO_ACC_CONFIG_BW_Pos`, is `bw / 4`, not `bw`.  Bits [7:4]
are those of `r`. -/
theorem C29_acc_bw_written_unshifted (cfg : USART_Config_t) (inst : USART_Instance)
    (hcfg : cfg.instance_ptr = some inst) (bw : Nat) (hbw : bw ≤ 7)
    (s : Mock Bno055 × World) (hL : Link s) (hd : s.1.dev.page ≤ 1)
    (hm : bno_mode s.1.dev ≤ 12) :
    ∃ (r : Mock Bno055 × World) (H1 H2 : List Txn),
      (∀ fuel, 7 ≤ fuel →
        BNO_Set_ACC_BW (mock (bno_device no_fault)) fuel (some cfg) (bw : Int) s
          = some (Status.SUCCESS, r)) ∧
      r.1.dev.history = s.1.dev.history ++ H1 ++
        [{ write := false, page := 0, mode := 0, reg := 0x08,
           data := [s.1.dev.bank 0 0x08 % 256], ok := true },
         { write := true, page := 0, mode := 0, reg := 0x08,
           data := [setting_byte (s.1.dev.bank 0 0x08 % 256) BNO_ACC_CONFIG_BW bw],
           ok := true }] ++ H2 ∧
      (∀ x ∈ H1 ++ H2, x.reg = 0x07 ∨ x.reg = 0x3D) ∧
      acc_bw_of_byte (setting_byte (s.1.dev.bank 0 0x08 % 256) BNO_ACC_CONFIG_BW bw)
        = bw / 4 ∧
      setting_byte (s.1.dev.bank 0 0x08 % 256) BNO_ACC_CONFIG_BW bw % 4
        = (s.1.dev.bank 0 0x08 % 256 % 4) ||| (bw % 4) ∧
      setting_byte (s.1.dev.bank 0 0x08 % 256) BNO_ACC_CONFIG_BW bw / 16
        = s.1.dev.bank 0 0x08 % 256 / 16 := by
  have hv : Validate_Enum (bw : Int) BNO_ACC_BW_7_81_HZ BNO_ACC_BW_1000_HZ
      = Status.SUCCESS := by
    apply validate_enum_ok
    · unfold BNO_ACC_BW_7_81_HZ
      positivity
    · unfold BNO_ACC_BW_1000_HZ
      exact_mod_cast hbw
  obtain ⟨r, H1, H2, hrun, hh, hq⟩ := sensor_setting_run cfg inst hcfg 0 BNO_ACC_CONFIG_BW bw
    (by norm_num) s hL hd hm
  obtain ⟨b1, b2, b3⟩ := acc_bw_bits (s.1.dev.bank 0 0x08 % 256)
    (Nat.mod_lt _ (by norm_num)) bw (by omega)
  refine ⟨r, H1, H2, ?_, hh, hq, b1, b2, b3⟩
  intro fuel hf
  unfold BNO_Set_ACC_BW
  rw [hv, CHECK_STATUS_success, toNat_mod_256 bw (by omega)]
  exact hrun fuel hf

/-- C30 (defect): on the simulated device on which every transaction succeeds,
`BNO_Set_GYR_Range` returns SUCCESS for every range value of the enum (0..4), but the
mask it passes is the register address `BNO_GYR_CONFIG_0_REG` (0x0A), not the mask
`BNO_GYR_CONFIG_0_RANGE` (0x07): the byte written back for the prior byte `r` has bits 1
and 3 of `r` cleared and the range ORed in.  Its range bits [2:0] are bits 2 and 0 of `r`
OR the range, its bandwidth bits [5:3] are those of `r` with bit 3 cleared; bits [7:6]
are those of `r`. -/
theorem C30_gyr_range_mask_is_register_address (cfg : USART_Config_t)
    (inst : USART_Instance) (hcfg : cfg.instance_ptr = some inst) (range : Nat)
    (hr : range ≤ 4) (s : Mock Bno055 × World) (hL : Link s) (hd : s.1.dev.page ≤ 1)
    (hm : bno_mode s.1.dev ≤ 12) :
    BNO_GYR_CONFIG_0_REG = 0x0A ∧ BNO_GYR_CONFIG_0_RANGE = 0x07 ∧
    ∃ (r : Mock Bno055 × World) (H1 H2 : List Txn),
      (∀ fuel, 7 ≤ fuel →
        BNO_Set_GYR_Range (mock (bno_device no_fault)) fuel (some cfg) (range : Int) s
          = some (Status.SUCCESS, r)) ∧
      r.1.dev.history = s.1.dev.history ++ H1 ++
        [{ write := false, page := 0, mode := 0, reg := 0x0A,
           data := [s.1.dev.bank 0 0x0A % 256], ok := true },
         { write := true, page := 0, mode := 0, reg := 0x0A,
           data := [setting_byte (s.1.dev.bank 0 0x0A % 256) BNO_GYR_CONFIG_0_REG range],
           ok := true }] ++ H2 ∧
      (∀ x ∈ H1 ++ H2, x.reg = 0x07 ∨ x.reg = 0x3D) ∧
      setting_byte (s.1.dev.bank 0 0x0A % 256) BNO_GYR_CONFIG_0_REG range % 8
        = ((s.1.dev.bank 0 0x0A % 256 % 8) &&& 5) ||| range ∧
      setting_byte (s.1.dev.bank 0 0x0A % 256) BNO_GYR_CONFIG_0_REG range / 8 % 8
        = (s.1.dev.bank 0 0x0A % 256 / 8 % 8) &&& 6 ∧
      setting_byte (s.1.dev.bank 0 0x0A % 256) BNO_GYR_CONFIG_0_REG range / 64
        = s.1.dev.bank 0 0x0A % 256 / 64 := by
  have hv : Validate_Enum (range : Int) BNO_GYR_RANGE_2000_DPS BNO_GYR_RANGE_125_DPS
      = Status.SUCCESS := by
    apply validate_enum_ok
    · unfold BNO_GYR_RANGE_2000_DPS
      positivity
    · unfold BNO_GYR_RANGE_125_DPS
      exact_mod_cast hr
  obtain ⟨r, H1, H2, hrun, hh, hq⟩ := sensor_setting_run cfg inst hcfg 2 BNO_GYR_CONFIG_0_REG
    range (by norm_num) s hL hd hm
  obtain ⟨b1, b2, b3⟩ := gyr_range_bits (s.1.dev.bank 0 0x0A % 256)
    (Nat.mod_lt _ (by norm_num)) range (by omega)
  refine ⟨rfl, rfl, r, H1, H2, ?_, hh, hq, b1, b2, b3⟩
  intro fuel hf
  unfold BNO_Set_GYR_Range
  rw [hv, CHECK_STATUS_success, toNat_mod_256 range (by omega)]
  exact hrun fuel hf

/-! ## Interrupt settings: high-g duration and no-motion delay -/

/-- `BNO_Get_Setting` on the mock transport with the simulated device: the register is
read and its bits under `mask` are stored for the caller. -/
theorem get_setting_link (f : Nat → Bool) (cfg : USART_Config_t) (inst : USART_Instance)
    (hcfg : cfg.instance_ptr = some inst) (reg mask out : Nat) (s : Mock Bno055 × World)
    (hL : Link s) :
    ∃ r : Mock Bno055 × World,
      (∀ fuel, 7 ≤ fuel →
        BNO_Get_Setting (mock (bno_device f)) fuel (some cfg) reg mask (some out) s
          = some (Status.SUCCESS, r)) ∧
      Link r ∧ r.1.dev = bno_after_read s.1.dev reg 1 ∧
      r.2.mem out 0 = (bno_reg s.1.dev reg &&& mask) % 256 := by
  obtain ⟨r1, hrun1, hL1, hdev1, hval1, _⟩ := read_reg_link f cfg inst hcfg reg
    get_reg_val_og (zero_local get_reg_val_og s) (link_zero_local _ s hL)
  refine ⟨store_byte out ((r1.2.mem get_reg_val_og 2 &&& mask) % 256) r1, ?_,
    link_store_byte _ _ r1 hL1, hdev1, ?_⟩
  · intro fuel hf
    unfold BNO_Get_Setting
    simp only [hrun1 fuel hf, CHECK_STATUS_success]
  · show Function.update r1.2.mem out (Function.update (r1.2.mem out) 0 _) out 0 = _
    rw [Function.update_same, Function.update_same, hval1]
    rfl

/-- `BNO_Get_ACC_SM_NM_Det_Type` on the mock transport with the simulated device: page 1
is selected and bit 0 of ACC_NM_SET is stored for the caller. -/
theorem get_det_type_link (f : Nat → Bool) (hf7 : f 0x07 = false) (cfg : USART_Config_t)
    (inst : USART_Instance) (hcfg : cfg.instance_ptr = some inst) (out : Nat)
    (s : Mock Bno055 × World) (hL : Link s) :
    ∃ r : Mock Bno055 × World,
      (∀ fuel, 7 ≤ fuel →
        BNO_Get_ACC_SM_NM_Det_Type (mock (bno_device f)) fuel (some cfg) (some out) s
          = some (Status.SUCCESS, r)) ∧
      Link r ∧ r.1.dev = bno_after_read (dev_Select_Page f s.1.dev 1) 0x16 1 ∧
      r.2.mem out 0 = bno_reg (dev_Select_Page f s.1.dev 1) 0x16 % 2 := by
  obtain ⟨r1, hrun1, hL1, hdev1, _⟩ := select_page_link f hf7 cfg inst hcfg 1
    (by norm_num) s hL
  obtain ⟨r2, hrun2, hL2, hdev2, hval2⟩ := get_setting_link f cfg inst hcfg
    BNO_ACC_NM_SET_REG BNO_ACC_NM_SET_SM_NM out r1 hL1
  refine ⟨store_byte out ((r2.2.mem out 0 >>> BNO_ACC_NM_SET_SM_NM_Pos) % 256) r2, ?_,
    link_store_byte _ _ r2 hL2, ?_, ?_⟩
  · intro fuel hf
    unfold BNO_Get_ACC_SM_NM_Det_Type
    have h1 := hrun1 fuel hf
    have e : ((1 : Nat) : Int) = BNO_PAGE_1 := rfl
    rw [e] at h1
    simp only [h1, CHECK_STATUS_success, hrun2 fuel hf]
  · show r2.1.dev = _
    rw [hdev2, hdev1]
    rfl
  · show Function.update r2.2.mem out (Function.update (r2.2.mem out) 0 _) out 0 = _
    rw [Function.update_same, Function.update_same, hval2, hdev1]
    have hlt := bno_reg_lt (dev_Select_Page f s.1.dev 1) BNO_ACC_NM_SET_REG
    show ((bno_reg (dev_Select_Page f s.1.dev 1) 0x16 &&& 1) % 256 >>> 0) % 256 = _
    rw [Nat.shiftRight_zero, Nat.and_one_is_mod]
    omega

/-- A bracketed step on the simulated device: when the step `g`, made on page 0 in
CONFIG mode, keeps page and mode and appends the transactions `M`, the bracket appends
`M` between transactions on the page register and OPR_MODE, and restores the mode. -/
theorem bracket_any (f : Nat → Bool) (hf7 : f 0x07 = false) (hf3D : f 0x3D = false)
    (d : Bno055) (t : Nat) (hd : d.page < 256) (ht : t < 256) (hm : bno_mode d < 16)
    (g : Bno055 → Bno055) (M : List Txn)
    (hg : ∀ d2 : Bno055, d2.page = 0 → bno_mode d2 = 0 →
      (g d2).page = 0 ∧ bno_mode (g d2) = 0 ∧ (g d2).history = d2.history ++ M) :
    ∃ H1 H2 : List Txn,
      (dev_Set_OPR_Mode f (g (dev_Set_Config_Mode f (dev_Select_Page f d t)))
        (val_Get_OPR_Mode f (dev_Select_Page f d t))).history
        = d.history ++ H1 ++ M ++ H2 ∧
      (∀ x ∈ H1 ++ H2, x.reg = 0x07 ∨ x.reg = 0x3D) ∧
      bno_mode (dev_Set_OPR_Mode f (g (dev_Set_Config_Mode f (dev_Select_Page f d t)))
        (val_Get_OPR_Mode f (dev_Select_Page f d t))) = bno_mode d := by
  obtain ⟨hpl2, hp2, hm2, hv2⟩ := config_prefix_pure f hf7 hf3D d t hd ht hm
  obtain ⟨hp3, hm3, hh3⟩ := hg _ hp2 hm2
  obtain ⟨hpl4, _, hm4⟩ := set_opr_mode_pure f hf7 hf3D
    (g (dev_Set_Config_Mode f (dev_Select_Page f d t)))
    (val_Get_OPR_Mode f (dev_Select_Page f d t)) (by rw [hp3]; norm_num)
    (by rw [hm3]; norm_num) (by rw [hv2]; omega)
  obtain ⟨H1, e1, q1⟩ := hpl2.hist
  obtain ⟨H2, e2, q2⟩ := hpl4.hist
  refine ⟨H1, H2, ?_, ?_, ?_⟩
  · rw [e2, hh3, e1]
  · intro x hx
    rcases List.mem_append.1 hx with h | h
    · exact q1 x h
    · exact q2 x h
  · rw [hm4, hv2]

theorem dev_write_step (f : Nat → Bool) (d2 : Bno055) (reg v : Nat) (hf : f reg = false)
    (hreg7 : reg ≠ 0x07) (hreg3D : reg ≠ 0x3D) (hp2 : d2.page = 0) (hm2 : bno_mode d2 = 0) :
    (dev_write f d2 reg v).page = 0 ∧ bno_mode (dev_write f d2 reg v) = 0 ∧
    (dev_write f d2 reg v).history = d2.history ++
      [{ write := true, page := 0, mode := 0, reg := reg, data := [v], ok := true }] := by
  rw [dev_write_ok _ _ _ _ hf]
  refine ⟨?_, ?_, ?_⟩
  · simp [bno_store, hreg7, hp2]
  · unfold bno_mode at hm2 ⊢
    simp [bno_store, hreg7, hp2, Function.update, Ne.symm hreg3D]
    exact hm2
  · rw [hp2, hm2]

theorem hg_dur_code_eq (dur_ms : Nat) (h2 : 2 ≤ dur_ms) (h512 : dur_ms ≤ 512) :
    hg_dur_code dur_ms = dur_ms / 2 - 1 ∧ hg_dur_code dur_ms ≤ 255 ∧
    (dur_ms % 2 = 0 → hg_dur_of_code (hg_dur_code dur_ms) = dur_ms) := by
  unfold hg_dur_of_code hg_dur_code
  omega

/-- `BNO_Set_ACC_HG_Dur` on the mock transport with the simulated device, for a duration
in range. -/
theorem set_acc_hg_dur_link (f : Nat → Bool) (hf7 : f 0x07 = false) (hf3D : f 0x3D = false)
    (hf13 : f 0x13 = false) (cfg : USART_Config_t) (inst : USART_Instance)
    (hcfg : cfg.instance_ptr = some inst) (dur_ms : Nat) (h2 : 2 ≤ dur_ms)
    (h512 : dur_ms ≤ 512) (s : Mock Bno055 × World) (hL : Link s)
    (hmode : val_Get_OPR_Mode f (dev_Select_Page f s.1.dev 1) ≤ 12) :
    ∃ r : Mock Bno055 × World,
      (∀ fuel, 7 ≤ fuel →
        BNO_Set_ACC_HG_Dur (mock (bno_device f)) fuel (some cfg) dur_ms s
          = some (Status.SUCCESS, r)) ∧
      Link r ∧
      r.1.dev = dev_Set_OPR_Mode f
        (dev_write f (dev_Set_Config_Mode f (dev_Select_Page f s.1.dev 1)) 0x13
          (hg_dur_code dur_ms))
        (val_Get_OPR_Mode f (dev_Select_Page f s.1.dev 1)) := by
  obtain ⟨r, hrun, hLr, hdev⟩ := bracket_link f hf7 hf3D cfg inst hcfg hg_current_opr_mode
    (by decide)
    (fun fuel s2 => BNO_Write_Reg (mock (bno_device f)) fuel (some cfg)
      BNO_ACC_HG_DURATION_REG 1 (some [hg_dur_code dur_ms]) s2)
    (fun d => dev_write f d 0x13 (hg_dur_code dur_ms))
    (fun s2 h2 => write_reg_mid f cfg inst hcfg BNO_ACC_HG_DURATION_REG (hg_dur_code dur_ms)
      hg_current_opr_mode hf13 (by decide) s2 h2)
    s hL hmode
  refine ⟨r, ?_, hLr, hdev⟩
  intro fuel hf
  unfold BNO_Set_ACC_HG_Dur
  rw [if_neg (by omega)]
  exact hrun fuel hf

/-- `BNO_Get_ACC_HG_Dur` on the mock transport with the simulated device: page 1 is
selected, ACC_HG_DURATION is read there, and the duration decoded from the byte is
stored for the caller, low byte first. -/
theorem get_acc_hg_dur_link (f : Nat → Bool) (hf7 : f 0x07 = false) (cfg : USART_Config_t)
    (inst : USART_Instance) (hcfg : cfg.instance_ptr = some inst) (out : Nat)
    (s : Mock Bno055 × World) (hL : Link s) (hd : s.1.dev.page < 256) :
    ∃ r : Mock Bno055 × World,
      (∀ fuel, 7 ≤ fuel →
        BNO_Get_ACC_HG_Dur (mock (bno_device f)) fuel (some cfg) (some out) s
          = some (Status.SUCCESS, r)) ∧
      r.1.dev = bno_after_read (dev_Select_Page f s.1.dev 1) 0x13 1 ∧
      r.2.mem out 0 + 256 * r.2.mem out 1 = hg_dur_of_code (s.1.dev.bank 1 0x13 % 256) := by
  obtain ⟨hp, hb, _⟩ := select_page_pure f hf7 s.1.dev 1 hd
  obtain ⟨r1, hrun1, hL1, hdev1, _⟩ := select_page_link f hf7 cfg inst hcfg 1 (by norm_num)
    s hL
  obtain ⟨r2, hrun2, _, hdev2, hval2⟩ := get_setting_link f cfg inst hcfg
    BNO_ACC_HG_DURATION_REG BNO_ACC_HG_DURATION hg_raw_dur (zero_local hg_raw_dur r1)
    (link_zero_local _ r1 hL1)
  have hreg : bno_reg (zero_local hg_raw_dur r1).1.dev BNO_ACC_HG_DURATION_REG
      = s.1.dev.bank 1 0x13 % 256 := by
    show bno_reg r1.1.dev 0x13 = _
    rw [hdev1]
    unfold bno_reg
    rw [hp, hb]
    rfl
  rw [hreg] at hval2
  have hmask : (s.1.dev.bank 1 0x13 % 256 &&& BNO_ACC_HG_DURATION) % 256
      = s.1.dev.bank 1 0x13 % 256 := by
    have e : BNO_ACC_HG_DURATION = 2 ^ 8 - 1 := rfl
    rw [e, Nat.and_pow_two_sub_one_eq_mod]
    omega
  rw [hmask] at hval2
  refine ⟨store_u16 out (hg_dur_of_code (r2.2.mem hg_raw_dur 0)) r2, ?_, ?_, ?_⟩
  · intro fuel hf
    unfold BNO_Get_ACC_HG_Dur
    have e1 : BNO_Select_Page (mock (bno_device f)) fuel (some cfg) BNO_PAGE_1 s
        = some (Status.SUCCESS, r1) := hrun1 fuel hf
    simp only [e1, CHECK_STATUS_success, hrun2 fuel hf]
  · show r2.1.dev = _
    rw [hdev2]
    show bno_after_read r1.1.dev 0x13 1 = _
    rw [hdev1]
  · have hlt : hg_dur_of_code (r2.2.mem hg_raw_dur 0) < 65536 := by
      unfold hg_dur_of_code
      exact Nat.mod_lt _ (by norm_num)
    rw [← hval2]
    show Function.update r2.2.mem out _ out 0 + 256 * Function.update r2.2.mem out _ out 1 = _
    rw [Function.update_same, Function.update_same,
      Function.update_noteq (by norm_num : (0 : Nat) ≠ 1), Function.update_same]
    omega

/-- C26: `BNO_Set_ACC_HG_Dur` returns INVALID_PARAM, in the state it was called in and so
without device traffic, when `dur_ms < 2` or `dur_ms > 512`.  For every other `dur_ms`
it returns SUCCESS on the simulated device on which every transaction succeeds, and the
byte it writes to ACC_HG_DURATION (the write is made with page 0 selected) is
`dur_ms / 2 - 1`, a value in 0..255; for an even `dur_ms` the decoding of
`BNO_Get_ACC_HG_Dur`, `(code + 1) * 2`, gives `dur_ms` back: on a device whose
ACC_HG_DURATION on page 1, where the getter reads it, holds that byte,
`BNO_Get_ACC_HG_Dur` returns SUCCESS and stores `dur_ms` for the caller. -/
theorem C26_hg_dur_range_and_code (cfg : USART_Config_t) (inst : USART_Instance)
    (hcfg : cfg.instance_ptr = some inst) (dur_ms : Nat)
    (s : Mock Bno055 × World) (hL : Link s) (hd : s.1.dev.page ≤ 1)
    (hm : bno_mode s.1.dev ≤ 12) :
    ((dur_ms < 2 ∨ 512 < dur_ms) →
      ∀ fuel, BNO_Set_ACC_HG_Dur (mock (bno_device no_fault)) fuel (some cfg) dur_ms s
        = some (Status.INVALID_PARAM, s)) ∧
    ((2 ≤ dur_ms ∧ dur_ms ≤ 512) →
      ∃ (r : Mock Bno055 × World) (H1 H2 : List Txn),
        (∀ fuel, 7 ≤ fuel →
          BNO_Set_ACC_HG_Dur (mock (bno_device no_fault)) fuel (some cfg) dur_ms s
            = some (Status.SUCCESS, r)) ∧
        r.1.dev.history = s.1.dev.history ++ H1 ++
          [{ write := true, page := 0, mode := 0, reg := 0x13, data := [dur_ms / 2 - 1],
             ok := true }] ++ H2 ∧
        (∀ x ∈ H1 ++ H2, x.reg = 0x07 ∨ x.reg = 0x3D) ∧
        dur_ms / 2 - 1 ≤ 255 ∧
        (dur_ms % 2 = 0 → hg_dur_of_code (dur_ms / 2 - 1) = dur_ms) ∧
        (dur_ms % 2 = 0 → ∀ (out : Nat) (t : Mock Bno055 × World), Link t →
          t.1.dev.page ≤ 1 → t.1.dev.bank 1 0x13 = dur_ms / 2 - 1 →
          ∃ q : Mock Bno055 × World,
            (∀ fuel, 7 ≤ fuel →
              BNO_Get_ACC_HG_Dur (mock (bno_device no_fault)) fuel (some cfg) (some out) t
                = some (Status.SUCCESS, q)) ∧
            q.1.dev.history = t.1.dev.history ++ select_txns t.1.dev 1 ++
              [{ write := false, page := 1, mode := bno_mode t.1.dev, reg := 0x13,
                 data := [dur_ms / 2 - 1], ok := true }] ∧
            q.2.mem out 0 + 256 * q.2.mem out 1 = dur_ms)) := by
  constructor
  · intro h fuel
    unfold BNO_Set_ACC_HG_Dur
    rw [if_pos (by omega)]
  · intro h
    obtain ⟨c1, c2, c3⟩ := hg_dur_code_eq dur_ms h.1 h.2
    obtain ⟨_, _, _, hv⟩ := config_prefix_pure no_fault rfl rfl s.1.dev 1 (by omega)
      (by norm_num) (by omega)
    obtain ⟨r, hrun, _, hdev⟩ := set_acc_hg_dur_link no_fault rfl rfl rfl cfg inst hcfg dur_ms
      h.1 h.2 s hL (by rw [hv]; exact hm)
    obtain ⟨H1, H2, hh, hq, _⟩ := bracket_any no_fault rfl rfl s.1.dev 1 (by omega)
      (by norm_num) (by omega) (fun d => dev_write no_fault d 0x13 (hg_dur_code dur_ms))
      [{ write := true, page := 0, mode := 0, reg := 0x13, data := [hg_dur_code dur_ms],
         ok := true }]
      (fun d2 hp2 hm2 => dev_write_step no_fault d2 0x13 (hg_dur_code dur_ms) rfl (by norm_num)
        (by norm_num) hp2 hm2)
    rw [c1] at c2 c3
    refine ⟨r, H1, H2, hrun, ?_, hq, c2, c3, ?_⟩
    · rw [hdev, ← c1]
      exact hh
    · intro hev out t hLt htd ht
      obtain ⟨q, hrunq, hdevq, hvalq⟩ := get_acc_hg_dur_link no_fault rfl cfg inst hcfg out t
        hLt (by omega)
      obtain ⟨hp, hb, hhist⟩ := select_page_pure no_fault rfl t.1.dev 1 (by omega)
      have hmod : (dur_ms / 2 - 1) % 256 = dur_ms / 2 - 1 := Nat.mod_eq_of_lt (by omega)
      refine ⟨q, hrunq, ?_, ?_⟩
      · rw [hdevq]
        have hrange : List.range 1 = [0] := rfl
        have hreg : bno_reg (dev_Select_Page no_fault t.1.dev 1) 0x13 = dur_ms / 2 - 1 := by
          unfold bno_reg
          rw [hp, hb, ht]
          exact hmod
        have hmd : bno_mode (dev_Select_Page no_fault t.1.dev 1) = bno_mode t.1.dev := by
          unfold bno_mode
          rw [hb]
        simp only [bno_after_read, hrange, List.map, Nat.add_zero, hreg, hmd, hp]
        have hh' : (dev_Select_Page no_fault t.1.dev 1).history
            = t.1.dev.history ++ select_txns t.1.dev 1 := hhist
        rw [hh']
      · rw [hvalq, ht, hmod]
        exact c3 hev

/-- `BNO_Set_ACC_NM_Delay` on the mock transport with the simulated device, no-motion
detection being selected: the detection type is read on page 1; a delay that fails the
validation ends the call there with INVALID_PARAM, any other delay is written inside
the bracket and the call returns SUCCESS. -/
theorem set_acc_nm_delay_link (f : Nat → Bool) (hf7 : f 0x07 = false)
    (hf3D : f 0x3D = false) (hf16 : f 0x16 = false) (cfg : USART_Config_t)
    (inst : USART_Instance) (hcfg : cfg.instance_ptr = some inst) (delay_s : Nat)
    (s : Mock Bno055 × World) (hL : Link s) (hd : s.1.dev.page < 256)
    (hm : bno_mode s.1.dev ≤ 12)
    (hnm : bno_reg (dev_Select_Page f s.1.dev 1) 0x16 % 2 = 1) :
    ∃ r : Mock Bno055 × World,
      (∀ fuel, 7 ≤ fuel →
        BNO_Set_ACC_NM_Delay (mock (bno_device f)) fuel (some cfg) delay_s s
          = some (if delay_s < 1 ∨ 336 < delay_s ∨ (16 < delay_s ∧ delay_s % 8 ≠ 0) then
              Status.INVALID_PARAM else Status.SUCCESS, r)) ∧
      ((delay_s < 1 ∨ 336 < delay_s ∨ (16 < delay_s ∧ delay_s % 8 ≠ 0)) →
        r.1.dev = bno_after_read (dev_Select_Page f s.1.dev 1) 0x16 1) ∧
      (¬ (delay_s < 1 ∨ 336 < delay_s ∨ (16 < delay_s ∧ delay_s % 8 ≠ 0)) →
        r.1.dev = dev_Set_OPR_Mode f
          (dev_Set_Setting f
            (dev_Set_Config_Mode f
              (dev_Select_Page f (bno_after_read (dev_Select_Page f s.1.dev 1) 0x16 1) 1))
            BNO_ACC_NM_SET_REG BNO_ACC_NM_SET_SM_NM_DUR
            ((nm_delay_code delay_s <<< BNO_ACC_NM_SET_SM_NM_DUR_Pos) % 256))
          (val_Get_OPR_Mode f
            (dev_Select_Page f (bno_after_read (dev_Select_Page f s.1.dev 1) 0x16 1) 1))) := by
  obtain ⟨r1, hrun1, hL1, hdev1, hval1⟩ := get_det_type_link f hf7 cfg inst hcfg nm_det_type
    (zero_local nm_det_type s) (link_zero_local _ s hL)
  have hdev1' : r1.1.dev = bno_after_read (dev_Select_Page f s.1.dev 1) 0x16 1 := hdev1
  have hdet : ¬ (r1.2.mem nm_det_type 0 ≠ BNO_SM_NM_NO_MOTION) := by
    rw [hval1]
    intro h
    exact h hnm
  have hpre : ∀ fuel, 7 ≤ fuel →
      BNO_Set_ACC_NM_Delay (mock (bno_device f)) fuel (some cfg) delay_s s
        = if delay_s ≥ 1 ∧ delay_s ≤ 336 then
            if delay_s > 16 ∧ delay_s % 8 ≠ 0 then some (Status.INVALID_PARAM, r1)
            else
              CHECK_STATUS
                  (BNO_Select_Page (mock (bno_device f)) fuel (some cfg) BNO_PAGE_1 r1)
                fun s2 =>
              CHECK_STATUS
                (BNO_Set_Config_Mode (mock (bno_device f)) fuel (some cfg)
                  (some nm_current_opr_mode) (zero_local nm_current_opr_mode s2)) fun s3 =>
              CHECK_STATUS
                (BNO_Set_Setting (mock (bno_device f)) fuel (some cfg) BNO_ACC_NM_SET_REG
                  BNO_ACC_NM_SET_SM_NM_DUR
                  ((nm_delay_code delay_s <<< BNO_ACC_NM_SET_SM_NM_DUR_Pos) % 256) s3)
                fun s4 =>
              CHECK_STATUS
                (BNO_Set_OPR_Mode (mock (bno_device f)) fuel (some cfg)
                  ((s4.2.mem nm_current_opr_mode 0 : Nat) : Int) s4) fun s5 =>
              some (Status.SUCCESS, s5)
          else some (Status.INVALID_PARAM, r1) := by
    intro fuel hf
    unfold BNO_Set_ACC_NM_Delay
    rw [hrun1 fuel hf, CHECK_STATUS_success, if_neg hdet]
  by_cases hbad : delay_s < 1 ∨ 336 < delay_s ∨ (16 < delay_s ∧ delay_s % 8 ≠ 0)
  · refine ⟨r1, ?_, fun _ => hdev1', fun h => absurd hbad h⟩
    intro fuel hf
    rw [hpre fuel hf, if_pos hbad]
    by_cases hr : delay_s ≥ 1 ∧ delay_s ≤ 336
    · rw [if_pos hr, if_pos (by omega)]
    · rw [if_neg hr]
  · have hp1 : r1.1.dev.page = 1 := by
      rw [hdev1']
      exact (select_page_pure f hf7 s.1.dev 1 hd).1
    have hm1 : bno_mode r1.1.dev = bno_mode s.1.dev := by
      rw [hdev1']
      exact (select_page_plumb f hf7 s.1.dev 1 hd).2.2
    obtain ⟨_, _, _, hv⟩ := config_prefix_pure f hf7 hf3D r1.1.dev 1 (by rw [hp1]; norm_num)
      (by norm_num) (by rw [hm1]; omega)
    obtain ⟨r, hrun, _, hdevr⟩ := bracket_link f hf7 hf3D cfg inst hcfg nm_current_opr_mode
      (by decide)
      (fun fuel s2 => BNO_Set_Setting (mock (bno_device f)) fuel (some cfg) BNO_ACC_NM_SET_REG
        BNO_ACC_NM_SET_SM_NM_DUR
        ((nm_delay_code delay_s <<< BNO_ACC_NM_SET_SM_NM_DUR_Pos) % 256) s2)
      (fun d => dev_Set_Setting f d BNO_ACC_NM_SET_REG BNO_ACC_NM_SET_SM_NM_DUR
        ((nm_delay_code delay_s <<< BNO_ACC_NM_SET_SM_NM_DUR_Pos) % 256))
      (fun s2 h2 => set_setting_mid f cfg inst hcfg BNO_ACC_NM_SET_REG
        BNO_ACC_NM_SET_SM_NM_DUR
        ((nm_delay_code delay_s <<< BNO_ACC_NM_SET_SM_NM_DUR_Pos) % 256) nm_current_opr_mode
        hf16 (by decide) (by decide) s2 h2)
      r1 hL1 (by rw [hv, hm1]; exact hm)
    refine ⟨r, ?_, fun h => absurd h hbad, fun _ => ?_⟩
    · intro fuel hf
      rw [hpre fuel hf, if_neg hbad, if_pos (by omega), if_neg (by omega)]
      exact hrun fuel hf
    · rw [hdev1'] at hdevr
      exact hdevr

/-- C25: on the simulated device on which every transaction succeeds, with no-motion
detection selected (bit 0 of ACC_NM_SET on page 1), `BNO_Set_ACC_NM_Delay` returns
INVALID_PARAM for every `delay_s` outside 1..336 and for every `delay_s` greater than 16
that is not divisible by 8, after the read of the detection type and before any write:
the transactions of such a call are the page selection and the read of ACC_NM_SET.
Every other `delay_s` is accepted and the call returns SUCCESS. -/
theorem C25_nm_delay_validation (cfg : USART_Config_t) (inst : USART_Instance)
    (hcfg : cfg.instance_ptr = some inst) (delay_s : Nat)
    (s : Mock Bno055 × World) (hL : Link s) (hd : s.1.dev.page ≤ 1)
    (hm : bno_mode s.1.dev ≤ 12) (hnm : s.1.dev.bank 1 0x16 % 2 = BNO_SM_NM_NO_MOTION) :
    ∃ r : Mock Bno055 × World,
      (∀ fuel, 7 ≤ fuel →
        BNO_Set_ACC_NM_Delay (mock (bno_device no_fault)) fuel (some cfg) delay_s s
          = some (if delay_s < 1 ∨ 336 < delay_s ∨ (16 < delay_s ∧ delay_s % 8 ≠ 0) then
              Status.INVALID_PARAM else Status.SUCCESS, r)) ∧
      ((delay_s < 1 ∨ 336 < delay_s ∨ (16 < delay_s ∧ delay_s % 8 ≠ 0)) →
        r.1.dev.history = s.1.dev.history ++ select_txns s.1.dev 1 ++
          [{ write := false, page := 1, mode := bno_mode s.1.dev, reg := 0x16,
             data := [s.1.dev.bank 1 0x16 % 256], ok := true }]) := by
  obtain ⟨hp, hb, hh⟩ := select_page_pure no_fault rfl s.1.dev 1 (by omega)
  have hmd : bno_mode (dev_Select_Page no_fault s.1.dev 1) = bno_mode s.1.dev := by
    unfold bno_mode
    rw [hb]
  have hreg : bno_reg (dev_Select_Page no_fault s.1.dev 1) 0x16 = s.1.dev.bank 1 0x16 % 256 := by
    unfold bno_reg
    rw [hp, hb]
    rfl
  have hnm' : s.1.dev.bank 1 0x16 % 2 = 1 := hnm
  obtain ⟨r, hrun, hbad, _⟩ := set_acc_nm_delay_link no_fault rfl rfl rfl cfg inst hcfg delay_s s
    hL (by omega) hm (by rw [hreg]; omega)
  refine ⟨r, hrun, ?_⟩
  intro h
  have hrange : List.range 1 = [0] := rfl
  rw [hbad h]
  simp only [bno_after_read, hrange, List.map, Nat.add_zero, hreg, hmd, hp]
  have hh' : (dev_Select_Page no_fault s.1.dev 1).history
      = s.1.dev.history ++ select_txns s.1.dev 1 := hh
  rw [hh']

theorem portinv_of_st {w r : World} (h : PortInv w) (h1 : r.st.tx_index = w.st.tx_index)
    (h2 : r.st.tx_length = w.st.tx_length) (h3 : r.st.rx_index = w.st.rx_index)
    (h4 : r.st.rx_length = w.st.rx_length) : PortInv r :=
  ⟨by rw [h1, h2]; exact h.tx, by rw [h2]; exact h.cap, by rw [h3, h4]; exact h.rx⟩

theorem transmit_portinv (cfg : Option USART_Config_t) (buf : Option (List Nat)) (n : Nat)
    (w : World) (h : PortInv w) : PortInv (USART_Transmit_IRQ cfg buf n w).2 := by
  unfold USART_Transmit_IRQ
  cases cfg with
  | none => exact h
  | some c =>
    cases buf with
    | none => exact h
    | some b =>
      dsimp only
      by_cases hn : n ≤ 0 ∨ n > TX_BUFFER_SIZE
      · rw [if_pos hn]
        exact h
      · rw [if_neg hn]
        cases USART_Get_State (some c) with
        | none => exact h
        | some inst =>
          dsimp only
          split_ifs
          · exact portinv_of_st h rfl rfl rfl rfl
          · exact ⟨Nat.zero_le _, by show n ≤ TX_BUFFER_SIZE; omega, h.rx⟩

theorem receive_portinv (cfg : Option USART_Config_t) (buf : Option Nat) (n : Nat)
    (w : World) (h : PortInv w) : PortInv (USART_Receive_IRQ cfg buf n w).2 := by
  unfold USART_Receive_IRQ
  cases cfg with
  | none => exact h
  | some c =>
    cases buf with
    | none => exact h
    | some b =>
      dsimp only
      by_cases hn : n ≤ 0
      · rw [if_pos hn]
        exact h
      · rw [if_neg hn]
        cases USART_Get_State (some c) with
        | none => exact h
        | some inst =>
          dsimp only
          split_ifs
          · exact portinv_of_st h rfl rfl rfl rfl
          · exact ⟨h.tx, h.cap, Nat.zero_le _⟩

theorem abort_portinv (cfg : Option USART_Config_t) (w : World) (h : PortInv w) :
    PortInv (USART_Abort_Receive_IRQ cfg w).2 := by
  unfold USART_Abort_Receive_IRQ
  cases cfg with
  | none => exact h
  | some c =>
    dsimp only
    cases USART_Get_State (some c) with
    | none => exact h
    | some inst => exact ⟨h.tx, h.cap, Nat.le_refl _⟩

theorem TXE_portinv (w : World) (h : PortInv w) : PortInv (USART_IRQHandler_TXE w) := by
  unfold USART_IRQHandler_TXE
  split_ifs with h1 h2
  · refine ⟨?_, h.cap, h.rx⟩
    show (w.st.tx_index + 1) % 65536 ≤ w.st.tx_length
    exact le_trans (Nat.mod_le _ _) h2
  · exact portinv_of_st h rfl rfl rfl rfl
  · exact h

theorem RXNE_portinv (w : World) (h : PortInv w) : PortInv (USART_IRQHandler_RXNE w) := by
  unfold USART_IRQHandler_RXNE
  dsimp only
  split_ifs with h1 h2 h3 h4 h5
  · exact portinv_of_st h rfl rfl rfl rfl
  · refine ⟨h.tx, h.cap, ?_⟩
    show (w.st.rx_index + 1) % 65536 ≤ w.st.rx_length
    exact le_trans (Nat.mod_le _ _) h4
  · refine ⟨h.tx, h.cap, ?_⟩
    show (w.st.rx_index + 1) % 65536 ≤ w.st.rx_length
    exact le_trans (Nat.mod_le _ _) h4
  · exact portinv_of_st h rfl rfl rfl rfl
  · exact portinv_of_st h rfl rfl rfl rfl
  · exact h

theorem TC_portinv (w : World) (h : PortInv w) : PortInv (USART_IRQHandler_TC w) := by
  unfold USART_IRQHandler_TC
  split_ifs
  · exact portinv_of_st h rfl rfl rfl rfl
  · exact h

theorem irq_portinv (w : World) (e : Nat × Nat) (h : PortInv w) : PortInv (irq w e) := by
  unfold irq USART_IRQHandler
  exact TC_portinv _ (RXNE_portinv _ (TXE_portinv _ (portinv_of_st h rfl rfl rfl rfl)))

theorem reach_portinv (w : World) (h : Reach w) : PortInv w := by
  induction h with
  | start w h =>
    refine ⟨?_, ?_, ?_⟩ <;> rw [h] <;> decide
  | transmit w cfg buf n _ ih => exact transmit_portinv cfg buf n w ih
  | receive w cfg buf n _ ih => exact receive_portinv cfg buf n w ih
  | abort w cfg _ ih => exact abort_portinv cfg w ih
  | handler w e _ ih => exact irq_portinv w e ih

/-- What one handler invocation sends: nothing, or the byte of the transmit buffer at
`tx_index`, and this only while `tx_index < tx_length`. -/
theorem irq_tx_read (w : World) (e : Nat × Nat) :
    (irq w e).regs.TDR = w.regs.TDR ∨
    (w.st.tx_index < w.st.tx_length ∧
      (irq w e).regs.TDR = w.regs.TDR ++ [w.st.tx_buffer w.st.tx_index]) := by
  unfold irq USART_IRQHandler
  rw [(TC_frame _).TDR, (RXNE_frame _).TDR]
  unfold USART_IRQHandler_TXE
  split_ifs with h1 h2
  · exact Or.inr ⟨h2, rfl⟩
  · exact Or.inl rfl
  · exact Or.inl rfl

/-- What one handler invocation stores: memory changes only at the receive pointer, at
index `rx_index`, while the receiver is Busy and `rx_index < rx_length`. -/
theorem irq_rx_write (w : World) (e : Nat × Nat) (p i : Nat)
    (h : (irq w e).mem p i ≠ w.mem p i) :
    w.st.rx_buffer = some p ∧ i = w.st.rx_index ∧ w.st.rx_index < w.st.rx_length ∧
      w.st.rx_status = USART_RX_Status.USART_RX_BUSY := by
  unfold irq USART_IRQHandler at h
  rw [(TC_frame _).mem] at h
  generalize hw0 : ({ w with regs := { w.regs with SR := e.1, DR := e.2 } } : World) = w0 at h
  have hF := TXE_frame w0
  have e1 : (USART_IRQHandler_TXE w0).st.rx_buffer = w.st.rx_buffer := by
    rw [hF.rx_buffer, ← hw0]
  have e2 : (USART_IRQHandler_TXE w0).st.rx_index = w.st.rx_index := by
    rw [hF.rx_index, ← hw0]
  have e3 : (USART_IRQHandler_TXE w0).st.rx_length = w.st.rx_length := by
    rw [hF.rx_length, ← hw0]
  have e4 : (USART_IRQHandler_TXE w0).st.rx_status = w.st.rx_status := by
    rw [hF.rx_status, ← hw0]
  have e5 : (USART_IRQHandler_TXE w0).mem = w.mem := by
    rw [hF.mem, ← hw0]
  generalize USART_IRQHandler_TXE w0 = w1 at h e1 e2 e3 e4 e5
  have hstore : ∀ d : Nat, store_rx w1 d p i ≠ w.mem p i →
      w.st.rx_buffer = some p ∧ i = w.st.rx_index := by
    intro d hd
    unfold store_rx at hd
    cases hb : w1.st.rx_buffer with
    | none =>
      rw [hb] at hd
      exact absurd (by rw [e5]) hd
    | some q =>
      rw [hb] at hd
      dsimp only at hd
      by_cases hq : p = q
      · subst hq
        rw [Function.update_same] at hd
        by_cases hi : i = w1.st.rx_index
        · exact ⟨by rw [← e1, hb], by rw [hi, e2]⟩
        · rw [Function.update_noteq hi, e5] at hd
          exact absurd rfl hd
      · rw [Function.update_noteq hq, e5] at hd
        exact absurd rfl hd
  unfold USART_IRQHandler_RXNE at h
  dsimp only at h
  split_ifs at h with h1 h2 h3 h4 h5
  · exact absurd (by rw [e5]) h
  · obtain ⟨a, b⟩ := hstore _ h
    exact ⟨a, b, by rw [← e2, ← e3]; exact h4, by rw [← e4]; exact h3⟩
  · obtain ⟨a, b⟩ := hstore _ h
    exact ⟨a, b, by rw [← e2, ← e3]; exact h4, by rw [← e4]; exact h3⟩
  · exact absurd (by rw [e5]) h
  · exact absurd (by rw [e5]) h
  · exact absurd (by rw [e5]) h

/-- C36: in every port state reachable from the initial state through
`USART_Transmit_IRQ`, `USART_Receive_IRQ`, `USART_Abort_Receive_IRQ` and handler
invocations with arbitrary hardware flags and data, `tx_index <= tx_length <= 512` and
`rx_index <= rx_length`.  So a handler invocation in such a state sends nothing or the
byte of the transmit buffer at `tx_index`, with `tx_index < tx_length` and inside the
512-byte array, and it changes memory only at the receive pointer, at index
`rx_index < rx_length`, while `rx_status` is Busy. -/
theorem C36_port_indices_bounded (w : World) (h : Reach w) :
    TX_BUFFER_SIZE = 512 ∧
    w.st.tx_index ≤ w.st.tx_length ∧ w.st.tx_length ≤ 512 ∧
    w.st.rx_index ≤ w.st.rx_length ∧
    ∀ e : Nat × Nat,
      ((irq w e).regs.TDR = w.regs.TDR ∨
        (w.st.tx_index < w.st.tx_length ∧ w.st.tx_index < 512 ∧
          (irq w e).regs.TDR = w.regs.TDR ++ [w.st.tx_buffer w.st.tx_index])) ∧
      (∀ p i : Nat, (irq w e).mem p i ≠ w.mem p i →
        w.st.rx_buffer = some p ∧ i = w.st.rx_index ∧ i < w.st.rx_length ∧
          w.st.rx_status = USART_RX_Status.USART_RX_BUSY) := by
  have hI := reach_portinv w h
  have hcap : w.st.tx_length ≤ 512 := hI.cap
  refine ⟨rfl, hI.tx, hcap, hI.rx, ?_⟩
  intro e
  constructor
  · rcases irq_tx_read w e with h1 | ⟨h1, h2⟩
    · exact Or.inl h1
    · exact Or.inr ⟨h1, by omega, h2⟩
  · intro p i hne
    obtain ⟨a, b, c, d⟩ := irq_rx_write w e p i hne
    exact ⟨a, b, by rw [b]; exact c, d⟩

/-! ## Calibration offsets: byte composition and reconstruction -/

theorem int_bits_low_byte (x : Int) : (int_bits x &&& 0xFF) % 256 = (x % 256).toNat := by
  have h : int_bits x &&& 0xFF = int_bits x % 2 ^ 8 :=
    Nat.and_pow_two_sub_one_eq_mod (int_bits x) 8
  rw [h]
  unfold int_bits
  omega

theorem int_bits_high_byte (x : Int) :
    (int_bits (x >>> (8 : Nat)) &&& 0xFF) % 256 = (x / 256 % 256).toNat := by
  rw [int_bits_low_byte]
  have e : x >>> (8 : Nat) = x / 256 := Int.shiftRight_eq_div_pow x 8
  rw [e]

theorem or_shift_bytes (lo hi : Nat) (h : lo < 256) : lo ||| (hi <<< 8) = 256 * hi + lo := by
  have e := Nat.mul_add_lt_is_or (show lo < 2 ^ 8 from h) hi
  rw [Nat.shiftLeft_eq, Nat.lor_comm, Nat.mul_comm hi (2 ^ 8), ← e]

theorem offset_value_bytes (x : Int) (h0 : -32768 ≤ x) (h1 : x ≤ 32767) :
    offset_value ((int_bits x &&& 0xFF) % 256) ((int_bits (x >>> (8 : Nat)) &&& 0xFF) % 256) = x := by
  rw [int_bits_low_byte, int_bits_high_byte]
  unfold offset_value
  rw [or_shift_bytes _ _ (by omega)]
  dsimp only
  split_ifs <;> omega

theorem bno_respond_read6 (f : Nat → Bool) (d : Bno055) (reg : Nat) :
    (bno_device f).respond d [0xAA, 0x01, reg, 6 % 256]
      = some (bno_after_read d reg 6,
          [0xBB, 6, bno_reg d reg, bno_reg d (reg + 1), bno_reg d (reg + 2),
            bno_reg d (reg + 3), bno_reg d (reg + 4), bno_reg d (reg + 5)]) := by
  show bno_respond f d [0xAA, 0x01, reg, 6] = _
  unfold bno_respond
  simp [List.range_succ]

theorem bno_respond_read6_prefix (f : Nat → Bool) (d : Bno055) (reg : Nat) (k : Nat)
    (hk : k < 4) : (bno_device f).respond d ([0xAA, 0x01, reg, 6 % 256].take k) = none := by
  interval_cases k <;> rfl

theorem write_cmd6 (reg b0 b1 b2 b3 b4 b5 : Nat) :
    write_cmd reg 6 [b0, b1, b2, b3, b4, b5] = [0xAA, 0x00, reg, 6, b0, b1, b2, b3, b4, b5] := by
  unfold write_cmd
  simp [List.range_succ]

theorem bno_respond_write6 (f : Nat → Bool) (d : Bno055) (reg b0 b1 b2 b3 b4 b5 : Nat)
    (hf : f reg = false) :
    (bno_device f).respond d (write_cmd reg 6 [b0, b1, b2, b3, b4, b5])
      = some (bno_after_write f d reg [b0, b1, b2, b3, b4, b5], [0xEE, 0x01]) := by
  rw [write_cmd6]
  show bno_respond f d [0xAA, 0x00, reg, 6, b0, b1, b2, b3, b4, b5] = _
  unfold bno_respond
  simp [hf]

theorem bno_respond_write6_prefix (f : Nat → Bool) (d : Bno055)
    (reg b0 b1 b2 b3 b4 b5 : Nat) (k : Nat) (hk : k < 10) :
    (bno_device f).respond d ((write_cmd reg 6 [b0, b1, b2, b3, b4, b5]).take k) = none := by
  rw [write_cmd6]
  interval_cases k <;> rfl

/-- A 6-byte read on the mock transport with the simulated device: the device serves one
read, the six bytes arrive at indices 2 to 7 of the buffer, no other array is written,
the status is SUCCESS. -/
theorem read_reg6_link (f : Nat → Bool) (cfg : USART_Config_t) (inst : USART_Instance)
    (hcfg : cfg.instance_ptr = some inst) (reg dest : Nat) (s : Mock Bno055 × World)
    (hL : Link s) :
    ∃ r : Mock Bno055 × World,
      (∀ fuel, 7 ≤ fuel →
        BNO_Read_Reg (mock (bno_device f)) fuel (some cfg) reg 6 (some dest) s
          = some (Status.SUCCESS, r)) ∧
      Link r ∧ r.1.dev = bno_after_read s.1.dev reg 6 ∧
      (∀ i, i < 6 → r.2.mem dest (2 + i) = bno_reg s.1.dev (reg + i)) ∧
      (∀ p, p ≠ dest → r.2.mem p = s.2.mem p) := by
  obtain ⟨r, hrun, hLr, hdev, hdata, hframe, _⟩ := transfer_link (bno_device f)
    (bno_respond_nil f) cfg inst hcfg [0xAA, 0x01, reg, 6 % 256] 4 rfl (by norm_num)
    (by norm_num) dest false 8 10 8 true s hL (bno_after_read s.1.dev reg 6)
    [0xBB, 6, bno_reg s.1.dev reg, bno_reg s.1.dev (reg + 1), bno_reg s.1.dev (reg + 2),
      bno_reg s.1.dev (reg + 3), bno_reg s.1.dev (reg + 4), bno_reg s.1.dev (reg + 5)]
    (fun k hk => bno_respond_read6_prefix f _ reg k hk)
    (bno_respond_read6 f _ reg) rfl (by norm_num) (by norm_num) (by norm_num)
  have h0 : r.2.mem dest 0 = 0xBB := hdata 0 (by norm_num)
  refine ⟨(r.1, log (Ev.checked [r.2.mem dest 0]) r.2), ?_, link_log _ r hLr, hdev, ?_, hframe⟩
  · intro fuel hf
    unfold BNO_Read_Reg
    have hlen : (BNO_RESPONSE_HEADER_LENGTH + 6) % 65536 = 8 := rfl
    simp only [hlen]
    rw [if_neg (by omega), hrun fuel (by omega), CHECK_STATUS_success]
    have hne : ¬ (r.2.mem dest 0 = 0xEE) := by
      rw [h0]
      norm_num
    show (if r.2.mem dest 0 = 0xEE then _ else _) = _
    rw [if_neg hne]
  · intro i hi
    show r.2.mem dest (2 + i) = _
    rw [hdata (2 + i) (by omega)]
    interval_cases i <;> exact Nat.mod_eq_of_lt (bno_reg_lt _ _)

/-- A 6-byte write on the mock transport with the simulated device, to a register that
accepts writes: the device serves one write of the six bytes, the status is SUCCESS, and
only the local response array is written. -/
theorem write_reg6_link (f : Nat → Bool) (cfg : USART_Config_t) (inst : USART_Instance)
    (hcfg : cfg.instance_ptr = some inst) (reg b0 b1 b2 b3 b4 b5 : Nat) (hfr : f reg = false)
    (s : Mock Bno055 × World) (hL : Link s) :
    ∃ r : Mock Bno055 × World,
      (∀ fuel, 12 ≤ fuel →
        BNO_Write_Reg (mock (bno_device f)) fuel (some cfg) reg 6
          (some [b0, b1, b2, b3, b4, b5]) s = some (Status.SUCCESS, r)) ∧
      Link r ∧ r.1.dev = bno_after_write f s.1.dev reg [b0, b1, b2, b3, b4, b5] ∧
      (∀ p, p ≠ write_response → r.2.mem p = s.2.mem p) := by
  obtain ⟨r, hrun, hLr, hdev, hdata, hframe, _⟩ := transfer_link (bno_device f)
    (bno_respond_nil f) cfg inst hcfg (write_cmd reg 6 [b0, b1, b2, b3, b4, b5]) 10
    (by rw [write_cmd6]; rfl) (by norm_num)
    (by norm_num) write_response true 2 10 2 true s hL
    (bno_after_write f s.1.dev reg [b0, b1, b2, b3, b4, b5]) [0xEE, 0x01]
    (fun k hk => bno_respond_write6_prefix f _ reg b0 b1 b2 b3 b4 b5 k
      (by rw [write_cmd6] at hk; exact hk))
    (bno_respond_write6 f _ reg b0 b1 b2 b3 b4 b5 hfr) rfl (by norm_num) (by norm_num)
    (by norm_num)
  have h0 : r.2.mem write_response 0 = 0xEE := hdata 0 (by norm_num)
  have h1 : r.2.mem write_response 1 = 0x01 := hdata 1 (by norm_num)
  refine ⟨(r.1, log (Ev.checked [r.2.mem write_response 0, r.2.mem write_response 1]) r.2),
    ?_, link_log _ r hLr, hdev, hframe⟩
  intro fuel hf
  unfold BNO_Write_Reg
  dsimp only
  rw [if_neg (by omega)]
  show CHECK_STATUS (BNO_transfer (mock (bno_device f)) fuel (some cfg)
    (write_cmd reg 6 [b0, b1, b2, b3, b4, b5]) 10 write_response true 2 10 2 true s) _ = _
  rw [hrun fuel hf, CHECK_STATUS_success]
  show (if r.2.mem write_response 0 = 0xEE ∧ r.2.mem write_response 1 ≠ 0x01 then _ else _) = _
  rw [if_neg (by rw [h1]; simp)]

theorem store_all_page : ∀ (l : List Nat) (d : Bno055) (a : Nat), 0x07 < a →
    (bno_store_all d a l).page = d.page ∧ (bno_store_all d a l).history = d.history ∧
    ∀ p x, (bno_store_all d a l).bank p x
      = if p = d.page ∧ a ≤ x ∧ x < a + l.length then l.getD (x - a) 0 else d.bank p x := by
  intro l
  induction l with
  | nil =>
    intro d a _
    refine ⟨rfl, rfl, fun p x => ?_⟩
    rw [if_neg (by simp)]
    rfl
  | cons v vs ih =>
    intro d a ha
    have hne : a ≠ 0x07 := by omega
    have hs : bno_store d a v
        = { d with bank := Function.update d.bank d.page (Function.update (d.bank d.page) a v) } := by
      unfold bno_store
      rw [if_neg hne]
    obtain ⟨i1, i2, i3⟩ := ih (bno_store d a v) (a + 1) (by omega)
    refine ⟨?_, ?_, fun p x => ?_⟩
    · show (bno_store_all (bno_store d a v) (a + 1) vs).page = _
      rw [i1, hs]
    · show (bno_store_all (bno_store d a v) (a + 1) vs).history = _
      rw [i2, hs]
    · show (bno_store_all (bno_store d a v) (a + 1) vs).bank p x = _
      rw [i3, hs]
      dsimp only
      by_cases hp : p = d.page
      · subst hp
        by_cases hx : x = a
        · subst hx
          rw [if_neg (by omega), if_pos ⟨rfl, by omega, by simp⟩]
          simp
        · by_cases hin : a + 1 ≤ x ∧ x < a + 1 + vs.length
          · rw [if_pos ⟨rfl, hin⟩, if_pos ⟨rfl, by omega, by simp; omega⟩]
            have e : x - a = (x - (a + 1)) + 1 := by omega
            rw [e, List.getD_cons_succ]
          · rw [if_neg (fun h => hin h.2), if_neg (fun h => hin ⟨by omega, by
              have := h.2.2
              simp at this
              omega⟩)]
            simp [Function.update, hx]
      · rw [if_neg (fun h => hp h.1), if_neg (fun h => hp h.1)]
        simp [Function.update, hp]

theorem offset_base_facts (sensor : Nat) :
    0x07 < offset_base sensor ∧ offset_base sensor + 5 < 0x3D + 0x30 ∧
    (∀ i, i < 6 → offset_base sensor + i ≠ 0x3D) ∧ no_fault (offset_base sensor) = false := by
  unfold offset_base BNO_ACC_OFFSET_X_LSB_REG BNO_MAG_OFFSET_X_LSB_REG BNO_GYR_OFFSET_X_LSB_REG
  refine ⟨?_, ?_, ?_, rfl⟩
  · split_ifs <;> norm_num
  · split_ifs <;> norm_num
  · intro i hi
    split_ifs <;> omega

theorem offset_base_cases (sensor : Nat) (hs : sensor ≤ 2) :
    (if (sensor : Int) = BNO_ACC then BNO_ACC_OFFSET_X_LSB_REG
      else if (sensor : Int) = BNO_MAG then BNO_MAG_OFFSET_X_LSB_REG
      else BNO_GYR_OFFSET_X_LSB_REG) = offset_base sensor := by
  unfold offset_base BNO_ACC BNO_MAG
  interval_cases sensor <;> simp

/-- `BNO_Set_Offset` on the mock transport with the simulated device: the six bytes are
written at the base address of the sensor inside the bracket of page 0 and CONFIG
mode. -/
theorem set_offset_link (cfg : USART_Config_t) (inst : USART_Instance)
    (hcfg : cfg.instance_ptr = some inst) (sensor : Nat) (hs : sensor ≤ 2) (x y z : Int)
    (s : Mock Bno055 × World) (hL : Link s)
    (hmode : val_Get_OPR_Mode no_fault (dev_Select_Page no_fault s.1.dev 0) ≤ 12) :
    ∃ r : Mock Bno055 × World,
      (∀ fuel, 12 ≤ fuel →
        BNO_Set_Offset (mock (bno_device no_fault)) fuel (some cfg) (sensor : Int)
          (some (x, y, z)) s = some (Status.SUCCESS, r)) ∧
      Link r ∧
      r.1.dev = dev_Set_OPR_Mode no_fault
        (bno_after_write no_fault
          (dev_Set_Config_Mode no_fault (dev_Select_Page no_fault s.1.dev 0))
          (offset_base sensor) (offset_data x y z))
        (val_Get_OPR_Mode no_fault (dev_Select_Page no_fault s.1.dev 0)) := by
  have hv : Validate_Enum (sensor : Int) BNO_ACC BNO_GYR = Status.SUCCESS := by
    apply validate_enum_ok
    · unfold BNO_ACC
      positivity
    · unfold BNO_GYR
      exact_mod_cast hs
  obtain ⟨r1, hrun1, hL1, hdev1, _⟩ := select_page_link no_fault rfl cfg inst hcfg 0
    (by norm_num) s hL
  obtain ⟨r2, hrun2, hL2, hdev2, hval2, _⟩ := set_config_mode_link no_fault rfl rfl cfg inst
    hcfg offset_current_opr_mode (by decide) (by decide) (by decide) (by decide) (by decide)
    (zero_local offset_current_opr_mode r1) (link_zero_local _ r1 hL1)
  have hdev2' : r2.1.dev = dev_Set_Config_Mode no_fault (dev_Select_Page no_fault s.1.dev 0) := by
    rw [hdev2]
    show dev_Set_Config_Mode no_fault r1.1.dev = _
    rw [hdev1]
  have hval2' : r2.2.mem offset_current_opr_mode 0
      = val_Get_OPR_Mode no_fault (dev_Select_Page no_fault s.1.dev 0) := by
    rw [hval2]
    show val_Get_OPR_Mode no_fault r1.1.dev = _
    rw [hdev1]
  obtain ⟨r3, hrun3, hL3, hdev3, hframe3⟩ := write_reg6_link no_fault cfg inst hcfg
    (offset_base sensor) _ _ _ _ _ _ rfl r2 hL2
  have hval3 : r3.2.mem offset_current_opr_mode 0
      = val_Get_OPR_Mode no_fault (dev_Select_Page no_fault s.1.dev 0) := by
    rw [hframe3 _ (by decide), hval2']
  obtain ⟨r4, hrun4, hL4, hdev4, _⟩ := set_opr_mode_link no_fault rfl rfl cfg inst hcfg
    (val_Get_OPR_Mode no_fault (dev_Select_Page no_fault s.1.dev 0)) hmode r3 hL3
  refine ⟨r4, ?_, hL4, ?_⟩
  · intro fuel hf
    unfold BNO_Set_Offset
    have h1 := hrun1 fuel (by omega)
    have e : ((0 : Nat) : Int) = BNO_PAGE_0 := rfl
    rw [e] at h1
    have h3 := hrun3 fuel hf
    simp only [hv, CHECK_STATUS_success, h1, hrun2 fuel (by omega), offset_base_cases sensor hs,
      BNO_AMG_DATA_LENGTH]
    unfold offset_data
    rw [h3, CHECK_STATUS_success]
    simp only [hval3]
    rw [hrun4 fuel (by omega), CHECK_STATUS_success]
  · rw [hdev4, hdev3, hdev2']
    rfl

theorem link_store_offset {δ : Type} (p : Nat) (v : Int × Int × Int) (s : Mock δ × World)
    (h : Link s) : Link (store_offset p v s) :=
  link_mem s _ h

/-- `BNO_Get_Offset` on the mock transport with the simulated device: the six bytes at
the base address of the sensor are read inside the bracket of page 0 and CONFIG mode,
and the offsets reconstructed from them are stored for the caller. -/
theorem get_offset_link (cfg : USART_Config_t) (inst : USART_Instance)
    (hcfg : cfg.instance_ptr = some inst) (sensor : Nat) (hs : sensor ≤ 2) (out : Nat)
    (hout : out ∉ [write_response, current_page, opr_mode_data, reg_val_og,
      opr_current_opr_mode, offset_current_opr_mode])
    (s : Mock Bno055 × World) (hL : Link s)
    (hmode : val_Get_OPR_Mode no_fault (dev_Select_Page no_fault s.1.dev 0) ≤ 12) :
    ∃ r : Mock Bno055 × World,
      (∀ fuel, 7 ≤ fuel →
        BNO_Get_Offset (mock (bno_device no_fault)) fuel (some cfg) (sensor : Int) (some out) s
          = some (Status.SUCCESS, r)) ∧
      Link r ∧
      ∃ data : Nat → Nat,
        (∀ i, i < 6 → data (2 + i)
          = bno_reg (dev_Set_Config_Mode no_fault (dev_Select_Page no_fault s.1.dev 0))
              (offset_base sensor + i)) ∧
        ∀ i, i < 6 →
          r.2.mem out i = (store_offset out (offset_of_response data) s).2.mem out i := by
  simp only [List.mem_cons, List.mem_singleton, List.not_mem_nil, or_false, not_or] at hout
  obtain ⟨ho2, ho1, ho3, ho5, ho4, ho6⟩ := hout
  have hv : Validate_Enum (sensor : Int) BNO_ACC BNO_GYR = Status.SUCCESS := by
    apply validate_enum_ok
    · unfold BNO_ACC
      positivity
    · unfold BNO_GYR
      exact_mod_cast hs
  obtain ⟨r1, hrun1, hL1, hdev1, _⟩ := select_page_link no_fault rfl cfg inst hcfg 0
    (by norm_num) s hL
  obtain ⟨r2, hrun2, hL2, hdev2, hval2, _⟩ := set_config_mode_link no_fault rfl rfl cfg inst
    hcfg offset_current_opr_mode (by decide) (by decide) (by decide) (by decide) (by decide)
    (zero_local offset_current_opr_mode r1) (link_zero_local _ r1 hL1)
  have hdev2' : r2.1.dev = dev_Set_Config_Mode no_fault (dev_Select_Page no_fault s.1.dev 0) := by
    rw [hdev2]
    show dev_Set_Config_Mode no_fault r1.1.dev = _
    rw [hdev1]
  have hval2' : r2.2.mem offset_current_opr_mode 0
      = val_Get_OPR_Mode no_fault (dev_Select_Page no_fault s.1.dev 0) := by
    rw [hval2]
    show val_Get_OPR_Mode no_fault r1.1.dev = _
    rw [hdev1]
  obtain ⟨r3, hrun3, hL3, _, hdata3, hframe3⟩ := read_reg6_link no_fault cfg inst hcfg
    (offset_base sensor) offset_response (zero_local offset_response r2)
    (link_zero_local _ r2 hL2)
  have hval3 : r3.2.mem offset_current_opr_mode 0
      = val_Get_OPR_Mode no_fault (dev_Select_Page no_fault s.1.dev 0) := by
    rw [hframe3 _ (by decide), zero_local_mem _ _ _ (by decide), hval2']
  generalize hs4 : store_offset out (offset_of_response (r3.2.mem offset_response)) r3 = s4
  have hL4 : Link s4 := by
    rw [← hs4]
    exact link_store_offset _ _ r3 hL3
  have hval4 : s4.2.mem offset_current_opr_mode 0
      = val_Get_OPR_Mode no_fault (dev_Select_Page no_fault s.1.dev 0) := by
    rw [← hs4]
    show Function.update r3.2.mem out _ offset_current_opr_mode 0 = _
    rw [Function.update_noteq (Ne.symm ho6)]
    exact hval3
  obtain ⟨r5, hrun5, hL5, _, hframe5⟩ := set_opr_mode_link no_fault rfl rfl cfg inst hcfg
    (val_Get_OPR_Mode no_fault (dev_Select_Page no_fault s.1.dev 0)) hmode s4 hL4
  refine ⟨r5, ?_, hL5, r3.2.mem offset_response, ?_, ?_⟩
  · intro fuel hf
    unfold BNO_Get_Offset
    have h1 := hrun1 fuel hf
    have e : ((0 : Nat) : Int) = BNO_PAGE_0 := rfl
    rw [e] at h1
    simp only [hv, CHECK_STATUS_success, h1, hrun2 fuel hf, offset_base_cases sensor hs,
      BNO_AMG_DATA_LENGTH, hrun3 fuel hf, hs4, hval4]
    rw [hrun5 fuel hf, CHECK_STATUS_success]
  · intro i hi
    rw [hdata3 i hi]
    show bno_reg r2.1.dev _ = _
    rw [hdev2']
  · intro i hi
    rw [hframe5 out ho1 ho2 ho3 ho4 ho5, ← hs4]
    show Function.update r3.2.mem out _ out i = Function.update s.2.mem out _ out i
    rw [Function.update_same, Function.update_same]
    simp only [if_pos hi]

theorem int16_bytes (v : Int) (h0 : -32768 ≤ v) (h1 : v ≤ 32767) :
    (if (int_bits v % 256 + 256 * (int_bits v / 256 % 256)) % 65536 < 32768 then
        (((int_bits v % 256 + 256 * (int_bits v / 256 % 256)) % 65536 : Nat) : Int)
      else (((int_bits v % 256 + 256 * (int_bits v / 256 % 256)) % 65536 : Nat) : Int) - 65536)
      = v := by
  unfold int_bits
  have hn : (((v % 4294967296).toNat : Nat) : Int) = v % 4294967296 :=
    Int.toNat_of_nonneg (Int.emod_nonneg _ (by norm_num))
  generalize (v % 4294967296).toNat = n at hn ⊢
  split_ifs <;> omega

theorem offset_data_lt (x y z : Int) (i : Nat) : (offset_data x y z).getD i 0 < 256 := by
  unfold offset_data
  rcases i with _ | _ | _ | _ | _ | _ | i
  all_goals first
    | exact Nat.mod_lt _ (by norm_num)
    | simp

theorem after_write_ok (d : Bno055) (reg : Nat) (l : List Nat) :
    bno_after_write no_fault d reg l
      = { bno_store_all d reg l with history := d.history ++
          [{ write := true, page := d.page, mode := bno_mode d, reg := reg, data := l,
             ok := true }] } := by
  unfold bno_after_write
  rw [if_neg (by simp [no_fault])]

/-- The write of the six offset bytes on the simulated device on page 0 in CONFIG mode:
page and mode are kept, the bytes are in the registers from the base address on, and one
transaction is appended. -/
theorem offset_write_step (d2 : Bno055) (sensor : Nat) (l : List Nat) (hl : l.length = 6)
    (hp2 : d2.page = 0) (hm2 : bno_mode d2 = 0) :
    (bno_after_write no_fault d2 (offset_base sensor) l).page = 0 ∧
    bno_mode (bno_after_write no_fault d2 (offset_base sensor) l) = 0 ∧
    (bno_after_write no_fault d2 (offset_base sensor) l).history = d2.history ++
      [{ write := true, page := 0, mode := 0, reg := offset_base sensor, data := l,
         ok := true }] ∧
    (∀ i, i < 6 →
      (bno_after_write no_fault d2 (offset_base sensor) l).bank 0 (offset_base sensor + i)
        = l.getD i 0) := by
  obtain ⟨b1, _, b3, _⟩ := offset_base_facts sensor
  obtain ⟨s1, _, s3⟩ := store_all_page l d2 (offset_base sensor) b1
  rw [after_write_ok]
  refine ⟨?_, ?_, ?_, ?_⟩
  · show (bno_store_all d2 (offset_base sensor) l).page = 0
    rw [s1, hp2]
  · show (bno_store_all d2 (offset_base sensor) l).bank 0 0x3D = 0
    rw [s3, if_neg]
    · exact hm2
    · intro h
      have := b3 (0x3D - offset_base sensor) (by omega)
      omega
  · show d2.history ++ _ = _
    rw [hp2, hm2]
  · intro i hi
    show (bno_store_all d2 (offset_base sensor) l).bank 0 (offset_base sensor + i) = _
    rw [s3, if_pos ⟨hp2.symm, by omega, by omega⟩]
    congr 1
    omega

/-- C34: on the simulated device on which every transaction succeeds, for every sensor
and every triple of signed 16-bit offsets `(x, y, z)`, negative values included,
`BNO_Set_Offset` returns SUCCESS and writes at the base address of the sensor, on page 0
in CONFIG mode, the six bytes it composes, low byte then high byte for each axis; on the
device it leaves, `BNO_Get_Offset` returns SUCCESS and the structure it fills for the
caller holds `(x, y, z)`.  The six bytes, placed after the two header bytes of a read
response and decoded from bytes 2 to 7 as `BNO_Get_Offset` does, give back
`(x, y, z)`. -/
theorem C34_offset_bytes_round_trip (cfg : USART_Config_t) (inst : USART_Instance)
    (hcfg : cfg.instance_ptr = some inst) (sensor : Nat) (hs : sensor ≤ 2)
    (x y z : Int) (h0 h1 out : Nat)
    (hx0 : -32768 ≤ x) (hx1 : x ≤ 32767) (hy0 : -32768 ≤ y) (hy1 : y ≤ 32767)
    (hz0 : -32768 ≤ z) (hz1 : z ≤ 32767)
    (hout : out ∉ [write_response, current_page, opr_mode_data, reg_val_og,
      opr_current_opr_mode, offset_current_opr_mode])
    (s : Mock Bno055 × World) (hL : Link s) (hd : s.1.dev.page ≤ 1)
    (hm : bno_mode s.1.dev ≤ 12) :
    (offset_data x y z).length = BNO_AMG_DATA_LENGTH ∧
    offset_of_response (fun i => ([h0, h1] ++ offset_data x y z).getD i 0) = (x, y, z) ∧
    ∃ (r1 r2 : Mock Bno055 × World) (H1 H2 : List Txn),
      (∀ fuel, 12 ≤ fuel →
        BNO_Set_Offset (mock (bno_device no_fault)) fuel (some cfg) (sensor : Int)
          (some (x, y, z)) s = some (Status.SUCCESS, r1)) ∧
      r1.1.dev.history = s.1.dev.history ++ H1 ++
        [{ write := true, page := 0, mode := 0, reg := offset_base sensor,
           data := offset_data x y z, ok := true }] ++ H2 ∧
      (∀ t ∈ H1 ++ H2, t.reg = 0x07 ∨ t.reg = 0x3D) ∧
      (∀ i, i < 6 → r1.1.dev.bank 0 (offset_base sensor + i) = (offset_data x y z).getD i 0) ∧
      (∀ fuel, 7 ≤ fuel →
        BNO_Get_Offset (mock (bno_device no_fault)) fuel (some cfg) (sensor : Int) (some out)
          r1 = some (Status.SUCCESS, r2)) ∧
      load_offset (r2.2.mem out) = (x, y, z) := by
  have hpure : offset_of_response (fun i => ([h0, h1] ++ offset_data x y z).getD i 0)
      = (x, y, z) := by
    unfold offset_of_response offset_data
    simp only [List.cons_append, List.nil_append, List.getD_cons_succ, List.getD_cons_zero]
    rw [offset_value_bytes x hx0 hx1, offset_value_bytes y hy0 hy1, offset_value_bytes z hz0 hz1]
  refine ⟨rfl, hpure, ?_⟩
  obtain ⟨b1, _, b3, _⟩ := offset_base_facts sensor
  -- the call of BNO_Set_Offset
  obtain ⟨hpl2, hp2, hm2, hv⟩ := config_prefix_pure no_fault rfl rfl s.1.dev 0 (by omega)
    (by norm_num) (by omega)
  obtain ⟨r1, hrun1, hL1, hdev1⟩ := set_offset_link cfg inst hcfg sensor hs x y z s hL
    (by rw [hv]; exact hm)
  obtain ⟨H1, H2, hh, hq, hmd⟩ := bracket_any no_fault rfl rfl s.1.dev 0 (by omega)
    (by norm_num) (by omega)
    (fun d => bno_after_write no_fault d (offset_base sensor) (offset_data x y z))
    [{ write := true, page := 0, mode := 0, reg := offset_base sensor,
       data := offset_data x y z, ok := true }]
    (fun d2 e1 e2 => by
      obtain ⟨a1, a2, a3, _⟩ := offset_write_step d2 sensor (offset_data x y z) rfl e1 e2
      exact ⟨a1, a2, a3⟩)
  obtain ⟨w1, w2, _, w4⟩ := offset_write_step
    (dev_Set_Config_Mode no_fault (dev_Select_Page no_fault s.1.dev 0)) sensor
    (offset_data x y z) rfl hp2 hm2
  obtain ⟨hpl4, hp4, _⟩ := set_opr_mode_pure no_fault rfl rfl
    (bno_after_write no_fault (dev_Set_Config_Mode no_fault (dev_Select_Page no_fault s.1.dev 0))
      (offset_base sensor) (offset_data x y z))
    (val_Get_OPR_Mode no_fault (dev_Select_Page no_fault s.1.dev 0))
    (by rw [w1]; norm_num) (by rw [w2]; norm_num) (by rw [hv]; omega)
  have hbank1 : ∀ i, i < 6 →
      r1.1.dev.bank 0 (offset_base sensor + i) = (offset_data x y z).getD i 0 := by
    intro i hi
    rw [hdev1, hpl4.banks 0 _ (fun h => b3 i hi h.2)]
    exact w4 i hi
  have hpage1 : r1.1.dev.page = 0 := by
    rw [hdev1]
    exact hp4
  have hmode1 : bno_mode r1.1.dev = bno_mode s.1.dev := by
    rw [hdev1]
    exact hmd
  -- the call of BNO_Get_Offset on the device it leaves
  obtain ⟨hpl5, hp5, _, hv5⟩ := config_prefix_pure no_fault rfl rfl r1.1.dev 0
    (by rw [hpage1]; norm_num) (by norm_num) (by rw [hmode1]; omega)
  obtain ⟨r2, hrun2, _, data, hdata, hmem⟩ := get_offset_link cfg inst hcfg sensor hs out hout
    r1 hL1 (by rw [hv5, hmode1]; exact hm)
  have hbyte : ∀ i, i < 6 → data (2 + i) = (offset_data x y z).getD i 0 := by
    intro i hi
    rw [hdata i hi]
    unfold bno_reg
    rw [if_neg (by omega), hp5, hpl5.banks 0 _ (fun h => b3 i hi h.2), hbank1 i hi]
    exact Nat.mod_eq_of_lt (offset_data_lt x y z i)
  have hval : offset_of_response data = (x, y, z) := by
    rw [← hpure]
    unfold offset_of_response
    have e2 := hbyte 0 (by norm_num)
    have e3 := hbyte 1 (by norm_num)
    have e4 := hbyte 2 (by norm_num)
    have e5 := hbyte 3 (by norm_num)
    have e6 := hbyte 4 (by norm_num)
    have e7 := hbyte 5 (by norm_num)
    simp only [Nat.add_zero, Nat.reduceAdd] at e2 e3 e4 e5 e6 e7
    rw [e2, e3, e4, e5, e6, e7]
    rfl
  refine ⟨r1, r2, H1, H2, hrun1, ?_, hq, hbank1, hrun2, ?_⟩
  · rw [hdev1]
    exact hh
  · rw [hval] at hmem
    have m0 := hmem 0 (by norm_num)
    have m1 := hmem 1 (by norm_num)
    have m2 := hmem 2 (by norm_num)
    have m3 := hmem 3 (by norm_num)
    have m4 := hmem 4 (by norm_num)
    have m5 := hmem 5 (by norm_num)
    unfold load_offset
    simp only [Nat.zero_add, Nat.reduceAdd]
    rw [m0, m1, m2, m3, m4, m5]
    show ((if _ then _ else _ : Int), (if _ then _ else _ : Int), (if _ then _ else _ : Int)) = _
    simp only [store_offset, Function.update_same]
    simp only [List.getD_cons_zero, List.getD_cons_succ, Nat.reduceLT, if_true]
    rw [int16_bytes x hx0 hx1, int16_bytes y hy0 hy1, int16_bytes z hz0 hz1]

/-! ## No-motion delay: the code written and its decoding -/

/-- The bits of `mask` in the byte `BNO_Set_Setting` writes back are those of `val`. -/
theorem setting_byte_field (r mask val : Nat) :
    (setting_byte r mask val &&& mask) % 256 = (val &&& mask) % 256 := by
  have h256 : (256 : Nat) = 2 ^ 8 := by norm_num
  apply Nat.eq_of_testBit_eq
  intro i
  rw [h256, Nat.testBit_mod_two_pow, Nat.testBit_mod_two_pow, Nat.testBit_land,
    Nat.testBit_land, setting_byte_testBit]
  by_cases h8 : i < 8
  · cases r.testBit i <;> cases mask.testBit i <;> cases val.testBit i <;> simp [h8]
  · simp [h8]

set_option maxRecDepth 100000 in
/-- Decoding of the code of every accepted delay, by enumeration of the delays. -/
theorem nm_delay_decode_table :
    ∀ d, d < 337 → 1 ≤ d → (16 < d → d % 8 = 0) →
      nm_delay_of_field
          ((((nm_delay_code d <<< BNO_ACC_NM_SET_SM_NM_DUR_Pos) % 256)
            &&& BNO_ACC_NM_SET_SM_NM_DUR) % 256)
        = if d ≤ 15 ∨ 88 ≤ d then d else if d < 40 then d + 256 else d + 176 := by
  decide

theorem nm_delay_of_field_lt (x : Nat) : nm_delay_of_field x < 65536 := by
  unfold nm_delay_of_field
  dsimp only
  split_ifs <;> exact Nat.mod_lt _ (by norm_num)

/-- `BNO_Get_ACC_NM_Delay` on the mock transport with the simulated device, no-motion
detection being selected: SUCCESS, and the value stored for the caller is the decoding of
the bits [6:1] of ACC_NM_SET on page 1. -/
theorem get_acc_nm_delay_link (f : Nat → Bool) (hf7 : f 0x07 = false) (cfg : USART_Config_t)
    (inst : USART_Instance) (hcfg : cfg.instance_ptr = some inst) (out : Nat)
    (s : Mock Bno055 × World) (hL : Link s) (hd : s.1.dev.page < 256)
    (hnm : s.1.dev.bank 1 0x16 % 2 = 1) :
    ∃ r : Mock Bno055 × World,
      (∀ fuel, 7 ≤ fuel →
        BNO_Get_ACC_NM_Delay (mock (bno_device f)) fuel (some cfg) (some out) s
          = some (Status.SUCCESS, r)) ∧
      r.2.mem out 0 + 256 * r.2.mem out 1
        = nm_delay_of_field ((s.1.dev.bank 1 0x16 % 256 &&& BNO_ACC_NM_SET_SM_NM_DUR) % 256) := by
  obtain ⟨hp, hb, _⟩ := select_page_pure f hf7 s.1.dev 1 hd
  have hreg : bno_reg (dev_Select_Page f s.1.dev 1) 0x16 = s.1.dev.bank 1 0x16 % 256 := by
    unfold bno_reg
    rw [hp, hb]
    rfl
  obtain ⟨r1, hrun1, hL1, hdev1, hval1⟩ := get_det_type_link f hf7 cfg inst hcfg
    nm_get_det_type (zero_local nm_get_det_type s) (link_zero_local _ s hL)
  have hdev1' : r1.1.dev = bno_after_read (dev_Select_Page f s.1.dev 1) 0x16 1 := hdev1
  have hp1 : r1.1.dev.page = 1 := by rw [hdev1']; exact hp
  have hb1 : r1.1.dev.bank = s.1.dev.bank := by rw [hdev1']; exact hb
  have hdet : ¬ (r1.2.mem nm_get_det_type 0 ≠ BNO_SM_NM_NO_MOTION) := by
    rw [hval1]
    intro h
    apply h
    have e : bno_reg (dev_Select_Page f (zero_local nm_get_det_type s).1.dev 1) 0x16
        = s.1.dev.bank 1 0x16 % 256 := hreg
    rw [e]
    show s.1.dev.bank 1 0x16 % 256 % 2 = 1
    omega
  obtain ⟨r2, hrun2, hL2, hdev2, _⟩ := select_page_link f hf7 cfg inst hcfg 1 (by norm_num)
    r1 hL1
  obtain ⟨hp2, hb2, _⟩ := select_page_pure f hf7 r1.1.dev 1 (by rw [hp1]; norm_num)
  obtain ⟨r3, hrun3, _, _, hval3⟩ := get_setting_link f cfg inst hcfg BNO_ACC_NM_SET_REG
    BNO_ACC_NM_SET_SM_NM_DUR nm_raw_delay (zero_local nm_raw_delay r2)
    (link_zero_local _ r2 hL2)
  have hreg3 : bno_reg (zero_local nm_raw_delay r2).1.dev BNO_ACC_NM_SET_REG
      = s.1.dev.bank 1 0x16 % 256 := by
    show bno_reg r2.1.dev 0x16 = _
    rw [hdev2]
    unfold bno_reg
    rw [hp2, hb2, hb1]
    rfl
  rw [hreg3] at hval3
  refine ⟨store_u16 out (nm_delay_of_field (r3.2.mem nm_raw_delay 0)) r3, ?_, ?_⟩
  · intro fuel hf
    unfold BNO_Get_ACC_NM_Delay
    simp only [hrun1 fuel hf, CHECK_STATUS_success, if_neg hdet]
    have e2 : BNO_Select_Page (mock (bno_device f)) fuel (some cfg) BNO_PAGE_1 r1
        = some (Status.SUCCESS, r2) := hrun2 fuel hf
    rw [e2, CHECK_STATUS_success, hrun3 fuel hf, CHECK_STATUS_success]
  · have hlt := nm_delay_of_field_lt (r3.2.mem nm_raw_delay 0)
    rw [← hval3]
    show Function.update r3.2.mem out _ out 0 + 256 * Function.update r3.2.mem out _ out 1 = _
    rw [Function.update_same, Function.update_same,
      Function.update_noteq (by norm_num : (0 : Nat) ≠ 1), Function.update_same]
    omega

/-- C35: on the simulated device on which every transaction succeeds, with no-motion
detection selected, `BNO_Set_ACC_NM_Delay` called with an accepted `delay_s` returns
SUCCESS and writes to ACC_NM_SET the byte `BNO_Set_Setting` composes from the byte
`prior` it read, the mask of bits [6:1] and the duration code shifted by one.  On a
device whose ACC_NM_SET on page 1 holds that byte, `BNO_Get_ACC_NM_Delay` returns SUCCESS
and stores `delay_s` for the delays 1..15 and 88..336; for 16, 24 and 32 it stores
`delay_s + 256`, and for 40..80 it stores `delay_s + 176`. -/
theorem C35_nm_delay_decoding (cfg : USART_Config_t) (inst : USART_Instance)
    (hcfg : cfg.instance_ptr = some inst) (delay_s prior out : Nat)
    (h1 : 1 ≤ delay_s) (h336 : delay_s ≤ 336) (h8 : 16 < delay_s → delay_s % 8 = 0)
    (s t : Mock Bno055 × World) (hL : Link s) (hd : s.1.dev.page ≤ 1)
    (hm : bno_mode s.1.dev ≤ 12) (hnm : s.1.dev.bank 1 0x16 % 2 = BNO_SM_NM_NO_MOTION)
    (hprior : s.1.dev.bank 0 0x16 % 256 = prior) (hodd : prior % 2 = BNO_SM_NM_NO_MOTION)
    (hLt : Link t) (htd : t.1.dev.page ≤ 1)
    (ht : t.1.dev.bank 1 0x16 = setting_byte prior BNO_ACC_NM_SET_SM_NM_DUR
      ((nm_delay_code delay_s <<< BNO_ACC_NM_SET_SM_NM_DUR_Pos) % 256)) :
    (∃ (r : Mock Bno055 × World) (H1 H2 : List Txn),
      (∀ fuel, 7 ≤ fuel →
        BNO_Set_ACC_NM_Delay (mock (bno_device no_fault)) fuel (some cfg) delay_s s
          = some (Status.SUCCESS, r)) ∧
      r.1.dev.history = s.1.dev.history ++ H1 ++
        [{ write := true, page := 0, mode := 0, reg := 0x16,
           data := [setting_byte prior BNO_ACC_NM_SET_SM_NM_DUR
             ((nm_delay_code delay_s <<< BNO_ACC_NM_SET_SM_NM_DUR_Pos) % 256)],
           ok := true }] ++ H2) ∧
    ∃ r : Mock Bno055 × World,
      (∀ fuel, 7 ≤ fuel →
        BNO_Get_ACC_NM_Delay (mock (bno_device no_fault)) fuel (some cfg) (some out) t
          = some (Status.SUCCESS, r)) ∧
      r.2.mem out 0 + 256 * r.2.mem out 1
        = if delay_s ≤ 15 ∨ 88 ≤ delay_s then delay_s
          else if delay_s < 40 then delay_s + 256 else delay_s + 176 := by
  have hnm' : s.1.dev.bank 1 0x16 % 2 = 1 := hnm
  have hodd' : prior % 2 = 1 := hodd
  constructor
  · obtain ⟨hp, hb, hh⟩ := select_page_pure no_fault rfl s.1.dev 1 (by omega)
    have hreg : bno_reg (dev_Select_Page no_fault s.1.dev 1) 0x16 = s.1.dev.bank 1 0x16 % 256 := by
      unfold bno_reg
      rw [hp, hb]
      rfl
    have hmd : bno_mode (dev_Select_Page no_fault s.1.dev 1) = bno_mode s.1.dev := by
      unfold bno_mode
      rw [hb]
    have hgood : ¬ (delay_s < 1 ∨ 336 < delay_s ∨ (16 < delay_s ∧ delay_s % 8 ≠ 0)) := by
      intro h
      rcases h with h | h | h
      · omega
      · omega
      · exact h.2 (h8 h.1)
    obtain ⟨r, hrun, _, hdev⟩ := set_acc_nm_delay_link no_fault rfl rfl rfl cfg inst hcfg
      delay_s s hL (by omega) hm (by rw [hreg]; omega)
    obtain ⟨H1, H2, hhist, _⟩ := bracket_pure no_fault rfl rfl
      (bno_after_read (dev_Select_Page no_fault s.1.dev 1) 0x16 1) 1 0x16
      BNO_ACC_NM_SET_SM_NM_DUR ((nm_delay_code delay_s <<< BNO_ACC_NM_SET_SM_NM_DUR_Pos) % 256)
      (by show (dev_Select_Page no_fault s.1.dev 1).page < 256; rw [hp]; norm_num)
      (by norm_num)
      (by show bno_mode (dev_Select_Page no_fault s.1.dev 1) < 16; rw [hmd]; omega)
      (by norm_num) (by norm_num) rfl
    have hbank : (bno_after_read (dev_Select_Page no_fault s.1.dev 1) 0x16 1).bank 0 0x16 % 256
        = prior := by
      show (dev_Select_Page no_fault s.1.dev 1).bank 0 0x16 % 256 = prior
      rw [hb]
      exact hprior
    rw [hbank] at hhist
    have hh1 : (bno_after_read (dev_Select_Page no_fault s.1.dev 1) 0x16 1).history
        = s.1.dev.history ++ (select_txns s.1.dev 1 ++
          [{ write := false, page := 1, mode := bno_mode s.1.dev, reg := 0x16,
             data := [s.1.dev.bank 1 0x16 % 256], ok := true }]) := by
      have hrange : List.range 1 = [0] := rfl
      simp only [bno_after_read, hrange, List.map, Nat.add_zero, hreg, hmd, hp]
      have hh' : (dev_Select_Page no_fault s.1.dev 1).history
          = s.1.dev.history ++ select_txns s.1.dev 1 := hh
      rw [hh', List.append_assoc]
    refine ⟨r, (select_txns s.1.dev 1 ++
        [{ write := false, page := 1, mode := bno_mode s.1.dev, reg := 0x16,
           data := [s.1.dev.bank 1 0x16 % 256], ok := true }]) ++ H1 ++
        [{ write := false, page := 0, mode := 0, reg := 0x16, data := [prior], ok := true }],
      H2, fun fuel hf => ?_, ?_⟩
    · rw [hrun fuel hf, if_neg hgood]
    · rw [hdev hgood]
      have e := hhist
      rw [hh1] at e
      show (dev_Set_OPR_Mode no_fault
        (dev_Set_Setting no_fault
          (dev_Set_Config_Mode no_fault
            (dev_Select_Page no_fault (bno_after_read (dev_Select_Page no_fault s.1.dev 1) 0x16 1) 1))
          0x16 BNO_ACC_NM_SET_SM_NM_DUR
          ((nm_delay_code delay_s <<< BNO_ACC_NM_SET_SM_NM_DUR_Pos) % 256))
        (val_Get_OPR_Mode no_fault
          (dev_Select_Page no_fault (bno_after_read (dev_Select_Page no_fault s.1.dev 1) 0x16 1)
            1))).history = _
      rw [e]
      simp only [List.append_assoc, List.cons_append, List.nil_append]
  · have hbit : setting_byte prior BNO_ACC_NM_SET_SM_NM_DUR
        ((nm_delay_code delay_s <<< BNO_ACC_NM_SET_SM_NM_DUR_Pos) % 256) % 2 = 1 := by
      have e := setting_byte_testBit prior BNO_ACC_NM_SET_SM_NM_DUR
        ((nm_delay_code delay_s <<< BNO_ACC_NM_SET_SM_NM_DUR_Pos) % 256) 0
      have e0 : prior.testBit 0 = true := by
        rw [Nat.testBit_zero]
        simpa using hodd'
      have e1 : BNO_ACC_NM_SET_SM_NM_DUR.testBit 0 = false := by decide
      rw [e0, e1] at e
      simp only [Nat.testBit_zero] at e
      simpa using e
    obtain ⟨r, hrun, hval⟩ := get_acc_nm_delay_link no_fault rfl cfg inst hcfg out t hLt
      (by omega) (by rw [ht]; exact hbit)
    refine ⟨r, hrun, ?_⟩
    have hsb : setting_byte prior BNO_ACC_NM_SET_SM_NM_DUR
        ((nm_delay_code delay_s <<< BNO_ACC_NM_SET_SM_NM_DUR_Pos) % 256) % 256
        = setting_byte prior BNO_ACC_NM_SET_SM_NM_DUR
          ((nm_delay_code delay_s <<< BNO_ACC_NM_SET_SM_NM_DUR_Pos) % 256) := by
      unfold setting_byte
      exact Nat.mod_mod _ _
    rw [hval, ht, hsb, setting_byte_field]
    exact nm_delay_decode_table delay_s (by omega) h1 h8

/-! ## Interrupt enable bits -/

theorem int_bits_natCast (n : Nat) (h : n < 4294967296) : int_bits (n : Int) = n := by
  unfold int_bits
  omega

set_option maxRecDepth 100000 in
/-- The expressions of `BNO_Enable_IRQ` and `BNO_Disable_IRQ` on the byte `b` read from
INT_EN and the bit `n`, by enumeration: the test of `BNO_Enable_IRQ` holds exactly when
the bit is set, the test of `BNO_Disable_IRQ` never holds, and the bytes written are `b`
with the bit set, respectively cleared. -/
theorem irq_bits :
    ∀ n, n < 8 → ∀ b, b < 256 →
      ((b &&& (1 <<< n) % 4294967296 ≠ 0) ↔ b.testBit n = true) ∧
      ¬ (b ||| (0xFFFFFFFF ^^^ (1 <<< n) % 4294967296) = 0) ∧
      (b ||| (1 <<< n) % 4294967296) % 256 = (if b.testBit n = true then b else b + 2 ^ n) ∧
      (b &&& (0xFFFFFFFF ^^^ (1 <<< n) % 4294967296)) % 256
        = (if b.testBit n = true then b - 2 ^ n else b) := by
  decide

/-- `BNO_Enable_IRQ` on the mock transport with the simulated device, writes to INT_EN
being accepted: INT_EN is read on page 1, and written, with the bit set, only when the
bit read is clear. -/
theorem enable_irq_link (f : Nat → Bool) (hf7 : f 0x07 = false) (hf10 : f 0x10 = false)
    (cfg : USART_Config_t) (inst : USART_Instance) (hcfg : cfg.instance_ptr = some inst)
    (irq : Nat) (hi : irq ≤ 7) (s : Mock Bno055 × World) (hL : Link s) :
    ∃ r : Mock Bno055 × World,
      (∀ fuel, 7 ≤ fuel →
        BNO_Enable_IRQ (mock (bno_device f)) fuel (some cfg) (irq : Int) s
          = some (Status.SUCCESS, r)) ∧
      r.1.dev =
        if (bno_reg (dev_Select_Page f s.1.dev 1) 0x10).testBit irq = true then
          bno_after_read (dev_Select_Page f s.1.dev 1) 0x10 1
        else
          dev_write f (bno_after_read (dev_Select_Page f s.1.dev 1) 0x10 1) 0x10
            (bno_reg (dev_Select_Page f s.1.dev 1) 0x10 + 2 ^ irq) := by
  have hv : Validate_Enum (irq : Int) BNO_IRQ_ACC_BSX_DRDY BNO_IRQ_ACC_NM
      = Status.SUCCESS := by
    apply validate_enum_ok
    · unfold BNO_IRQ_ACC_BSX_DRDY
      positivity
    · unfold BNO_IRQ_ACC_NM
      exact_mod_cast hi
  obtain ⟨r1, hrun1, hL1, hdev1, _⟩ := select_page_link f hf7 cfg inst hcfg 1
    (by norm_num) s hL
  obtain ⟨r2, hrun2, hL2, hdev2, hval2, _⟩ := read_reg_link f cfg inst hcfg BNO_INT_EN_REG
    irq_reg_val_og (zero_local irq_reg_val_og r1) (link_zero_local _ r1 hL1)
  have hdev2' : r2.1.dev = bno_after_read (dev_Select_Page f s.1.dev 1) 0x10 1 := by
    rw [hdev2]
    show bno_after_read r1.1.dev 0x10 1 = _
    rw [hdev1]
  have hval2' : r2.2.mem irq_reg_val_og 2 = bno_reg (dev_Select_Page f s.1.dev 1) 0x10 := by
    rw [hval2]
    show bno_reg r1.1.dev 0x10 = _
    rw [hdev1]
  obtain ⟨c1, _, c3, _⟩ := irq_bits irq (by omega) (bno_reg (dev_Select_Page f s.1.dev 1) 0x10)
    (bno_reg_lt _ _)
  have hpre : ∀ fuel, 7 ≤ fuel →
      BNO_Enable_IRQ (mock (bno_device f)) fuel (some cfg) (irq : Int) s
        = if bno_reg (dev_Select_Page f s.1.dev 1) 0x10 &&& (1 <<< irq) % 4294967296 ≠ 0 then
            some (Status.SUCCESS, r2)
          else
            CHECK_STATUS (BNO_Write_Reg (mock (bno_device f)) fuel (some cfg) BNO_INT_EN_REG 1
              (some [(bno_reg (dev_Select_Page f s.1.dev 1) 0x10 ||| (1 <<< irq) % 4294967296)
                % 256]) r2) fun s3 =>
            some (Status.SUCCESS, s3) := by
    intro fuel hf
    unfold BNO_Enable_IRQ
    have h1 := hrun1 fuel hf
    have e : ((1 : Nat) : Int) = BNO_PAGE_1 := rfl
    rw [e] at h1
    simp only [hv, CHECK_STATUS_success, h1, hrun2 fuel hf, hval2',
      int_bits_natCast irq (by omega)]
  by_cases hb : (bno_reg (dev_Select_Page f s.1.dev 1) 0x10).testBit irq = true
  · refine ⟨r2, ?_, ?_⟩
    · intro fuel hf
      rw [hpre fuel hf, if_pos (c1.2 hb)]
    · rw [if_pos hb, hdev2']
  · obtain ⟨r3, hrun3, _, hdev3, _⟩ := write_reg_mid f cfg inst hcfg BNO_INT_EN_REG
      (bno_reg (dev_Select_Page f s.1.dev 1) 0x10 + 2 ^ irq) 1 hf10 (by decide) r2 hL2
    refine ⟨r3, ?_, ?_⟩
    · intro fuel hf
      rw [hpre fuel hf, if_neg (fun h => hb (c1.1 h)), c3, if_neg hb, hrun3 fuel hf,
        CHECK_STATUS_success]
    · rw [if_neg hb, hdev3, hdev2']
      rfl

/-- `BNO_Disable_IRQ` on the mock transport with the simulated device, writes to INT_EN
being accepted: INT_EN is read on page 1 and written with the bit cleared, whether the
bit read is set or clear. -/
theorem disable_irq_link (f : Nat → Bool) (hf7 : f 0x07 = false) (hf10 : f 0x10 = false)
    (cfg : USART_Config_t) (inst : USART_Instance) (hcfg : cfg.instance_ptr = some inst)
    (irq : Nat) (hi : irq ≤ 7) (s : Mock Bno055 × World) (hL : Link s) :
    ∃ r : Mock Bno055 × World,
      (∀ fuel, 7 ≤ fuel →
        BNO_Disable_IRQ (mock (bno_device f)) fuel (some cfg) (irq : Int) s
          = some (Status.SUCCESS, r)) ∧
      r.1.dev =
        dev_write f (bno_after_read (dev_Select_Page f s.1.dev 1) 0x10 1) 0x10
          (if (bno_reg (dev_Select_Page f s.1.dev 1) 0x10).testBit irq = true then
            bno_reg (dev_Select_Page f s.1.dev 1) 0x10 - 2 ^ irq
          else bno_reg (dev_Select_Page f s.1.dev 1) 0x10) := by
  have hv : Validate_Enum (irq : Int) BNO_IRQ_ACC_BSX_DRDY BNO_IRQ_ACC_NM
      = Status.SUCCESS := by
    apply validate_enum_ok
    · unfold BNO_IRQ_ACC_BSX_DRDY
      positivity
    · unfold BNO_IRQ_ACC_NM
      exact_mod_cast hi
  obtain ⟨r1, hrun1, hL1, hdev1, _⟩ := select_page_link f hf7 cfg inst hcfg 1
    (by norm_num) s hL
  obtain ⟨r2, hrun2, hL2, hdev2, hval2, _⟩ := read_reg_link f cfg inst hcfg BNO_INT_EN_REG
    irq_reg_val_og (zero_local irq_reg_val_og r1) (link_zero_local _ r1 hL1)
  have hdev2' : r2.1.dev = bno_after_read (dev_Select_Page f s.1.dev 1) 0x10 1 := by
    rw [hdev2]
    show bno_after_read r1.1.dev 0x10 1 = _
    rw [hdev1]
  have hval2' : r2.2.mem irq_reg_val_og 2 = bno_reg (dev_Select_Page f s.1.dev 1) 0x10 := by
    rw [hval2]
    show bno_reg r1.1.dev 0x10 = _
    rw [hdev1]
  obtain ⟨_, c2, _, c4⟩ := irq_bits irq (by omega) (bno_reg (dev_Select_Page f s.1.dev 1) 0x10)
    (bno_reg_lt _ _)
  obtain ⟨r3, hrun3, _, hdev3, _⟩ := write_reg_mid f cfg inst hcfg BNO_INT_EN_REG
    (if (bno_reg (dev_Select_Page f s.1.dev 1) 0x10).testBit irq = true then
      bno_reg (dev_Select_Page f s.1.dev 1) 0x10 - 2 ^ irq
    else bno_reg (dev_Select_Page f s.1.dev 1) 0x10) 1 hf10 (by decide) r2 hL2
  refine ⟨r3, ?_, ?_⟩
  · intro fuel hf
    unfold BNO_Disable_IRQ
    have h1 := hrun1 fuel hf
    have e : ((1 : Nat) : Int) = BNO_PAGE_1 := rfl
    rw [e] at h1
    simp only [hv, CHECK_STATUS_success, h1, hrun2 fuel hf, hval2',
      int_bits_natCast irq (by omega)]
    rw [if_neg c2, c4, hrun3 fuel hf, CHECK_STATUS_success]
  · rw [hdev3, hdev2']
    rfl

/-- C32: on the simulated device on which every transaction succeeds, for each of the
eight interrupts and each content `b` of INT_EN, `BNO_Enable_IRQ` returns SUCCESS after
the page selection and the read of INT_EN when the bit is already set, and otherwise
writes `b` with the bit set.  `BNO_Disable_IRQ` returns SUCCESS after the page selection,
the read of INT_EN and a write to INT_EN in either case: of `b` with the bit cleared
when the bit is set, and of `b` itself when the bit is already clear. -/
theorem C32_irq_enable_disable_writes (cfg : USART_Config_t) (inst : USART_Instance)
    (hcfg : cfg.instance_ptr = some inst) (irq b : Nat) (hi : irq ≤ 7)
    (s : Mock Bno055 × World) (hL : Link s) (hd : s.1.dev.page ≤ 1)
    (hb : s.1.dev.bank 1 0x10 % 256 = b) :
    (∃ r : Mock Bno055 × World,
      (∀ fuel, 7 ≤ fuel →
        BNO_Enable_IRQ (mock (bno_device no_fault)) fuel (some cfg) (irq : Int) s
          = some (Status.SUCCESS, r)) ∧
      r.1.dev.history = s.1.dev.history ++ select_txns s.1.dev 1 ++
        [{ write := false, page := 1, mode := bno_mode s.1.dev, reg := 0x10, data := [b],
           ok := true }] ++
        (if b.testBit irq = true then []
         else [{ write := true, page := 1, mode := bno_mode s.1.dev, reg := 0x10,
                 data := [b + 2 ^ irq], ok := true }])) ∧
    (∃ r : Mock Bno055 × World,
      (∀ fuel, 7 ≤ fuel →
        BNO_Disable_IRQ (mock (bno_device no_fault)) fuel (some cfg) (irq : Int) s
          = some (Status.SUCCESS, r)) ∧
      r.1.dev.history = s.1.dev.history ++ select_txns s.1.dev 1 ++
        [{ write := false, page := 1, mode := bno_mode s.1.dev, reg := 0x10, data := [b],
           ok := true },
         { write := true, page := 1, mode := bno_mode s.1.dev, reg := 0x10,
           data := [if b.testBit irq = true then b - 2 ^ irq else b], ok := true }]) := by
  obtain ⟨hp, hbk, hh⟩ := select_page_pure no_fault rfl s.1.dev 1 (by omega)
  have hmd : bno_mode (dev_Select_Page no_fault s.1.dev 1) = bno_mode s.1.dev := by
    unfold bno_mode
    rw [hbk]
  have hreg : bno_reg (dev_Select_Page no_fault s.1.dev 1) 0x10 = b := by
    unfold bno_reg
    rw [hp, hbk, ← hb]
    rfl
  have hh' : (dev_Select_Page no_fault s.1.dev 1).history
      = s.1.dev.history ++ select_txns s.1.dev 1 := hh
  have hrange : List.range 1 = [0] := rfl
  have hread : (bno_after_read (dev_Select_Page no_fault s.1.dev 1) 0x10 1).history
      = s.1.dev.history ++ select_txns s.1.dev 1 ++
        [{ write := false, page := 1, mode := bno_mode s.1.dev, reg := 0x10, data := [b],
           ok := true }] := by
    simp only [bno_after_read, hrange, List.map, Nat.add_zero, hreg, hmd, hp, hh']
  have hwrite : ∀ v : Nat,
      (dev_write no_fault (bno_after_read (dev_Select_Page no_fault s.1.dev 1) 0x10 1) 0x10
        v).history
      = s.1.dev.history ++ select_txns s.1.dev 1 ++
        [{ write := false, page := 1, mode := bno_mode s.1.dev, reg := 0x10, data := [b],
           ok := true },
         { write := true, page := 1, mode := bno_mode s.1.dev, reg := 0x10, data := [v],
           ok := true }] := by
    intro v
    rw [dev_write_ok no_fault _ 0x10 v rfl]
    show (bno_after_read (dev_Select_Page no_fault s.1.dev 1) 0x10 1).history ++
      [{ write := true, page := (dev_Select_Page no_fault s.1.dev 1).page,
         mode := bno_mode (dev_Select_Page no_fault s.1.dev 1), reg := 0x10, data := [v],
         ok := true }] = _
    rw [hread, hp, hmd]
    simp only [List.append_assoc, List.cons_append, List.nil_append]
  constructor
  · obtain ⟨r, hrun, hdev⟩ := enable_irq_link no_fault rfl rfl cfg inst hcfg irq hi s hL
    refine ⟨r, hrun, ?_⟩
    rw [hdev, hreg]
    by_cases hbit : b.testBit irq = true
    · rw [if_pos hbit, if_pos hbit, hread, List.append_nil]
    · rw [if_neg hbit, if_neg hbit, hwrite]
      simp only [List.append_assoc, List.cons_append, List.nil_append]
  · obtain ⟨r, hrun, hdev⟩ := disable_irq_link no_fault rfl rfl cfg inst hcfg irq hi s hL
    refine ⟨r, hrun, ?_⟩
    rw [hdev, hreg, hwrite]

/-! ## Gyroscope any-motion threshold -/

/-- `BNO_Get_Sensor_Setting` on the mock transport with the simulated device: page 1 is
selected, the sensor configuration register is read and its bits under `mask` are stored
for the caller. -/
theorem get_sensor_setting_link (f : Nat → Bool) (hf7 : f 0x07 = false)
    (cfg : USART_Config_t) (inst : USART_Instance) (hcfg : cfg.instance_ptr = some inst)
    (sensor : Nat) (hs : sensor ≤ 3) (mask out : Nat) (s : Mock Bno055 × World)
    (hL : Link s) :
    ∃ r : Mock Bno055 × World,
      (∀ fuel, 7 ≤ fuel →
        BNO_Get_Sensor_Setting (mock (bno_device f)) fuel (some cfg) (sensor : Int) mask
          (some out) s = some (Status.SUCCESS, r)) ∧
      Link r ∧ r.1.dev = bno_after_read (dev_Select_Page f s.1.dev 1) (0x08 + sensor) 1 ∧
      r.2.mem out 0 = (bno_reg (dev_Select_Page f s.1.dev 1) (0x08 + sensor) &&& mask) % 256 := by
  have hv : Validate_Enum (sensor : Int) BNO_ACC_CONFIG BNO_GYR_1_CONFIG
      = Status.SUCCESS := by
    apply validate_enum_ok
    · unfold BNO_ACC_CONFIG
      positivity
    · unfold BNO_GYR_1_CONFIG
      exact_mod_cast hs
  obtain ⟨r1, hrun1, hL1, hdev1, _⟩ := select_page_link f hf7 cfg inst hcfg 1
    (by norm_num) s hL
  obtain ⟨r2, hrun2, hL2, hdev2, hval2⟩ := get_setting_link f cfg inst hcfg (0x08 + sensor)
    mask out r1 hL1
  refine ⟨r2, ?_, hL2, ?_, ?_⟩
  · intro fuel hf
    unfold BNO_Get_Sensor_Setting
    have h1 := hrun1 fuel hf
    have e : ((1 : Nat) : Int) = BNO_PAGE_1 := rfl
    rw [e] at h1
    simp only [hv, CHECK_STATUS_success, h1, sensor_base_adr_eq sensor hs, hrun2 fuel hf]
  · rw [hdev2, hdev1]
  · rw [hval2, hdev1]

/-- Every entry of the table `max_thres_dps` of `BNO_Set_GYR_AM_Thres` is positive. -/
theorem max_thres_dps_pos (i : Nat) (h : i < 5) :
    (0 : ℚ) < ([125, 125 / 2, 125 / 4, 125 / 8, 125 / 16] : List ℚ).getD i 0 := by
  interval_cases i <;> norm_num

/-- C33 (defect): on the simulated device on which every transaction succeeds, the index
read from GYR_CONFIG_0 being within the tables, `BNO_Set_GYR_AM_Thres` returns
INVALID_PARAM for every threshold greater than 0, whether or not it exceeds the maximum of
the range, after the page selection and the read of GYR_CONFIG_0 and before any write;
it returns SUCCESS for every threshold that is 0 or negative.  The second test of the
validation is `thres_dps > 0.0f`. -/
theorem C33_gyr_am_thres_rejects_positive (cfg : USART_Config_t) (inst : USART_Instance)
    (hcfg : cfg.instance_ptr = some inst) (thres_dps : ℚ)
    (s : Mock Bno055 × World) (hL : Link s) (hd : s.1.dev.page ≤ 1)
    (hm : bno_mode s.1.dev ≤ 12)
    (hidx : (s.1.dev.bank 1 0x0A % 256 &&& BNO_GYR_CONFIG_0_REG) % 256 < 5) :
    ∃ r : Mock Bno055 × World,
      (∀ fuel, 7 ≤ fuel →
        BNO_Set_GYR_AM_Thres (mock (bno_device no_fault)) fuel (some cfg) thres_dps s
          = some (if 0 < thres_dps then Status.INVALID_PARAM else Status.SUCCESS, r)) ∧
      (0 < thres_dps →
        r.1.dev.history = s.1.dev.history ++ select_txns s.1.dev 1 ++
          [{ write := false, page := 1, mode := bno_mode s.1.dev, reg := 0x0A,
             data := [s.1.dev.bank 1 0x0A % 256], ok := true }]) := by
  obtain ⟨hp, hb, hh⟩ := select_page_pure no_fault rfl s.1.dev 1 (by omega)
  have hmd : bno_mode (dev_Select_Page no_fault s.1.dev 1) = bno_mode s.1.dev := by
    unfold bno_mode
    rw [hb]
  have hreg : bno_reg (dev_Select_Page no_fault s.1.dev 1) 0x0A = s.1.dev.bank 1 0x0A % 256 := by
    unfold bno_reg
    rw [hp, hb]
    rfl
  obtain ⟨r1, hrun1, hL1, hdev1, hval1⟩ := get_sensor_setting_link no_fault rfl cfg inst hcfg 2
    (by norm_num) BNO_GYR_CONFIG_0_REG thres_gyr_range (zero_local thres_gyr_range s)
    (link_zero_local _ s hL)
  have hdev1' : r1.1.dev = bno_after_read (dev_Select_Page no_fault s.1.dev 1) 0x0A 1 := hdev1
  have hval1' : r1.2.mem thres_gyr_range 0
      = (s.1.dev.bank 1 0x0A % 256 &&& BNO_GYR_CONFIG_0_REG) % 256 := by
    rw [hval1]
    show (bno_reg (dev_Select_Page no_fault s.1.dev 1) 0x0A &&& BNO_GYR_CONFIG_0_REG) % 256 = _
    rw [hreg]
  have hrun1' : ∀ fuel, 7 ≤ fuel →
      BNO_Get_GYR_Range (mock (bno_device no_fault)) fuel (some cfg) (some thres_gyr_range)
        (zero_local thres_gyr_range s) = some (Status.SUCCESS, r1) := by
    intro fuel hf
    unfold BNO_Get_GYR_Range
    have h1 := hrun1 fuel hf
    have e : ((2 : Nat) : Int) = BNO_GYR_0_CONFIG := rfl
    rw [e] at h1
    simp only [h1, CHECK_STATUS_success]
  have hmax := max_thres_dps_pos (r1.2.mem thres_gyr_range 0) (by rw [hval1']; exact hidx)
  by_cases hpos : 0 < thres_dps
  · refine ⟨r1, ?_, fun _ => ?_⟩
    · intro fuel hf
      unfold BNO_Set_GYR_AM_Thres
      simp only [hrun1' fuel hf, CHECK_STATUS_success]
      rw [if_pos (Or.inr hpos), if_pos hpos]
    · have hrange : List.range 1 = [0] := rfl
      rw [hdev1']
      simp only [bno_after_read, hrange, List.map, Nat.add_zero, hreg, hmd, hp]
      have hh' : (dev_Select_Page no_fault s.1.dev 1).history
          = s.1.dev.history ++ select_txns s.1.dev 1 := hh
      rw [hh']
  · have hp1 : r1.1.dev.page = 1 := by
      rw [hdev1']
      exact hp
    have hm1 : bno_mode r1.1.dev = bno_mode s.1.dev := by
      rw [hdev1']
      exact hmd
    obtain ⟨_, _, _, hv⟩ := config_prefix_pure no_fault rfl rfl r1.1.dev 1
      (by rw [hp1]; norm_num) (by norm_num) (by rw [hm1]; omega)
    obtain ⟨r, hrun, _, _⟩ := bracket_link no_fault rfl rfl cfg inst hcfg
      thres_current_opr_mode (by decide)
      (fun fuel s2 => BNO_Write_Reg (mock (bno_device no_fault)) fuel (some cfg)
        BNO_GYR_AM_THRES_REG 1
        (some [float_to_u8 (thres_dps /
          ([1, 1 / 2, 1 / 4, 1 / 8, 1 / 16] : List ℚ).getD (r1.2.mem thres_gyr_range 0) 1)]) s2)
      (fun d => dev_write no_fault d BNO_GYR_AM_THRES_REG
        (float_to_u8 (thres_dps /
          ([1, 1 / 2, 1 / 4, 1 / 8, 1 / 16] : List ℚ).getD (r1.2.mem thres_gyr_range 0) 1)))
      (fun s2 h2 => write_reg_mid no_fault cfg inst hcfg BNO_GYR_AM_THRES_REG _
        thres_current_opr_mode rfl (by decide) s2 h2)
      r1 hL1 (by rw [hv, hm1]; exact hm)
    refine ⟨r, ?_, fun h => absurd h hpos⟩
    intro fuel hf
    unfold BNO_Set_GYR_AM_Thres
    simp only [hrun1' fuel hf, CHECK_STATUS_success]
    have hno : ¬ (thres_dps >
        ([125, 125 / 2, 125 / 4, 125 / 8, 125 / 16] : List ℚ).getD (r1.2.mem thres_gyr_range 0) 0
        ∨ thres_dps > 0) := by
      intro h
      rcases h with h | h
      · exact hpos (lt_trans hmax h)
      · exact hpos h
    rw [if_neg hno, if_neg hpos]
    exact hrun fuel hf

/-! ## Axis remap -/

set_option maxRecDepth 100000 in
/-- The byte `BNO_Axis_Remap` writes back for the prior byte `r`, by enumeration: the
field of the target axis holds the new axis, the fields of the other axes and bits [7:6]
are those of `r`. -/
theorem axis_remap_bits :
    ∀ t, t < 3 → ∀ n, n < 3 → ∀ r, r < 256 →
      setting_byte r ((0x03 <<< (t * 2)) % 4294967296 % 256)
          ((n <<< (t * 2)) % 4294967296 % 256) / 4 ^ t % 4 = n ∧
      (∀ a, a < 3 → (a = t ∨
        setting_byte r ((0x03 <<< (t * 2)) % 4294967296 % 256)
          ((n <<< (t * 2)) % 4294967296 % 256) / 4 ^ a % 4 = r / 4 ^ a % 4)) ∧
      setting_byte r ((0x03 <<< (t * 2)) % 4294967296 % 256)
          ((n <<< (t * 2)) % 4294967296 % 256) / 64 = r / 64 := by
  decide

/-- `BNO_Axis_Remap` on the mock transport with the simulated device, writes to
AXIS_MAP_CONFIG being accepted: page 0 is selected; when the two axes are equal the call
ends there, otherwise the field is written inside the switch to CONFIG mode and back. -/
theorem axis_remap_link (f : Nat → Bool) (hf7 : f 0x07 = false) (hf3D : f 0x3D = false)
    (hf41 : f 0x41 = false) (cfg : USART_Config_t) (inst : USART_Instance)
    (hcfg : cfg.instance_ptr = some inst) (target new : Nat) (ht : target ≤ 2)
    (hn : new ≤ 2) (s : Mock Bno055 × World) (hL : Link s)
    (hmode : val_Get_OPR_Mode f (dev_Select_Page f s.1.dev 0) ≤ 12) :
    ∃ r : Mock Bno055 × World,
      (∀ fuel, 7 ≤ fuel →
        BNO_Axis_Remap (mock (bno_device f)) fuel (some cfg) (target : Int) (new : Int) s
          = some (Status.SUCCESS, r)) ∧
      r.1.dev =
        if target = new then dev_Select_Page f s.1.dev 0
        else
          dev_Set_OPR_Mode f
            (dev_Set_Setting f (dev_Set_Config_Mode f (dev_Select_Page f s.1.dev 0)) 0x41
              ((0x03 <<< (target * 2)) % 4294967296 % 256)
              ((new <<< (target * 2)) % 4294967296 % 256))
            (val_Get_OPR_Mode f (dev_Select_Page f s.1.dev 0)) := by
  have hv1 : Validate_Enum (target : Int) BNO_AXIS_X BNO_AXIS_Z = Status.SUCCESS := by
    apply validate_enum_ok
    · unfold BNO_AXIS_X
      positivity
    · unfold BNO_AXIS_Z
      exact_mod_cast ht
  have hv2 : Validate_Enum (new : Int) BNO_AXIS_X BNO_AXIS_Z = Status.SUCCESS := by
    apply validate_enum_ok
    · unfold BNO_AXIS_X
      positivity
    · unfold BNO_AXIS_Z
      exact_mod_cast hn
  obtain ⟨r1, hrun1, hL1, hdev1, _⟩ := select_page_link f hf7 cfg inst hcfg 0
    (by norm_num) s hL
  have hpre : ∀ fuel, 7 ≤ fuel →
      BNO_Axis_Remap (mock (bno_device f)) fuel (some cfg) (target : Int) (new : Int) s
        = if target = new then some (Status.SUCCESS, r1)
          else
            CHECK_STATUS
              (BNO_Set_Config_Mode (mock (bno_device f)) fuel (some cfg)
                (some remap_current_opr_mode) (zero_local remap_current_opr_mode r1)) fun s2 =>
            CHECK_STATUS
              (BNO_Set_Setting (mock (bno_device f)) fuel (some cfg) BNO_AXIS_MAP_CONFIG_REG
                ((0x03 <<< (target * 2)) % 4294967296 % 256)
                ((new <<< (target * 2)) % 4294967296 % 256) s2) fun s3 =>
            CHECK_STATUS
              (BNO_Set_OPR_Mode (mock (bno_device f)) fuel (some cfg)
                ((s3.2.mem remap_current_opr_mode 0 : Nat) : Int) s3) fun s4 =>
            some (Status.SUCCESS, s4) := by
    intro fuel hf
    unfold BNO_Axis_Remap
    have h1 := hrun1 fuel hf
    have e : ((0 : Nat) : Int) = BNO_PAGE_0 := rfl
    rw [e] at h1
    have ec : (target : Int) * 2 = ((target * 2 : Nat) : Int) := by push_cast; rfl
    simp only [hv1, hv2, CHECK_STATUS_success, h1, ec, int_bits_natCast (target * 2) (by omega),
      int_bits_natCast new (by omega), Nat.cast_inj]
  by_cases heq : target = new
  · refine ⟨r1, ?_, ?_⟩
    · intro fuel hf
      rw [hpre fuel hf, if_pos heq]
    · rw [if_pos heq, hdev1]
  · obtain ⟨r2, hrun2, hL2, hdev2, hval2, _⟩ := set_config_mode_link f hf7 hf3D cfg inst hcfg
      remap_current_opr_mode (by decide) (by decide) (by decide) (by decide) (by decide)
      (zero_local remap_current_opr_mode r1) (link_zero_local _ r1 hL1)
    have hdev2' : r2.1.dev = dev_Set_Config_Mode f (dev_Select_Page f s.1.dev 0) := by
      rw [hdev2]
      show dev_Set_Config_Mode f r1.1.dev = _
      rw [hdev1]
    have hval2' : r2.2.mem remap_current_opr_mode 0
        = val_Get_OPR_Mode f (dev_Select_Page f s.1.dev 0) := by
      rw [hval2]
      show val_Get_OPR_Mode f r1.1.dev = _
      rw [hdev1]
    obtain ⟨r3, hrun3, hL3, hdev3, hval3⟩ := set_setting_mid f cfg inst hcfg
      BNO_AXIS_MAP_CONFIG_REG ((0x03 <<< (target * 2)) % 4294967296 % 256)
      ((new <<< (target * 2)) % 4294967296 % 256) remap_current_opr_mode hf41 (by decide)
      (by decide) r2 hL2
    obtain ⟨r4, hrun4, _, hdev4, _⟩ := set_opr_mode_link f hf7 hf3D cfg inst hcfg
      (val_Get_OPR_Mode f (dev_Select_Page f s.1.dev 0)) hmode r3 hL3
    refine ⟨r4, ?_, ?_⟩
    · intro fuel hf
      rw [hpre fuel hf, if_neg heq, hrun2 fuel hf, CHECK_STATUS_success, hrun3 fuel hf,
        CHECK_STATUS_success]
      simp only [hval3, hval2']
      rw [hrun4 fuel hf, CHECK_STATUS_success]
    · rw [if_neg heq, hdev4, hdev3, hdev2']
      rfl

/-- `BNO_Axis_Remap` on the simulated device on which every transaction succeeds: the
content of AXIS_MAP_CONFIG after the call. -/
theorem axis_remap_run (cfg : USART_Config_t) (inst : USART_Instance)
    (hcfg : cfg.instance_ptr = some inst) (target new : Nat) (ht : target ≤ 2)
    (hn : new ≤ 2) (s : Mock Bno055 × World) (hL : Link s) (hd : s.1.dev.page ≤ 1)
    (hm : bno_mode s.1.dev ≤ 12) :
    ∃ r : Mock Bno055 × World,
      (∀ fuel, 7 ≤ fuel →
        BNO_Axis_Remap (mock (bno_device no_fault)) fuel (some cfg) (target : Int) (new : Int)
          s = some (Status.SUCCESS, r)) ∧
      (target ≠ new →
        r.1.dev.bank 0 0x41 = setting_byte (s.1.dev.bank 0 0x41 % 256)
          ((0x03 <<< (target * 2)) % 4294967296 % 256)
          ((new <<< (target * 2)) % 4294967296 % 256)) ∧
      (target = new →
        r.1.dev.bank = s.1.dev.bank ∧
        r.1.dev.history = s.1.dev.history ++ select_txns s.1.dev 0) := by
  obtain ⟨_, _, _, hv⟩ := config_prefix_pure no_fault rfl rfl s.1.dev 0 (by omega)
    (by norm_num) (by omega)
  obtain ⟨r, hrun, hdev⟩ := axis_remap_link no_fault rfl rfl rfl cfg inst hcfg target new ht hn
    s hL (by rw [hv]; exact hm)
  refine ⟨r, hrun, fun hne => ?_, fun heq => ?_⟩
  · obtain ⟨H1, H2, _, _, _, hbank, _⟩ := bracket_pure no_fault rfl rfl s.1.dev 0 0x41
      ((0x03 <<< (target * 2)) % 4294967296 % 256)
      ((new <<< (target * 2)) % 4294967296 % 256) (by omega) (by norm_num) (by omega)
      (by norm_num) (by norm_num) rfl
    rw [hdev, if_neg hne]
    exact hbank
  · obtain ⟨_, hb, hh⟩ := select_page_pure no_fault rfl s.1.dev 0 (by omega)
    rw [hdev, if_pos heq]
    exact ⟨hb, hh⟩

/-- C31 (failing input: `BNO_Axis_Remap(BNO_AXIS_X, BNO_AXIS_X)` with the X axis mapped
to Y, AXIS_MAP_CONFIG at 0x21): on the simulated device on which every transaction
succeeds, `BNO_Axis_Remap(target_axis, new_axis)` returns SUCCESS for every pair of axes
in X, Y, Z.  When the two axes are equal, the guard `target_axis == new_axis`, which
compares the two arguments and not the content of the register, ends the call after the
page selection: no register bank is changed and no transaction other than the page
selection is made, so the field of `target_axis` keeps its prior content, whatever it
is, and does not hold `new_axis` unless it already did.  When the two axes differ, the
2-bit field of `target_axis` in AXIS_MAP_CONFIG holds `new_axis` afterwards, and the
fields of the other two axes and bits [7:6] are those of the prior content. -/
theorem C31_axis_remap_field (cfg : USART_Config_t) (inst : USART_Instance)
    (hcfg : cfg.instance_ptr = some inst) (target new : Nat) (ht : target ≤ 2)
    (hn : new ≤ 2) (s : Mock Bno055 × World) (hL : Link s) (hd : s.1.dev.page ≤ 1)
    (hm : bno_mode s.1.dev ≤ 12) :
    ∃ r : Mock Bno055 × World,
      (∀ fuel, 7 ≤ fuel →
        BNO_Axis_Remap (mock (bno_device no_fault)) fuel (some cfg) (target : Int) (new : Int)
          s = some (Status.SUCCESS, r)) ∧
      (target ≠ new →
        r.1.dev.bank 0 0x41 / 4 ^ target % 4 = new ∧
        (∀ a, a ≤ 2 → a ≠ target →
          r.1.dev.bank 0 0x41 / 4 ^ a % 4 = s.1.dev.bank 0 0x41 % 256 / 4 ^ a % 4) ∧
        r.1.dev.bank 0 0x41 / 64 = s.1.dev.bank 0 0x41 % 256 / 64) ∧
      (target = new →
        r.1.dev.bank = s.1.dev.bank ∧
        r.1.dev.history = s.1.dev.history ++ select_txns s.1.dev 0) := by
  obtain ⟨r, hrun, hne, heq⟩ := axis_remap_run cfg inst hcfg target new ht hn s hL hd hm
  refine ⟨r, hrun, fun h => ?_, heq⟩
  obtain ⟨b1, b2, b3⟩ := axis_remap_bits target (by omega) new (by omega)
    (s.1.dev.bank 0 0x41 % 256) (Nat.mod_lt _ (by norm_num))
  rw [hne h]
  exact ⟨b1, fun a ha hat => (b2 a (by omega)).resolve_left hat, b3⟩

/-! ## The scripted device: a read with one retry -/

theorem scripted_respond_nil (sc : List (List Nat)) : scripted_device.respond sc [] = none :=
  rfl

theorem scripted_respond_read (sc : List (List Nat)) (resp : List Nat) (reg len : Nat) :
    scripted_device.respond (resp :: sc) [0xAA, 0x01, reg, len] = some (sc, resp) := by
  show scripted_respond (resp :: sc) [0xAA, 0x01, reg, len] = _
  unfold scripted_respond
  simp

theorem scripted_respond_read_prefix (sc : List (List Nat)) (reg len : Nat) (k : Nat)
    (hk : k < 4) : scripted_device.respond sc ([0xAA, 0x01, reg, len].take k) = none := by
  interval_cases k <;> rfl

theorem example_scripted_link : Link (example_scripted_mock, example_rest_world) := by
  refine ⟨example_rest_quiet, ⟨rfl, ?_, ?_⟩, rfl, rfl⟩
  · show example_rest_world.regs.SR.testBit 5 = false
    decide
  · show ∀ j, j < 4 → example_rest_world.regs.SR.testBit j = false
    decide

/-- A 4-byte read on the mock transport with the scripted device: the first attempt
leaves 0xEE in the first byte of the buffer, the retry leaves 0xBB there, and the call
returns SUCCESS with two command frames sent. -/
theorem scripted_read_retry :
    ∃ r : Mock (List (List Nat)) × World,
      (∀ fuel, 6 ≤ fuel →
        BNO_Read_Reg (mock scripted_device) fuel (some example_config) 3 4 (some 7)
          (example_scripted_mock, example_rest_world) = some (Status.SUCCESS, r)) ∧
      r.2.trace = [Ev.tx [0xAA, 0x01, 3, 4], Ev.rx 7 6, Ev.delay 10, Ev.checked [0xEE],
        Ev.delay 10, Ev.tx [0xAA, 0x01, 3, 4], Ev.rx 7 6, Ev.delay 15, Ev.checked [0xBB]] := by
  have hD0 := scripted_respond_nil
  obtain ⟨r1, hrun1, hL1, hdev1, hdata1, _, htr1⟩ := transfer_link scripted_device hD0
    example_config USART_Instance.USART2 rfl [0xAA, 0x01, 3, 4] 4 rfl (by norm_num)
    (by norm_num) 7 false 6 10 6 true (example_scripted_mock, example_rest_world)
    example_scripted_link [[0xBB, 4, 4, 5, 6, 7]] [0xEE, 0x07, 0, 0, 0, 0]
    (fun k hk => scripted_respond_read_prefix _ 3 4 k hk)
    (scripted_respond_read _ _ 3 4) rfl (by norm_num) (by norm_num) (by norm_num)
  have h10 : r1.2.mem 7 0 = 0xEE := hdata1 0 (by norm_num)
  generalize hs2 : ((r1.1, log (Ev.checked [r1.2.mem 7 0]) r1.2)
    : Mock (List (List Nat)) × World) = s2
  have hL2 : Link s2 := by
    rw [← hs2]
    exact link_log _ r1 hL1
  have hdev2 : s2.1.dev = [[0xBB, 4, 4, 5, 6, 7]] := by
    rw [← hs2]
    exact hdev1
  have htr2 : s2.2.trace = [Ev.tx [0xAA, 0x01, 3, 4], Ev.rx 7 6, Ev.delay 10,
      Ev.checked [0xEE]] := by
    rw [← hs2]
    show r1.2.trace ++ [Ev.checked [r1.2.mem 7 0]] = _
    rw [htr1, h10]
    rfl
  obtain ⟨a1, a2, _⟩ := delay_link scripted_device hD0 10 s2 hL2
  have a3 := delay_trace scripted_device 10 (by norm_num) s2
  obtain ⟨r3, hrun3, hL3, _, hdata3, _, htr3⟩ := transfer_link scripted_device hD0
    example_config USART_Instance.USART2 rfl [0xAA, 0x01, 3, 4] 4 rfl (by norm_num)
    (by norm_num) 7 false 6 15 6 true (Delay_Loop (mock scripted_device) 10 s2)
    a1 [] [0xBB, 4, 4, 5, 6, 7]
    (fun k hk => scripted_respond_read_prefix _ 3 4 k hk)
    (by rw [a2, hdev2]
        exact scripted_respond_read _ _ 3 4) rfl (by norm_num) (by norm_num) (by norm_num)
  have h30 : r3.2.mem 7 0 = 0xBB := hdata3 0 (by norm_num)
  refine ⟨(r3.1, log (Ev.checked [r3.2.mem 7 0]) r3.2), ?_, ?_⟩
  · intro fuel hf
    have hlen : (BNO_RESPONSE_HEADER_LENGTH + 4) % 65536 = 6 := rfl
    have h4 : (4 : Nat) % 256 = 4 := rfl
    unfold BNO_Read_Reg
    simp only [hlen, h4]
    rw [if_neg (by omega), hrun1 fuel (by omega), CHECK_STATUS_success]
    show (if r1.2.mem 7 0 = 0xEE then
        retry_loop (mock scripted_device)
          (BNO_Read_Reg_Retry (mock scripted_device) fuel (some example_config) 3 4 (some 7)) 2
          Status.SUCCESS (r1.1, log (Ev.checked [r1.2.mem 7 0]) r1.2)
      else _) = _
    rw [if_pos h10, hs2]
    unfold retry_loop
    have hretry : BNO_Read_Reg_Retry (mock scripted_device) fuel (some example_config) 3 4
        (some 7) (Delay_Loop (mock scripted_device) 10 s2)
        = some (Status.SUCCESS, (r3.1, log (Ev.checked [r3.2.mem 7 0]) r3.2)) := by
      unfold BNO_Read_Reg_Retry
      simp only [hlen, h4]
      rw [if_neg (by omega), hrun3 fuel (by omega), CHECK_STATUS_success]
      show (if r3.2.mem 7 0 = 0xEE then _ else _) = _
      rw [if_neg (by rw [h30]; norm_num)]
    rw [hretry]
    rfl
  · show r3.2.trace ++ [Ev.checked [r3.2.mem 7 0]] = _
    rw [htr3, a3, htr2, h30]
    rfl

/-! ## Witnesses -/

theorem scripted_respond_write (sc : List (List Nat)) (resp : List Nat) :
    scripted_device.respond (resp :: sc) (write_cmd 3 4 [9, 8, 7, 6]) = some (sc, resp) := by
  show scripted_respond (resp :: sc) [0xAA, 0x00, 3, 4, 9, 8, 7, 6] = _
  unfold scripted_respond
  simp

theorem scripted_respond_write_prefix (sc : List (List Nat)) (k : Nat) (hk : k < 8) :
    scripted_device.respond sc ((write_cmd 3 4 [9, 8, 7, 6]).take k) = none := by
  interval_cases k <;> rfl

/-- A 4-byte write on the mock transport with the scripted device: the first attempt
gets the error response `0xEE 0x03`, the retry gets `0xEE 0x01`, and the call returns
SUCCESS with two command frames sent. -/
theorem scripted_write_retry :
    ∃ r : Mock (List (List Nat)) × World,
      (∀ fuel, 10 ≤ fuel →
        BNO_Write_Reg (mock scripted_device) fuel (some example_config) 3 4
          (some [9, 8, 7, 6]) (example_scripted_write_mock, example_rest_world)
          = some (Status.SUCCESS, r)) ∧
      r.2.trace = [Ev.tx [0xAA, 0x00, 3, 4, 9, 8, 7, 6], Ev.rx write_response 2, Ev.delay 10,
        Ev.checked [0xEE, 0x03], Ev.delay 10, Ev.tx [0xAA, 0x00, 3, 4, 9, 8, 7, 6],
        Ev.rx write_response 2, Ev.delay 15, Ev.checked [0xEE, 0x01]] := by
  have hD0 := scripted_respond_nil
  have hL0 : Link (example_scripted_write_mock, example_rest_world) := by
    refine ⟨example_rest_quiet, ⟨rfl, ?_, ?_⟩, rfl, rfl⟩
    · show example_rest_world.regs.SR.testBit 5 = false
      decide
    · show ∀ j, j < 4 → example_rest_world.regs.SR.testBit j = false
      decide
  obtain ⟨r1, hrun1, hL1, hdev1, hdata1, _, htr1⟩ := transfer_link scripted_device hD0
    example_config USART_Instance.USART2 rfl (write_cmd 3 4 [9, 8, 7, 6]) 8 rfl (by norm_num)
    (by norm_num) write_response true 2 10 2 true
    (example_scripted_write_mock, example_rest_world) hL0 [[0xEE, 0x01]] [0xEE, 0x03]
    (fun k hk => scripted_respond_write_prefix _ k hk)
    (scripted_respond_write _ _) rfl (by norm_num) (by norm_num) (by norm_num)
  have h10 : r1.2.mem write_response 0 = 0xEE := hdata1 0 (by norm_num)
  have h11 : r1.2.mem write_response 1 = 0x03 := hdata1 1 (by norm_num)
  generalize hs2 : ((r1.1,
    log (Ev.checked [r1.2.mem write_response 0, r1.2.mem write_response 1]) r1.2)
    : Mock (List (List Nat)) × World) = s2
  have hL2 : Link s2 := by
    rw [← hs2]
    exact link_log _ r1 hL1
  have hdev2 : s2.1.dev = [[0xEE, 0x01]] := by
    rw [← hs2]
    exact hdev1
  have htr2 : s2.2.trace = [Ev.tx [0xAA, 0x00, 3, 4, 9, 8, 7, 6], Ev.rx write_response 2,
      Ev.delay 10, Ev.checked [0xEE, 0x03]] := by
    rw [← hs2]
    show r1.2.trace ++ [Ev.checked [r1.2.mem write_response 0, r1.2.mem write_response 1]] = _
    rw [htr1, h10, h11]
    rfl
  obtain ⟨a1, a2, _⟩ := delay_link scripted_device hD0 10 s2 hL2
  have a3 := delay_trace scripted_device 10 (by norm_num) s2
  obtain ⟨r3, hrun3, _, _, hdata3, _, htr3⟩ := transfer_link scripted_device hD0
    example_config USART_Instance.USART2 rfl (write_cmd 3 4 [9, 8, 7, 6]) 8 rfl (by norm_num)
    (by norm_num) write_response true 2 15 2 false (Delay_Loop (mock scripted_device) 10 s2)
    a1 [] [0xEE, 0x01]
    (fun k hk => scripted_respond_write_prefix _ k hk)
    (by rw [a2, hdev2]
        exact scripted_respond_write _ _) rfl (by norm_num) (by norm_num) (by norm_num)
  have h30 : r3.2.mem write_response 0 = 0xEE := hdata3 0 (by norm_num)
  have h31 : r3.2.mem write_response 1 = 0x01 := hdata3 1 (by norm_num)
  refine ⟨(r3.1,
    log (Ev.checked [r3.2.mem write_response 0, r3.2.mem write_response 1]) r3.2), ?_, ?_⟩
  · intro fuel hf
    unfold BNO_Write_Reg
    dsimp only
    rw [if_neg (by omega)]
    show CHECK_STATUS (BNO_transfer (mock scripted_device) fuel (some example_config)
      (write_cmd 3 4 [9, 8, 7, 6]) 8 write_response true 2 10 2 true
      (example_scripted_write_mock, example_rest_world)) _ = _
    rw [hrun1 fuel hf, CHECK_STATUS_success]
    show (if r1.2.mem write_response 0 = 0xEE ∧ r1.2.mem write_response 1 ≠ 0x01 then
        retry_loop (mock scripted_device)
          (BNO_Write_Reg_Retry (mock scripted_device) fuel (some example_config) 3 4
            (some [9, 8, 7, 6])) 2 Status.SUCCESS
          (r1.1, log (Ev.checked [r1.2.mem write_response 0, r1.2.mem write_response 1]) r1.2)
      else _) = _
    rw [if_pos ⟨h10, by rw [h11]; norm_num⟩, hs2]
    unfold retry_loop
    have hretry : BNO_Write_Reg_Retry (mock scripted_device) fuel (some example_config) 3 4
        (some [9, 8, 7, 6]) (Delay_Loop (mock scripted_device) 10 s2)
        = some (Status.SUCCESS, (r3.1,
            log (Ev.checked [r3.2.mem write_response 0, r3.2.mem write_response 1]) r3.2)) := by
      unfold BNO_Write_Reg_Retry
      dsimp only
      rw [if_neg (by omega)]
      show CHECK_STATUS (BNO_transfer (mock scripted_device) fuel (some example_config)
        (write_cmd 3 4 [9, 8, 7, 6]) 8 write_response true 2 15 2 false
        (Delay_Loop (mock scripted_device) 10 s2)) _ = _
      rw [hrun3 fuel hf, CHECK_STATUS_success]
      show (if r3.2.mem write_response 0 = 0xEE ∧ r3.2.mem write_response 1 ≠ 0x01 then _
        else _) = _
      rw [if_neg (by rw [h31]; simp)]
    rw [hretry]
    rfl
  · show r3.2.trace ++ [Ev.checked [r3.2.mem write_response 0, r3.2.mem write_response 1]] = _
    rw [htr3, a3, htr2, h30, h31]
    rfl

/-- Roundings met when the timeout of the example configuration (115200 baud, 9 bits per
frame) is computed in binary32. -/
theorem f32_recip_115200 : f32 (1 / 115200) = 9544372 / 1099511627776 :=
  f32_cert _ _ (-17) 9544372 (by norm_num) (by norm_num) (by norm_num) (by norm_num)
    (by norm_num)

theorem f32_115200 : f32 115200 = 115200 :=
  f32_cert _ _ 16 14745600 (by norm_num) (by norm_num) (by norm_num) (by norm_num)
    (by norm_num)

theorem f32_1000 : f32 1000 = 1000 :=
  f32_cert _ _ 9 16384000 (by norm_num) (by norm_num) (by norm_num) (by norm_num)
    (by norm_num)

theorem f32_8 : f32 8 = 8 :=
  f32_cert _ _ 3 8388608 (by norm_num) (by norm_num) (by norm_num) (by norm_num)
    (by norm_num)

theorem f32_9 : f32 9 = 9 :=
  f32_cert _ _ 3 9437184 (by norm_num) (by norm_num) (by norm_num) (by norm_num)
    (by norm_num)

theorem f32_period : f32 (9544372 / 1099511627776 * 1000) = 2330169 / 268435456 :=
  f32_cert _ _ (-7) 9320676 (by norm_num) (by norm_num) (by norm_num) (by norm_num)
    (by norm_num)

theorem f32_frame : f32 (2330169 / 268435456 * 9) = 5 / 64 :=
  f32_cert_tie _ _ (-4) 10485760 (by norm_num) (by norm_num) (by norm_num) (by norm_num)
    (by norm_num)


/-- The timeout test of a wait that starts at tick 10 with the timeout of a 3-byte
reception at 115200 baud, 75/64 ms: it holds from tick 12 on. -/
theorem example_elapsed_low :
    timeout_elapsed 10 (some (75 / 64)) 11 = false ∧
    timeout_elapsed 10 (some (75 / 64)) 12 = true := by
  have a : f32 ((10 : Nat) : ℚ) = 10 := by
    have := f32_fix 10 3 10485760 (by norm_num) (by norm_num) (by norm_num)
    simpa using this
  have b : f32 (10 + 75 / 64) = 715 / 64 :=
    f32_cert _ _ 3 11714560 (by norm_num) (by norm_num) (by norm_num) (by norm_num)
      (by norm_num)
  have c : f32 ((11 : Nat) : ℚ) = 11 := by
    have := f32_fix 11 3 11534336 (by norm_num) (by norm_num) (by norm_num)
    simpa using this
  have d : f32 ((12 : Nat) : ℚ) = 12 := by
    have := f32_fix 12 3 12582912 (by norm_num) (by norm_num) (by norm_num)
    simpa using this
  refine ⟨?_, ?_⟩
  · rw [Bool.eq_false_iff, Ne, timeout_elapsed_iff, a, b, c]
    norm_num
  · rw [timeout_elapsed_iff, a, b, d]
    norm_num

/-- The same wait started at tick `2 ^ 31 + 10`: the start tick and the sum are both
rounded to `2 ^ 31`, and the test holds from tick `2 ^ 31 + 129` on, the first tick whose
conversion is above `2 ^ 31`. -/
theorem example_elapsed_late :
    timeout_elapsed 2147483658 (some (75 / 64)) 2147483776 = false ∧
    timeout_elapsed 2147483658 (some (75 / 64)) 2147483777 = true := by
  have a : f32 ((2147483658 : Nat) : ℚ) = 2147483648 := by
    have := f32_cert 2147483658 2147483648 31 8388608 (by norm_num) (by norm_num)
      (by norm_num) (by norm_num) (by norm_num)
    simpa using this
  have b : f32 (2147483648 + 75 / 64) = 2147483648 :=
    f32_cert _ _ 31 8388608 (by norm_num) (by norm_num) (by norm_num) (by norm_num)
      (by norm_num)
  have c : f32 ((2147483776 : Nat) : ℚ) = 2147483648 := by
    have := f32_cert_tie 2147483776 2147483648 31 8388608 (by norm_num) (by norm_num)
      (by norm_num) (by norm_num) (by norm_num)
    simpa using this
  have d : f32 ((2147483777 : Nat) : ℚ) = 2147483904 := by
    have := f32_cert 2147483777 2147483904 31 8388609 (by norm_num) (by norm_num)
      (by norm_num) (by norm_num) (by norm_num)
    simpa using this
  refine ⟨?_, ?_⟩
  · rw [Bool.eq_false_iff, Ne, timeout_elapsed_iff, a, b, c]
    norm_num
  · rw [timeout_elapsed_iff, a, b, d]
    norm_num

theorem example_timeout_f32 (L : Nat) :
    (USART_Calc_Timeout_f32 (some example_config) (some (some 0)) 5 L).2
      = some (f32 (f32 (5 / 64 * f32 (L : ℚ)) * 5)) := by
  have e1 : (8 : ℚ) + 0 = 8 := by norm_num
  have e2 : (8 : ℚ) + 1 = 9 := by norm_num
  simp only [USART_Calc_Timeout_f32, example_config, USART_STOP_0_5, USART_STOP_1, SEC_TO_MSEC,
    Nat.cast_zero, Nat.cast_ofNat, f32_zero, e1, f32_8, e2, f32_9, f32_115200, f32_1000,
    f32_recip_115200, f32_period, f32_frame]
  have e3 : ((0 : Nat) = 1) = False := by simp
  have e4 : ((115200 : ℚ) = 0) = False := by norm_num
  simp only [e3, e4, if_false, if_true, e2, f32_9, f32_frame]

theorem example_timeout_read :
    (USART_Calc_Timeout_f32 (some example_config) (some (some 0)) 5 ((2 + 4) % 65536)).2
      = some (75 / 32) := by
  rw [example_timeout_f32]
  have a : f32 (((2 + 4) % 65536 : Nat) : ℚ) = 6 :=
    f32_cert _ _ 2 12582912 (by norm_num) (by norm_num) (by norm_num) (by norm_num)
      (by norm_num)
  have b : f32 (5 / 64 * 6) = 15 / 32 :=
    f32_cert _ _ (-2) 15728640 (by norm_num) (by norm_num) (by norm_num) (by norm_num)
      (by norm_num)
  have c : f32 (15 / 32 * 5) = 75 / 32 :=
    f32_cert _ _ 1 9830400 (by norm_num) (by norm_num) (by norm_num) (by norm_num)
      (by norm_num)
  rw [a, b, c]

theorem example_timeout_write :
    (USART_Calc_Timeout_f32 (some example_config) (some (some 0)) 5 2).2 = some (25 / 32) := by
  rw [example_timeout_f32]
  have a : f32 ((2 : Nat) : ℚ) = 2 :=
    f32_cert _ _ 1 8388608 (by norm_num) (by norm_num) (by norm_num) (by norm_num)
      (by norm_num)
  have b : f32 (5 / 64 * 2) = 5 / 32 :=
    f32_cert _ _ (-3) 10485760 (by norm_num) (by norm_num) (by norm_num) (by norm_num)
      (by norm_num)
  have c : f32 (5 / 32 * 5) = 25 / 32 :=
    f32_cert _ _ (-1) 13107200 (by norm_num) (by norm_num) (by norm_num) (by norm_num)
      (by norm_num)
  rw [a, b, c]

theorem example_timeout_258 :
    (USART_Calc_Timeout_f32 (some example_config) (some (some 0)) 5 258).2
      = some (3225 / 32) := by
  rw [example_timeout_f32]
  have a : f32 ((258 : Nat) : ℚ) = 258 :=
    f32_cert _ _ 8 8454144 (by norm_num) (by norm_num) (by norm_num) (by norm_num)
      (by norm_num)
  have b : f32 (5 / 64 * 258) = 645 / 32 :=
    f32_cert _ _ 4 10567680 (by norm_num) (by norm_num) (by norm_num) (by norm_num)
      (by norm_num)
  have c : f32 (645 / 32 * 5) = 3225 / 32 :=
    f32_cert _ _ 6 13209600 (by norm_num) (by norm_num) (by norm_num) (by norm_num)
      (by norm_num)
  rw [a, b, c]

theorem example_timeout_3 :
    (USART_Calc_Timeout_f32 (some example_config) (some (some 0)) 5 3).2 = some (75 / 64) := by
  rw [example_timeout_f32]
  have a : f32 ((3 : Nat) : ℚ) = 3 :=
    f32_cert _ _ 1 12582912 (by norm_num) (by norm_num) (by norm_num) (by norm_num)
      (by norm_num)
  have b : f32 (5 / 64 * 3) = 15 / 64 :=
    f32_cert _ _ (-3) 15728640 (by norm_num) (by norm_num) (by norm_num) (by norm_num)
      (by norm_num)
  have c : f32 (15 / 64 * 5) = 75 / 64 :=
    f32_cert _ _ 0 9830400 (by norm_num) (by norm_num) (by norm_num) (by norm_num)
      (by norm_num)
  rw [a, b, c]

theorem C4_witness :
    USART_Transmit_IRQ (some example_config) (some [0xAA, 0x01, 3, 4]) 4 example_busy_world
      = (Status.ERROR, { example_busy_world with
          st := { example_busy_world.st with tx_instance := some USART_Instance.USART2 } }) ∧
    USART_Receive_IRQ (some example_config) (some 9) 6 example_busy_world
      = (Status.ERROR, { example_busy_world with
          st := { example_busy_world.st with rx_instance := some USART_Instance.USART2 } }) :=
  ⟨(C4_busy_request_rejected example_busy_world example_config USART_Instance.USART2
      [0xAA, 0x01, 3, 4] 4 9 6 rfl).1 rfl (by decide) (by decide),
   (C4_busy_request_rejected example_busy_world example_config USART_Instance.USART2
      [0xAA, 0x01, 3, 4] 4 9 6 rfl).2 rfl (by decide)⟩

theorem C5_witness :
    (USART_Transmit_IRQ (some example_config) (some [0xAA, 0x01, 3, 4]) 4 example_world).1
      = Status.SUCCESS ∧
    (USART_Transmit_IRQ (some example_config) (some [0xAA, 0x01, 3, 4]) 4
      example_world).2.st.tx_length = 4 ∧
    (USART_Transmit_IRQ (some example_config) (some [0xAA, 0x01, 3, 4]) 4
      example_world).2.st.tx_status = USART_TX_Status.USART_TX_BUSY :=
  ⟨(C5_transmit_begins example_world example_config USART_Instance.USART2 [0xAA, 0x01, 3, 4] 4
      rfl rfl rfl (by decide) (by decide)).1,
   (C5_transmit_begins example_world example_config USART_Instance.USART2 [0xAA, 0x01, 3, 4] 4
      rfl rfl rfl (by decide) (by decide)).2.2.1,
   (C5_transmit_begins example_world example_config USART_Instance.USART2 [0xAA, 0x01, 3, 4] 4
      rfl rfl rfl (by decide) (by decide)).2.2.2.2.1⟩

theorem C6_witness :
    (irqs (USART_Transmit_IRQ (some example_config) (some [0xAA, 0x01, 3, 4]) 4
      example_world).2 [(0x80, 0), (0x80, 0)]).regs.TDR
        = example_world.regs.TDR ++ [0xAA, 0x01, 3, 4].take 2 ∧
    (irqs (USART_Transmit_IRQ (some example_config) (some [0xAA, 0x01, 3, 4]) 4
      example_world).2 [(0x80, 0), (0x80, 0)]).st.tx_index = 2 ∧
    (irqs (USART_Transmit_IRQ (some example_config) (some [0xAA, 0x01, 3, 4]) 4
      example_world).2 [(0x80, 0), (0x80, 0)]).st.tx_status = USART_TX_Status.USART_TX_BUSY :=
  (C6_transmit_drain example_world example_config USART_Instance.USART2 [0xAA, 0x01, 3, 4] 4
    rfl rfl rfl (by decide) (by decide)).1 [(0x80, 0), (0x80, 0)] (by decide)
    (by decide)

theorem C7_witness :
    (∀ i (hi : i < [(0x20, 0xBB), (0x20, 4)].length),
      (irqs (USART_Receive_IRQ (some example_config) (some 7) 6 example_world).2
        [(0x20, 0xBB), (0x20, 4)]).mem 7 i = ([(0x20, 0xBB), (0x20, 4)].get ⟨i, hi⟩).2 % 256) ∧
    (irqs (USART_Receive_IRQ (some example_config) (some 7) 6 example_world).2
      [(0x20, 0xBB), (0x20, 4)]).st.rx_index = [(0x20, 0xBB), (0x20, 4)].length :=
  ⟨(C7_receive_fill example_world example_config USART_Instance.USART2 7 6 rfl rfl
      (by decide) (by decide) [(0x20, 0xBB), (0x20, 4)] (by decide) (by decide)).1,
   (C7_receive_fill example_world example_config USART_Instance.USART2 7 6 rfl rfl
      (by decide) (by decide) [(0x20, 0xBB), (0x20, 4)] (by decide) (by decide)).2.1⟩

theorem C8_witness :
    reg_test (irq example_busy_world (0x28, 0x55)).regs.CR1 USART_CR1_RXNEIE = false ∧
    (irq example_busy_world (0x28, 0x55)).st.rx_status = USART_RX_Status.USART_RX_IDLE ∧
    (irq example_busy_world (0x28, 0x55)).mem = example_busy_world.mem ∧
    (irq example_busy_world (0x28, 0x55)).st.rx_index = example_busy_world.st.rx_index ∧
    (irq example_busy_world (0x28, 0x55)).st.rx_buffer = example_busy_world.st.rx_buffer ∧
    (irq example_busy_world (0x28, 0x55)).st.rx_length = example_busy_world.st.rx_length :=
  C8_receive_error_discards example_busy_world 0x28 0x55 rfl (by decide) (Or.inl (by decide))

theorem C9_witness :
    (USART_Receive_IRQ (some example_config) (some 7) 6 example_world).1 = Status.SUCCESS ∧
    (USART_Receive_IRQ (some example_config) (some 7) 6 example_world).2.st.rx_buffer = some 7 ∧
    (USART_Receive_IRQ (some example_config) (some 7) 6 example_world).2.st.rx_length = 6 ∧
    (USART_Receive_IRQ (some example_config) (some 7) 6 example_world).2.st.rx_index = 0 ∧
    (USART_Receive_IRQ (some example_config) (some 7) 6 example_world).2.st.rx_status
      = USART_RX_Status.USART_RX_BUSY ∧
    reg_test (USART_Receive_IRQ (some example_config) (some 7) 6 example_world).2.regs.CR1
      USART_CR1_RXNEIE = true :=
  (C9_receive_begins example_world example_config USART_Instance.USART2 7 6 rfl).2.2.2 rfl
    (by decide)

theorem C10_witness :
    (USART_Abort_Receive_IRQ (some example_config) example_busy_world).1 = Status.SUCCESS ∧
    (USART_Abort_Receive_IRQ (some example_config) example_busy_world).2.st.rx_status
      = USART_RX_Status.USART_RX_IDLE ∧
    (USART_Abort_Receive_IRQ (some example_config) example_busy_world).2.st.tx_status
      = example_busy_world.st.tx_status :=
  ⟨(C10_abort_receive example_busy_world example_config USART_Instance.USART2 rfl).1,
   (C10_abort_receive example_busy_world example_config USART_Instance.USART2 rfl).2.2.1,
   (C10_abort_receive example_busy_world example_config USART_Instance.USART2
      rfl).2.2.2.2.2.2.2.2.2.2.1⟩

theorem C11_witness :
    TX_BUFFER_SIZE = 512 ∧
    USART_Transmit_IRQ (some example_config) (some [0xAA, 0x01, 3, 4]) 513 example_busy_world
      = (Status.INVALID_PARAM, example_busy_world) :=
  C11_transmit_invalid_param (some example_config) (some [0xAA, 0x01, 3, 4]) 513
    example_busy_world (Or.inr (Or.inr (Or.inr (by decide))))

theorem C17_witness :
    ∃ (r : Mock Bno055 × World) (H1 H2 : List Txn),
      (∀ fuel, 7 ≤ fuel →
        BNO_Set_Sensor_Setting (mock (bno_device no_fault)) fuel (some example_config)
          BNO_ACC_CONFIG 0x03 0x01 (example_bno_mock 1 12, example_rest_world)
          = some (Status.SUCCESS, r)) ∧
      r.1.dev.history = H1 ++
        [{ write := false, page := 0, mode := 0, reg := 0x08, data := [0], ok := true },
         { write := true, page := 0, mode := 0, reg := 0x08, data := [1], ok := true }]
        ++ H2 ∧
      (∀ x ∈ H1 ++ H2, x.reg = 0x07 ∨ x.reg = 0x3D) ∧
      r.1.dev.bank 1 0x08 = 0 ∧ r.1.dev.bank 0 0x08 = 1 := by
  obtain ⟨r, H1, H2, h1, h2, h3, h4, h5⟩ := C17_sensor_write_lands_on_page_0 example_config
    USART_Instance.USART2 rfl 0 0x03 0x01 (by decide) (example_bno_mock 1 12, example_rest_world)
    (example_bno_link 1 12) (by decide) (by decide)
  exact ⟨r, H1, H2, h1, by simpa using h2, h3, h4, h5⟩

theorem C18_witness :
    ∃ (r : Mock Bno055 × World) (H1 H2 : List Txn),
      (∀ fuel, 7 ≤ fuel →
        BNO_Set_PWR_Mode (mock (bno_device no_fault)) fuel (some example_config)
          BNO_PWR_SUSPEND_MODE (example_bno_mock 1 12, example_rest_world)
          = some (Status.SUCCESS, r)) ∧
      r.1.dev.history = H1 ++
        [{ write := false, page := 0, mode := 0, reg := 0x3E, data := [0], ok := true },
         { write := true, page := 0, mode := 0, reg := 0x3E, data := [2], ok := true }]
        ++ H2 ∧
      (∀ x ∈ H1 ++ H2, x.reg = 0x07 ∨ x.reg = 0x3D) ∧
      bno_mode r.1.dev = 12 := by
  obtain ⟨r, H1, H2, h1, h2, h3, h4, _⟩ := C18_set_pwr_mode_brackets_config example_config
    USART_Instance.USART2 rfl 2 12 (by decide) (by decide)
    (example_bno_mock 1 12, example_rest_world) (example_bno_link 1 12) (by decide) rfl
  exact ⟨r, H1, H2, h1, by simpa using h2, h3, h4⟩

theorem C19_witness :
    ∃ (r : Mock Bno055 × World) (H1 : List Txn),
      (∀ fuel, 7 ≤ fuel →
        BNO_Set_PWR_Mode (mock (bno_device pwr_fault)) fuel (some example_config)
          BNO_PWR_SUSPEND_MODE (example_bno_mock 0 12, example_rest_world)
          = some (Status.ERROR, r)) ∧
      r.1.dev.history = H1 ++
        [{ write := false, page := 0, mode := 0, reg := 0x3E, data := [0], ok := true },
         { write := true, page := 0, mode := 0, reg := 0x3E, data := [2], ok := false },
         { write := true, page := 0, mode := 0, reg := 0x3E, data := [2], ok := false },
         { write := true, page := 0, mode := 0, reg := 0x3E, data := [2], ok := false }] ∧
      bno_mode r.1.dev = 0 := by
  obtain ⟨r, H1, h1, h2, _, h4, _⟩ := C19_failed_write_leaves_config_mode example_config
    USART_Instance.USART2 rfl 2 (by decide) (example_bno_mock 0 12, example_rest_world)
    (example_bno_link 0 12) (by decide) (by decide) (by decide)
  exact ⟨r, H1, h1, by simpa using h2, h4⟩

theorem C20_witness :
    ∃ r1 r2 : Mock Bno055 × World,
      (∀ fuel, 7 ≤ fuel →
        BNO_Select_Page (mock (bno_device no_fault)) fuel (some example_config) BNO_PAGE_1
          (example_bno_mock 0 12, example_rest_world) = some (Status.SUCCESS, r1)) ∧
      (∀ fuel, 7 ≤ fuel →
        BNO_Select_Page (mock (bno_device no_fault)) fuel (some example_config) BNO_PAGE_1
          r1 = some (Status.SUCCESS, r2)) ∧
      r2.1.dev.history =
        [{ write := false, page := 0, mode := 12, reg := 0x07, data := [0], ok := true },
         { write := true, page := 0, mode := 12, reg := 0x07, data := [1], ok := true },
         { write := false, page := 1, mode := 12, reg := 0x07, data := [1], ok := true }] ∧
      r2.1.dev.page = 1 := by
  obtain ⟨r1, r2, h1, h2, h3, h4, _, _, h7⟩ := C20_select_page_writes_when_page_differs
    example_config USART_Instance.USART2 rfl 1 (by decide)
    (example_bno_mock 0 12, example_rest_world) (example_bno_link 0 12) (by decide)
  refine ⟨r1, r2, h1, h2, ?_, h7⟩
  rw [h4, h3]
  rfl

theorem C23_witness :
    BNO_Read_Reg (mock sim_device) 0 (some example_config) 0x3D 0 (some 7)
      (example_mock, example_world) = some (Status.INVALID_PARAM, (example_mock, example_world)) :=
  C23_read_reg_invalid_param (mock sim_device) 0 (some example_config) 0x3D 0 (some 7)
    (example_mock, example_world) (Or.inr rfl)

theorem C24_witness :
    BNO_OPR_CONFIG_MODE = 0 ∧ BNO_OPR_NDOF_MODE = 12 ∧
    BNO_Set_OPR_Mode (mock sim_device) 0 (some example_config) 13
      (example_mock, example_world) = some (Status.INVALID_PARAM, (example_mock, example_world)) ∧
    BNO_Select_Page (mock sim_device) 0 (some example_config) 2
      (example_mock, example_world) = some (Status.INVALID_PARAM, (example_mock, example_world)) :=
  C24_enum_out_of_range_rejected (mock sim_device) 0 (some example_config) 13 2
    (example_mock, example_world) (Or.inr (by decide)) ⟨by decide, by decide⟩

theorem C28_witness :
    (∃ r : Mock Bno055 × World,
      (∀ fuel, 7 ≤ fuel →
        BNO_Set_Setting (mock (bno_device pwr_fault)) fuel (some example_config) 0x3E 0x03 2
          (example_bno_mock 0 0, example_rest_world) = some (Status.ERROR, r)) ∧
      r.1.dev.history =
        [{ write := false, page := 0, mode := 0, reg := 0x3E, data := [0], ok := true },
         { write := true, page := 0, mode := 0, reg := 0x3E, data := [2], ok := false },
         { write := true, page := 0, mode := 0, reg := 0x3E, data := [2], ok := false },
         { write := true, page := 0, mode := 0, reg := 0x3E, data := [2], ok := false }]) ∧
    BNO_Set_Setting (mock (bno_device pwr_fault)) 7 none 0x3E 0x03 2
      (example_bno_mock 0 0, example_rest_world)
      = some (Status.INVALID_PARAM,
          zero_local reg_val_og (example_bno_mock 0 0, example_rest_world)) := by
  obtain ⟨⟨r, h1, h2⟩, _, h3⟩ := C28_set_setting_read_modify_write pwr_fault example_config
    USART_Instance.USART2 rfl 0x3E 0x03 2 (example_bno_mock 0 0, example_rest_world)
    (example_bno_link 0 0)
  refine ⟨⟨r, h1, ?_⟩, ?_⟩
  · rw [h2]
    rfl
  · exact (h3 _ (mock (bno_device pwr_fault)) 7 none
      (example_bno_mock 0 0, example_rest_world) _ Status.INVALID_PARAM rfl).1 (by decide)

theorem C21_witness :
    ∃ (r : Mock Bno055 × World) (T : List Ev),
      (∀ fuel, 7 ≤ fuel →
        BNO_Set_OPR_Mode (mock (bno_device no_fault)) fuel (some example_config)
          BNO_OPR_CONFIG_MODE (example_bno_mock 0 12, example_rest_world)
          = some (Status.SUCCESS, r)) ∧
      r.2.trace = T ++ [Ev.delay 19] ∧
      (∀ ms, Ev.delay ms ∈ T → ms = 2 ∨ ms = 10 ∨ ms = 15) ∧
      bno_mode r.1.dev = 0 := by
  obtain ⟨r, T, h1, h2, h3, _, h5⟩ := C21_set_opr_mode_settle_delay example_config
    USART_Instance.USART2 rfl 0 12 (by decide) (by decide)
    (example_bno_mock 0 12, example_rest_world) (example_bno_link 0 12) (by decide) rfl
  refine ⟨r, T, h1, ?_, h3, h5⟩
  rw [h2]
  rfl

theorem C22_witness :
    ∃ r : Mock Bno055 × World,
      (∀ fuel, 7 ≤ fuel →
        BNO_Set_Config_Mode (mock (bno_device no_fault)) fuel (some example_config)
          (some pwr_current_opr_mode) (example_bno_mock 0 12, example_rest_world)
          = some (Status.SUCCESS, r)) ∧
      r.2.mem pwr_current_opr_mode 0 = 12 ∧ bno_mode r.1.dev = 0 ∧
      r.1.dev.history =
        [{ write := false, page := 0, mode := 12, reg := 0x07, data := [0], ok := true },
         { write := false, page := 0, mode := 12, reg := 0x3D, data := [12], ok := true },
         { write := false, page := 0, mode := 12, reg := 0x07, data := [0], ok := true },
         { write := false, page := 0, mode := 12, reg := 0x07, data := [0], ok := true },
         { write := false, page := 0, mode := 12, reg := 0x3D, data := [12], ok := true },
         { write := false, page := 0, mode := 12, reg := 0x3D, data := [12], ok := true },
         { write := true, page := 0, mode := 12, reg := 0x3D, data := [0], ok := true }] := by
  obtain ⟨r, h1, h2, h3, h4, _⟩ := C22_set_config_mode example_config USART_Instance.USART2
    rfl pwr_current_opr_mode 12 (by decide) (by decide)
    (example_bno_mock 0 12, example_rest_world) (example_bno_link 0 12) (by decide) rfl
  refine ⟨r, h1, h2, h3, ?_⟩
  rw [h4]
  rfl

theorem C27_witness :
    BNO_Set_ACC_AM_Axis_State (mock (bno_device no_fault)) 7 (some example_config) BNO_AXIS_Z
      BNO_IRQ_AXIS_ENABLED (example_bno_mock 1 12, example_rest_world)
      = some (Status.INVALID_PARAM, (example_bno_mock 1 12, example_rest_world)) :=
  (C27_axis_z_rejected example_config USART_Instance.USART2 rfl 1 (by decide)
    (example_bno_mock 1 12, example_rest_world) (example_bno_link 1 12) (by decide)
    (by decide)).2.1 7

theorem C29_witness :
    ∃ (r : Mock Bno055 × World) (H1 H2 : List Txn),
      (∀ fuel, 7 ≤ fuel →
        BNO_Set_ACC_BW (mock (bno_device no_fault)) fuel (some example_config) 1
          (example_bno_with_mock 1 12 0x08 0x00, example_rest_world)
          = some (Status.SUCCESS, r)) ∧
      r.1.dev.history = H1 ++
        [{ write := false, page := 0, mode := 0, reg := 0x08, data := [0x00], ok := true },
         { write := true, page := 0, mode := 0, reg := 0x08, data := [0x01], ok := true }]
        ++ H2 ∧
      (∀ x ∈ H1 ++ H2, x.reg = 0x07 ∨ x.reg = 0x3D) ∧
      acc_bw_of_byte 0x01 = 0 ∧ 0x01 % 4 = 1 := by
  obtain ⟨r, H1, H2, h1, h2, h3, _⟩ := C29_acc_bw_written_unshifted example_config
    USART_Instance.USART2 rfl 1 (by decide)
    (example_bno_with_mock 1 12 0x08 0x00, example_rest_world)
    (example_bno_with_link 1 12 0x08 0x00) (by decide) (by decide)
  exact ⟨r, H1, H2, h1, by simpa using h2, h3, by decide, by decide⟩

theorem C30_witness :
    ∃ (r : Mock Bno055 × World) (H1 H2 : List Txn),
      (∀ fuel, 7 ≤ fuel →
        BNO_Set_GYR_Range (mock (bno_device no_fault)) fuel (some example_config) 0
          (example_bno_with_mock 1 12 0x0A 0x0C, example_rest_world)
          = some (Status.SUCCESS, r)) ∧
      r.1.dev.history = H1 ++
        [{ write := false, page := 0, mode := 0, reg := 0x0A, data := [0x0C], ok := true },
         { write := true, page := 0, mode := 0, reg := 0x0A, data := [0x04], ok := true }]
        ++ H2 ∧
      (∀ x ∈ H1 ++ H2, x.reg = 0x07 ∨ x.reg = 0x3D) := by
  obtain ⟨_, _, r, H1, H2, h1, h2, h3, _⟩ := C30_gyr_range_mask_is_register_address
    example_config USART_Instance.USART2 rfl 0 (by decide)
    (example_bno_with_mock 1 12 0x0A 0x0C, example_rest_world)
    (example_bno_with_link 1 12 0x0A 0x0C) (by decide) (by decide)
  refine ⟨r, H1, H2, h1, ?_, h3⟩
  rw [h2]
  rfl

theorem C25_witness :
    (∃ r : Mock Bno055 × World, ∀ fuel, 7 ≤ fuel →
      BNO_Set_ACC_NM_Delay (mock (bno_device no_fault)) fuel (some example_config) 24
        (example_bno_with_mock 1 12 0x16 0x01, example_rest_world)
        = some (Status.SUCCESS, r)) ∧
    (∃ r : Mock Bno055 × World, ∀ fuel, 7 ≤ fuel →
      BNO_Set_ACC_NM_Delay (mock (bno_device no_fault)) fuel (some example_config) 17
        (example_bno_with_mock 1 12 0x16 0x01, example_rest_world)
        = some (Status.INVALID_PARAM, r)) := by
  obtain ⟨r, h1, _⟩ := C25_nm_delay_validation example_config USART_Instance.USART2 rfl 24
    (example_bno_with_mock 1 12 0x16 0x01, example_rest_world)
    (example_bno_with_link 1 12 0x16 0x01) (by decide) (by decide) (by decide)
  obtain ⟨r2, h2, _⟩ := C25_nm_delay_validation example_config USART_Instance.USART2 rfl 17
    (example_bno_with_mock 1 12 0x16 0x01, example_rest_world)
    (example_bno_with_link 1 12 0x16 0x01) (by decide) (by decide) (by decide)
  exact ⟨⟨r, h1⟩, ⟨r2, h2⟩⟩

theorem C26_witness :
    ∃ (r q : Mock Bno055 × World) (H1 H2 : List Txn),
      (∀ fuel, 7 ≤ fuel →
        BNO_Set_ACC_HG_Dur (mock (bno_device no_fault)) fuel (some example_config) 512
          (example_bno_mock 1 12, example_rest_world) = some (Status.SUCCESS, r)) ∧
      r.1.dev.history = H1 ++
        [{ write := true, page := 0, mode := 0, reg := 0x13, data := [255], ok := true }]
        ++ H2 ∧
      hg_dur_of_code 255 = 512 ∧
      (∀ fuel, 7 ≤ fuel →
        BNO_Get_ACC_HG_Dur (mock (bno_device no_fault)) fuel (some example_config) (some 40)
          (example_bno_with_mock 0 12 0x13 255, example_rest_world)
          = some (Status.SUCCESS, q)) ∧
      q.2.mem 40 0 + 256 * q.2.mem 40 1 = 512 := by
  obtain ⟨r, H1, H2, h1, h2, _, _, h5, h6⟩ := (C26_hg_dur_range_and_code example_config
    USART_Instance.USART2 rfl 512 (example_bno_mock 1 12, example_rest_world)
    (example_bno_link 1 12) (by decide) (by decide)).2 ⟨by decide, by decide⟩
  obtain ⟨q, g1, _, g3⟩ := h6 (by decide) 40
    (example_bno_with_mock 0 12 0x13 255, example_rest_world)
    (example_bno_with_link 0 12 0x13 255) (by decide) (by decide)
  exact ⟨r, q, H1, H2, h1, by simpa using h2, h5 (by decide), g1, g3⟩

theorem C36_witness :
    (irq (USART_Transmit_IRQ (some example_config) (some [0xAA, 0x01]) 2 example_world).2
      (0x80, 0)).st.tx_index ≤ 2 ∧
    (irq (USART_Transmit_IRQ (some example_config) (some [0xAA, 0x01]) 2 example_world).2
      (0x80, 0)).st.tx_length ≤ 512 :=
  ⟨(C36_port_indices_bounded _
      (Reach.handler _ (0x80, 0)
        (Reach.transmit example_world (some example_config) (some [0xAA, 0x01]) 2
          (Reach.start example_world rfl)))).2.1,
   (C36_port_indices_bounded _
      (Reach.handler _ (0x80, 0)
        (Reach.transmit example_world (some example_config) (some [0xAA, 0x01]) 2
          (Reach.start example_world rfl)))).2.2.1⟩

theorem C34_witness :
    offset_data (-2) 300 (-32768) = [254, 255, 44, 1, 0, 128] ∧
    ∃ (r1 r2 : Mock Bno055 × World),
      (∀ fuel, 12 ≤ fuel →
        BNO_Set_Offset (mock (bno_device no_fault)) fuel (some example_config) BNO_ACC
          (some (-2, 300, -32768)) (example_bno_mock 1 12, example_rest_world)
          = some (Status.SUCCESS, r1)) ∧
      (∀ i, i < 6 → r1.1.dev.bank 0 (0x55 + i) = [254, 255, 44, 1, 0, 128].getD i 0) ∧
      (∀ fuel, 7 ≤ fuel →
        BNO_Get_Offset (mock (bno_device no_fault)) fuel (some example_config) BNO_ACC
          (some 40) r1 = some (Status.SUCCESS, r2)) ∧
      load_offset (r2.2.mem 40) = (-2, 300, -32768) := by
  refine ⟨by decide, ?_⟩
  obtain ⟨_, _, r1, r2, _, _, g1, _, _, g4, g5, g6⟩ := C34_offset_bytes_round_trip
    example_config USART_Instance.USART2 rfl 0 (by decide) (-2) 300 (-32768) 0xBB 6 40
    (by decide) (by decide) (by decide) (by decide) (by decide) (by decide) (by decide)
    (example_bno_mock 1 12, example_rest_world) (example_bno_link 1 12) (by decide)
    (by decide)
  exact ⟨r1, r2, g1, g4, g5, g6⟩

theorem C35_witness :
    (1 ≤ 40 ∧ 40 ≤ 336 ∧ 40 % 8 = 0) ∧
    ∃ r : Mock Bno055 × World,
      (∀ fuel, 7 ≤ fuel →
        BNO_Get_ACC_NM_Delay (mock (bno_device no_fault)) fuel (some example_config) (some 30)
          (example_bno_with_mock 1 12 0x16
            (setting_byte 0x01 BNO_ACC_NM_SET_SM_NM_DUR
              ((nm_delay_code 40 <<< BNO_ACC_NM_SET_SM_NM_DUR_Pos) % 256)), example_rest_world)
          = some (Status.SUCCESS, r)) ∧
      r.2.mem 30 0 + 256 * r.2.mem 30 1 = 216 := by
  obtain ⟨_, r, h1, h2⟩ := C35_nm_delay_decoding example_config USART_Instance.USART2 rfl 40 0x01
    30 (by decide) (by decide) (fun _ => by decide)
    (example_bno_with_mock 1 12 0x16 0x01, example_rest_world)
    (example_bno_with_mock 1 12 0x16
      (setting_byte 0x01 BNO_ACC_NM_SET_SM_NM_DUR
        ((nm_delay_code 40 <<< BNO_ACC_NM_SET_SM_NM_DUR_Pos) % 256)), example_rest_world)
    (example_bno_with_link 1 12 0x16 0x01) (by decide) (by decide) (by decide) (by decide)
    (by decide) (example_bno_with_link 1 12 0x16 _) (by decide) (by decide)
  exact ⟨⟨by decide, by decide, by decide⟩, r, h1, by simpa using h2⟩

theorem C32_witness :
    ∃ r : Mock Bno055 × World,
      (∀ fuel, 7 ≤ fuel →
        BNO_Disable_IRQ (mock (bno_device no_fault)) fuel (some example_config) 6
          (example_bno_with_mock 1 12 0x10 0x01, example_rest_world)
          = some (Status.SUCCESS, r)) ∧
      r.1.dev.history =
        [{ write := false, page := 1, mode := 12, reg := 0x07, data := [1], ok := true },
         { write := false, page := 1, mode := 12, reg := 0x10, data := [0x01], ok := true },
         { write := true, page := 1, mode := 12, reg := 0x10, data := [0x01], ok := true }] := by
  obtain ⟨r, h1, h2⟩ := (C32_irq_enable_disable_writes example_config USART_Instance.USART2 rfl
    6 0x01 (by decide) (example_bno_with_mock 1 12 0x10 0x01, example_rest_world)
    (example_bno_with_link 1 12 0x10 0x01) (by decide) (by decide)).2
  exact ⟨r, h1, by rw [h2]; decide⟩

theorem C33_witness :
    (0 : ℚ) < 1 ∧ (1 : ℚ) ≤ 125 ∧
    ∃ r : Mock Bno055 × World,
      ∀ fuel, 7 ≤ fuel →
        BNO_Set_GYR_AM_Thres (mock (bno_device no_fault)) fuel (some example_config) 1
          (example_bno_with_mock 1 12 0x0A 0x00, example_rest_world)
          = some (Status.INVALID_PARAM, r) := by
  obtain ⟨r, h1, _⟩ := C33_gyr_am_thres_rejects_positive example_config USART_Instance.USART2
    rfl 1 (example_bno_with_mock 1 12 0x0A 0x00, example_rest_world)
    (example_bno_with_link 1 12 0x0A 0x00) (by decide) (by decide) (by decide)
  refine ⟨by norm_num, by norm_num, r, fun fuel hf => ?_⟩
  rw [h1 fuel hf, if_pos (by norm_num)]

theorem C31_witness :
    ∃ r : Mock Bno055 × World,
      (∀ fuel, 7 ≤ fuel →
        BNO_Axis_Remap (mock (bno_device no_fault)) fuel (some example_config) BNO_AXIS_X
          BNO_AXIS_X (example_bno_with_mock 0 12 0x41 0x21, example_rest_world)
          = some (Status.SUCCESS, r)) ∧
      r.1.dev.bank 0 0x41 = 0x21 ∧
      r.1.dev.bank 0 0x41 / 4 ^ 0 % 4 = 1 ∧
      ((r.1.dev.bank 0 0x41 / 4 ^ 0 % 4 : Nat) : Int) ≠ BNO_AXIS_X := by
  obtain ⟨r, h1, _, h3⟩ := C31_axis_remap_field example_config USART_Instance.USART2 rfl 0 0
    (by decide) (by decide) (example_bno_with_mock 0 12 0x41 0x21, example_rest_world)
    (example_bno_with_link 0 12 0x41 0x21) (by decide) (by decide)
  have hb : r.1.dev.bank 0 0x41 = 0x21 := by
    rw [(h3 rfl).1]
    decide
  have e : r.1.dev.bank 0 0x41 / 4 ^ 0 % 4 = 1 := by
    rw [hb]
    decide
  refine ⟨r, h1, hb, e, ?_⟩
  rw [e]
  decide

theorem C1_witness :
    ∃ (F : Nat) (r : Mock (List (List Nat)) × World) (evs : List Ev),
      (∀ fuel, F ≤ fuel →
        BNO_Read_Reg (mock scripted_device) fuel (some example_config) 3 4 (some 7)
          (example_scripted_mock, example_rest_world) = some (Status.SUCCESS, r)) ∧
      r.2.trace = example_rest_world.trace ++ evs ∧
      first_bytes evs = [0xEE, 0xBB] ∧
      tx_frames evs = [[0xAA, 0x01, 3, 4], [0xAA, 0x01, 3, 4]] := by
  obtain ⟨F, st, r, evs, hrun, htr, _⟩ := C1_read_retry_policy scripted_device example_config
    USART_Instance.USART2 rfl 3 4 7 (example_scripted_mock, example_rest_world) rfl rfl
    (by decide) (by decide) (75 / 32) example_timeout_read
    (by norm_num [example_rest_world, example_world])
  obtain ⟨r1, hrun1, htr1⟩ := scripted_read_retry
  have e := (hrun (max F 6) (le_max_left _ _)).symm.trans (hrun1 (max F 6) (le_max_right _ _))
  simp only [Option.some.injEq, Prod.mk.injEq] at e
  obtain ⟨e1, e2⟩ := e
  subst e1 e2
  have hevs : evs = r.2.trace := by
    rw [htr]
    rfl
  refine ⟨F, r, evs, hrun, htr, ?_, ?_⟩
  · rw [hevs, htr1]
    rfl
  · rw [hevs, htr1]
    rfl

theorem C2_witness :
    (∃ (F : Nat) (r : Mock Bno055 × World) (evs : List Ev),
      (∀ fuel, F ≤ fuel →
        BNO_Write_Reg (mock (bno_device pwr_fault)) fuel (some example_config) 0x3E 1
          (some [2]) (example_bno_mock 0 0, example_rest_world) = some (Status.ERROR, r)) ∧
      r.2.trace = example_rest_world.trace ++ evs ∧
      ∃ p1 p2 p3, is_write_error p1 ∧ is_write_error p2 ∧ is_write_error p3 ∧
        response_pairs evs = [p1, p2, p3] ∧
        tx_frames evs = [[0xAA, 0x00, 0x3E, 1, 2], [0xAA, 0x00, 0x3E, 1, 2],
          [0xAA, 0x00, 0x3E, 1, 2]]) ∧
    ∃ (F : Nat) (r : Mock (List (List Nat)) × World) (evs : List Ev),
      (∀ fuel, F ≤ fuel →
        BNO_Write_Reg (mock scripted_device) fuel (some example_config) 3 4
          (some [9, 8, 7, 6]) (example_scripted_write_mock, example_rest_world)
          = some (Status.SUCCESS, r)) ∧
      r.2.trace = example_rest_world.trace ++ evs ∧
      response_pairs evs = [(0xEE, 0x03), (0xEE, 0x01)] ∧
      tx_frames evs = [[0xAA, 0x00, 3, 4, 9, 8, 7, 6], [0xAA, 0x00, 3, 4, 9, 8, 7, 6]] := by
  constructor
  · obtain ⟨F, st, r, evs, hrun, htr, hcases⟩ := (C2_write_error_predicate
      (bno_device pwr_fault) example_config USART_Instance.USART2 rfl 0x3E 1 [2]
      (example_bno_mock 0 0, example_rest_world) rfl rfl (by decide) (by decide) (25 / 32)
      example_timeout_write (by norm_num [example_rest_world, example_world])).2.2.2
    obtain ⟨r1, hrun1, _⟩ := write_reg_link pwr_fault example_config USART_Instance.USART2 rfl
      0x3E 2 (example_bno_mock 0 0, example_rest_world) (example_bno_link 0 0)
    have e := (hrun (max F 7) (le_max_left _ _)).symm.trans
      (hrun1 (max F 7) (le_max_right _ _))
    have hf : pwr_fault 0x3E = true := rfl
    rw [if_pos hf] at e
    simp only [Option.some.injEq, Prod.mk.injEq] at e
    obtain ⟨e1, _⟩ := e
    subst e1
    rcases hcases with ⟨_, _, _, _, h⟩ | ⟨_, _, _, _, _, _, h⟩ | ⟨_, _, _, _, _, _, _, _, h⟩ |
      ⟨p1, p2, p3, h1, h2, h3, h4, h5, _⟩
    · cases h
    · cases h
    · cases h
    · exact ⟨F, r, evs, hrun, htr, p1, p2, p3, h1, h2, h3, h4, h5⟩
  · obtain ⟨F, st, r, evs, hrun, htr, _⟩ := (C2_write_error_predicate scripted_device
      example_config USART_Instance.USART2 rfl 3 4 [9, 8, 7, 6]
      (example_scripted_write_mock, example_rest_world) rfl rfl (by decide) (by decide)
      (25 / 32) example_timeout_write
      (by norm_num [example_rest_world, example_world])).2.2.2
    obtain ⟨r1, hrun1, htr1⟩ := scripted_write_retry
    have e := (hrun (max F 10) (le_max_left _ _)).symm.trans
      (hrun1 (max F 10) (le_max_right _ _))
    simp only [Option.some.injEq, Prod.mk.injEq] at e
    obtain ⟨e1, e2⟩ := e
    subst e1 e2
    have hevs : evs = r.2.trace := by
      rw [htr]
      rfl
    refine ⟨F, r, evs, hrun, htr, ?_, ?_⟩
    · rw [hevs, htr1]
      rfl
    · rw [hevs, htr1]
      rfl

theorem C13_witness :
    ∃ (F : Nat) (st : Status) (r : Mock (Nat → Nat) × World) (evs : List Ev) (k : Nat),
      (∀ fuel, F ≤ fuel →
        BNO_Read_Reg (mock sim_device) fuel (some example_config) 3 256 (some 7)
          (example_mock, example_world) = some (st, r)) ∧
      r.2.trace = example_world.trace ++ evs ∧ 1 ≤ k ∧ k ≤ 3 ∧
      calls evs = attempt_calls [0xAA, 0x01, 3, 0] 7 258 k :=
  C13_read_length_byte_wraps sim_device example_config USART_Instance.USART2 rfl 3 7
    (example_mock, example_world) rfl rfl (3225 / 32) example_timeout_258
    (by norm_num [example_world])

theorem C14_witness :
    ∃ (F : Nat) (st : Status) (r : Mock (Nat → Nat) × World) (evs : List Ev) (k : Nat),
      (∀ fuel, F ≤ fuel →
        BNO_Write_Reg (mock sim_device) fuel (some example_config) 3 253
          (some (List.replicate 253 9)) (example_mock, example_world) = some (st, r)) ∧
      r.2.trace = example_world.trace ++ evs ∧ 1 ≤ k ∧ k ≤ 3 ∧
      calls evs = attempt_calls [0xAA] write_response 2 k :=
  (C14_write_frame_truncated sim_device example_config USART_Instance.USART2 rfl 3
    (List.replicate 253 9) (example_mock, example_world) rfl rfl (25 / 32)
    example_timeout_write (by norm_num [example_world])).2

theorem C15_witness :
    (∃ (F : Nat) (r : Mock Unit × World),
      (∀ fuel, F ≤ fuel →
        BNO_Read_Reg (mock silent_device) fuel (some example_config) 0x3D 1 (some 7)
          (example_silent_mock [], example_rest_world) = some (Status.SUCCESS, r)) ∧
      r.2.trace = [Ev.tx [0xAA, 0x01, 0x3D, 1], Ev.rx 7 3, Ev.delay 10, Ev.abort,
        Ev.checked [0]] ∧
      r.2.st.rx_status = USART_RX_Status.USART_RX_IDLE ∧
      r.2.mem = example_rest_world.mem ∧
      r.2.g_systick_time = 12) ∧
    ∃ (F : Nat) (r : Mock Unit × World),
      (∀ fuel, F ≤ fuel →
        BNO_Read_Reg (mock silent_device) fuel (some example_config) 0x3D 1 (some 7)
          (example_silent_mock [], example_late_world) = some (Status.SUCCESS, r)) ∧
      r.2.st.rx_status = USART_RX_Status.USART_RX_IDLE ∧
      r.2.g_systick_time = 2147483648 + 129 := by
  constructor
  · obtain ⟨F, r, h1, h2, h3, h4, h5, h6, h7, _, _⟩ := C15_read_timeout_returns_success
      silent_device example_config USART_Instance.USART2 rfl 0x3D 1 7
      (example_silent_mock [], example_rest_world)
      ⟨by decide, by decide, rfl, by decide, rfl⟩ ⟨rfl, by decide, by decide⟩ rfl
      (fun _ => rfl) (by decide) (by decide) (by decide) (75 / 64) example_timeout_3
      (by norm_num [example_rest_world, example_world])
    have e : example_rest_world.g_systick_time = 0 := rfl
    rw [e] at h5 h6 h7
    obtain ⟨e11, e12⟩ := example_elapsed_low
    refine ⟨F, r, h1, h2, h3, h4, ?_⟩
    have hle : r.2.g_systick_time ≤ 12 := by
      by_contra hgt
      have := h6 12 (by norm_num) (by omega)
      rw [e12] at this
      exact absurd this (by decide)
    have hne : r.2.g_systick_time ≠ 11 := by
      intro h
      rw [h, e11] at h5
      exact absurd h5 (by decide)
    omega
  · obtain ⟨F, r, h1, _, h3, _, h5, h6, h7, _, _⟩ := C15_read_timeout_returns_success
      silent_device example_config USART_Instance.USART2 rfl 0x3D 1 7
      (example_silent_mock [], example_late_world)
      ⟨by decide, by decide, rfl, by decide, rfl⟩ ⟨rfl, by decide, by decide⟩ rfl
      (fun _ => rfl) (by decide) (by decide) (by decide) (75 / 64) example_timeout_3
      (by norm_num [example_late_world, example_rest_world, example_world])
    have e : example_late_world.g_systick_time + 10 = 2147483658 := rfl
    have e0 : (example_silent_mock [], example_late_world).2.g_systick_time + 10
        = 2147483658 := rfl
    rw [e0] at h5 h6 h7
    obtain ⟨e1, e2⟩ := example_elapsed_late
    refine ⟨F, r, h1, h3, ?_⟩
    have hle : r.2.g_systick_time ≤ 2147483777 := by
      by_contra hgt
      have := h6 2147483777 (by norm_num) (by omega)
      rw [e2] at this
      exact absurd this (by decide)
    have hge : 2147483776 < r.2.g_systick_time := by
      by_contra hlt
      have := timeout_elapsed_mono 2147483658 (some (75 / 64)) r.2.g_systick_time
        2147483776 (by omega) h5
      rw [e1] at this
      exact absurd this (by decide)
    omega

theorem C16_witness :
    example_waiting_world.g_systick_time = 4294967295 ∧
    (USART_Calc_Timeout_f32 (some example_config) (some (some 0)) 5 3).2 = some (75 / 64) ∧
    ∀ fuel, wait_rx (mock silent_device) (some example_config) true 4294967295
      (some (75 / 64)) fuel
      (example_silent_mock [0xAA, 0x01, 0x3D, 1], example_waiting_world) = none :=
  ⟨rfl, example_timeout_3,
    (C16_wait_hangs_near_wrap silent_device (some example_config)
      (example_silent_mock [0xAA, 0x01, 0x3D, 1], example_waiting_world)
      ⟨⟨by decide, by decide, rfl, by decide, rfl⟩, ⟨rfl, by decide, by decide⟩, rfl⟩ rfl
      (by decide)).2.1 (by decide) (75 / 64) (by norm_num)⟩

end Bno
